import Mathlib

/-!
MQTT-SN client for Contiki: shallow embedding of `mqtt_sn.c`.

The global variables of `mqtt_sn.c` are the fields of `State`; every C function
is a Lean function that takes the state and returns the new one (and the return
value, when the C function has one).

Conventions of the embedding:

* a C string is the list of its bytes before the terminating NUL (`CStr`), a
  pointer that may be null is an `Option`;
* `uint8_t` and `uint16_t` values are `Nat`, with `% 256` written where the C
  code narrows or wraps;
* a struct field that the C code leaves uninitialised is `none`;
* `strcmp` against the null `topic_name` of an unused slot never reports a
  match (the scan passes over unused slots);
* a read through the null head pointer of the empty task queue yields no task
  type (every comparison with it fails, a `switch` takes its `default`), and
  is recorded in the ghost field `null_deref`; so is a null string handed to
  `strlen` or `strcmp` by a sending function, which then sends nothing and
  returns `FAIL_CON` where it has such a path and takes the string as empty
  where it has none;
* an index outside `g_topic_bind`, a copy past the end of the data field of
  an outgoing PUBLISH, or a write past the end of a local buffer of the
  parser, is recorded in the ghost field `out_of_bounds`; a write outside the
  array leaves the array as it is (the terminator that the other sending
  functions write at `buffer[len]` is not tracked);
* `process_post` appends to `events`, `simple_udp_send` appends the bytes it
  was given to `sent`, a call of the user callback appends to `delivered`.
-/

namespace MqttSn

/-- The bytes of a C string, terminator excluded. -/
abbrev CStr := List Nat

/-! ## Constants of `mqtt_sn.h` -/

def MQTT_SN_MAX_PACKET_LENGTH : Nat := 255
def MQTT_SN_MAX_TOPIC_LENGTH : Nat := MQTT_SN_MAX_PACKET_LENGTH - 6

def MQTT_SN_TYPE_CONNECT : Nat := 0x04
def MQTT_SN_TYPE_CONNACK : Nat := 0x05
def MQTT_SN_TYPE_WILLTOPICREQ : Nat := 0x06
def MQTT_SN_TYPE_WILLTOPIC : Nat := 0x07
def MQTT_SN_TYPE_WILLMSGREQ : Nat := 0x08
def MQTT_SN_TYPE_WILLMSG : Nat := 0x09
def MQTT_SN_TYPE_REGISTER : Nat := 0x0A
def MQTT_SN_TYPE_REGACK : Nat := 0x0B
def MQTT_SN_TYPE_PUBLISH : Nat := 0x0C
def MQTT_SN_TYPE_PUBACK : Nat := 0x0D
def MQTT_SN_TYPE_SUBSCRIBE : Nat := 0x12
def MQTT_SN_TYPE_SUBACK : Nat := 0x13
def MQTT_SN_TYPE_PINGREQ : Nat := 0x16
def MQTT_SN_TYPE_PINGRESP : Nat := 0x17
def MQTT_SN_TYPE_DISCONNECT : Nat := 0x18
def MQTT_SN_TYPE_SUB_WILDCARD : Nat := 0x1E

def MQTT_SN_TOPIC_TYPE_NORMAL : Nat := 0x00
def MQTT_SN_TOPIC_TYPE_PREDEFINED : Nat := 0x01
def MQTT_SN_TOPIC_TYPE_SHORT : Nat := 0x02

def MQTT_SN_FLAG_DUP : Nat := 0x1 <<< 7
def MQTT_SN_FLAG_QOS_0 : Nat := 0x0 <<< 5
def MQTT_SN_FLAG_QOS_1 : Nat := 0x1 <<< 5
def MQTT_SN_FLAG_QOS_2 : Nat := 0x2 <<< 5
def MQTT_SN_FLAG_QOS_N1 : Nat := 0x3 <<< 5
def MQTT_SN_FLAG_RETAIN : Nat := 0x1 <<< 4
def MQTT_SN_FLAG_WILL : Nat := 0x1 <<< 3
def MQTT_SN_FLAG_CLEAN : Nat := 0x1 <<< 2

def MQTT_SN_PROTOCOL_ID : Nat := 0x01

def ACCEPTED : Nat := 0x00
def REJECTED_CONGESTION : Nat := 0x01
def REJECTED_INVALID_TOPIC_ID : Nat := 0x02
def REJECTED_NOT_SUPPORTED : Nat := 0x03

/-- Modelled from the spec: the scheduler's ticks per second (`CLOCK_SECOND` is a
Contiki constant, not part of this repository); timer intervals are counted in
seconds. -/
def CLOCK_SECOND : Nat := 1

def MQTT_SN_RETRY_PING : Nat := 5
def MQTT_SN_TIMEOUT_CONNECT : Nat := 9 * CLOCK_SECOND
def MQTT_SN_TIMEOUT : Nat := 3 * CLOCK_SECOND
def MQTT_SN_RETRY : Nat := 5
def MAX_QUEUE_MQTT_SN : Nat := 100
def MAX_TOPIC_USED : Nat := 100

/-! ## Types of `mqtt_sn.h` -/

/-- The enum `resp_con_t`; `FAIL_CON` is 0, so it is the value the C code
tests with `!`. -/
inductive resp_con_t where
  | FAIL_CON
  | SUCCESS_CON
deriving DecidableEq, Repr

/-- The enum `mqtt_sn_status_t`. -/
inductive mqtt_sn_status_t where
  | MQTTSN_CONNECTION_FAILED
  | MQTTSN_DISCONNECTED
  | MQTTSN_WAITING_CONNACK
  | MQTTSN_WAITING_WILLTOPICREQ
  | MQTTSN_WAITING_WILLMSGREQ
  | MQTTSN_WAITING_REGACK
  | MQTTSN_CONNECTED
  | MQTTSN_TOPIC_REGISTERED
  | MQTTSN_TOPIC_SUBSCRIBING
  | MQTTSN_WAITING_PUBACK
  | MQTTSN_WAITING_SUBACK
  | MQTTSN_PUB_REQ
  | MQTTSN_SUB_REQ
  | MQTTSN_REG_REQ
deriving DecidableEq, Repr

/-- The struct `short_topics_t`: one slot of the topic registry. `subscribed`
is 0 (none), 1 (subscription pending) or 2 (subscribed). -/
structure short_topics_t where
  topic_name : Option CStr
  short_topic_id : Nat
  subscribed : Nat
deriving DecidableEq, Repr

/-- The struct `mqtt_sn_task_t`. A field is `none` when the function that built
the task left it uninitialised. -/
structure mqtt_sn_task_t where
  msg_type_q : Nat
  short_topic : Option Nat
  id_task : Nat
  qos_level : Option Nat
  retain : Option Nat
deriving DecidableEq, Repr

/-- The struct `mqtt_sn_con_t` (the UDP handle is left to the transport). -/
structure mqtt_sn_con_t where
  udp_port : Nat
  ipv6_broker : List Nat
  keep_alive : Nat
  client_id : CStr
  will_topic : Option CStr
  will_message : Option CStr
deriving DecidableEq, Repr

/-- A Contiki callback timer, as far as the client uses it: armed or not, and
the interval it was last set to. -/
structure ctimer where
  armed : Bool
  interval : Nat
deriving DecidableEq, Repr

/-- The twelve events allocated in `mqtt_sn_init`. -/
inductive process_event_t where
  | mqtt_event_connect
  | mqtt_event_connack
  | mqtt_event_register
  | mqtt_event_regack
  | mqtt_event_pub_qos_0
  | mqtt_event_subscribe
  | mqtt_event_suback
  | mqtt_event_run_task
  | mqtt_event_ping_timeout
  | mqtt_event_connected
  | mqtt_event_will_topicreq
  | mqtt_event_will_messagereq
deriving DecidableEq, Repr

/-- One call of the user callback: the function called, the topic name pointer
it was given, and the bytes the parser had copied into the buffer `message`
before the terminator it wrote. -/
structure callback_call where
  cb : Nat
  topic : Option CStr
  message : CStr
deriving DecidableEq, Repr

/-- The global variables of `mqtt_sn.c`, followed by what the client hands to
its environment (`events`, `sent`, `delivered`, `udp_registrations`) and the
two ghost flags. The task queue `mqtt_queue_first .. mqtt_queue_last` is the
list `mqtt_queue`, head first. A function pointer is the number that names the
function. -/
structure State where
  mqtt_time_connect : ctimer
  mqtt_time_register : ctimer
  mqtt_time_ping : ctimer
  mqtt_time_subscribe : ctimer
  g_recon : Bool
  g_will : Bool
  g_ping_flag_resp : Bool
  g_message_bind : Option CStr
  topic_temp_wildcard : Option CStr
  g_tries_send : Nat
  g_tries_ping : Nat
  g_task_id : Nat
  g_topic_bind : Nat → short_topics_t
  g_mqtt_sn_con : mqtt_sn_con_t
  mqtt_status : mqtt_sn_status_t
  topics_reconnect : List CStr
  topics_len : Nat
  callback_mqtt : Nat
  mqtt_queue : List mqtt_sn_task_t
  events : List process_event_t
  sent : List (List Nat)
  delivered : List callback_call
  udp_registrations : Nat
  null_deref : Bool
  out_of_bounds : Bool

/-! ## Helpers for C idioms -/

/-- The loop `for (i = a; i < MAX; i++) if (p i) break;`: `scan p (MAX - a) a` is
the value of `i` when the loop is left (the first index from `a` on at which `p`
holds, or `MAX` when there is none). -/
def scan (p : Nat → Bool) : Nat → Nat → Nat
  | 0, i => i
  | n + 1, i => if p i then i else scan p n (i + 1)

/-- The test `strcmp(g_topic_bind[i].topic_name, topic) == 0` on a slot that
holds a name. On a slot whose `topic_name` is NULL the C call has no defined
result; here it counts as a mismatch, and `name_scan_null` tells whether a
lookup hands `strcmp` such a slot. -/
def name_is (g_topic_bind : Nat → short_topics_t) (topic : CStr) (i : Nat) : Bool :=
  decide ((g_topic_bind i).topic_name = some topic)

/-- The test `g_topic_bind[i].short_topic_id == 0xFF`. -/
def id_unused (g_topic_bind : Nat → short_topics_t) (i : Nat) : Bool :=
  decide ((g_topic_bind i).short_topic_id = 0xFF)

/-- The two bytes of `uip_htons(v)` in the order they are sent. -/
def uip_htons (v : Nat) : List Nat :=
  [v / 256 % 256, v % 256]

/-- An assignment to fields of `g_topic_bind[i]`. With an index outside the
array the C program writes past it; here the registry stays as it is and
`out_of_bounds` is set, so a state with `out_of_bounds` set does not tell what
the C program goes on to do. -/
def reg_write (st : State) (i : Nat) (f : short_topics_t → short_topics_t) : State :=
  if i < MAX_TOPIC_USED then
    { st with g_topic_bind := Function.update st.g_topic_bind i (f (st.g_topic_bind i)) }
  else
    { st with out_of_bounds := true }

/-- Records an index into `g_topic_bind` that is only read. -/
def reg_touch (st : State) (i : Nat) : State :=
  if i < MAX_TOPIC_USED then st else { st with out_of_bounds := true }

/-- Records a read of `mqtt_queue_first->data`. -/
def head_touch (st : State) : State :=
  match st.mqtt_queue with
  | [] => { st with null_deref := true }
  | _ :: _ => st

/-- The value of `mqtt_queue_first->data.msg_type_q`, when there is a head. -/
def head_type (st : State) : Option Nat :=
  st.mqtt_queue.head?.map (fun t => t.msg_type_q)

def process_post (st : State) (ev : process_event_t) : State :=
  { st with events := st.events ++ [ev] }

/-- The call `simple_udp_send(&udp_con, &packet, len)`, where `packet` is the
memory of the packet struct from its first byte on. -/
def simple_udp_send (st : State) (packet : List Nat) (len : Nat) : State :=
  { st with sent := st.sent ++ [packet.take len] }

def ctimer_set (_t : ctimer) (interval : Nat) : ctimer :=
  { armed := true, interval := interval }

def ctimer_reset (t : ctimer) : ctimer :=
  { t with armed := true }

def ctimer_stop (t : ctimer) : ctimer :=
  { t with armed := false }

/-! ## Auxiliary functions -/

def unlock_tasks (st : State) : Bool :=
  if st.mqtt_status = .MQTTSN_TOPIC_REGISTERED then true else false

def mqtt_sn_check_status (st : State) : mqtt_sn_status_t :=
  st.mqtt_status

def mqtt_sn_check_rc (rc : Nat) : resp_con_t :=
  if rc = ACCEPTED then .SUCCESS_CON
  else if rc = REJECTED_CONGESTION then .FAIL_CON
  else if rc = REJECTED_INVALID_TOPIC_ID then .FAIL_CON
  else if rc = REJECTED_NOT_SUPPORTED then .FAIL_CON
  else .FAIL_CON

/-- The conversion of a `uint8_t` argument to the `int8_t` parameter of
`mqtt_sn_get_qos_flag`. -/
def to_int8 (v : Nat) : Int :=
  if v % 256 < 128 then (v % 256 : Nat) else ((v % 256 : Nat) : Int) - 256

def mqtt_sn_get_qos_flag (qos : Int) : Nat :=
  if qos = -1 then MQTT_SN_FLAG_QOS_N1
  else if qos = 0 then MQTT_SN_FLAG_QOS_0
  else if qos = 1 then MQTT_SN_FLAG_QOS_1
  else if qos = 2 then MQTT_SN_FLAG_QOS_2
  else 0

/-! ## Task queue -/

def mqtt_sn_check_empty (st : State) : Bool :=
  st.mqtt_queue.isEmpty

def mqtt_sn_insert_queue (st : State) (new : mqtt_sn_task_t) : resp_con_t × State :=
  let cnt := st.mqtt_queue.length
  if cnt > MAX_QUEUE_MQTT_SN then (.FAIL_CON, st)
  else
    (.SUCCESS_CON,
      { st with
        mqtt_queue := st.mqtt_queue ++ [{ new with id_task := st.g_task_id }]
        g_task_id := (st.g_task_id + 1) % 256 })

def mqtt_sn_delete_queue (st : State) : State :=
  match st.mqtt_queue with
  | [] => { st with null_deref := true }
  | [_] => { st with g_task_id := 0, mqtt_queue := [] }
  | _ :: t :: rest => { st with g_task_id := (st.g_task_id + 255) % 256, mqtt_queue := t :: rest }

/-! ## Registry checks -/

def verf_register (st : State) (topic : CStr) : resp_con_t :=
  if scan (name_is st.g_topic_bind topic) MAX_TOPIC_USED 0 < MAX_TOPIC_USED then .SUCCESS_CON
  else .FAIL_CON

def verf_hist_sub (st : State) (topic : CStr) : resp_con_t × State :=
  let i := scan (name_is st.g_topic_bind topic) MAX_TOPIC_USED 0
  let st := reg_touch st i
  if (st.g_topic_bind i).subscribed = 0x01 then (.FAIL_CON, st)
  else if (st.g_topic_bind i).subscribed = 0x02 then (.FAIL_CON, st)
  else if (st.g_topic_bind i).subscribed = 0x00 then
    (.SUCCESS_CON, reg_write st i (fun s => { s with subscribed := 0x01 }))
  else (.FAIL_CON, st)

/-- The loop `while (!mqtt_sn_check_empty()) mqtt_sn_delete_queue();` with at
most `n` iterations. -/
def delete_all : Nat → State → State
  | 0, st => st
  | n + 1, st => if mqtt_sn_check_empty st then st else delete_all n (mqtt_sn_delete_queue st)

def init_vectors (st : State) : State :=
  let st := { st with
    g_topic_bind := fun i =>
      if 1 ≤ i ∧ i < MAX_TOPIC_USED then
        { topic_name := none, short_topic_id := 0xFF, subscribed := 0x00 }
      else st.g_topic_bind i }
  let st := delete_all st.mqtt_queue.length st
  { st with g_task_id := 0 }

def print_g_topics (st : State) : State :=
  st

def mqtt_sn_init (st : State) : State :=
  init_vectors st

/-! ## Functions that send packets -/

def mqtt_sn_will_topic_send (st : State) : resp_con_t × State :=
  match st.g_mqtt_sn_con.will_topic with
  | none => (.FAIL_CON, { st with null_deref := true })
  | some will_topic =>
    let topic_name_len := will_topic.length
    if topic_name_len > MQTT_SN_MAX_TOPIC_LENGTH then (.FAIL_CON, st)
    else
      let flags := MQTT_SN_FLAG_RETAIN
      let type := MQTT_SN_TYPE_WILLTOPIC
      let length := (0x03 + topic_name_len) % 256
      (.SUCCESS_CON, simple_udp_send st ([length, type, flags] ++ will_topic ++ [0]) length)

def mqtt_sn_will_message_send (st : State) : resp_con_t × State :=
  match st.g_mqtt_sn_con.will_message with
  | none => (.FAIL_CON, { st with null_deref := true })
  | some will_message =>
    let message_name_len := will_message.length
    if message_name_len > MQTT_SN_MAX_TOPIC_LENGTH then (.FAIL_CON, st)
    else
      let type := MQTT_SN_TYPE_WILLMSG
      let length := (0x02 + message_name_len) % 256
      (.SUCCESS_CON, simple_udp_send st ([length, type] ++ will_message ++ [0]) length)

def mqtt_sn_ping_send (st : State) : State :=
  let client_id := st.g_mqtt_sn_con.client_id
  let length := (0x02 + client_id.length) % 256
  simple_udp_send st ([length, MQTT_SN_TYPE_PINGREQ] ++ client_id ++ [0]) length

def mqtt_sn_con_send (st : State) : resp_con_t × State :=
  let type := MQTT_SN_TYPE_CONNECT
  let flags := MQTT_SN_FLAG_CLEAN
  let flags := if st.g_will then (flags + MQTT_SN_FLAG_WILL) % 256 else flags
  let duration := uip_htons st.g_mqtt_sn_con.keep_alive
  let client_id := st.g_mqtt_sn_con.client_id
  let length := (0x06 + client_id.length) % 256
  (.SUCCESS_CON,
    simple_udp_send st ([length, type, flags, MQTT_SN_PROTOCOL_ID] ++ duration ++ client_id ++ [0])
      length)

/-- The name sent is the one of the first slot from 1 on whose id is 0xFF; the
slot index is the MsgId. -/
def mqtt_sn_reg_send (st : State) : resp_con_t × State :=
  let i := scan (id_unused st.g_topic_bind) (MAX_TOPIC_USED - 1) 1
  let task_id := i
  let st := reg_touch st task_id
  match (st.g_topic_bind task_id).topic_name with
  | none => (.FAIL_CON, { st with null_deref := true })
  | some topic_name =>
    let topic_name_len := topic_name.length
    if topic_name_len > MQTT_SN_MAX_TOPIC_LENGTH then (.FAIL_CON, st)
    else
      let st := head_touch st
      if head_type st ≠ some MQTT_SN_TYPE_REGISTER then (.FAIL_CON, st)
      else
        let type := MQTT_SN_TYPE_REGISTER
        let topic_id := uip_htons 0x0000
        let message_id := uip_htons task_id
        let length := (0x06 + topic_name_len) % 256
        (.SUCCESS_CON,
          simple_udp_send st ([length, type] ++ topic_id ++ message_id ++ topic_name ++ [0]) length)

def mqtt_sn_regack_send (st : State) (msg_id topic_id : Nat) : resp_con_t × State :=
  let type := MQTT_SN_TYPE_REGACK
  let return_code := 0x00
  let length := 0x07
  (.SUCCESS_CON,
    simple_udp_send st ([length, type] ++ uip_htons topic_id ++ uip_htons msg_id ++ [return_code])
      length)

/-- The parameter `qos` is the `uint8_t` the caller passed (QoS -1 arrives as
255). `sizeof(packet.data)` is `MQTT_SN_MAX_PACKET_LENGTH - 7`. -/
def mqtt_sn_pub_send (st : State) (topic message : CStr) (retain_flag : Bool) (qos : Nat) :
    resp_con_t × State :=
  let data_len := message.length % 256
  let i := scan (name_is st.g_topic_bind topic) MAX_TOPIC_USED 0
  let stopic := if i < MAX_TOPIC_USED then (st.g_topic_bind i).short_topic_id else 0x0000
  if data_len > MQTT_SN_MAX_PACKET_LENGTH - 7 then (.FAIL_CON, st)
  else
    let type := MQTT_SN_TYPE_PUBLISH
    let flags := 0x00
    let flags := if retain_flag then (flags + MQTT_SN_FLAG_RETAIN) % 256 else flags
    let flags := (flags + mqtt_sn_get_qos_flag (to_int8 qos)) % 256
    let flags := (flags + MQTT_SN_TOPIC_TYPE_NORMAL) % 256
    let topic_id := uip_htons stopic
    let message_id := uip_htons 0x00
    let data := (message ++ [0]).take (data_len + 1)
    let st :=
      if data_len + 1 > MQTT_SN_MAX_PACKET_LENGTH - 7 then { st with out_of_bounds := true } else st
    let length := (0x07 + (data_len + 1)) % 256
    (.SUCCESS_CON, simple_udp_send st ([length, type, flags] ++ topic_id ++ message_id ++ data) length)

/-- The argument `topic` is the pointer `g_topic_bind[..].topic_name` the caller
read, which is null for an unused slot. -/
def mqtt_sn_sub_send (st : State) (topic : Option CStr) (_qos : Option Nat) : resp_con_t × State :=
  let st := if topic = none then { st with null_deref := true } else st
  let i := scan (fun i => decide (topic ≠ none ∧ (st.g_topic_bind i).topic_name = topic))
    MAX_TOPIC_USED 0
  let stopic := if i < MAX_TOPIC_USED then (st.g_topic_bind i).short_topic_id else 0x0000
  let type := MQTT_SN_TYPE_SUBSCRIBE
  let flags := 0x00
  let flags := (flags + mqtt_sn_get_qos_flag 0) % 256
  let message_id := uip_htons stopic
  let topic_id := uip_htons stopic
  let flags := (flags + MQTT_SN_TOPIC_TYPE_PREDEFINED) % 256
  let length := 0x07
  (.SUCCESS_CON, simple_udp_send st ([length, type, flags] ++ message_id ++ topic_id) length)

/-- The argument `topic` is the pointer `topic_temp_wildcard`, null until the
first wildcard subscribe. -/
def mqtt_sn_sub_send_wildcard (st : State) (topic : Option CStr) (_qos : Option Nat) :
    resp_con_t × State :=
  let i := scan (id_unused st.g_topic_bind) MAX_TOPIC_USED 0
  let st := if topic = none then { st with null_deref := true } else st
  let name := topic.getD []
  let type := MQTT_SN_TYPE_SUBSCRIBE
  let flags := 0x00
  let flags := (flags + mqtt_sn_get_qos_flag 0) % 256
  let message_id := uip_htons i
  let flags := (flags + MQTT_SN_TOPIC_TYPE_NORMAL) % 256
  let length := (0x05 + name.length) % 256
  (.SUCCESS_CON, simple_udp_send st ([length, type, flags] ++ message_id ++ name) length)

def mqtt_sn_disconnect (st : State) (duration : Nat) : resp_con_t × State :=
  let length := 0x04
  (.SUCCESS_CON, simple_udp_send st ([length, MQTT_SN_TYPE_DISCONNECT] ++ uip_htons duration) length)

/-! ## User calls: subscribe and publish -/

/-- The task's `short_topic` and `retain` are not set; the result of
`mqtt_sn_insert_queue` is only used for a debug message. -/
def mqtt_sn_sub_wildcard (st : State) (topic : CStr) (qos : Nat) : resp_con_t × State :=
  let subscribe_task : mqtt_sn_task_t :=
    { msg_type_q := MQTT_SN_TYPE_SUB_WILDCARD, short_topic := none, id_task := 0,
      qos_level := some qos, retain := none }
  let st := { st with topic_temp_wildcard := some topic }
  (.SUCCESS_CON, (mqtt_sn_insert_queue st subscribe_task).2)

/-- The bytes 35 and 43 are '#' and '+'. The result of `mqtt_sn_insert_queue`
is only used for a debug message. -/
def mqtt_sn_sub (st : State) (topic : CStr) (qos : Nat) : resp_con_t × State :=
  if topic.contains 35 || topic.contains 43 then
    (.SUCCESS_CON, (mqtt_sn_sub_wildcard st topic qos).2)
  else if verf_register st topic = .FAIL_CON then (.FAIL_CON, st)
  else
    match verf_hist_sub st topic with
    | (.SUCCESS_CON, st) =>
      let i := scan (name_is st.g_topic_bind topic) MAX_TOPIC_USED 0
      let subscribe_task : mqtt_sn_task_t :=
        { msg_type_q := MQTT_SN_TYPE_SUBSCRIBE, short_topic := some (i % 256), id_task := 0,
          qos_level := some qos, retain := none }
      (.SUCCESS_CON, (mqtt_sn_insert_queue st subscribe_task).2)
    | (.FAIL_CON, st) => (.FAIL_CON, st)

/-- The result of `mqtt_sn_pub_send` is dropped. -/
def mqtt_sn_pub (st : State) (topic message : CStr) (retain_flag : Bool) (qos : Nat) :
    resp_con_t × State :=
  if !unlock_tasks st then (.FAIL_CON, st)
  else if verf_register st topic = .FAIL_CON then (.FAIL_CON, st)
  else (.SUCCESS_CON, (mqtt_sn_pub_send st topic message retain_flag qos).2)

/-! ## Reception -/

/-- The byte `data[i]` of the receive buffer (a `uint8_t`). -/
def byte (data : Nat → Nat) (i : Nat) : Nat :=
  data i % 256

/-- The string a `char` buffer holds once `buf[n] = 0` was written after its
first `n` bytes `bytes`: it stops at the first NUL. -/
def c_string (bytes : List Nat) : CStr :=
  bytes.takeWhile (fun b => b ≠ 0)

/-- The bytes `data[off] .. data[off + n - 1]` of the receive buffer. -/
def copy_bytes (data : Nat → Nat) (off n : Nat) : List Nat :=
  (List.range n).map (fun i => byte data (i + off))

/-- The C function `mqtt_sn_recv_parser`. It reads the buffer through a pointer
and is not told how many bytes were received: `data` is the memory from the
first byte of the datagram on. In the REGISTER branch a name of 249 bytes or
more makes `buff[message_length_buf] = 0` write past `char buff[249]`; here
`out_of_bounds` is set and the branch goes on. -/
def mqtt_sn_recv_parse (st : State) (data : Nat → Nat) : State :=
  let msg_type := byte data 1
  if msg_type = MQTT_SN_TYPE_CONNACK then
    let return_code := byte data 2
    if mqtt_sn_check_rc return_code = .SUCCESS_CON then
      if st.mqtt_status = .MQTTSN_WAITING_CONNACK then
        process_post st .mqtt_event_connack
      else st
    else st
  else if msg_type = MQTT_SN_TYPE_REGACK then
    let return_code := byte data 6
    let short_topic := byte data 3
    if mqtt_sn_check_rc return_code = .SUCCESS_CON then
      let st :=
        if byte data 5 < MAX_TOPIC_USED then
          reg_write st (byte data 5) (fun s => { s with short_topic_id := short_topic })
        else st
      let st := head_touch st
      if head_type st = some MQTT_SN_TYPE_REGISTER ∧ st.mqtt_status = .MQTTSN_WAITING_REGACK then
        process_post st .mqtt_event_regack
      else st
    else st
  else if msg_type = MQTT_SN_TYPE_PUBACK then st
  else if msg_type = MQTT_SN_TYPE_SUBACK then
    let return_code := byte data 7
    let short_topic := byte data 4
    if mqtt_sn_check_rc return_code = .SUCCESS_CON then
      if short_topic ≠ 0x00 then
        let st := reg_write st short_topic (fun s => { s with subscribed := 0x02 })
        let st := head_touch st
        if head_type st = some MQTT_SN_TYPE_SUBSCRIBE ∧ st.mqtt_status = .MQTTSN_WAITING_SUBACK then
          process_post st .mqtt_event_suback
        else st
      else
        let st := head_touch st
        if head_type st = some MQTT_SN_TYPE_SUB_WILDCARD then
          mqtt_sn_delete_queue { st with mqtt_status := .MQTTSN_TOPIC_REGISTERED }
        else st
    else st
  else if msg_type = MQTT_SN_TYPE_PINGRESP then
    { st with g_ping_flag_resp := true }
  else if msg_type = MQTT_SN_TYPE_PINGREQ then
    mqtt_sn_ping_send st
  else if msg_type = MQTT_SN_TYPE_PUBLISH then
    let message_length := (byte data 0 + 256 - 7) % 256
    let short_topic := byte data 4
    let message := copy_bytes data 7 message_length
    let st :=
      if message_length ≥ MQTT_SN_MAX_PACKET_LENGTH then { st with out_of_bounds := true } else st
    let st := reg_touch st short_topic
    { st with
      delivered := st.delivered ++
        [{ cb := st.callback_mqtt, topic := (st.g_topic_bind short_topic).topic_name,
           message := message }] }
  else if msg_type = MQTT_SN_TYPE_REGISTER then
    let msg_id_reg := byte data 5
    let message_length_buf := (byte data 0 + 256 - 6) % 256
    let short_topic := byte data 3
    let buff := copy_bytes data 6 message_length_buf
    let st :=
      if message_length_buf ≥ MQTT_SN_MAX_TOPIC_LENGTH then { st with out_of_bounds := true }
      else st
    let j := scan (id_unused st.g_topic_bind) MAX_TOPIC_USED 0
    let s := c_string buff
    let st := reg_write st j (fun _ =>
      { short_topic_id := short_topic, subscribed := 1, topic_name := some s })
    (mqtt_sn_regack_send st msg_id_reg short_topic).2
  else if msg_type = MQTT_SN_TYPE_WILLTOPICREQ then
    if st.mqtt_status = .MQTTSN_WAITING_WILLTOPICREQ then
      process_post st .mqtt_event_will_topicreq
    else st
  else if msg_type = MQTT_SN_TYPE_WILLMSGREQ then
    if st.mqtt_status = .MQTTSN_WAITING_WILLMSGREQ then
      process_post st .mqtt_event_will_messagereq
    else st
  else st

/-- The receive callback drops the byte count `datalen` and hands the buffer to
the parser. -/
def mqtt_sn_udp_rec_cb (st : State) (data : Nat → Nat) (_datalen : Nat) : State :=
  mqtt_sn_recv_parse st data

/-! ## Session creation -/

/-- The loop of `mqtt_sn_create_sck` that stores each topic name and queues its
REGISTER task; it is left at the first failed insertion. -/
def seed_registers (will : Bool) : List CStr → State → State
  | [], st => st
  | topic :: rest, st =>
    let st :=
      if will then
        (if 2 ≤ st.g_task_id then
          reg_write st (st.g_task_id - 2) (fun s => { s with topic_name := some topic })
        else { st with out_of_bounds := true })
      else reg_write st st.g_task_id (fun s => { s with topic_name := some topic })
    let topic_reg : mqtt_sn_task_t :=
      { msg_type_q := MQTT_SN_TYPE_REGISTER, short_topic := none, id_task := 0,
        qos_level := none, retain := none }
    match mqtt_sn_insert_queue st topic_reg with
    | (.FAIL_CON, st) => st
    | (.SUCCESS_CON, st) => seed_registers will rest st

/-- The arguments `topics[]` and `topic_len` are the list `topics`; `udp_ok` is
what `simple_udp_register` answers when it is called. -/
def mqtt_sn_create_sck (st : State) (mqtt_sn_connection : mqtt_sn_con_t) (topics : List CStr)
    (cb_f : Nat) (udp_ok : Bool) : resp_con_t × State :=
  let st := { st with callback_mqtt := cb_f }
  let st := { st with
    topics_len := topics.length % 65536
    topics_reconnect := topics ++ st.topics_reconnect.drop topics.length
    out_of_bounds := st.out_of_bounds || decide (topics.length > MAX_TOPIC_USED) }
  let st := { st with g_mqtt_sn_con := mqtt_sn_connection }
  if st.g_mqtt_sn_con.client_id.length > 23 then (.FAIL_CON, st)
  else
    let registered := !st.g_recon
    let st := if registered then { st with udp_registrations := st.udp_registrations + 1 } else st
    if registered && !udp_ok then (.FAIL_CON, st)
    else
      let will := st.g_mqtt_sn_con.will_topic.isSome && st.g_mqtt_sn_con.will_message.isSome
      let st := if will then { st with g_will := true } else st
      let connect_task : mqtt_sn_task_t :=
        { msg_type_q := MQTT_SN_TYPE_CONNECT, short_topic := none, id_task := 0,
          qos_level := none, retain := none }
      let st := (mqtt_sn_insert_queue st connect_task).2
      let st :=
        if will then
          let will_topic_task : mqtt_sn_task_t :=
            { msg_type_q := MQTT_SN_TYPE_WILLTOPIC, short_topic := none, id_task := 0,
              qos_level := none, retain := none }
          let st := (mqtt_sn_insert_queue st will_topic_task).2
          let will_message_task : mqtt_sn_task_t :=
            { msg_type_q := MQTT_SN_TYPE_WILLMSG, short_topic := none, id_task := 0,
              qos_level := none, retain := none }
          (mqtt_sn_insert_queue st will_message_task).2
        else st
      let st := seed_registers will (st.topics_reconnect.take topics.length) st
      (.SUCCESS_CON, process_post st .mqtt_event_run_task)

/-! ## Timer callbacks -/

/-- The retransmission taken by `timeout_con` in one of its four waiting
states, or the session-fail event once `MQTT_SN_RETRY` sends were made. -/
def timeout_con (st : State) : State :=
  if st.mqtt_status = .MQTTSN_WAITING_CONNACK then
    if st.g_tries_send ≥ MQTT_SN_RETRY then
      process_post { st with g_tries_send := 0 } .mqtt_event_ping_timeout
    else
      let st := (mqtt_sn_con_send st).2
      let st := { st with mqtt_status := .MQTTSN_WAITING_CONNACK }
      let st := { st with mqtt_time_connect := ctimer_reset st.mqtt_time_connect }
      { st with g_tries_send := (st.g_tries_send + 1) % 256 }
  else if st.mqtt_status = .MQTTSN_WAITING_REGACK then
    if st.g_tries_send ≥ MQTT_SN_RETRY then
      process_post { st with g_tries_send := 0 } .mqtt_event_ping_timeout
    else
      let st := (mqtt_sn_reg_send st).2
      let st := { st with mqtt_status := .MQTTSN_WAITING_REGACK }
      let st := { st with mqtt_time_register := ctimer_reset st.mqtt_time_register }
      { st with g_tries_send := (st.g_tries_send + 1) % 256 }
  else if st.mqtt_status = .MQTTSN_WAITING_SUBACK then
    if st.g_tries_send ≥ MQTT_SN_RETRY then
      process_post { st with g_tries_send := 0 } .mqtt_event_ping_timeout
    else
      let st := head_touch st
      let short_topic := (st.mqtt_queue.head?.bind (fun t => t.short_topic)).getD 0
      let qos_level := st.mqtt_queue.head?.bind (fun t => t.qos_level)
      let st := reg_touch st short_topic
      let st := (mqtt_sn_sub_send st (st.g_topic_bind short_topic).topic_name qos_level).2
      let st := { st with mqtt_status := .MQTTSN_WAITING_SUBACK }
      let st := { st with mqtt_time_subscribe := ctimer_reset st.mqtt_time_subscribe }
      { st with g_tries_send := (st.g_tries_send + 1) % 256 }
  else if st.mqtt_status = .MQTTSN_WAITING_WILLTOPICREQ then
    if st.g_tries_send ≥ MQTT_SN_RETRY then
      process_post { st with g_tries_send := 0 } .mqtt_event_ping_timeout
    else
      let st := (mqtt_sn_con_send st).2
      let st := { st with mqtt_status := .MQTTSN_WAITING_WILLTOPICREQ }
      let st := { st with mqtt_time_connect := ctimer_reset st.mqtt_time_connect }
      { st with g_tries_send := (st.g_tries_send + 1) % 256 }
  else st

def timeout_ping_mqtt (st : State) : State :=
  let st :=
    if st.g_ping_flag_resp then
      let st := { st with g_ping_flag_resp := false, g_tries_ping := 0 }
      mqtt_sn_ping_send st
    else if st.g_tries_ping ≥ MQTT_SN_RETRY_PING then
      let st := { st with g_tries_ping := 0 }
      let st := { st with mqtt_time_ping := ctimer_stop st.mqtt_time_ping }
      if st.mqtt_status ≠ .MQTTSN_DISCONNECTED then process_post st .mqtt_event_ping_timeout
      else st
    else
      let st := mqtt_sn_ping_send st
      { st with g_tries_ping := (st.g_tries_ping + 1) % 256 }
  { st with mqtt_time_ping := ctimer_reset st.mqtt_time_ping }

/-! ## The process thread -/

/-- The first `if` / `else if` of the loop body of `mqtt_sn_main`. -/
def mqtt_sn_main_connect (ev : process_event_t) (st : State) : State :=
  if ev = .mqtt_event_connect ∧ st.mqtt_status = .MQTTSN_DISCONNECTED then
    let st := (mqtt_sn_con_send st).2
    let st :=
      if st.g_mqtt_sn_con.will_topic.isSome && st.g_mqtt_sn_con.will_message.isSome then
        { st with mqtt_status := .MQTTSN_WAITING_WILLTOPICREQ }
      else { st with mqtt_status := .MQTTSN_WAITING_CONNACK }
    let st := { st with mqtt_time_connect := ctimer_set st.mqtt_time_connect MQTT_SN_TIMEOUT_CONNECT }
    { st with g_tries_send := 0 }
  else if ev = .mqtt_event_connack then
    let st := { st with mqtt_status := .MQTTSN_CONNECTED }
    let st := { st with mqtt_time_connect := ctimer_stop st.mqtt_time_connect }
    let st := mqtt_sn_delete_queue st
    let st := { st with
      mqtt_time_ping := ctimer_set st.mqtt_time_ping (st.g_mqtt_sn_con.keep_alive * CLOCK_SECOND) }
    process_post st .mqtt_event_run_task
  else st

/-- The `switch` on the head task's type in the `run_task` branch. -/
def mqtt_sn_main_run_task (st : State) : State :=
  let st := head_touch st
  match head_type st with
  | none => { st with mqtt_status := .MQTTSN_TOPIC_REGISTERED }
  | some ty =>
    if ty = MQTT_SN_TYPE_CONNECT then process_post st .mqtt_event_connect
    else if ty = MQTT_SN_TYPE_PUBLISH then process_post st .mqtt_event_pub_qos_0
    else if ty = MQTT_SN_TYPE_SUBSCRIBE then process_post st .mqtt_event_subscribe
    else if ty = MQTT_SN_TYPE_REGISTER then process_post st .mqtt_event_register
    else if ty = MQTT_SN_TYPE_SUB_WILDCARD then
      (mqtt_sn_sub_send_wildcard st st.topic_temp_wildcard
        (st.mqtt_queue.head?.bind (fun t => t.qos_level))).2
    else if ty = MQTT_SN_TYPE_WILLTOPIC then st
    else if ty = MQTT_SN_TYPE_WILLMSG then st
    else { st with mqtt_status := .MQTTSN_TOPIC_REGISTERED }

/-- The branch of `mqtt_sn_main` for `mqtt_event_pub_qos_0` with a PUBLISH task
at the head. -/
def mqtt_sn_main_pub_qos_0 (st : State) : State :=
  let j := scan (id_unused st.g_topic_bind) MAX_TOPIC_USED 0
  let st := if j = 0 then { st with out_of_bounds := true } else st
  let topic := (st.g_topic_bind (j - 1)).topic_name
  let st :=
    if topic = none ∨ st.g_message_bind = none then { st with null_deref := true } else st
  let st := (mqtt_sn_pub_send st (topic.getD []) (st.g_message_bind.getD [])
    (decide ((st.mqtt_queue.head?.bind (fun t => t.retain)).getD 0 ≠ 0))
    ((st.mqtt_queue.head?.bind (fun t => t.qos_level)).getD 0)).2
  let st := mqtt_sn_delete_queue st
  if !mqtt_sn_check_empty st then process_post st .mqtt_event_run_task else st

/-- The branch of `mqtt_sn_main` for `mqtt_event_ping_timeout`
(`MQTT_SN_AUTO_RECONNECT` is defined). -/
def mqtt_sn_main_ping_timeout (st : State) : State :=
  let st := { st with mqtt_time_connect := ctimer_stop st.mqtt_time_connect }
  let st := { st with mqtt_time_register := ctimer_stop st.mqtt_time_register }
  let st := { st with mqtt_time_ping := ctimer_stop st.mqtt_time_ping }
  let st := { st with mqtt_time_subscribe := ctimer_stop st.mqtt_time_subscribe }
  let st := { st with mqtt_status := .MQTTSN_DISCONNECTED }
  let st := { st with g_recon := true }
  let st := init_vectors st
  (mqtt_sn_create_sck st st.g_mqtt_sn_con (st.topics_reconnect.take st.topics_len)
    st.callback_mqtt true).2

/-- The second chain of `if` / `else if` of the loop body of `mqtt_sn_main`. A
condition `ev == e && mqtt_queue_first->data.msg_type_q == ty` reads the head
only when `ev` is `e`. -/
def mqtt_sn_main_tasks (ev : process_event_t) (st : State) : State :=
  if ev = .mqtt_event_will_topicreq then
    let st := { st with mqtt_status := .MQTTSN_WAITING_WILLMSGREQ }
    let st := (mqtt_sn_will_topic_send st).2
    mqtt_sn_delete_queue st
  else if ev = .mqtt_event_will_messagereq then
    let st := mqtt_sn_delete_queue st
    let st := (mqtt_sn_will_message_send st).2
    { st with mqtt_status := .MQTTSN_WAITING_CONNACK }
  else if ev = .mqtt_event_register then
    let st := head_touch st
    if head_type st = some MQTT_SN_TYPE_REGISTER then
      let st := (mqtt_sn_reg_send st).2
      let st := { st with mqtt_status := .MQTTSN_WAITING_REGACK }
      let st := { st with mqtt_time_register := ctimer_set st.mqtt_time_register MQTT_SN_TIMEOUT }
      { st with g_tries_send := 0 }
    else st
  else if ev = .mqtt_event_regack then
    let st := head_touch st
    if head_type st = some MQTT_SN_TYPE_REGISTER then
      let st := mqtt_sn_delete_queue st
      let st := { st with mqtt_time_register := ctimer_stop st.mqtt_time_register }
      if !mqtt_sn_check_empty st then process_post st .mqtt_event_run_task
      else
        let st := { st with mqtt_status := .MQTTSN_TOPIC_REGISTERED }
        process_post st .mqtt_event_connected
    else st
  else if ev = .mqtt_event_run_task then mqtt_sn_main_run_task st
  else if ev = .mqtt_event_pub_qos_0 then
    let st := head_touch st
    if head_type st = some MQTT_SN_TYPE_PUBLISH then mqtt_sn_main_pub_qos_0 st else st
  else if ev = .mqtt_event_subscribe then
    let st := head_touch st
    if head_type st = some MQTT_SN_TYPE_SUBSCRIBE then
      let short_topic := (st.mqtt_queue.head?.bind (fun t => t.short_topic)).getD 0
      let qos_level := st.mqtt_queue.head?.bind (fun t => t.qos_level)
      let st := reg_touch st short_topic
      let st := (mqtt_sn_sub_send st (st.g_topic_bind short_topic).topic_name qos_level).2
      let st := { st with mqtt_status := .MQTTSN_WAITING_SUBACK }
      let st := { st with
        mqtt_time_subscribe := ctimer_set st.mqtt_time_subscribe (3 * MQTT_SN_TIMEOUT) }
      { st with g_tries_send := 0 }
    else st
  else if ev = .mqtt_event_suback then
    let st := head_touch st
    if head_type st = some MQTT_SN_TYPE_SUBSCRIBE then
      let st := mqtt_sn_delete_queue st
      let st := { st with mqtt_time_subscribe := ctimer_stop st.mqtt_time_subscribe }
      if !mqtt_sn_check_empty st then process_post st .mqtt_event_run_task
      else { st with mqtt_status := .MQTTSN_TOPIC_REGISTERED }
    else st
  else if ev = .mqtt_event_ping_timeout then mqtt_sn_main_ping_timeout st
  else st

/-- One pass of the loop body of `PROCESS_THREAD(mqtt_sn_main)`: the handling of
the event `ev` that woke the thread. -/
def mqtt_sn_main (ev : process_event_t) (st : State) : State :=
  mqtt_sn_main_tasks ev (mqtt_sn_main_connect ev st)

/-- The scheduler: delivers the posted events to `mqtt_sn_main`, oldest first,
until none is left or `fuel` events were delivered. -/
def run_events : Nat → State → State
  | 0, st => st
  | fuel + 1, st =>
    match st.events with
    | [] => st
    | ev :: rest => run_events fuel (mqtt_sn_main ev { st with events := rest })

/-! ## The state at start-up -/

/-- The values the C globals have when the program starts: statics are zero
unless `mqtt_sn.c` gives an initialiser. -/
def boot : State :=
  { mqtt_time_connect := { armed := false, interval := 0 }
    mqtt_time_register := { armed := false, interval := 0 }
    mqtt_time_ping := { armed := false, interval := 0 }
    mqtt_time_subscribe := { armed := false, interval := 0 }
    g_recon := false
    g_will := false
    g_ping_flag_resp := true
    g_message_bind := none
    topic_temp_wildcard := none
    g_tries_send := 0
    g_tries_ping := 0
    g_task_id := 0
    g_topic_bind := fun _ => { topic_name := none, short_topic_id := 0, subscribed := 0 }
    g_mqtt_sn_con :=
      { udp_port := 0, ipv6_broker := [], keep_alive := 0, client_id := [], will_topic := none,
        will_message := none }
    mqtt_status := .MQTTSN_DISCONNECTED
    topics_reconnect := []
    topics_len := 0
    callback_mqtt := 0
    mqtt_queue := []
    events := []
    sent := []
    delivered := []
    udp_registrations := 0
    null_deref := false
    out_of_bounds := false }

/-! ## States used in the worked scenarios -/

/-- The state after `mqtt_sn_init` on a freshly started program. -/
def post_init : State :=
  mqtt_sn_init boot

/-- The topic "/a". -/
def topic_a : CStr := [47, 97]

/-- The topic "/b". -/
def topic_b : CStr := [47, 98]

/-- The connection of the spec's scenarios: client id "C", keep-alive 5, no
will. -/
def scenario_conn : mqtt_sn_con_t :=
  { udp_port := 1884, ipv6_broker := [0xaaaa, 0, 0, 0, 0, 0, 0, 1], keep_alive := 5,
    client_id := [67], will_topic := none, will_message := none }

/-- The memory of a receive buffer that holds the datagram `bytes` (zero after
it). -/
def buffer_of (bytes : List Nat) : Nat → Nat :=
  fun i => bytes.getD i 0

/-- An inbound CONNACK as the parser indexes it: Length 3, MsgType 0x05,
ReturnCode in byte 2. -/
def connack_packet (return_code : Nat) : List Nat :=
  [3, MQTT_SN_TYPE_CONNACK, return_code]

/-- An inbound REGACK laid out as `regack_packet_t`: Length 7, MsgType 0x0B,
TopicId in bytes 2 and 3, MsgId in bytes 4 and 5, ReturnCode in byte 6. -/
def regack_packet (topic_id msg_id return_code : Nat) : List Nat :=
  [7, MQTT_SN_TYPE_REGACK] ++ uip_htons topic_id ++ uip_htons msg_id ++ [return_code]

/-- The datagram `packet` arrives: the receive callback runs, then the scheduler
delivers the events posted (at most eight deliveries). -/
def receive (st : State) (packet : List Nat) : State :=
  run_events 8 (mqtt_sn_udp_rec_cb st (buffer_of packet) packet.length)

/-- The broker accepts the pending REGISTER requests in turn: REGACK with
TopicId `ids[0]` and MsgId `i`, then TopicId `ids[1]` and MsgId `i + 1`, and so
on, each followed by the delivery of the events it causes. -/
def receive_regacks : List Nat → Nat → State → State
  | [], _, st => st
  | t :: ids, i, st => receive_regacks ids (i + 1) (receive st (regack_packet t i ACCEPTED))

/-- Scenario 1 of the spec from the post-init state: the session is created and
its events are delivered, the broker accepts the CONNECT, then accepts the
REGISTER requests with the topic ids `ids`. -/
def happy_path (conn : mqtt_sn_con_t) (topics : List CStr) (cb_f : Nat) (ids : List Nat) : State :=
  let st := run_events 8 (mqtt_sn_create_sck post_init conn topics cb_f true).2
  let st := receive st (connack_packet ACCEPTED)
  receive_regacks ids 1 st

/-- The ready state of the spec's scenarios, reached by scenario 1: the session
for "/a" and "/b" was created on the post-init state with callback 1, the
broker accepted the CONNECT and bound "/a" (slot 1) to id 5 and "/b" (slot 2) to
id 6. The status is `MQTTSN_TOPIC_REGISTERED` and the queue is empty. -/
def scenario_ready : State :=
  happy_path scenario_conn [topic_a, topic_b] 1 [5, 6]

/-- The scenario state while the client still waits for a REGACK: as
`scenario_ready`, but the broker has only answered the REGISTER of "/a" so far;
the REGISTER of "/b" is in flight. -/
def scenario_waiting_regack : State :=
  happy_path scenario_conn [topic_a, topic_b] 1 [5]

/-- The `uint8_t` a caller passes for the QoS level `q` (QoS -1 becomes 255). -/
def qos_arg (q : Int) : Nat :=
  (q % 256).toNat

/-- An inbound SUBACK as the parser indexes it: Length 8, MsgType 0x13, Flags,
TopicId in bytes 3 and 4, MsgId in bytes 5 and 6, ReturnCode in byte 7. -/
def suback_packet (flags topic_id msg_id return_code : Nat) : List Nat :=
  [8, MQTT_SN_TYPE_SUBACK, flags] ++ uip_htons topic_id ++ uip_htons msg_id ++ [return_code]

/-- The topic "/c", which the scenario never registers. -/
def topic_c : CStr := [47, 99]

/-- The wildcard topic "/a/#". -/
def topic_wild : CStr := [47, 97, 47, 35]

/-- The wildcard topic "/b/#". -/
def topic_wild_b : CStr := [47, 98, 47, 35]

/-- The ready state of the scenario after the user subscribed 101 times to
"/a/#": each call queued a SUB_WILDCARD task, none was run, and the queue now
holds 101 tasks, the length at which `mqtt_sn_insert_queue` refuses. -/
def scenario_full : State :=
  Nat.iterate (fun st => (mqtt_sn_sub st topic_wild 0).2) 101 scenario_ready

/-- An inbound PUBLISH laid out as `publish_packet_t`: Length, MsgType 0x0C,
Flags, TopicId in bytes 3 and 4, MsgId in bytes 5 and 6, then the data. -/
def publish_packet (flags topic_id msg_id : Nat) (data : List Nat) : List Nat :=
  [7 + data.length, MQTT_SN_TYPE_PUBLISH, flags] ++ uip_htons topic_id ++ uip_htons msg_id ++ data

/-- The message "hi". -/
def message_hi : List Nat := [104, 105]

/-- The scenario after the user subscribed to "/a" in the ready state and the
queued SUBSCRIBE task was run: slot 1 ("/a", id 5) is pending, the SUBSCRIBE
was sent and the status is `MQTTSN_WAITING_SUBACK`. -/
def scenario_subscribing : State :=
  run_events 4 (process_post (mqtt_sn_sub scenario_ready topic_a 0).2 .mqtt_event_run_task)

/-- The REGISTER packets the spec expects for the topic names `topics`, the first
with MsgId `i` and each next one with the next MsgId: Length, MsgType 0x0A,
TopicId 0 (two bytes), MsgId (two bytes, high byte first), the topic name. -/
def expected_registers : List CStr → Nat → List (List Nat)
  | [], _ => []
  | topic :: rest, i =>
    ([6 + topic.length, 0x0A, 0, 0] ++ uip_htons i ++ topic) :: expected_registers rest (i + 1)

/-- An inbound REGISTER laid out as `register_packet_t`: Length, MsgType 0x0A,
TopicId in bytes 2 and 3, MsgId in bytes 4 and 5, then the topic name. -/
def register_packet (topic_id msg_id : Nat) (topic_name : List Nat) : List Nat :=
  [6 + topic_name.length, MQTT_SN_TYPE_REGISTER] ++ uip_htons topic_id ++ uip_htons msg_id ++
    topic_name

/-- The topic "/a/x". -/
def topic_ax : CStr := [47, 97, 47, 120]

/-- The scenario while the client waits for the CONNACK: the session for "/a"
and "/b" was created on the post-init state and the CONNECT was sent. -/
def scenario_waiting_connack : State :=
  run_events 8 (mqtt_sn_create_sck post_init scenario_conn [topic_a, topic_b] 1 true).2

/-- The ready state of the scenario once the user has subscribed to "/a": the
SUBSCRIBE task is queued, the status is still `MQTTSN_TOPIC_REGISTERED`. -/
def scenario_subscribe_queued : State :=
  (mqtt_sn_sub scenario_ready topic_a 0).2

/-- The ready state of the scenario after the user subscribed to "/a/#" and
then to "/b/#": two SUB_WILDCARD tasks are queued, none was run. -/
def scenario_two_wildcards : State :=
  (mqtt_sn_sub (mqtt_sn_sub scenario_ready topic_wild 0).2 topic_wild_b 0).2

/-! ## Timer expiry and further scenario states -/

/-- The timer `mqtt_time_connect` expires: Contiki takes an expired callback
timer off its list, so it is no longer armed, and calls the function the timer
was set with, `timeout_con`. -/
def expire_connect (st : State) : State :=
  timeout_con { st with mqtt_time_connect := { st.mqtt_time_connect with armed := false } }

/-- The timer `mqtt_time_register` expires; it was set with `timeout_con`. -/
def expire_register (st : State) : State :=
  timeout_con { st with mqtt_time_register := { st.mqtt_time_register with armed := false } }

/-- The timer `mqtt_time_subscribe` expires; it was set with `timeout_con`. -/
def expire_subscribe (st : State) : State :=
  timeout_con { st with mqtt_time_subscribe := { st.mqtt_time_subscribe with armed := false } }

/-- The timer `mqtt_time_ping` expires (a ping tick); it was set with
`timeout_ping_mqtt`. -/
def expire_ping (st : State) : State :=
  timeout_ping_mqtt { st with mqtt_time_ping := { st.mqtt_time_ping with armed := false } }

/-- The connection of the scenarios with a will: topic "/w", message "x". -/
def scenario_conn_will : mqtt_sn_con_t :=
  { scenario_conn with will_topic := some [47, 119], will_message := some [120] }

/-- The scenario with a will while the client waits for the WILLTOPICREQ: the
session for "/a" and "/b" was created on the post-init state and the CONNECT
was sent. -/
def scenario_waiting_willtopicreq : State :=
  run_events 8 (mqtt_sn_create_sck post_init scenario_conn_will [topic_a, topic_b] 1 true).2

/-- The ready state of the scenario after the first ping tick: the PINGREQ was
sent, the reply is pending and the ping retry counter is 0. -/
def scenario_pinging : State :=
  expire_ping scenario_ready

/-- Ninety-nine topic names "/0", "/1", ... -/
def topics_99 : List CStr :=
  (List.range 99).map (fun i => [47, 48 + i])

/-- The state after `mqtt_sn_create_sck` was called on the post-init state with
a will configured and the 99 topics of `topics_99`. -/
def scenario_crowded : State :=
  (mqtt_sn_create_sck post_init scenario_conn_will topics_99 1 true).2

/-- The ready state of the scenario after the broker sent REGISTER with TopicId
9, MsgId 7 and name "/a/x": slot 3 holds the topic learned from the server. -/
def scenario_learned : State :=
  mqtt_sn_recv_parse scenario_ready (buffer_of (register_packet 9 7 topic_ax))

/-- The session of the scenario created a second time, now without a will,
after it had been created with one. -/
def scenario_reconfigured : State :=
  (mqtt_sn_create_sck
    (mqtt_sn_create_sck post_init scenario_conn_will [topic_a, topic_b] 1 true).2
    scenario_conn [topic_a, topic_b] 1 true).2

/-- A client id of 24 bytes. -/
def long_client_id : CStr := List.replicate 24 67

/-- The calls `mqtt_sn_insert_queue(t)` for the tasks of a list, in order, with
the result of each call. -/
def insert_all : List mqtt_sn_task_t → State → List resp_con_t × State
  | [], st => ([], st)
  | t :: ts, st =>
    let r := mqtt_sn_insert_queue st t
    let rs := insert_all ts r.2
    (r.1 :: rs.1, rs.2)

/-- The fields of a task that the caller of `mqtt_sn_insert_queue` supplies. -/
def task_fields (t : mqtt_sn_task_t) : Nat × Option Nat × Option Nat × Option Nat :=
  (t.msg_type_q, t.short_topic, t.qos_level, t.retain)

/-- A call of one of the two functions that change the task queue. -/
inductive queue_op where
  | push (t : mqtt_sn_task_t)
  | pop

/-- One queue call: `mqtt_sn_insert_queue(t)` or `mqtt_sn_delete_queue()`. -/
def apply_queue_op : queue_op → State → State
  | .push t, st => (mqtt_sn_insert_queue st t).2
  | .pop, st => mqtt_sn_delete_queue st

/-- A sequence of queue calls, first call first. -/
def run_queue_ops : List queue_op → State → State
  | [], st => st
  | op :: ops, st => run_queue_ops ops (apply_queue_op op st)

/-- The ready state of the scenario after the user subscribed 100 times to
"/a/#": the queue holds 100 tasks. -/
def scenario_hundred : State :=
  Nat.iterate (fun st => (mqtt_sn_sub st topic_wild 0).2) 100 scenario_ready

/-- A PUBLISH task as `mqtt_sn_pub` would queue it. -/
def sample_task (ty : Nat) : mqtt_sn_task_t :=
  { msg_type_q := ty, short_topic := some 1, id_task := 0, qos_level := some 0, retain := some 0 }

/-- The C function `init_sub`: it posts `mqtt_event_run_task`. -/
def init_sub (st : State) : State :=
  process_post st .mqtt_event_run_task

/-- What can happen to the client between two waits of its process thread: a
call of the user API (`mqtt_sn_create_sck`, `mqtt_sn_sub`, `mqtt_sn_pub`,
`mqtt_sn_disconnect`, and `init_sub` as `wake`), the expiry of one of the four
timers, a datagram handed to the receive callback (the memory `data` from its
first byte on, and the byte count), or the delivery of the oldest posted event
to `mqtt_sn_main`. -/
inductive action where
  | create_session (conn : mqtt_sn_con_t) (topics : List CStr) (cb_f : Nat) (udp_ok : Bool)
  | subscribe (topic : CStr) (qos : Nat)
  | publish (topic message : CStr) (retain_flag : Bool) (qos : Nat)
  | disconnect (duration : Nat)
  | wake
  | timer_connect
  | timer_register
  | timer_subscribe
  | timer_ping
  | packet (data : Nat → Nat) (datalen : Nat)
  | deliver

/-- The effect of one action on the state; the results the user calls return
are dropped. -/
def apply_action : action → State → State
  | .create_session conn topics cb_f udp_ok, st =>
    (mqtt_sn_create_sck st conn topics cb_f udp_ok).2
  | .subscribe topic qos, st => (mqtt_sn_sub st topic qos).2
  | .publish topic message retain_flag qos, st =>
    (mqtt_sn_pub st topic message retain_flag qos).2
  | .disconnect duration, st => (mqtt_sn_disconnect st duration).2
  | .wake, st => init_sub st
  | .timer_connect, st => expire_connect st
  | .timer_register, st => expire_register st
  | .timer_subscribe, st => expire_subscribe st
  | .timer_ping, st => expire_ping st
  | .packet data datalen, st => mqtt_sn_udp_rec_cb st data datalen
  | .deliver, st => run_events 1 st

/-- A run of the client: the actions of a list, first action first. -/
def run_actions : List action → State → State
  | [], st => st
  | a :: rest, st => run_actions rest (apply_action a st)

/-- An inbound WILLTOPICREQ: Length 2, MsgType 0x06. -/
def willtopicreq_packet : List Nat :=
  [2, MQTT_SN_TYPE_WILLTOPICREQ]

/-- An inbound WILLMSGREQ: Length 2, MsgType 0x08. -/
def willmsgreq_packet : List Nat :=
  [2, MQTT_SN_TYPE_WILLMSGREQ]

/-- The scenario with a will after the broker asked for the will topic: the
WILLTOPIC was sent and the client waits for the WILLMSGREQ; the connect timer
set for the CONNECT is still armed. -/
def scenario_waiting_willmsgreq : State :=
  receive scenario_waiting_willtopicreq willtopicreq_packet

/-- The scenario with a will after the broker asked for the will message: the
WILLMSG was sent and the client waits for the CONNACK. -/
def scenario_will_waiting_connack : State :=
  receive scenario_waiting_willmsgreq willmsgreq_packet

/-- A task as `mqtt_sn_create_sck` queues it, with the id the insertion gave
it. -/
def queued_task (ty id : Nat) : mqtt_sn_task_t :=
  { msg_type_q := ty, short_topic := none, id_task := id, qos_level := none, retain := none }

/-- A run with an empty topic list: the session is created, the CONNECT is sent
and accepted, and the `run_task` event the CONNACK handler posted is
delivered. -/
def empty_topics_run : List action :=
  [.create_session scenario_conn [] 1 true, .deliver, .deliver,
   .packet (buffer_of (connack_packet ACCEPTED)) 3, .deliver, .deliver]

/-- The task `mqtt_sn_sub_wildcard` builds for the QoS `qos`, once
`mqtt_sn_insert_queue` has given it the id `id`. -/
def wildcard_task (id qos : Nat) : mqtt_sn_task_t :=
  { msg_type_q := MQTT_SN_TYPE_SUB_WILDCARD, short_topic := none, id_task := id,
    qos_level := some qos, retain := none }

/-- The task `mqtt_sn_sub` builds for the registry slot `k` and the QoS `qos`,
once `mqtt_sn_insert_queue` has given it the id `id`. -/
def subscribe_task (k id qos : Nat) : mqtt_sn_task_t :=
  { msg_type_q := MQTT_SN_TYPE_SUBSCRIBE, short_topic := some k, id_task := id,
    qos_level := some qos, retain := none }

/-- What the retransmission timers depend on: which of the three timers are
armed, the status, the types of the queued tasks (head first), the pending
events and whether both will fields of the configuration are set. -/
structure protocol_core where
  connect : Bool
  register : Bool
  subscribe : Bool
  status : mqtt_sn_status_t
  types : List Nat
  events : List process_event_t
  will : Bool

/-- The test `g_mqtt_sn_con.will_topic && g_mqtt_sn_con.will_message` of
`mqtt_sn_main` and `mqtt_sn_create_sck`. -/
def will_configured (st : State) : Bool :=
  st.g_mqtt_sn_con.will_topic.isSome && st.g_mqtt_sn_con.will_message.isSome

/-- The part of a state the retransmission timers depend on. -/
def core_of (st : State) : protocol_core :=
  { connect := st.mqtt_time_connect.armed
    register := st.mqtt_time_register.armed
    subscribe := st.mqtt_time_subscribe.armed
    status := st.mqtt_status
    types := st.mqtt_queue.map (fun t => t.msg_type_q)
    events := st.events
    will := will_configured st }

/-- What `mqtt_sn_main` does to the core of a state when it handles the event
`e`, for every event but `mqtt_event_ping_timeout` and for a queue without a
PUBLISH task. -/
def core_main (e : process_event_t) (k : protocol_core) : protocol_core :=
  match e with
  | .mqtt_event_connect =>
    if k.status = .MQTTSN_DISCONNECTED then
      { k with
        connect := true
        status := if k.will then .MQTTSN_WAITING_WILLTOPICREQ else .MQTTSN_WAITING_CONNACK }
    else k
  | .mqtt_event_connack =>
    { k with
      status := .MQTTSN_CONNECTED
      connect := false
      types := k.types.tail
      events := k.events ++ [.mqtt_event_run_task] }
  | .mqtt_event_will_topicreq =>
    { k with status := .MQTTSN_WAITING_WILLMSGREQ, types := k.types.tail }
  | .mqtt_event_will_messagereq =>
    { k with status := .MQTTSN_WAITING_CONNACK, types := k.types.tail }
  | .mqtt_event_register =>
    if k.types.head? = some MQTT_SN_TYPE_REGISTER then
      { k with status := .MQTTSN_WAITING_REGACK, register := true }
    else k
  | .mqtt_event_regack =>
    if k.types.head? = some MQTT_SN_TYPE_REGISTER then
      if k.types.tail = [] then
        { k with
          types := []
          register := false
          status := .MQTTSN_TOPIC_REGISTERED
          events := k.events ++ [.mqtt_event_connected] }
      else
        { k with
          types := k.types.tail
          register := false
          events := k.events ++ [.mqtt_event_run_task] }
    else k
  | .mqtt_event_run_task =>
    match k.types.head? with
    | none => { k with status := .MQTTSN_TOPIC_REGISTERED }
    | some ty =>
      if ty = MQTT_SN_TYPE_CONNECT then { k with events := k.events ++ [.mqtt_event_connect] }
      else if ty = MQTT_SN_TYPE_PUBLISH then
        { k with events := k.events ++ [.mqtt_event_pub_qos_0] }
      else if ty = MQTT_SN_TYPE_SUBSCRIBE then
        { k with events := k.events ++ [.mqtt_event_subscribe] }
      else if ty = MQTT_SN_TYPE_REGISTER then
        { k with events := k.events ++ [.mqtt_event_register] }
      else if ty = MQTT_SN_TYPE_SUB_WILDCARD then k
      else if ty = MQTT_SN_TYPE_WILLTOPIC then k
      else if ty = MQTT_SN_TYPE_WILLMSG then k
      else { k with status := .MQTTSN_TOPIC_REGISTERED }
  | .mqtt_event_subscribe =>
    if k.types.head? = some MQTT_SN_TYPE_SUBSCRIBE then
      { k with status := .MQTTSN_WAITING_SUBACK, subscribe := true }
    else k
  | .mqtt_event_suback =>
    if k.types.head? = some MQTT_SN_TYPE_SUBSCRIBE then
      if k.types.tail = [] then
        { k with types := [], subscribe := false, status := .MQTTSN_TOPIC_REGISTERED }
      else
        { k with
          types := k.types.tail
          subscribe := false
          events := k.events ++ [.mqtt_event_run_task] }
    else k
  | _ => k

/-- What `timeout_con` can do to the core of a state: nothing, post the
session-fail event, or re-arm the timer of the status. -/
def core_timeout (k k2 : protocol_core) : Prop :=
  k2 = k ∨ k2 = { k with events := k.events ++ [.mqtt_event_ping_timeout] } ∨
    ((k.status = .MQTTSN_WAITING_CONNACK ∨ k.status = .MQTTSN_WAITING_WILLTOPICREQ) ∧
      k2 = { k with connect := true }) ∨
    (k.status = .MQTTSN_WAITING_REGACK ∧ k2 = { k with register := true }) ∨
    (k.status = .MQTTSN_WAITING_SUBACK ∧ k2 = { k with subscribe := true })

/-- What `mqtt_sn_recv_parser` can do to the core of a state: nothing, post the
event of an awaited packet, or pop the SUB_WILDCARD task at the head. -/
def core_parse (k k2 : protocol_core) : Prop :=
  k2 = k ∨
    (k.status = .MQTTSN_WAITING_CONNACK ∧
      k2 = { k with events := k.events ++ [.mqtt_event_connack] }) ∨
    (k.status = .MQTTSN_WAITING_REGACK ∧
      k2 = { k with events := k.events ++ [.mqtt_event_regack] }) ∨
    (k.status = .MQTTSN_WAITING_SUBACK ∧
      k2 = { k with events := k.events ++ [.mqtt_event_suback] }) ∨
    (k.status = .MQTTSN_WAITING_WILLTOPICREQ ∧
      k2 = { k with events := k.events ++ [.mqtt_event_will_topicreq] }) ∨
    (k.status = .MQTTSN_WAITING_WILLMSGREQ ∧
      k2 = { k with events := k.events ++ [.mqtt_event_will_messagereq] }) ∨
    (k.types.head? = some MQTT_SN_TYPE_SUB_WILDCARD ∧
      k2 = { k with status := .MQTTSN_TOPIC_REGISTERED, types := k.types.tail })

/-- What `mqtt_sn_create_sck` can do to the core of a state: it stores the will
configuration `w`, appends the tasks `new` and posts `run_task` (`posted`), or
fails before it queues anything. On an empty queue the tasks start with CONNECT,
followed by WILLTOPIC and WILLMSG when a will is configured. -/
def core_create (k k2 : protocol_core) : Prop :=
  ∃ (new : List Nat) (posted w : Bool),
    k2 = { k with
      types := k.types ++ new
      events := k.events ++ (if posted then [.mqtt_event_run_task] else [])
      will := w } ∧
    MQTT_SN_TYPE_PUBLISH ∉ new ∧ (posted = false → new = []) ∧
    (k.types = [] → posted = true →
      new.head? = some MQTT_SN_TYPE_CONNECT ∧
        (w = true →
          new.take 3 = [MQTT_SN_TYPE_CONNECT, MQTT_SN_TYPE_WILLTOPIC, MQTT_SN_TYPE_WILLMSG]))

/-- The core `k2` is the core `k` with the task types `new` appended to the
queue. -/
def core_grows (k k2 : protocol_core) (new : List Nat) : Prop :=
  k2 = { k with types := k.types ++ new }

/-- At most one of the connect, register and subscribe timers is armed. -/
@[reducible]
def single_retransmission_timer (st : State) : Prop :=
  ¬ (st.mqtt_time_connect.armed = true ∧ st.mqtt_time_register.armed = true) ∧
    ¬ (st.mqtt_time_connect.armed = true ∧ st.mqtt_time_subscribe.armed = true) ∧
    ¬ (st.mqtt_time_register.armed = true ∧ st.mqtt_time_subscribe.armed = true)

/-- The events `mqtt_sn_recv_parser` posts when a packet arrives. -/
def parser_event : process_event_t → Bool
  | .mqtt_event_connack => true
  | .mqtt_event_regack => true
  | .mqtt_event_suback => true
  | .mqtt_event_will_topicreq => true
  | .mqtt_event_will_messagereq => true
  | _ => false

/-- The status `s` is the one in which the parser posts the event; true for
the events the parser does not post. -/
def awaited (s : mqtt_sn_status_t) : process_event_t → Bool
  | .mqtt_event_connack => decide (s = .MQTTSN_WAITING_CONNACK)
  | .mqtt_event_regack => decide (s = .MQTTSN_WAITING_REGACK)
  | .mqtt_event_suback => decide (s = .MQTTSN_WAITING_SUBACK)
  | .mqtt_event_will_topicreq => decide (s = .MQTTSN_WAITING_WILLTOPICREQ)
  | .mqtt_event_will_messagereq => decide (s = .MQTTSN_WAITING_WILLMSGREQ)
  | _ => true

/-- An armed timer belongs to the current status and to the task at the head.
In the three statuses of the connect phase the queue starts with the tasks that
phase still has to pop. No PUBLISH task is queued. -/
def timers_fit (k : protocol_core) : Prop :=
  (k.connect = true →
      k.status = .MQTTSN_WAITING_CONNACK ∨ k.status = .MQTTSN_WAITING_WILLTOPICREQ ∨
        k.status = .MQTTSN_WAITING_WILLMSGREQ) ∧
    (k.register = true →
      k.status = .MQTTSN_WAITING_REGACK ∧ k.types.head? = some MQTT_SN_TYPE_REGISTER) ∧
    (k.subscribe = true →
      k.status = .MQTTSN_WAITING_SUBACK ∧ k.types.head? = some MQTT_SN_TYPE_SUBSCRIBE) ∧
    (k.status = .MQTTSN_WAITING_WILLTOPICREQ →
      k.types.take 3 = [MQTT_SN_TYPE_CONNECT, MQTT_SN_TYPE_WILLTOPIC, MQTT_SN_TYPE_WILLMSG]) ∧
    (k.status = .MQTTSN_WAITING_WILLMSGREQ →
      k.types.take 2 = [MQTT_SN_TYPE_WILLTOPIC, MQTT_SN_TYPE_WILLMSG]) ∧
    (k.status = .MQTTSN_WAITING_CONNACK →
      k.types.head? = some MQTT_SN_TYPE_CONNECT ∨ k.types.head? = some MQTT_SN_TYPE_WILLMSG) ∧
    MQTT_SN_TYPE_PUBLISH ∉ k.types

/-- A CONNECT task at the head of a disconnected client is about to be run
(`run_task` or `mqtt_event_connect` is pending) and was queued with the current
will configuration; and `mqtt_event_connect` is pending for a disconnected
client only when CONNECT is at the head. -/
def connect_pending (k : protocol_core) : Prop :=
  (k.status = .MQTTSN_DISCONNECTED → k.types.head? = some MQTT_SN_TYPE_CONNECT →
      (.mqtt_event_run_task ∈ k.events ∨ .mqtt_event_connect ∈ k.events) ∧
        (k.will = true →
          k.types.take 3 =
            [MQTT_SN_TYPE_CONNECT, MQTT_SN_TYPE_WILLTOPIC, MQTT_SN_TYPE_WILLMSG])) ∧
    (k.status = .MQTTSN_DISCONNECTED → .mqtt_event_connect ∈ k.events →
      k.types.head? = some MQTT_SN_TYPE_CONNECT)

/-- Of the events the parser posts, only the oldest pending event can be one,
and then the status is the one in which the parser posts it. -/
def events_fit (k : protocol_core) : Prop :=
  (∀ e, k.events.head? = some e → awaited k.status e = true) ∧
    ∀ x ∈ k.events.tail, parser_event x = false

/-- The invariant behind the single retransmission timer. -/
def core_inv (k : protocol_core) : Prop :=
  timers_fit k ∧ connect_pending k ∧ events_fit k

/-- When an action can happen. A timer expires only while it is armed. A
session creation and the arrival of a packet happen only when the thread has
handled every posted event. A wake-up of the thread, a timer expiry, a
subscribe, publish or disconnect call and the delivery of an event are possible
at any time, also with events pending. -/
def action_enabled : action → State → Bool
  | .create_session _ _ _ _, st => st.events.isEmpty
  | .wake, _ => true
  | .packet _ _, st => st.events.isEmpty
  | .timer_connect, st => st.mqtt_time_connect.armed
  | .timer_register, st => st.mqtt_time_register.armed
  | .timer_subscribe, st => st.mqtt_time_subscribe.armed
  | .timer_ping, st => st.mqtt_time_ping.armed
  | _, _ => true

/-- The C program has met no undefined behaviour the model records: nothing was
read or written through a null pointer or outside an array, and the stored
client id and its terminator fit the 23-byte field `client_id` of the CONNECT
and PINGREQ packets, into which `mqtt_sn_con_send` and `mqtt_sn_ping_send` copy
them (`packet.client_id[strlen(id)] = 0`). -/
def state_defined (st : State) : Bool :=
  !st.null_deref && !st.out_of_bounds && decide (st.g_mqtt_sn_con.client_id.length ≤ 22)

/-- Every action of the run happens when it can, and leaves a state in which
the behaviour of the C program is defined. -/
def run_defined : List action → State → Bool
  | [], _ => true
  | a :: rest, st =>
    action_enabled a st && state_defined (apply_action a st) &&
      run_defined rest (apply_action a st)

/-- A run in which every action happens when it can: a session with a will and
the topic "/a" is set up, with expiries of the connect timer and a wake-up
while an event is pending, a wildcard subscribe is queued, and the run ends
while the client waits for the REGACK. -/
def timer_sample_run : List action :=
  [.create_session scenario_conn_will [topic_a] 1 true, .deliver, .deliver, .timer_connect,
   .packet (buffer_of [2, MQTT_SN_TYPE_WILLTOPICREQ]) 2, .timer_connect, .wake, .deliver,
   .deliver, .packet (buffer_of [2, MQTT_SN_TYPE_WILLMSGREQ]) 2, .deliver,
   .packet (buffer_of (connack_packet ACCEPTED)) 3, .timer_connect, .subscribe topic_wild 0,
   .deliver, .timer_ping, .deliver, .deliver, .timer_register, .disconnect 10]

/-- A run in which the session is created a second time, now with a will, while
the `run_task` event of the first creation is still pending; later `init_sub`
wakes the thread. -/
def second_session_run : List action :=
  [.create_session scenario_conn [topic_a] 1 true,
   .create_session scenario_conn_will [topic_a] 1 true, .deliver, .deliver, .deliver, .deliver,
   .packet (buffer_of [2, MQTT_SN_TYPE_WILLTOPICREQ]) 2, .deliver, .wake, .deliver, .deliver]

/-- A run in which the broker's WILLTOPICREQ arrives three times before the
thread handles the first one; the session is created again once every event
has been handled. -/
def repeated_packet_run : List action :=
  [.create_session scenario_conn_will [topic_a] 1 true, .deliver, .deliver,
   .packet (buffer_of [2, MQTT_SN_TYPE_WILLTOPICREQ]) 2,
   .packet (buffer_of [2, MQTT_SN_TYPE_WILLTOPICREQ]) 2,
   .packet (buffer_of [2, MQTT_SN_TYPE_WILLTOPICREQ]) 2, .deliver, .deliver, .deliver,
   .create_session scenario_conn [topic_a] 1 true, .deliver, .deliver]

/-- What `strcmp` is handed by the loop
`for (i = 0; i < MAX_TOPIC_USED; i++) if (strcmp(g_topic_bind[i].topic_name, topic) == 0) ...`
of `verf_register`, `verf_hist_sub`, `mqtt_sn_sub`, `mqtt_sn_pub_send` and
`mqtt_sn_sub_send`: from slot `i` on and for at most `n` slots, whether the loop
reaches a slot whose `topic_name` is a null pointer before it is left at a
match. Such a call of `strcmp` reads through a null pointer. -/
def name_scan_null (g_topic_bind : Nat → short_topics_t) (topic : CStr) : Nat → Nat → Bool
  | 0, _ => false
  | n + 1, i =>
    match (g_topic_bind i).topic_name with
    | none => true
    | some name => if name = topic then false else name_scan_null g_topic_bind topic n (i + 1)

/-- Whether a lookup of `topic` by name in the registry of `st`, from slot 0 on,
hands `strcmp` a null pointer. -/
def name_lookup_null (st : State) (topic : CStr) : Bool :=
  name_scan_null st.g_topic_bind topic MAX_TOPIC_USED 0

/-- The topic "/z". -/
def topic_z : CStr := [47, 122]

/-- The ready state of scenario 1 when, while the client was waiting for the
CONNACK, the broker had sent an accepted REGACK with MsgId 0 and TopicId 0xFF
and then a REGISTER with TopicId 9 for "/z": registry entry 0 holds "/z", so a
lookup of "/a" (slot 1) or "/b" (slot 2) by name compares names only. -/
def scenario_entry0_named : State :=
  receive_regacks [5, 6] 1
    (receive
      (receive (receive scenario_waiting_connack (regack_packet 0xFF 0 ACCEPTED))
        (register_packet 9 1 topic_z))
      (connack_packet ACCEPTED))

/-! ## Lemmas on the scanning loop -/

theorem scan_le (p : Nat → Bool) (n i : Nat) : i ≤ scan p n i ∧ scan p n i ≤ i + n := by
  induction n generalizing i with
  | zero => simp [scan]
  | succ n ih =>
    unfold scan
    split
    · omega
    · have := ih (i + 1)
      omega

theorem scan_before (p : Nat → Bool) (n i j : Nat) (h1 : i ≤ j) (h2 : j < scan p n i) :
    p j = false := by
  induction n generalizing i with
  | zero => simp [scan] at h2; omega
  | succ n ih =>
    unfold scan at h2
    split at h2
    · omega
    · rename_i hp
      by_cases hj : j = i
      · subst hj; simpa using hp
      · exact ih (i + 1) (by omega) h2

theorem scan_hit (p : Nat → Bool) (n i : Nat) (h : scan p n i < i + n) :
    p (scan p n i) = true := by
  induction n generalizing i with
  | zero => simp [scan] at h
  | succ n ih =>
    by_cases hp : p i = true
    · simp [scan, hp]
    · have hp2 : p i = false := by simpa using hp
      simp only [scan, hp2, Bool.false_eq_true, if_false] at h ⊢
      exact ih (i + 1) (by omega)

theorem scan_none (p : Nat → Bool) (n i : Nat) (h : ∀ j, i ≤ j → j < i + n → p j = false) :
    scan p n i = i + n := by
  induction n generalizing i with
  | zero => simp [scan]
  | succ n ih =>
    unfold scan
    rw [if_neg (by simp [h i (le_refl i) (by omega)])]
    rw [ih (i + 1) (fun j h1 h2 => h j (by omega) (by omega))]
    omega

theorem scan_first (p : Nat → Bool) (n i k : Nat) (h1 : i ≤ k) (h2 : k < i + n)
    (hk : p k = true) (hlt : ∀ j, i ≤ j → j < k → p j = false) : scan p n i = k := by
  have hle := scan_le p n i
  by_contra hne
  rcases Nat.lt_or_gt_of_ne hne with h | h
  · have := scan_hit p n i (by omega)
    have := hlt _ hle.1 h
    simp_all
  · have := scan_before p n i k h1 h
    simp_all

/-! ## Lemmas on the registry scans -/

theorem scan_name_lowest (st : State) (topic : CStr) (k : Nat) (hk : k < MAX_TOPIC_USED)
    (hname : (st.g_topic_bind k).topic_name = some topic)
    (hlow : ∀ j, j < k → (st.g_topic_bind j).topic_name ≠ some topic) :
    scan (name_is st.g_topic_bind topic) MAX_TOPIC_USED 0 = k :=
  scan_first _ _ _ _ (Nat.zero_le k) (by omega) (by simp [name_is, hname])
    (fun j _ h2 => by simpa [name_is] using hlow j h2)

theorem verf_register_ok (st : State) (topic : CStr) (k : Nat) (hk : k < MAX_TOPIC_USED)
    (hname : (st.g_topic_bind k).topic_name = some topic) :
    verf_register st topic = .SUCCESS_CON := by
  have hle := scan_le (name_is st.g_topic_bind topic) MAX_TOPIC_USED 0
  have hlt : scan (name_is st.g_topic_bind topic) MAX_TOPIC_USED 0 < MAX_TOPIC_USED := by
    by_contra hcon
    have := scan_before (name_is st.g_topic_bind topic) MAX_TOPIC_USED 0 k (Nat.zero_le k) (by omega)
    simp [name_is, hname] at this
  simp [verf_register, hlt]

/-! ## Publishing -/

theorem insert_queue_room (st : State) (new : mqtt_sn_task_t)
    (h : st.mqtt_queue.length ≤ MAX_QUEUE_MQTT_SN) :
    mqtt_sn_insert_queue st new =
      (.SUCCESS_CON,
        { st with
          mqtt_queue := st.mqtt_queue ++ [{ new with id_task := st.g_task_id }]
          g_task_id := (st.g_task_id + 1) % 256 }) := by
  simp [mqtt_sn_insert_queue, Nat.not_lt.mpr h]

theorem insert_queue_full (st : State) (new : mqtt_sn_task_t)
    (h : MAX_QUEUE_MQTT_SN < st.mqtt_queue.length) :
    mqtt_sn_insert_queue st new = (.FAIL_CON, st) := by
  simp [mqtt_sn_insert_queue, h]

/-- What `mqtt_sn_pub_send` sends for a message of at most 247 bytes: the flags
byte is written out as the C code computes it. -/
theorem mqtt_sn_pub_send_short (st : State) (topic message : CStr) (retain_flag : Bool)
    (qos i : Nat) (hlen : message.length ≤ 247)
    (hi : scan (name_is st.g_topic_bind topic) MAX_TOPIC_USED 0 = i) :
    mqtt_sn_pub_send st topic message retain_flag qos =
      (.SUCCESS_CON,
        { st with
          sent := st.sent ++
            [[8 + message.length, 0x0C,
                ((if retain_flag then 16 else 0) + mqtt_sn_get_qos_flag (to_int8 qos)) % 256] ++
              uip_htons (if i < MAX_TOPIC_USED then (st.g_topic_bind i).short_topic_id else 0) ++
              [0, 0] ++ message ++ [0]] }) := by
  have h1 : message.length % 256 = message.length := Nat.mod_eq_of_lt (by omega)
  have h2 : ¬ message.length > MQTT_SN_MAX_PACKET_LENGTH - 7 := by
    simp [MQTT_SN_MAX_PACKET_LENGTH]; omega
  have h3 : ¬ message.length + 1 > MQTT_SN_MAX_PACKET_LENGTH - 7 := by
    simp [MQTT_SN_MAX_PACKET_LENGTH]; omega
  have h4 : (7 + (message.length + 1)) % 256 = 8 + message.length := by
    rw [Nat.mod_eq_of_lt (by omega)]; omega
  have h5 : (message ++ [0]).take (message.length + 1) = message ++ [0] :=
    List.take_of_length_le (by simp)
  unfold mqtt_sn_pub_send
  simp only [hi, h1, h2, h3, h4, h5, if_false, simple_udp_send]
  rw [List.take_of_length_le (by simp [uip_htons]; omega)]
  cases retain_flag <;>
    simp [MQTT_SN_FLAG_RETAIN, MQTT_SN_TOPIC_TYPE_NORMAL, MQTT_SN_TYPE_PUBLISH, uip_htons]

/-- C5: whenever `mqtt_sn_pub_send` emits a PUBLISH (the 8-bit length of the
message is at most 247, so the packet has its header), for every `retain` and
every QoS level `q` in -1, 0, 1, 2 the packet's third byte, Flags, has bit 4
equal to `retain`, bits 6..5 equal to 0, 1, 2 for QoS 0, 1, 2 and 3 for QoS -1,
and DUP (bit 7), WILL (bit 3), CLEAN (bit 2) and TopicIdType (bits 1..0) all
0. -/
theorem mqtt_sn_pub_send_flags (st : State) (topic message : CStr) (retain_flag : Bool) (q : Int)
    (hq : q = -1 ∨ q = 0 ∨ q = 1 ∨ q = 2) (hlen : message.length % 256 ≤ 247) :
    ∃ packet flags,
      mqtt_sn_pub_send st topic message retain_flag (qos_arg q) =
        (.SUCCESS_CON, { st with sent := st.sent ++ [packet] }) ∧
      packet.get? 1 = some MQTT_SN_TYPE_PUBLISH ∧
      packet.get? 2 = some flags ∧
      (flags / 16 % 2 = if retain_flag then 1 else 0) ∧
      (flags / 32 % 4 = if q = -1 then 3 else q.toNat) ∧
      flags / 128 % 2 = 0 ∧ flags / 8 % 2 = 0 ∧ flags / 4 % 2 = 0 ∧
      flags % 4 = MQTT_SN_TOPIC_TYPE_NORMAL := by
  have h2 : ¬ message.length % 256 > MQTT_SN_MAX_PACKET_LENGTH - 7 := by
    simp [MQTT_SN_MAX_PACKET_LENGTH]; omega
  have h3 : ¬ message.length % 256 + 1 > MQTT_SN_MAX_PACKET_LENGTH - 7 := by
    simp [MQTT_SN_MAX_PACKET_LENGTH]; omega
  have h4 : (7 + (message.length % 256 + 1)) % 256 = message.length % 256 + 5 + 3 := by
    rw [Nat.mod_eq_of_lt (by omega)]; omega
  unfold mqtt_sn_pub_send
  simp only [h2, h3, h4, if_false, simple_udp_send]
  refine ⟨_, (((if retain_flag = true then (0 + MQTT_SN_FLAG_RETAIN) % 256 else 0) +
    mqtt_sn_get_qos_flag (to_int8 (qos_arg q))) % 256 + MQTT_SN_TOPIC_TYPE_NORMAL) % 256,
    rfl, ?_, ?_, ?_⟩
  · simp [List.take_succ_cons]
  · simp [List.take_succ_cons]
  · rcases hq with h | h | h | h <;> subst h <;> cases retain_flag <;> decide

/-- C5, at retain = true and QoS -1: the Flags byte is 0x70. -/
theorem mqtt_sn_pub_send_flags_witness :
    ((-1 : Int) = -1 ∨ (-1 : Int) = 0 ∨ (-1 : Int) = 1 ∨ (-1 : Int) = 2) ∧
      [120].length % 256 ≤ 247 ∧
      ∃ packet flags,
        mqtt_sn_pub_send scenario_ready topic_a [120] true (qos_arg (-1)) =
          (.SUCCESS_CON, { scenario_ready with sent := scenario_ready.sent ++ [packet] }) ∧
        packet.get? 1 = some MQTT_SN_TYPE_PUBLISH ∧
        packet.get? 2 = some flags ∧
        (flags / 16 % 2 = if true then 1 else 0) ∧
        (flags / 32 % 4 = if (-1 : Int) = -1 then 3 else (-1 : Int).toNat) ∧
        flags / 128 % 2 = 0 ∧ flags / 8 % 2 = 0 ∧ flags / 4 % 2 = 0 ∧
        flags % 4 = MQTT_SN_TOPIC_TYPE_NORMAL :=
  ⟨by decide, by decide,
    mqtt_sn_pub_send_flags scenario_ready topic_a [120] true (-1) (by decide) (by decide)⟩

set_option maxRecDepth 100000 in
/-- C6, the code at three payloads longer than 247 bytes, status
`MQTTSN_TOPIC_REGISTERED`, topic "/a" registered: with 249 bytes
`mqtt_sn_pub` returns `SUCCESS_CON` although `mqtt_sn_pub_send` refused and
sent nothing; with 248 bytes it returns `SUCCESS_CON`, the copy runs one byte
past the data field and the Length byte wraps to 0, so an empty datagram is
handed to the transport; with 256 bytes the length is narrowed to 0 and an
eight-byte PUBLISH carrying the first byte is sent. -/
theorem mqtt_sn_pub_oversize_accepted :
    (mqtt_sn_pub_send scenario_ready topic_a (List.replicate 249 120) false 0).1 = .FAIL_CON ∧
      (mqtt_sn_pub scenario_ready topic_a (List.replicate 249 120) false 0).1 = .SUCCESS_CON ∧
      (mqtt_sn_pub scenario_ready topic_a (List.replicate 249 120) false 0).2.sent =
        scenario_ready.sent ∧
      (mqtt_sn_pub scenario_ready topic_a (List.replicate 248 120) false 0).1 = .SUCCESS_CON ∧
      (mqtt_sn_pub scenario_ready topic_a (List.replicate 248 120) false 0).2.sent =
        scenario_ready.sent ++ [[]] ∧
      (mqtt_sn_pub scenario_ready topic_a (List.replicate 248 120) false 0).2.out_of_bounds
        = true ∧
      (mqtt_sn_pub scenario_ready topic_a (List.replicate 256 120) false 0).1 = .SUCCESS_CON ∧
      (mqtt_sn_pub scenario_ready topic_a (List.replicate 256 120) false 0).2.sent =
        scenario_ready.sent ++ [[8, 0x0C, 0, 0, 5, 0, 0, 120]] := by
  decide

/-! ## Subscribing -/

theorem not_wildcard (topic : CStr) (h : 35 ∉ topic ∧ 43 ∉ topic) :
    (topic.contains 35 || topic.contains 43) = false := by
  simp [h.1, h.2]

theorem verf_hist_sub_fail (st : State) (topic : CStr) (k : Nat) (hk : k < MAX_TOPIC_USED)
    (hname : (st.g_topic_bind k).topic_name = some topic)
    (hlow : ∀ j, j < k → (st.g_topic_bind j).topic_name ≠ some topic)
    (hsub : (st.g_topic_bind k).subscribed ≠ 0) :
    verf_hist_sub st topic = (.FAIL_CON, st) := by
  have hscan := scan_name_lowest st topic k hk hname hlow
  simp [verf_hist_sub, hscan, reg_touch, hk, hsub]

/-! ## Frame lemmas for the primitive operations -/

@[simp]
theorem head_touch_bind (st : State) : (head_touch st).g_topic_bind = st.g_topic_bind := by
  unfold head_touch; split <;> rfl

@[simp]
theorem head_touch_queue (st : State) : (head_touch st).mqtt_queue = st.mqtt_queue := by
  unfold head_touch; split <;> rfl

@[simp]
theorem head_touch_status (st : State) : (head_touch st).mqtt_status = st.mqtt_status := by
  unfold head_touch; split <;> rfl

@[simp]
theorem head_touch_events (st : State) : (head_touch st).events = st.events := by
  unfold head_touch; split <;> rfl

@[simp]
theorem head_touch_sent (st : State) : (head_touch st).sent = st.sent := by
  unfold head_touch; split <;> rfl

@[simp]
theorem head_type_head_touch (st : State) : head_type (head_touch st) = head_type st := by
  simp [head_type]

theorem head_touch_cons (st : State) (t : mqtt_sn_task_t) (rest : List mqtt_sn_task_t)
    (h : st.mqtt_queue = t :: rest) : head_touch st = st := by
  unfold head_touch; rw [h]

@[simp]
theorem delete_queue_bind (st : State) :
    (mqtt_sn_delete_queue st).g_topic_bind = st.g_topic_bind := by
  unfold mqtt_sn_delete_queue; split <;> rfl

@[simp]
theorem delete_queue_status (st : State) :
    (mqtt_sn_delete_queue st).mqtt_status = st.mqtt_status := by
  unfold mqtt_sn_delete_queue; split <;> rfl

@[simp]
theorem delete_queue_events (st : State) :
    (mqtt_sn_delete_queue st).events = st.events := by
  unfold mqtt_sn_delete_queue; split <;> rfl

@[simp]
theorem delete_queue_sent (st : State) :
    (mqtt_sn_delete_queue st).sent = st.sent := by
  unfold mqtt_sn_delete_queue; split <;> rfl

theorem delete_queue_cons (st : State) (t : mqtt_sn_task_t) (rest : List mqtt_sn_task_t)
    (h : st.mqtt_queue = t :: rest) : (mqtt_sn_delete_queue st).mqtt_queue = rest := by
  unfold mqtt_sn_delete_queue
  rw [h]
  cases rest <;> rfl

@[simp]
theorem reg_write_queue (st : State) (i : Nat) (f : short_topics_t → short_topics_t) :
    (reg_write st i f).mqtt_queue = st.mqtt_queue := by
  unfold reg_write; split <;> rfl

@[simp]
theorem reg_write_status (st : State) (i : Nat) (f : short_topics_t → short_topics_t) :
    (reg_write st i f).mqtt_status = st.mqtt_status := by
  unfold reg_write; split <;> rfl

@[simp]
theorem reg_write_events (st : State) (i : Nat) (f : short_topics_t → short_topics_t) :
    (reg_write st i f).events = st.events := by
  unfold reg_write; split <;> rfl

@[simp]
theorem reg_write_sent (st : State) (i : Nat) (f : short_topics_t → short_topics_t) :
    (reg_write st i f).sent = st.sent := by
  unfold reg_write; split <;> rfl

theorem reg_write_bind (st : State) (i : Nat) (f : short_topics_t → short_topics_t)
    (h : i < MAX_TOPIC_USED) :
    (reg_write st i f).g_topic_bind = Function.update st.g_topic_bind i (f (st.g_topic_bind i)) := by
  simp [reg_write, h]

@[simp]
theorem process_post_bind (st : State) (ev : process_event_t) :
    (process_post st ev).g_topic_bind = st.g_topic_bind := rfl

@[simp]
theorem process_post_queue (st : State) (ev : process_event_t) :
    (process_post st ev).mqtt_queue = st.mqtt_queue := rfl

@[simp]
theorem process_post_status (st : State) (ev : process_event_t) :
    (process_post st ev).mqtt_status = st.mqtt_status := rfl

@[simp]
theorem process_post_sent (st : State) (ev : process_event_t) :
    (process_post st ev).sent = st.sent := rfl

@[simp]
theorem process_post_events (st : State) (ev : process_event_t) :
    (process_post st ev).events = st.events ++ [ev] := rfl

set_option maxRecDepth 100000 in
/-- C9, the code on a full queue (101 tasks, where `mqtt_sn_insert_queue`
returns `FAIL_CON`): `mqtt_sn_sub` returns `SUCCESS_CON` both for the wildcard
topic "/b/#" and for the plain registered topic "/a"; nothing is queued, yet the
wildcard scratch buffer is overwritten ("/a/#" becomes "/b/#") and slot 1 of
"/a" goes from sub_state 0 to 1. -/
theorem mqtt_sn_sub_full_queue_reports_success :
    scenario_full.mqtt_queue.length = 101 ∧
      (mqtt_sn_insert_queue scenario_full
        { msg_type_q := MQTT_SN_TYPE_SUB_WILDCARD, short_topic := none, id_task := 0,
          qos_level := some 0, retain := none }).1 = .FAIL_CON ∧
      (mqtt_sn_sub scenario_full topic_wild_b 0).1 = .SUCCESS_CON ∧
      (mqtt_sn_sub scenario_full topic_wild_b 0).2.mqtt_queue = scenario_full.mqtt_queue ∧
      scenario_full.topic_temp_wildcard = some topic_wild ∧
      (mqtt_sn_sub scenario_full topic_wild_b 0).2.topic_temp_wildcard = some topic_wild_b ∧
      (mqtt_sn_sub scenario_full topic_a 0).1 = .SUCCESS_CON ∧
      (mqtt_sn_sub scenario_full topic_a 0).2.mqtt_queue = scenario_full.mqtt_queue ∧
      (scenario_full.g_topic_bind 1).subscribed = 0 ∧
      ((mqtt_sn_sub scenario_full topic_a 0).2.g_topic_bind 1).subscribed = 1 := by
  decide

/-! ## Inbound PUBLISH and SUBACK -/

theorem copy_bytes_eq (data : Nat → Nat) (off : Nat) (p : List Nat)
    (h : ∀ i, i < p.length → data (i + off) = p.getD i 0) (hb : ∀ b ∈ p, b < 256) :
    copy_bytes data off p.length = p := by
  apply List.ext_getElem
  · simp [copy_bytes]
  · intro i h1 h2
    have hi : p[i] < 256 := hb _ (List.getElem_mem h2)
    simp [copy_bytes, byte, h i h2, List.getElem?_eq_getElem h2, Nat.mod_eq_of_lt hi]

/-- C1 (as amended): the parser takes the low byte of the TopicId as the index
of the registry slot. When slot `t` (1 ≤ t < MAX_TOPIC_USED) holds the name `n`,
an inbound PUBLISH with TopicId `t` and data `p` calls the user callback once
with `n` and the bytes of `p`, and changes nothing else: status, queue,
registry, events and packets sent are as before. -/
theorem publish_delivered_by_index (st : State) (data : Nat → Nat) (flags t msg_id : Nat)
    (n : CStr) (p : List Nat) (ht1 : 1 ≤ t) (ht : t < MAX_TOPIC_USED)
    (hname : (st.g_topic_bind t).topic_name = some n) (hp : p.length ≤ 248)
    (hbytes : ∀ b ∈ p, b < 256)
    (hdata : ∀ i, i < (publish_packet flags t msg_id p).length →
      data i = (publish_packet flags t msg_id p).getD i 0) :
    mqtt_sn_recv_parse st data =
      { st with
        delivered := st.delivered ++
          [{ cb := st.callback_mqtt, topic := some n, message := p }] } := by
  have ht256 : t % 256 = t := Nat.mod_eq_of_lt (by simp [MAX_TOPIC_USED] at ht; omega)
  have h0 : byte data 0 = 7 + p.length := by
    have := hdata 0 (by simp [publish_packet, uip_htons])
    simp [publish_packet] at this
    simp [byte, this]; omega
  have h1 : byte data 1 = MQTT_SN_TYPE_PUBLISH := by
    have := hdata 1 (by simp [publish_packet, uip_htons])
    simp [publish_packet] at this
    simp [byte, this, MQTT_SN_TYPE_PUBLISH]
  have h4 : byte data 4 = t := by
    have := hdata 4 (by simp [publish_packet, uip_htons])
    simp [publish_packet, uip_htons] at this
    simp [byte, this, ht256]
  have hcopy : copy_bytes data 7 p.length = p := by
    apply copy_bytes_eq _ _ _ _ hbytes
    intro i hi
    have := hdata (i + 7) (by simp [publish_packet, uip_htons]; omega)
    simpa [publish_packet, uip_htons] using this
  have hlen : (7 + p.length + 256 - 7) % 256 = p.length := by
    rw [show 7 + p.length + 256 - 7 = p.length + 256 by omega, Nat.add_mod_right]
    exact Nat.mod_eq_of_lt (by omega)
  have hsmall : ¬ p.length ≥ MQTT_SN_MAX_PACKET_LENGTH := by
    simp [MQTT_SN_MAX_PACKET_LENGTH]; omega
  unfold mqtt_sn_recv_parse
  simp only [h0, h1, h4, hcopy, hlen, hsmall, reg_touch, ht, hname, MQTT_SN_TYPE_PUBLISH,
    MQTT_SN_TYPE_SUBACK, MQTT_SN_TYPE_CONNACK, MQTT_SN_TYPE_REGACK, MQTT_SN_TYPE_PUBACK,
    MQTT_SN_TYPE_PINGRESP, MQTT_SN_TYPE_PINGREQ]
  simp [hname]

/-- C1 (as amended), with "/a" in slot 1: the PUBLISH with TopicId 1 and data
"hi" is delivered as ("/a", "hi"). -/
theorem publish_delivered_by_index_witness :
    1 ≤ 1 ∧ 1 < MAX_TOPIC_USED ∧ (scenario_ready.g_topic_bind 1).topic_name = some topic_a ∧
      message_hi.length ≤ 248 ∧ (∀ b ∈ message_hi, b < 256) ∧
      (∀ i, i < (publish_packet 0 1 0 message_hi).length →
        buffer_of (publish_packet 0 1 0 message_hi) i =
          (publish_packet 0 1 0 message_hi).getD i 0) ∧
      mqtt_sn_recv_parse scenario_ready (buffer_of (publish_packet 0 1 0 message_hi)) =
        { scenario_ready with
          delivered := scenario_ready.delivered ++
            [{ cb := scenario_ready.callback_mqtt, topic := some topic_a,
               message := message_hi }] } :=
  ⟨by decide, by decide, by decide, by decide, by decide, fun _ _ => rfl,
    publish_delivered_by_index scenario_ready (buffer_of (publish_packet 0 1 0 message_hi)) 0 1 0
      topic_a message_hi (by decide) (by decide) (by decide) (by decide) (by decide)
      (fun _ _ => rfl)⟩

/-- C1, counterexample (scenario 4 of the spec): "/a" is bound to id 5 in slot 1,
and PUBLISH with Flags 0, TopicId 5, MsgId 0 and data "hi" arrives. The callback
is called with the name pointer of slot 5, which is null, not with "/a". -/
theorem publish_delivery_counterexample :
    scenario_ready.g_topic_bind 1 =
        { topic_name := some topic_a, short_topic_id := 5, subscribed := 0 } ∧
      (mqtt_sn_recv_parse scenario_ready (buffer_of (publish_packet 0 5 0 message_hi))).delivered =
        [{ cb := 1, topic := none, message := message_hi }] ∧
      (mqtt_sn_recv_parse scenario_ready (buffer_of (publish_packet 0 5 0 message_hi))).delivered ≠
        scenario_ready.delivered ++ [{ cb := 1, topic := some topic_a, message := message_hi }] := by
  decide

/-- C10 (as amended): the parser takes the low byte of the TopicId as the index
of the registry slot. When slot `t` (t ≠ 0, t < MAX_TOPIC_USED) has sub_state 1
(pending), an inbound SUBACK with return code ACCEPTED and TopicId `t` sets the
sub_state of slot `t` to 2 (subscribed), keeps its name and id, and changes no
other slot. -/
theorem suback_marks_indexed_slot (st : State) (data : Nat → Nat) (flags t msg_id : Nat)
    (ht0 : t ≠ 0) (ht : t < MAX_TOPIC_USED) (hpend : (st.g_topic_bind t).subscribed = 1)
    (hdata : ∀ i, i < (suback_packet flags t msg_id ACCEPTED).length →
      data i = (suback_packet flags t msg_id ACCEPTED).getD i 0) :
    (mqtt_sn_recv_parse st data).g_topic_bind t = { st.g_topic_bind t with subscribed := 2 } ∧
      (mqtt_sn_recv_parse st data).g_topic_bind t ≠ st.g_topic_bind t ∧
      ∀ j, j ≠ t → (mqtt_sn_recv_parse st data).g_topic_bind j = st.g_topic_bind j := by
  have ht256 : t % 256 = t := Nat.mod_eq_of_lt (by simp [MAX_TOPIC_USED] at ht; omega)
  have h1 : byte data 1 = MQTT_SN_TYPE_SUBACK := by
    have := hdata 1 (by simp [suback_packet, uip_htons])
    simp [suback_packet] at this
    simp [byte, this, MQTT_SN_TYPE_SUBACK]
  have h4 : byte data 4 = t := by
    have := hdata 4 (by simp [suback_packet, uip_htons])
    simp [suback_packet, uip_htons] at this
    simp [byte, this, ht256]
  have h7 : byte data 7 = ACCEPTED := by
    have := hdata 7 (by simp [suback_packet, uip_htons])
    simp [suback_packet, uip_htons] at this
    simp [byte, this, ACCEPTED]
  have hbind : (mqtt_sn_recv_parse st data).g_topic_bind =
      Function.update st.g_topic_bind t { st.g_topic_bind t with subscribed := 2 } := by
    unfold mqtt_sn_recv_parse
    simp only [h1, h4, h7, MQTT_SN_TYPE_SUBACK, MQTT_SN_TYPE_CONNACK, MQTT_SN_TYPE_REGACK,
      MQTT_SN_TYPE_PUBACK, mqtt_sn_check_rc]
    simp only [Nat.reduceEqDiff, if_false, if_true, ne_eq, ht0, not_false_eq_true]
    split <;> simp [reg_write_bind _ _ _ ht]
  refine ⟨by simp [hbind], fun heq => ?_, fun j hj => by simp [hbind, Function.update_noteq hj]⟩
  have h2 := congrArg short_topics_t.subscribed heq
  simp [hbind, hpend] at h2

/-- C10 (as amended), with "/a" pending in slot 1: the SUBACK with TopicId 1
marks slot 1 subscribed and leaves the other slots alone. -/
theorem suback_marks_indexed_slot_witness :
    (1 : Nat) ≠ 0 ∧ 1 < MAX_TOPIC_USED ∧ (scenario_subscribing.g_topic_bind 1).subscribed = 1 ∧
      (∀ i, i < (suback_packet 0 1 5 ACCEPTED).length →
        buffer_of (suback_packet 0 1 5 ACCEPTED) i = (suback_packet 0 1 5 ACCEPTED).getD i 0) ∧
      (mqtt_sn_recv_parse scenario_subscribing
          (buffer_of (suback_packet 0 1 5 ACCEPTED))).g_topic_bind 1 =
        { scenario_subscribing.g_topic_bind 1 with subscribed := 2 } ∧
      (mqtt_sn_recv_parse scenario_subscribing
          (buffer_of (suback_packet 0 1 5 ACCEPTED))).g_topic_bind 1 ≠
        scenario_subscribing.g_topic_bind 1 ∧
      ∀ j, j ≠ 1 →
        (mqtt_sn_recv_parse scenario_subscribing
            (buffer_of (suback_packet 0 1 5 ACCEPTED))).g_topic_bind j =
          scenario_subscribing.g_topic_bind j :=
  ⟨by decide, by decide, by decide, fun _ _ => rfl,
    suback_marks_indexed_slot scenario_subscribing (buffer_of (suback_packet 0 1 5 ACCEPTED)) 0 1 5
      (by decide) (by decide) (by decide) (fun _ _ => rfl)⟩

/-- C10, counterexample: slot 1 holds "/a" bound to id 5 with sub_state 1
(pending) and the SUBSCRIBE for it was sent. The SUBACK with return code
ACCEPTED and TopicId 5 leaves slot 1 pending and instead sets the sub_state of
slot 5, an unused slot, from 0 to 2. -/
theorem suback_marks_slot_counterexample :
    scenario_subscribing.g_topic_bind 1 =
        { topic_name := some topic_a, short_topic_id := 5, subscribed := 1 } ∧
      scenario_subscribing.mqtt_status = .MQTTSN_WAITING_SUBACK ∧
      scenario_subscribing.sent = scenario_ready.sent ++ [[7, 0x12, 1, 0, 5, 0, 5]] ∧
      (mqtt_sn_recv_parse scenario_subscribing
          (buffer_of (suback_packet 0 5 5 ACCEPTED))).g_topic_bind 1 =
        { topic_name := some topic_a, short_topic_id := 5, subscribed := 1 } ∧
      scenario_subscribing.g_topic_bind 5 =
        { topic_name := none, short_topic_id := 0xFF, subscribed := 0 } ∧
      (mqtt_sn_recv_parse scenario_subscribing
          (buffer_of (suback_packet 0 5 5 ACCEPTED))).g_topic_bind 5 =
        { topic_name := none, short_topic_id := 0xFF, subscribed := 2 } := by
  decide

/-! ## The happy path: connect and register -/

theorem run_events_nil (n : Nat) (st : State) (h : st.events = []) : run_events n st = st := by
  cases n with
  | zero => rfl
  | succ n => simp [run_events, h]

theorem run_events_cons (n : Nat) (st : State) (ev : process_event_t)
    (rest : List process_event_t) (h : st.events = ev :: rest) :
    run_events (n + 1) st = run_events n (mqtt_sn_main ev { st with events := rest }) := by
  simp [run_events, h]

theorem main_run_task_register (st : State) (task : mqtt_sn_task_t) (q : List mqtt_sn_task_t)
    (hq : st.mqtt_queue = task :: q) (ht : task.msg_type_q = MQTT_SN_TYPE_REGISTER) :
    mqtt_sn_main .mqtt_event_run_task st = process_post st .mqtt_event_register := by
  simp [mqtt_sn_main, mqtt_sn_main_connect, mqtt_sn_main_tasks, mqtt_sn_main_run_task,
    head_touch_cons st task q hq, head_type, hq, ht, MQTT_SN_TYPE_REGISTER, MQTT_SN_TYPE_CONNECT,
    MQTT_SN_TYPE_PUBLISH, MQTT_SN_TYPE_SUBSCRIBE]

theorem main_register_send (st : State) (task : mqtt_sn_task_t) (q : List mqtt_sn_task_t)
    (k : Nat) (topic : CStr) (hq : st.mqtt_queue = task :: q)
    (ht : task.msg_type_q = MQTT_SN_TYPE_REGISTER)
    (hscan : scan (id_unused st.g_topic_bind) (MAX_TOPIC_USED - 1) 1 = k) (hk : k < MAX_TOPIC_USED)
    (hname : (st.g_topic_bind k).topic_name = some topic)
    (hlen : topic.length ≤ MQTT_SN_MAX_TOPIC_LENGTH) :
    mqtt_sn_main .mqtt_event_register st =
      { st with
        sent := st.sent ++ [[6 + topic.length, 0x0A, 0, 0] ++ uip_htons k ++ topic]
        mqtt_status := .MQTTSN_WAITING_REGACK
        mqtt_time_register := ctimer_set st.mqtt_time_register MQTT_SN_TIMEOUT
        g_tries_send := 0 } := by
  have h249 : topic.length ≤ 249 := by simpa [MQTT_SN_MAX_TOPIC_LENGTH, MQTT_SN_MAX_PACKET_LENGTH] using hlen
  have hmod : (6 + topic.length) % 256 = 6 + topic.length := Nat.mod_eq_of_lt (by omega)
  have htake : ∀ (l : List Nat), l.length = 6 →
      List.take (6 + topic.length) (l ++ topic ++ [0]) = l ++ topic := by
    intro l hl
    rw [List.take_append_of_le_length (by simp [hl])]
    exact List.take_of_length_le (by simp [hl])
  simp only [mqtt_sn_main, mqtt_sn_main_connect, mqtt_sn_main_tasks]
  simp only [reduceCtorEq, false_and, if_false, if_true, head_touch_cons st task q hq, head_type,
    hq, List.head?_cons, Option.map_some', ht]
  simp only [mqtt_sn_reg_send, hscan, reg_touch, hk, if_true, hname, Nat.not_lt.mpr hlen,
    gt_iff_lt, if_false, head_touch_cons st task q hq, head_type, hq, List.head?_cons,
    Option.map_some', ht, ne_eq, not_true_eq_false, simple_udp_send, hmod]
  have := htake ([6 + topic.length, MQTT_SN_TYPE_REGISTER] ++ uip_htons 0 ++ uip_htons k)
    (by simp [uip_htons])
  simp only [List.append_assoc] at this ⊢
  rw [this]
  simp [uip_htons, MQTT_SN_TYPE_REGISTER]

theorem run_events_post (n : Nat) (st : State) (ev : process_event_t) (h : st.events = []) :
    run_events (n + 1) (process_post st ev) = run_events n (mqtt_sn_main ev st) := by
  have h1 : (process_post st ev).events = ev :: [] := by simp [h]
  rw [run_events_cons n _ ev [] h1]
  congr 2
  cases st
  simp_all [process_post]

theorem parse_regack (st : State) (t i : Nat) (task : mqtt_sn_task_t) (q : List mqtt_sn_task_t)
    (hq : st.mqtt_queue = task :: q) (ht : task.msg_type_q = MQTT_SN_TYPE_REGISTER)
    (hst : st.mqtt_status = .MQTTSN_WAITING_REGACK) (hi : i < MAX_TOPIC_USED) (ht256 : t < 256) :
    mqtt_sn_recv_parse st (buffer_of (regack_packet t i ACCEPTED)) =
      process_post (reg_write st i (fun s => { s with short_topic_id := t }))
        .mqtt_event_regack := by
  have hi256 : i % 256 = i := Nat.mod_eq_of_lt (by simp [MAX_TOPIC_USED] at hi; omega)
  have h1 : byte (buffer_of (regack_packet t i ACCEPTED)) 1 = 0x0B := by
    simp [byte, buffer_of, regack_packet, MQTT_SN_TYPE_REGACK]
  have h3 : byte (buffer_of (regack_packet t i ACCEPTED)) 3 = t := by
    simp [byte, buffer_of, regack_packet, uip_htons, Nat.mod_eq_of_lt ht256]
  have h5 : byte (buffer_of (regack_packet t i ACCEPTED)) 5 = i := by
    simp [byte, buffer_of, regack_packet, uip_htons, hi256]
  have h6 : byte (buffer_of (regack_packet t i ACCEPTED)) 6 = 0 := by
    simp [byte, buffer_of, regack_packet, uip_htons, ACCEPTED]
  have hq2 : (reg_write st i (fun s => { s with short_topic_id := t })).mqtt_queue = task :: q := by
    simp [hq]
  generalize buffer_of (regack_packet t i ACCEPTED) = data at h1 h3 h5 h6 ⊢
  unfold mqtt_sn_recv_parse
  simp only [h1, h3, h5, h6, MQTT_SN_TYPE_CONNACK, MQTT_SN_TYPE_REGACK, mqtt_sn_check_rc, ACCEPTED,
    hi, head_type, hq2, reg_write_status, hst]
  simp [ht, hq, hst, head_touch_cons _ task q hq2]

theorem main_regack_more (st : State) (task task2 : mqtt_sn_task_t) (q : List mqtt_sn_task_t)
    (hq : st.mqtt_queue = task :: task2 :: q) (ht : task.msg_type_q = MQTT_SN_TYPE_REGISTER) :
    mqtt_sn_main .mqtt_event_regack st =
      process_post
        { mqtt_sn_delete_queue st with
          mqtt_time_register := ctimer_stop (mqtt_sn_delete_queue st).mqtt_time_register }
        .mqtt_event_run_task := by
  have hd : (mqtt_sn_delete_queue st).mqtt_queue = task2 :: q := delete_queue_cons st _ _ hq
  simp only [mqtt_sn_main, mqtt_sn_main_connect, mqtt_sn_main_tasks]
  simp only [reduceCtorEq, false_and, if_false, if_true, head_touch_cons st task _ hq, head_type,
    hq, List.head?_cons, Option.map_some', ht, mqtt_sn_check_empty, hd]
  simp

theorem main_regack_last (st : State) (task : mqtt_sn_task_t)
    (hq : st.mqtt_queue = [task]) (ht : task.msg_type_q = MQTT_SN_TYPE_REGISTER) :
    mqtt_sn_main .mqtt_event_regack st =
      process_post
        { mqtt_sn_delete_queue st with
          mqtt_time_register := ctimer_stop (mqtt_sn_delete_queue st).mqtt_time_register
          mqtt_status := .MQTTSN_TOPIC_REGISTERED }
        .mqtt_event_connected := by
  have hd : (mqtt_sn_delete_queue st).mqtt_queue = [] := delete_queue_cons st _ _ hq
  simp only [mqtt_sn_main, mqtt_sn_main_connect, mqtt_sn_main_tasks]
  simp only [reduceCtorEq, false_and, if_false, if_true, head_touch_cons st task _ hq, head_type,
    hq, List.head?_cons, Option.map_some', ht, mqtt_sn_check_empty, hd]
  simp

theorem main_connected (st : State) : mqtt_sn_main .mqtt_event_connected st = st := by
  simp [mqtt_sn_main, mqtt_sn_main_connect, mqtt_sn_main_tasks]

/-- The first unused slot from 1 on, when the slots below `k` are bound. -/
theorem scan_unused (g : Nat → short_topics_t) (k : Nat) (h1 : 1 ≤ k) (hk : k < MAX_TOPIC_USED)
    (hbound : ∀ j, 1 ≤ j → j < k → (g j).short_topic_id ≠ 0xFF)
    (hfree : (g k).short_topic_id = 0xFF) :
    scan (id_unused g) (MAX_TOPIC_USED - 1) 1 = k :=
  scan_first _ _ _ _ h1 (by simp [MAX_TOPIC_USED] at hk ⊢; omega) (by simp [id_unused, hfree])
    (fun j h2 h3 => by simpa [id_unused] using hbound j h2 h3)

/-- An accepted REGACK for slot `i` while a further REGISTER task waits behind
the head: the id is stored, the head is removed and the REGISTER for the next
unused slot `i + 1` is sent. -/
theorem receive_regack_more (st : State) (t i : Nat) (topic : CStr) (task task2 : mqtt_sn_task_t)
    (q : List mqtt_sn_task_t) (hq : st.mqtt_queue = task :: task2 :: q)
    (ht : task.msg_type_q = MQTT_SN_TYPE_REGISTER) (ht2 : task2.msg_type_q = MQTT_SN_TYPE_REGISTER)
    (hst : st.mqtt_status = .MQTTSN_WAITING_REGACK) (hev : st.events = []) (h1 : 1 ≤ i)
    (hi : i + 1 < MAX_TOPIC_USED) (ht1 : t ≤ 254)
    (hbound : ∀ j, 1 ≤ j → j < i → (st.g_topic_bind j).short_topic_id ≠ 0xFF)
    (hfree : (st.g_topic_bind (i + 1)).short_topic_id = 0xFF)
    (hname : (st.g_topic_bind (i + 1)).topic_name = some topic)
    (hlen : topic.length ≤ MQTT_SN_MAX_TOPIC_LENGTH) :
    receive st (regack_packet t i ACCEPTED) =
      { mqtt_sn_delete_queue (reg_write st i (fun s => { s with short_topic_id := t })) with
        sent := st.sent ++ [[6 + topic.length, 0x0A, 0, 0] ++ uip_htons (i + 1) ++ topic]
        mqtt_status := .MQTTSN_WAITING_REGACK
        mqtt_time_register := ctimer_set st.mqtt_time_register MQTT_SN_TIMEOUT
        g_tries_send := 0 } := by
  have hi2 : i < MAX_TOPIC_USED := by omega
  have hev1 : (reg_write st i (fun s => { s with short_topic_id := t })).events = [] := by
    simp [hev]
  have hq1 : (reg_write st i (fun s => { s with short_topic_id := t })).mqtt_queue =
      task :: task2 :: q := by simp [hq]
  have hq2 := delete_queue_cons _ _ _ hq1
  have hb : (reg_write st i (fun s => { s with short_topic_id := t })).g_topic_bind =
      Function.update st.g_topic_bind i { st.g_topic_bind i with short_topic_id := t } :=
    reg_write_bind _ _ _ hi2
  have hscan : scan (id_unused (Function.update st.g_topic_bind i
      { st.g_topic_bind i with short_topic_id := t })) (MAX_TOPIC_USED - 1) 1 = i + 1 := by
    apply scan_unused _ _ (by omega) hi
    · intro j hj1 hj2
      by_cases hji : j = i
      · subst hji; simp; omega
      · simpa [Function.update_noteq hji] using hbound j hj1 (by omega)
    · simpa [Function.update_noteq (show i + 1 ≠ i by omega)] using hfree
  unfold receive mqtt_sn_udp_rec_cb
  rw [parse_regack st t i task _ hq ht hst hi2 (by omega)]
  rw [show (8 : Nat) = 7 + 1 from rfl, run_events_post _ _ _ hev1,
    main_regack_more _ task task2 q hq1 ht]
  rw [show (7 : Nat) = 6 + 1 from rfl, run_events_post _ _ _ (by simp [hev]),
    main_run_task_register _ task2 q (by simpa using hq2) ht2]
  rw [show (6 : Nat) = 5 + 1 from rfl, run_events_post _ _ _ (by simp [hev]),
    main_register_send _ task2 q (i + 1) topic (by simpa using hq2) ht2
      (by simpa [hb] using hscan) hi
      (by simpa [hb, Function.update_noteq (show i + 1 ≠ i by omega)] using hname) hlen]
  rw [run_events_nil _ _ (by simp [hev])]
  simp [ctimer_set]

/-- An accepted REGACK for slot `i` while the head is the last task: the id is
stored, the queue becomes empty and the status `MQTTSN_TOPIC_REGISTERED`. -/
theorem receive_regack_last (st : State) (t i : Nat) (task : mqtt_sn_task_t)
    (hq : st.mqtt_queue = [task]) (ht : task.msg_type_q = MQTT_SN_TYPE_REGISTER)
    (hst : st.mqtt_status = .MQTTSN_WAITING_REGACK) (hev : st.events = [])
    (hi : i < MAX_TOPIC_USED) (ht1 : t ≤ 254) :
    receive st (regack_packet t i ACCEPTED) =
      { mqtt_sn_delete_queue (reg_write st i (fun s => { s with short_topic_id := t })) with
        mqtt_time_register :=
          ctimer_stop
            (mqtt_sn_delete_queue
              (reg_write st i (fun s => { s with short_topic_id := t }))).mqtt_time_register
        mqtt_status := .MQTTSN_TOPIC_REGISTERED } := by
  have hev1 : (reg_write st i (fun s => { s with short_topic_id := t })).events = [] := by
    simp [hev]
  have hq1 : (reg_write st i (fun s => { s with short_topic_id := t })).mqtt_queue = [task] := by
    simp [hq]
  unfold receive mqtt_sn_udp_rec_cb
  rw [parse_regack st t i task _ hq ht hst hi (by omega)]
  rw [show (8 : Nat) = 7 + 1 from rfl, run_events_post _ _ _ hev1,
    main_regack_last _ task hq1 ht]
  rw [show (7 : Nat) = 6 + 1 from rfl, run_events_post _ _ _ (by simp [hev]), main_connected]
  rw [run_events_nil _ _ (by simp [hev])]

/-- The loop of accepted REGACKs, from the state in which the REGISTER for
slot `i` is in flight and the names `rest` wait in the slots after it. -/
theorem receive_regacks_loop (rest : List CStr) :
    ∀ (ids : List Nat) (i : Nat) (st : State),
      ids.length = rest.length + 1 → (∀ t ∈ ids, t ≤ 254) →
      (∀ topic ∈ rest, topic.length ≤ MQTT_SN_MAX_TOPIC_LENGTH) →
      1 ≤ i → i + rest.length < MAX_TOPIC_USED →
      st.mqtt_status = .MQTTSN_WAITING_REGACK → st.events = [] →
      st.mqtt_queue.length = rest.length + 1 →
      (∀ x ∈ st.mqtt_queue, x.msg_type_q = MQTT_SN_TYPE_REGISTER) →
      (∀ j, 1 ≤ j → j < i → (st.g_topic_bind j).short_topic_id ≠ 0xFF) →
      (∀ k, k < rest.length →
        (st.g_topic_bind (i + 1 + k)).topic_name = some (rest.getD k []) ∧
          (st.g_topic_bind (i + 1 + k)).short_topic_id = 0xFF) →
      (receive_regacks ids i st).sent = st.sent ++ expected_registers rest (i + 1) ∧
        (receive_regacks ids i st).mqtt_status = .MQTTSN_TOPIC_REGISTERED ∧
        (receive_regacks ids i st).mqtt_queue = [] ∧
        (receive_regacks ids i st).events = [] ∧
        (∀ j, ((receive_regacks ids i st).g_topic_bind j).topic_name =
          (st.g_topic_bind j).topic_name) ∧
        (∀ j, j < i → (receive_regacks ids i st).g_topic_bind j = st.g_topic_bind j) ∧
        (∀ k, k < ids.length →
          ((receive_regacks ids i st).g_topic_bind (i + k)).short_topic_id = ids.getD k 0) := by
  induction rest with
  | nil =>
    intro ids i st hids hrange _ h1 hi hst hev hql hqt _ _
    obtain ⟨t, rfl⟩ : ∃ t, ids = [t] := by
      match ids, hids with
      | [t], _ => exact ⟨t, rfl⟩
    obtain ⟨task, hq⟩ : ∃ task, st.mqtt_queue = [task] := by
      match hm : st.mqtt_queue, hql with
      | [task], _ => exact ⟨task, rfl⟩
    have ht : task.msg_type_q = MQTT_SN_TYPE_REGISTER := hqt task (by simp [hq])
    have hi2 : i < MAX_TOPIC_USED := by simpa using hi
    simp only [receive_regacks]
    rw [receive_regack_last st t i task hq ht hst hev hi2 (hrange t (by simp))]
    have hq1 : (reg_write st i (fun s => { s with short_topic_id := t })).mqtt_queue = [task] := by
      simp [hq]
    refine ⟨by simp [expected_registers], rfl, by simpa using delete_queue_cons _ _ _ hq1,
      by simp [hev], fun j => ?_, fun j hj => ?_, fun k hk => ?_⟩
    · simp only [delete_queue_bind, reg_write_bind _ _ _ hi2]
      by_cases hji : j = i
      · subst hji; simp
      · simp [Function.update_noteq hji]
    · simp [reg_write_bind _ _ _ hi2, Function.update_noteq (Nat.ne_of_lt hj)]
    · have hk0 : k = 0 := by simpa using hk
      subst hk0
      simp [reg_write_bind _ _ _ hi2]
  | cons topic rest ih =>
    intro ids i st hids hrange hlen h1 hi hst hev hql hqt hbound hnext
    obtain ⟨t, ids2, rfl⟩ : ∃ t ids2, ids = t :: ids2 := by
      match ids, hids with
      | t :: ids2, _ => exact ⟨t, ids2, rfl⟩
    obtain ⟨task, task2, q, hq⟩ : ∃ task task2 q, st.mqtt_queue = task :: task2 :: q := by
      match hm : st.mqtt_queue, hql with
      | task :: task2 :: q, _ => exact ⟨task, task2, q, rfl⟩
    have ht : task.msg_type_q = MQTT_SN_TYPE_REGISTER := hqt task (by simp [hq])
    have ht2 : task2.msg_type_q = MQTT_SN_TYPE_REGISTER := hqt task2 (by simp [hq])
    have hi1 : i + 1 < MAX_TOPIC_USED := by simp at hi; omega
    have hi2 : i < MAX_TOPIC_USED := by omega
    have hn0 := hnext 0 (by simp)
    have hstep := receive_regack_more st t i topic task task2 q hq ht ht2 hst hev h1 hi1
      (hrange t (by simp)) hbound (by simpa using hn0.2) (by simpa using hn0.1)
      (hlen topic (by simp))
    have hq1 : (reg_write st i (fun s => { s with short_topic_id := t })).mqtt_queue =
        task :: task2 :: q := by simp [hq]
    have hbind : (receive st (regack_packet t i ACCEPTED)).g_topic_bind =
        Function.update st.g_topic_bind i { st.g_topic_bind i with short_topic_id := t } := by
      rw [hstep]; simp [reg_write_bind _ _ _ hi2]
    have hqueue : (receive st (regack_packet t i ACCEPTED)).mqtt_queue = task2 :: q := by
      rw [hstep]; simpa using delete_queue_cons _ _ _ hq1
    have hsent : (receive st (regack_packet t i ACCEPTED)).sent =
        st.sent ++ [[6 + topic.length, 0x0A, 0, 0] ++ uip_htons (i + 1) ++ topic] := by
      rw [hstep]
    have ih2 := ih ids2 (i + 1) (receive st (regack_packet t i ACCEPTED))
      (by simpa using hids) (fun x hx => hrange x (by simp [hx]))
      (fun x hx => hlen x (by simp [hx])) (by omega) (by simp at hi ⊢; omega)
      (by rw [hstep]) (by rw [hstep]; simp [hev])
      (by rw [hqueue]; simp [hq] at hql; simpa using hql)
      (fun x hx => hqt x (by rw [hqueue] at hx; simp [hq]; right; simpa using hx))
      (fun j hj1 hj2 => by
        rw [hbind]
        by_cases hji : j = i
        · subst hji
          have := hrange t (by simp)
          simp; omega
        · simpa [Function.update_noteq hji] using hbound j hj1 (by omega))
      (fun k hk => by
        rw [hbind]
        have := hnext (k + 1) (by simpa using hk)
        rw [Function.update_noteq (by omega)]
        simpa [show i + 1 + (k + 1) = i + 1 + 1 + k by omega] using this)
    simp only [receive_regacks]
    obtain ⟨c1, c2, c3, c4, c5, c6, c7⟩ := ih2
    refine ⟨?_, c2, c3, c4, fun j => ?_, fun j hj => ?_, fun k hk => ?_⟩
    · rw [c1, hsent]; simp [expected_registers]
    · rw [c5, hbind]
      by_cases hji : j = i
      · subst hji; simp
      · simp [Function.update_noteq hji]
    · rw [c6 j (by omega), hbind, Function.update_noteq (Nat.ne_of_lt hj)]
    · cases k with
      | zero =>
        have h6 := c6 i (by omega)
        simp only [Nat.add_zero, h6, hbind]
        simp
      | succ k =>
        have := c7 k (by simpa using hk)
        simpa [show i + (k + 1) = i + 1 + k by omega] using this

theorem main_run_task_connect (st : State) (task : mqtt_sn_task_t) (q : List mqtt_sn_task_t)
    (hq : st.mqtt_queue = task :: q) (ht : task.msg_type_q = MQTT_SN_TYPE_CONNECT) :
    mqtt_sn_main .mqtt_event_run_task st = process_post st .mqtt_event_connect := by
  simp [mqtt_sn_main, mqtt_sn_main_connect, mqtt_sn_main_tasks, mqtt_sn_main_run_task,
    head_touch_cons st task q hq, head_type, hq, ht]

theorem main_connect_send (st : State) (hst : st.mqtt_status = .MQTTSN_DISCONNECTED)
    (hwill : st.g_will = false)
    (hcfg : st.g_mqtt_sn_con.will_topic = none ∨ st.g_mqtt_sn_con.will_message = none)
    (hcid : st.g_mqtt_sn_con.client_id.length ≤ 23) :
    mqtt_sn_main .mqtt_event_connect st =
      { st with
        sent := st.sent ++
          [[6 + st.g_mqtt_sn_con.client_id.length, 0x04, 0x04, 0x01] ++
            uip_htons st.g_mqtt_sn_con.keep_alive ++ st.g_mqtt_sn_con.client_id]
        mqtt_status := .MQTTSN_WAITING_CONNACK
        mqtt_time_connect := ctimer_set st.mqtt_time_connect MQTT_SN_TIMEOUT_CONNECT
        g_tries_send := 0 } := by
  have hmod : (6 + st.g_mqtt_sn_con.client_id.length) % 256 =
      6 + st.g_mqtt_sn_con.client_id.length := Nat.mod_eq_of_lt (by omega)
  have hw : (st.g_mqtt_sn_con.will_topic.isSome && st.g_mqtt_sn_con.will_message.isSome) =
      false := by
    rcases hcfg with h | h <;> simp [h]
  have htake : ∀ (l : List Nat), l.length = 6 →
      List.take (6 + st.g_mqtt_sn_con.client_id.length)
        (l ++ st.g_mqtt_sn_con.client_id ++ [0]) = l ++ st.g_mqtt_sn_con.client_id := by
    intro l hl
    rw [List.take_append_of_le_length (by simp [hl])]
    exact List.take_of_length_le (by simp [hl])
  have h6 := htake ([6 + st.g_mqtt_sn_con.client_id.length, MQTT_SN_TYPE_CONNECT,
    MQTT_SN_FLAG_CLEAN, MQTT_SN_PROTOCOL_ID] ++ uip_htons st.g_mqtt_sn_con.keep_alive)
    (by simp [uip_htons])
  simp only [mqtt_sn_main, mqtt_sn_main_connect, mqtt_sn_main_tasks]
  simp only [hst, and_self, if_true, mqtt_sn_con_send, hwill, Bool.false_eq_true, if_false,
    simple_udp_send, hmod, hw, reduceCtorEq]
  simp only [List.append_assoc] at h6 ⊢
  rw [h6]
  simp [uip_htons, MQTT_SN_TYPE_CONNECT, MQTT_SN_FLAG_CLEAN, MQTT_SN_PROTOCOL_ID]

theorem parse_connack (st : State) (hst : st.mqtt_status = .MQTTSN_WAITING_CONNACK) :
    mqtt_sn_recv_parse st (buffer_of (connack_packet ACCEPTED)) =
      process_post st .mqtt_event_connack := by
  have h1 : byte (buffer_of (connack_packet ACCEPTED)) 1 = 0x05 := by decide
  have h2 : byte (buffer_of (connack_packet ACCEPTED)) 2 = 0 := by decide
  generalize buffer_of (connack_packet ACCEPTED) = data at h1 h2 ⊢
  unfold mqtt_sn_recv_parse
  simp [h1, h2, MQTT_SN_TYPE_CONNACK, mqtt_sn_check_rc, ACCEPTED, hst]

theorem main_connack (st : State) :
    mqtt_sn_main .mqtt_event_connack st =
      process_post
        { mqtt_sn_delete_queue
            { st with
              mqtt_status := .MQTTSN_CONNECTED
              mqtt_time_connect := ctimer_stop st.mqtt_time_connect } with
          mqtt_time_ping := ctimer_set
            (mqtt_sn_delete_queue
              { st with
                mqtt_status := .MQTTSN_CONNECTED
                mqtt_time_connect := ctimer_stop st.mqtt_time_connect }).mqtt_time_ping
            ((mqtt_sn_delete_queue
              { st with
                mqtt_status := .MQTTSN_CONNECTED
                mqtt_time_connect := ctimer_stop st.mqtt_time_connect }).g_mqtt_sn_con.keep_alive *
              CLOCK_SECOND) }
        .mqtt_event_run_task := by
  simp [mqtt_sn_main, mqtt_sn_main_connect, mqtt_sn_main_tasks]

/-- From a freshly seeded session (CONNECT at the head, a REGISTER behind it) to
the first REGISTER in flight: the CONNECT is sent, the broker accepts it, and
the REGISTER for slot 1 is sent. -/
theorem connect_phase (st : State) (ctask task : mqtt_sn_task_t) (q : List mqtt_sn_task_t)
    (topic : CStr) (hst : st.mqtt_status = .MQTTSN_DISCONNECTED)
    (hev : st.events = [.mqtt_event_run_task]) (hq : st.mqtt_queue = ctask :: task :: q)
    (hc : ctask.msg_type_q = MQTT_SN_TYPE_CONNECT) (ht : task.msg_type_q = MQTT_SN_TYPE_REGISTER)
    (hwill : st.g_will = false)
    (hcfg : st.g_mqtt_sn_con.will_topic = none ∨ st.g_mqtt_sn_con.will_message = none)
    (hcid : st.g_mqtt_sn_con.client_id.length ≤ 23)
    (hfree : (st.g_topic_bind 1).short_topic_id = 0xFF)
    (hname : (st.g_topic_bind 1).topic_name = some topic)
    (hlen : topic.length ≤ MQTT_SN_MAX_TOPIC_LENGTH) :
    (receive (run_events 8 st) (connack_packet ACCEPTED)).sent =
        st.sent ++
          [[6 + st.g_mqtt_sn_con.client_id.length, 0x04, 0x04, 0x01] ++
              uip_htons st.g_mqtt_sn_con.keep_alive ++ st.g_mqtt_sn_con.client_id,
            [6 + topic.length, 0x0A, 0, 0] ++ uip_htons 1 ++ topic] ∧
      (receive (run_events 8 st) (connack_packet ACCEPTED)).mqtt_status =
        .MQTTSN_WAITING_REGACK ∧
      (receive (run_events 8 st) (connack_packet ACCEPTED)).events = [] ∧
      (receive (run_events 8 st) (connack_packet ACCEPTED)).mqtt_queue = task :: q ∧
      (receive (run_events 8 st) (connack_packet ACCEPTED)).g_topic_bind = st.g_topic_bind := by
  have e1 : run_events 8 st =
      { st with
        events := []
        sent := st.sent ++
          [[6 + st.g_mqtt_sn_con.client_id.length, 0x04, 0x04, 0x01] ++
            uip_htons st.g_mqtt_sn_con.keep_alive ++ st.g_mqtt_sn_con.client_id]
        mqtt_status := .MQTTSN_WAITING_CONNACK
        mqtt_time_connect := ctimer_set st.mqtt_time_connect MQTT_SN_TIMEOUT_CONNECT
        g_tries_send := 0 } := by
    rw [show (8 : Nat) = 7 + 1 from rfl, run_events_cons 7 st _ [] hev,
      main_run_task_connect { st with events := [] } ctask (task :: q) hq hc,
      show (7 : Nat) = 6 + 1 from rfl, run_events_post _ _ _ rfl,
      main_connect_send { st with events := [] } hst hwill hcfg hcid, run_events_nil _ _ rfl]
  rw [e1]
  unfold receive mqtt_sn_udp_rec_cb
  rw [parse_connack _ rfl, show (8 : Nat) = 7 + 1 from rfl, run_events_post _ _ _ rfl,
    main_connack]
  have hd := delete_queue_cons
    { st with
      events := []
      sent := st.sent ++
        [[6 + st.g_mqtt_sn_con.client_id.length, 0x04, 0x04, 0x01] ++
          uip_htons st.g_mqtt_sn_con.keep_alive ++ st.g_mqtt_sn_con.client_id]
      mqtt_status := .MQTTSN_CONNECTED
      mqtt_time_connect := ctimer_stop (ctimer_set st.mqtt_time_connect MQTT_SN_TIMEOUT_CONNECT)
      g_tries_send := 0 } ctask (task :: q) hq
  rw [show (7 : Nat) = 6 + 1 from rfl, run_events_post _ _ _ (by simp),
    main_run_task_register _ task q (by simpa using hd) ht]
  rw [show (6 : Nat) = 5 + 1 from rfl, run_events_post _ _ _ (by simp),
    main_register_send _ task q 1 topic (by simpa using hd) ht
      (by
        simp only [delete_queue_bind]
        exact scan_unused _ 1 (le_refl 1) (by decide) (fun j h1 h2 => by omega) hfree)
      (by decide) (by simpa using hname) hlen]
  rw [run_events_nil _ _ (by simp)]
  refine ⟨by simp, rfl, by simp, by simpa using hd, by simp⟩

theorem seed_registers_step (topic : CStr) (rest : List CStr) (st : State)
    (hroom : st.mqtt_queue.length ≤ MAX_QUEUE_MQTT_SN) (hg : st.g_task_id < MAX_TOPIC_USED) :
    seed_registers false (topic :: rest) st =
      seed_registers false rest
        { st with
          g_topic_bind := Function.update st.g_topic_bind st.g_task_id
            { st.g_topic_bind st.g_task_id with topic_name := some topic }
          mqtt_queue := st.mqtt_queue ++
            [{ msg_type_q := MQTT_SN_TYPE_REGISTER, short_topic := none,
               id_task := st.g_task_id, qos_level := none, retain := none }]
          g_task_id := st.g_task_id + 1 } := by
  have hmod : (st.g_task_id + 1) % 256 = st.g_task_id + 1 :=
    Nat.mod_eq_of_lt (by simp [MAX_TOPIC_USED] at hg; omega)
  simp only [seed_registers, Bool.false_eq_true, if_false, reg_write, hg, if_true]
  rw [insert_queue_room _ _ (by simpa using hroom)]
  simp [hmod]

theorem seed_registers_spec (topics : List CStr) :
    ∀ (st : State), st.mqtt_queue.length + topics.length ≤ MAX_QUEUE_MQTT_SN + 1 →
      st.g_task_id + topics.length ≤ MAX_TOPIC_USED →
      (seed_registers false topics st).mqtt_status = st.mqtt_status ∧
        (seed_registers false topics st).events = st.events ∧
        (seed_registers false topics st).sent = st.sent ∧
        (seed_registers false topics st).g_mqtt_sn_con = st.g_mqtt_sn_con ∧
        (seed_registers false topics st).g_will = st.g_will ∧
        (∃ regs, (seed_registers false topics st).mqtt_queue = st.mqtt_queue ++ regs ∧
          regs.length = topics.length ∧ ∀ x ∈ regs, x.msg_type_q = MQTT_SN_TYPE_REGISTER) ∧
        (∀ j, j < st.g_task_id →
          (seed_registers false topics st).g_topic_bind j = st.g_topic_bind j) ∧
        (∀ k, k < topics.length →
          (seed_registers false topics st).g_topic_bind (st.g_task_id + k) =
            { st.g_topic_bind (st.g_task_id + k) with topic_name := some (topics.getD k []) }) := by
  induction topics with
  | nil =>
    intro st _ _
    simp [seed_registers]
  | cons topic rest ih =>
    intro st hroom hg
    simp only [List.length_cons] at hroom hg
    rw [seed_registers_step topic rest st (by omega) (by omega)]
    obtain ⟨c1, c2, c3, c4, c5, ⟨regs, c6, c7, c8⟩, c9, c10⟩ := ih
      { st with
        g_topic_bind := Function.update st.g_topic_bind st.g_task_id
          { st.g_topic_bind st.g_task_id with topic_name := some topic }
        mqtt_queue := st.mqtt_queue ++
          [{ msg_type_q := MQTT_SN_TYPE_REGISTER, short_topic := none,
             id_task := st.g_task_id, qos_level := none, retain := none }]
        g_task_id := st.g_task_id + 1 }
      (by simp; omega) (by simp; omega)
    refine ⟨c1, c2, c3, c4, c5, ⟨_ :: regs, by simpa using c6, by simpa using c7, ?_⟩,
      fun j hj => ?_, fun k hk => ?_⟩
    · intro x hx
      rcases List.mem_cons.mp hx with h | h
      · subst h; rfl
      · exact c8 x h
    · rw [c9 j (by simp; omega)]
      simp [Function.update_noteq (Nat.ne_of_lt hj)]
    · cases k with
      | zero =>
        have h9 := c9 st.g_task_id (by simp)
        simp only [Nat.add_zero, h9]
        simp
      | succ k =>
        have := c10 k (by simpa using hk)
        simp only at this
        rw [show st.g_task_id + (k + 1) = st.g_task_id + 1 + k by omega, this]
        simp [Function.update_noteq (show st.g_task_id + 1 + k ≠ st.g_task_id by omega)]

/-- The session `mqtt_sn_create_sck` seeds on the post-init state when no will is
configured: the state just before the REGISTER tasks are queued. -/
theorem create_sck_post_init (conn : mqtt_sn_con_t) (topics : List CStr) (cb_f : Nat)
    (hcid : conn.client_id.length ≤ 23)
    (hcfg : conn.will_topic = none ∨ conn.will_message = none) :
    mqtt_sn_create_sck post_init conn topics cb_f true =
      (.SUCCESS_CON,
        process_post
          (seed_registers false topics
            { post_init with
              callback_mqtt := cb_f
              topics_len := topics.length % 65536
              topics_reconnect := topics
              out_of_bounds := decide (topics.length > MAX_TOPIC_USED)
              g_mqtt_sn_con := conn
              udp_registrations := 1
              mqtt_queue :=
                [{ msg_type_q := MQTT_SN_TYPE_CONNECT, short_topic := none, id_task := 0,
                   qos_level := none, retain := none }]
              g_task_id := 1 })
          .mqtt_event_run_task) := by
  have hw : (conn.will_topic.isSome && conn.will_message.isSome) = false := by
    rcases hcfg with h | h <;> simp [h]
  simp [mqtt_sn_create_sck, post_init, mqtt_sn_init, init_vectors, boot, delete_all,
    Nat.not_lt.mpr hcid, hw, mqtt_sn_insert_queue, MAX_QUEUE_MQTT_SN]

theorem post_init_slot (j : Nat) (h1 : 1 ≤ j) (h2 : j < MAX_TOPIC_USED) :
    post_init.g_topic_bind j = { topic_name := none, short_topic_id := 0xFF, subscribed := 0 } := by
  simp [post_init, mqtt_sn_init, init_vectors, boot, delete_all, h1, h2]

/-- What `mqtt_sn_create_sck` leaves on the post-init state when no will is
configured and the topics fit: CONNECT at the head of the queue, one REGISTER
task per topic behind it, topic `k` named in slot `k + 1`, and `run_task`
posted. -/
theorem create_sck_seeded (conn : mqtt_sn_con_t) (topics : List CStr) (cb_f : Nat)
    (hcid : conn.client_id.length ≤ 23)
    (hcfg : conn.will_topic = none ∨ conn.will_message = none) (hn : topics.length ≤ 98) :
    (mqtt_sn_create_sck post_init conn topics cb_f true).2.mqtt_status = .MQTTSN_DISCONNECTED ∧
      (mqtt_sn_create_sck post_init conn topics cb_f true).2.events = [.mqtt_event_run_task] ∧
      (mqtt_sn_create_sck post_init conn topics cb_f true).2.sent = [] ∧
      (mqtt_sn_create_sck post_init conn topics cb_f true).2.g_mqtt_sn_con = conn ∧
      (mqtt_sn_create_sck post_init conn topics cb_f true).2.g_will = false ∧
      (∃ ctask regs,
        (mqtt_sn_create_sck post_init conn topics cb_f true).2.mqtt_queue = ctask :: regs ∧
        ctask.msg_type_q = MQTT_SN_TYPE_CONNECT ∧ regs.length = topics.length ∧
        ∀ x ∈ regs, x.msg_type_q = MQTT_SN_TYPE_REGISTER) ∧
      ∀ k, k < topics.length →
        (mqtt_sn_create_sck post_init conn topics cb_f true).2.g_topic_bind (1 + k) =
          { topic_name := some (topics.getD k []), short_topic_id := 0xFF, subscribed := 0 } := by
  obtain ⟨s1, s2, s3, s4, s5, ⟨regs, s6, s7, s8⟩, _, s10⟩ := seed_registers_spec topics
    { post_init with
      callback_mqtt := cb_f
      topics_len := topics.length % 65536
      topics_reconnect := topics
      out_of_bounds := decide (topics.length > MAX_TOPIC_USED)
      g_mqtt_sn_con := conn
      udp_registrations := 1
      mqtt_queue :=
        [{ msg_type_q := MQTT_SN_TYPE_CONNECT, short_topic := none, id_task := 0,
           qos_level := none, retain := none }]
      g_task_id := 1 }
    (by simp [MAX_QUEUE_MQTT_SN]; omega) (by simp [MAX_TOPIC_USED]; omega)
  rw [create_sck_post_init conn topics cb_f hcid hcfg]
  refine ⟨?_, ?_, ?_, ?_, ?_, ⟨_, regs, s6, rfl, s7, s8⟩, fun k hk => ?_⟩
  · rw [process_post_status, s1]; rfl
  · rw [process_post_events, s2]; rfl
  · rw [process_post_sent, s3]; rfl
  · exact s4
  · exact s5
  · have := s10 k hk
    simp only at this
    rw [process_post_bind, this, post_init_slot (1 + k) (by omega) (by simp [MAX_TOPIC_USED]; omega)]

/-- The happy path from any seeded session state. -/
theorem happy_from_seeded (st : State) (topics : List CStr) (ids : List Nat)
    (ctask : mqtt_sn_task_t) (regs : List mqtt_sn_task_t)
    (hst : st.mqtt_status = .MQTTSN_DISCONNECTED) (hev : st.events = [.mqtt_event_run_task])
    (hsent : st.sent = []) (hq : st.mqtt_queue = ctask :: regs)
    (hc : ctask.msg_type_q = MQTT_SN_TYPE_CONNECT) (hregs : regs.length = topics.length)
    (hreg : ∀ x ∈ regs, x.msg_type_q = MQTT_SN_TYPE_REGISTER) (hwill : st.g_will = false)
    (hcfg : st.g_mqtt_sn_con.will_topic = none ∨ st.g_mqtt_sn_con.will_message = none)
    (hcid : st.g_mqtt_sn_con.client_id.length ≤ 23)
    (hslot : ∀ k, k < topics.length →
      st.g_topic_bind (1 + k) =
        { topic_name := some (topics.getD k []), short_topic_id := 0xFF, subscribed := 0 })
    (hn1 : 1 ≤ topics.length) (hn : topics.length ≤ 98)
    (hlen : ∀ topic ∈ topics, topic.length ≤ 249) (hids : ids.length = topics.length)
    (hrange : ∀ t ∈ ids, 1 ≤ t ∧ t ≤ 254) :
    (receive_regacks ids 1 (receive (run_events 8 st) (connack_packet ACCEPTED))).sent =
        ([6 + st.g_mqtt_sn_con.client_id.length, 0x04, 0x04, 0x01] ++
          uip_htons st.g_mqtt_sn_con.keep_alive ++ st.g_mqtt_sn_con.client_id) ::
          expected_registers topics 1 ∧
      (receive_regacks ids 1 (receive (run_events 8 st) (connack_packet ACCEPTED))).mqtt_status =
        .MQTTSN_TOPIC_REGISTERED ∧
      (receive_regacks ids 1 (receive (run_events 8 st) (connack_packet ACCEPTED))).mqtt_queue =
        [] ∧
      (receive_regacks ids 1 (receive (run_events 8 st) (connack_packet ACCEPTED))).events = [] ∧
      ∀ k, k < topics.length →
        ((receive_regacks ids 1 (receive (run_events 8 st)
            (connack_packet ACCEPTED))).g_topic_bind (k + 1)).topic_name =
            some (topics.getD k []) ∧
          ((receive_regacks ids 1 (receive (run_events 8 st)
            (connack_packet ACCEPTED))).g_topic_bind (k + 1)).short_topic_id = ids.getD k 0 := by
  obtain ⟨topic, rest, rfl⟩ : ∃ topic rest, topics = topic :: rest := by
    match topics, hn1 with
    | topic :: rest, _ => exact ⟨topic, rest, rfl⟩
  obtain ⟨task, q, rfl⟩ : ∃ task q, regs = task :: q := by
    match regs, hregs with
    | task :: q, _ => exact ⟨task, q, rfl⟩
  simp only [List.length_cons] at hn hregs hids
  have h0 := hslot 0 (by simp)
  obtain ⟨d1, d2, d3, d4, d5⟩ := connect_phase st ctask task q topic hst hev hq hc
    (hreg task (by simp)) hwill hcfg hcid (by rw [h0]) (by rw [h0]; rfl)
    (by simpa [MQTT_SN_MAX_TOPIC_LENGTH, MQTT_SN_MAX_PACKET_LENGTH] using hlen topic (by simp))
  obtain ⟨l1, l2, l3, l4, l5, _, l7⟩ := receive_regacks_loop rest ids 1
    (receive (run_events 8 st) (connack_packet ACCEPTED))
    (by omega) (fun t ht => (hrange t ht).2)
    (fun x hx => by
      simpa [MQTT_SN_MAX_TOPIC_LENGTH, MQTT_SN_MAX_PACKET_LENGTH] using hlen x (by simp [hx]))
    (le_refl 1) (by simp [MAX_TOPIC_USED]; omega) d2 d3
    (by rw [d4]; simpa using hregs)
    (fun x hx => hreg x (by rw [d4] at hx; exact hx))
    (fun j hj1 hj2 => by omega)
    (fun k hk => by
      rw [d5]
      have := hslot (k + 1) (by simpa using hk)
      rw [show 1 + 1 + k = 1 + (k + 1) by omega, this]
      simp)
  refine ⟨?_, l2, l3, l4, fun k hk => ⟨?_, ?_⟩⟩
  · rw [l1, d1, hsent]
    simp [expected_registers]
  · rw [l5, d5, show k + 1 = 1 + k by omega, hslot k hk]
  · have := l7 k (by simp only [List.length_cons] at hk; omega)
    rwa [show 1 + k = k + 1 by omega] at this

/-- C2: from the post-init state, with no will configured, a client id of at
most 23 bytes, `n` topic names (1 ≤ n ≤ 98, each at most 249 bytes) and broker
ids `ids` in 1..254: after `mqtt_sn_create_sck`, CONNACK(ACCEPTED) and
REGACK(TopicId = ids[k], MsgId = k + 1, ACCEPTED) for each topic in turn, every
datagram followed by the delivery of the posted events, the packets sent are
exactly CONNECT, then REGISTER(topics[k], MsgId = k + 1) in order; the status is
`MQTTSN_TOPIC_REGISTERED`, the queue is empty, no event is pending, and slot
`k + 1` of the registry holds `topics[k]` with id `ids[k]`. -/
theorem happy_connect_register (conn : mqtt_sn_con_t) (topics : List CStr) (cb_f : Nat)
    (ids : List Nat) (hcid : conn.client_id.length ≤ 23)
    (hwill : conn.will_topic = none ∨ conn.will_message = none)
    (hn1 : 1 ≤ topics.length) (hn : topics.length ≤ 98)
    (hlen : ∀ topic ∈ topics, topic.length ≤ 249) (hids : ids.length = topics.length)
    (hrange : ∀ t ∈ ids, 1 ≤ t ∧ t ≤ 254) :
    (happy_path conn topics cb_f ids).sent =
        ([6 + conn.client_id.length, 0x04, 0x04, 0x01] ++ uip_htons conn.keep_alive ++
          conn.client_id) :: expected_registers topics 1 ∧
      (happy_path conn topics cb_f ids).mqtt_status = .MQTTSN_TOPIC_REGISTERED ∧
      (happy_path conn topics cb_f ids).mqtt_queue = [] ∧
      (happy_path conn topics cb_f ids).events = [] ∧
      ∀ k, k < topics.length →
        ((happy_path conn topics cb_f ids).g_topic_bind (k + 1)).topic_name =
            some (topics.getD k []) ∧
          ((happy_path conn topics cb_f ids).g_topic_bind (k + 1)).short_topic_id =
            ids.getD k 0 := by
  obtain ⟨c1, c2, c3, c4, c5, ⟨ctask, regs, c6, c7, c8, c9⟩, c10⟩ :=
    create_sck_seeded conn topics cb_f hcid hwill hn
  have h := happy_from_seeded (mqtt_sn_create_sck post_init conn topics cb_f true).2 topics ids
    ctask regs c1 c2 c3 c6 c7 c8 c9 c5 (by rw [c4]; exact hwill) (by rw [c4]; exact hcid) c10
    hn1 hn hlen hids hrange
  rw [c4] at h
  exact h

/-- C2, scenario 1 of the spec: client id "C", keep-alive 5, topics "/a" and
"/b", broker ids 5 and 6. -/
theorem happy_connect_register_witness :
    scenario_conn.client_id.length ≤ 23 ∧
      (scenario_conn.will_topic = none ∨ scenario_conn.will_message = none) ∧
      1 ≤ [topic_a, topic_b].length ∧ [topic_a, topic_b].length ≤ 98 ∧
      (∀ topic ∈ [topic_a, topic_b], topic.length ≤ 249) ∧
      [5, 6].length = [topic_a, topic_b].length ∧ (∀ t ∈ [5, 6], 1 ≤ t ∧ t ≤ 254) ∧
      (happy_path scenario_conn [topic_a, topic_b] 1 [5, 6]).sent =
        ([6 + scenario_conn.client_id.length, 0x04, 0x04, 0x01] ++
          uip_htons scenario_conn.keep_alive ++ scenario_conn.client_id) ::
          expected_registers [topic_a, topic_b] 1 ∧
      (happy_path scenario_conn [topic_a, topic_b] 1 [5, 6]).mqtt_status =
        .MQTTSN_TOPIC_REGISTERED ∧
      (happy_path scenario_conn [topic_a, topic_b] 1 [5, 6]).mqtt_queue = [] ∧
      (happy_path scenario_conn [topic_a, topic_b] 1 [5, 6]).events = [] ∧
      ∀ k, k < [topic_a, topic_b].length →
        ((happy_path scenario_conn [topic_a, topic_b] 1 [5, 6]).g_topic_bind (k + 1)).topic_name =
            some ([topic_a, topic_b].getD k []) ∧
          ((happy_path scenario_conn [topic_a, topic_b] 1 [5, 6]).g_topic_bind
            (k + 1)).short_topic_id = [5, 6].getD k 0 :=
  ⟨by decide, by decide, by decide, by decide, by decide, by decide, by decide,
    happy_connect_register scenario_conn [topic_a, topic_b] 1 [5, 6] (by decide) (by decide)
      (by decide) (by decide) (by decide) (by decide) (by decide)⟩

/-! ## Inbound acknowledgements and REGISTER -/

theorem check_rc_iff (rc : Nat) : mqtt_sn_check_rc rc = .SUCCESS_CON ↔ rc = 0x00 := by
  unfold mqtt_sn_check_rc
  by_cases h : rc = ACCEPTED
  · simp [h, ACCEPTED]
  · have h0 : ¬ rc = 0 := h
    simp [h, h0]

/-- C16: `mqtt_sn_check_rc` returns `SUCCESS_CON` exactly for the return code
0x00; and an inbound CONNACK, REGACK or SUBACK whose ReturnCode byte is not zero
leaves the whole state as it was: status, queue, registry and retry counters
are unchanged, no event is posted and nothing is sent. -/
theorem protocol_reject_ignored (st : State) (data : Nat → Nat)
    (h : (byte data 1 = MQTT_SN_TYPE_CONNACK ∧ byte data 2 ≠ 0x00) ∨
      (byte data 1 = MQTT_SN_TYPE_REGACK ∧ byte data 6 ≠ 0x00) ∨
      (byte data 1 = MQTT_SN_TYPE_SUBACK ∧ byte data 7 ≠ 0x00)) :
    (∀ rc, mqtt_sn_check_rc rc = .SUCCESS_CON ↔ rc = 0x00) ∧
      mqtt_sn_recv_parse st data = st := by
  refine ⟨check_rc_iff, ?_⟩
  rcases h with ⟨h1, h2⟩ | ⟨h1, h2⟩ | ⟨h1, h2⟩
  · have hrc : mqtt_sn_check_rc (byte data 2) ≠ .SUCCESS_CON := fun hc =>
      h2 ((check_rc_iff _).mp hc)
    unfold mqtt_sn_recv_parse
    simp [h1, hrc]
  · have hrc : mqtt_sn_check_rc (byte data 6) ≠ .SUCCESS_CON := fun hc =>
      h2 ((check_rc_iff _).mp hc)
    unfold mqtt_sn_recv_parse
    simp [h1, hrc, MQTT_SN_TYPE_REGACK, MQTT_SN_TYPE_CONNACK]
  · have hrc : mqtt_sn_check_rc (byte data 7) ≠ .SUCCESS_CON := fun hc =>
      h2 ((check_rc_iff _).mp hc)
    unfold mqtt_sn_recv_parse
    simp [h1, hrc, MQTT_SN_TYPE_SUBACK, MQTT_SN_TYPE_REGACK, MQTT_SN_TYPE_CONNACK,
      MQTT_SN_TYPE_PUBACK]

/-- C16, while the client waits for the REGACK of "/b": a REGACK with return
code 2 (rejected, invalid topic id) changes nothing. -/
theorem protocol_reject_ignored_witness :
    ((byte (buffer_of (regack_packet 6 2 REJECTED_INVALID_TOPIC_ID)) 1 = MQTT_SN_TYPE_CONNACK ∧
        byte (buffer_of (regack_packet 6 2 REJECTED_INVALID_TOPIC_ID)) 2 ≠ 0x00) ∨
      (byte (buffer_of (regack_packet 6 2 REJECTED_INVALID_TOPIC_ID)) 1 = MQTT_SN_TYPE_REGACK ∧
        byte (buffer_of (regack_packet 6 2 REJECTED_INVALID_TOPIC_ID)) 6 ≠ 0x00) ∨
      (byte (buffer_of (regack_packet 6 2 REJECTED_INVALID_TOPIC_ID)) 1 = MQTT_SN_TYPE_SUBACK ∧
        byte (buffer_of (regack_packet 6 2 REJECTED_INVALID_TOPIC_ID)) 7 ≠ 0x00)) ∧
      (∀ rc, mqtt_sn_check_rc rc = .SUCCESS_CON ↔ rc = 0x00) ∧
      mqtt_sn_recv_parse scenario_waiting_regack
          (buffer_of (regack_packet 6 2 REJECTED_INVALID_TOPIC_ID)) =
        scenario_waiting_regack :=
  ⟨by decide,
    protocol_reject_ignored scenario_waiting_regack
      (buffer_of (regack_packet 6 2 REJECTED_INVALID_TOPIC_ID)) (by decide)⟩

/-! ## Inbound REGISTER, REGACK and unsolicited acknowledgements -/

/-- What an inbound REGISTER makes the client send: one REGACK that carries the
low bytes of the TopicId and of the MsgId. -/
theorem parse_register_sent (st : State) (data : Nat → Nat)
    (h : byte data 1 = MQTT_SN_TYPE_REGISTER) :
    (mqtt_sn_recv_parse st data).sent =
      st.sent ++ [[0x07, 0x0B, 0, byte data 3, 0, byte data 5, 0x00]] := by
  have hb3 : byte data 3 / 256 % 256 = 0 := by
    have : byte data 3 < 256 := Nat.mod_lt _ (by norm_num)
    simp [Nat.div_eq_of_lt this]
  have hb5 : byte data 5 / 256 % 256 = 0 := by
    have : byte data 5 < 256 := Nat.mod_lt _ (by norm_num)
    simp [Nat.div_eq_of_lt this]
  have hm3 : byte data 3 % 256 = byte data 3 := by simp [byte]
  have hm5 : byte data 5 % 256 = byte data 5 := by simp [byte]
  unfold mqtt_sn_recv_parse
  simp only [h, MQTT_SN_TYPE_REGISTER, MQTT_SN_TYPE_SUBACK, MQTT_SN_TYPE_CONNACK,
    MQTT_SN_TYPE_REGACK, MQTT_SN_TYPE_PUBACK, MQTT_SN_TYPE_PINGRESP, MQTT_SN_TYPE_PINGREQ,
    MQTT_SN_TYPE_PUBLISH]
  simp [mqtt_sn_regack_send, simple_udp_send, uip_htons, hb3, hb5, hm3, hm5, MQTT_SN_TYPE_REGACK]
  split <;> rfl

/-- C13, counterexample: REGISTER with the 16-bit TopicId 0x0109 and MsgId
0x0207 is answered by REGACK with TopicId 0x0009 and MsgId 0x0007, not by the
echo 0x07, 0x0B, 0x01, 0x09, 0x02, 0x07, 0x00. -/
theorem regack_echo_counterexample :
    (mqtt_sn_recv_parse scenario_ready (buffer_of (register_packet 0x0109 0x0207 topic_ax))).sent =
        scenario_ready.sent ++ [[0x07, 0x0B, 0x00, 0x09, 0x00, 0x07, 0x00]] ∧
      (mqtt_sn_recv_parse scenario_ready (buffer_of (register_packet 0x0109 0x0207 topic_ax))).sent ≠
        scenario_ready.sent ++
          [[0x07, 0x0B] ++ uip_htons 0x0109 ++ uip_htons 0x0207 ++ [0x00]] := by
  decide

/-- What an accepted REGACK does to the registry: the slot whose index is the
low byte of the MsgId, when there is one, gets the low byte of the TopicId as
its id. -/
theorem parse_regack_bind (st : State) (data : Nat → Nat)
    (h1 : byte data 1 = MQTT_SN_TYPE_REGACK) (h6 : byte data 6 = ACCEPTED) :
    (mqtt_sn_recv_parse st data).g_topic_bind =
      if byte data 5 < MAX_TOPIC_USED then
        Function.update st.g_topic_bind (byte data 5)
          { st.g_topic_bind (byte data 5) with short_topic_id := byte data 3 }
      else st.g_topic_bind := by
  unfold mqtt_sn_recv_parse
  simp only [h1, h6, MQTT_SN_TYPE_CONNACK, MQTT_SN_TYPE_REGACK, mqtt_sn_check_rc, ACCEPTED]
  simp only [Nat.reduceEqDiff, if_false, if_true]
  by_cases hb : byte data 5 < MAX_TOPIC_USED
  · simp only [hb, if_true]
    split <;> simp [reg_write_bind _ _ _ hb]
  · simp only [hb, if_false]
    split <;> simp

theorem regack_packet_bytes (data : Nat → Nat) (t m rc : Nat)
    (hdata : ∀ i, i < (regack_packet t m rc).length → data i = (regack_packet t m rc).getD i 0) :
    byte data 1 = MQTT_SN_TYPE_REGACK ∧ byte data 3 = t % 256 ∧ byte data 5 = m % 256 ∧
      byte data 6 = rc % 256 := by
  have h1 := hdata 1 (by simp [regack_packet, uip_htons])
  have h3 := hdata 3 (by simp [regack_packet, uip_htons])
  have h5 := hdata 5 (by simp [regack_packet, uip_htons])
  have h6 := hdata 6 (by simp [regack_packet, uip_htons])
  simp [regack_packet, uip_htons] at h1 h3 h5 h6
  simp [byte, h1, h3, h5, h6, MQTT_SN_TYPE_REGACK]

/-- C11 (as amended): an inbound REGACK with return code ACCEPTED, TopicId `t`
and MsgId `m` writes the low byte of `t` as the id of the slot whose index is
the low byte of `m`, whatever id that slot had before, when that index is below
`MAX_TOPIC_USED`, and leaves the registry as it is otherwise. So the id of at
most one slot changes, and the names and sub_states of all slots and the ids of
all other slots are unchanged. -/
theorem regack_binds_msgid_slot (st : State) (data : Nat → Nat) (t m : Nat)
    (hdata : ∀ i, i < (regack_packet t m ACCEPTED).length →
      data i = (regack_packet t m ACCEPTED).getD i 0) :
    (∀ j, ((mqtt_sn_recv_parse st data).g_topic_bind j).topic_name =
          (st.g_topic_bind j).topic_name ∧
        ((mqtt_sn_recv_parse st data).g_topic_bind j).subscribed =
          (st.g_topic_bind j).subscribed) ∧
      (∀ j, j ≠ m % 256 → (mqtt_sn_recv_parse st data).g_topic_bind j = st.g_topic_bind j) ∧
      (m % 256 < MAX_TOPIC_USED →
        ((mqtt_sn_recv_parse st data).g_topic_bind (m % 256)).short_topic_id = t % 256) ∧
      (MAX_TOPIC_USED ≤ m % 256 → (mqtt_sn_recv_parse st data).g_topic_bind = st.g_topic_bind) := by
  obtain ⟨h1, h3, h5, h6⟩ := regack_packet_bytes data t m ACCEPTED hdata
  have hb := parse_regack_bind st data h1 (by simpa [ACCEPTED] using h6)
  rw [h3, h5] at hb
  refine ⟨fun j => ?_, fun j hj => ?_, fun hm => ?_, fun hm => ?_⟩
  · rw [hb]
    by_cases hm : m % 256 < MAX_TOPIC_USED
    · by_cases hj : j = m % 256
      · subst hj; simp [hm]
      · simp [hm, Function.update_noteq hj]
    · simp [hm]
  · rw [hb]
    by_cases hm : m % 256 < MAX_TOPIC_USED
    · simp [hm, Function.update_noteq hj]
    · simp [hm]
  · simp [hb, hm]
  · simp [hb, Nat.not_lt.mpr hm]

/-- C11 (as amended), while the client waits for the REGACK of "/b" (slot 2):
REGACK with TopicId 6 and MsgId 2 gives slot 2 the id 6. -/
theorem regack_binds_msgid_slot_witness :
    (∀ i, i < (regack_packet 6 2 ACCEPTED).length →
        buffer_of (regack_packet 6 2 ACCEPTED) i = (regack_packet 6 2 ACCEPTED).getD i 0) ∧
      (∀ j, ((mqtt_sn_recv_parse scenario_waiting_regack
            (buffer_of (regack_packet 6 2 ACCEPTED))).g_topic_bind j).topic_name =
          (scenario_waiting_regack.g_topic_bind j).topic_name ∧
        ((mqtt_sn_recv_parse scenario_waiting_regack
            (buffer_of (regack_packet 6 2 ACCEPTED))).g_topic_bind j).subscribed =
          (scenario_waiting_regack.g_topic_bind j).subscribed) ∧
      (∀ j, j ≠ 2 % 256 →
        (mqtt_sn_recv_parse scenario_waiting_regack
            (buffer_of (regack_packet 6 2 ACCEPTED))).g_topic_bind j =
          scenario_waiting_regack.g_topic_bind j) ∧
      (2 % 256 < MAX_TOPIC_USED →
        ((mqtt_sn_recv_parse scenario_waiting_regack
            (buffer_of (regack_packet 6 2 ACCEPTED))).g_topic_bind (2 % 256)).short_topic_id =
          6 % 256) ∧
      (MAX_TOPIC_USED ≤ 2 % 256 →
        (mqtt_sn_recv_parse scenario_waiting_regack
            (buffer_of (regack_packet 6 2 ACCEPTED))).g_topic_bind =
          scenario_waiting_regack.g_topic_bind) :=
  ⟨fun _ _ => rfl,
    regack_binds_msgid_slot scenario_waiting_regack (buffer_of (regack_packet 6 2 ACCEPTED)) 6 2
      (fun _ _ => rfl)⟩

/-- C11, counterexample: in the ready state slot 1 ("/a") has id 5. The REGACK
with return code ACCEPTED, TopicId 9 and MsgId 1 changes the id of slot 1 from
5 to 9, so the slot it changes was not unassigned; and the REGACK with MsgId
200 changes no slot at all. -/
theorem regack_binding_counterexample :
    (scenario_ready.g_topic_bind 1).short_topic_id = 5 ∧
      ((mqtt_sn_recv_parse scenario_ready
          (buffer_of (regack_packet 9 1 ACCEPTED))).g_topic_bind 1).short_topic_id = 9 ∧
      ∀ j, j < MAX_TOPIC_USED →
        (mqtt_sn_recv_parse scenario_ready
            (buffer_of (regack_packet 9 200 ACCEPTED))).g_topic_bind j =
          scenario_ready.g_topic_bind j := by
  decide

/-- C12, the code on scenario 5 of the spec: in the ready state slot 3 is the
lowest slot with id 0xFF. After REGISTER with TopicId 9, MsgId 7 and name
"/a/x", slot 3 holds "/a/x" and id 9, and its sub_state is 1, the value
`verf_hist_sub` reads as pending, not the 2 that a SUBACK writes (shown on the
same slot); a later subscribe to "/a/x" is refused, and no other slot
changed. -/
theorem server_register_marks_pending :
    scenario_ready.g_topic_bind 3 =
        { topic_name := none, short_topic_id := 0xFF, subscribed := 0 } ∧
      scan (id_unused scenario_ready.g_topic_bind) MAX_TOPIC_USED 0 = 3 ∧
      (mqtt_sn_recv_parse scenario_ready (buffer_of (register_packet 9 7 topic_ax))).g_topic_bind 3 =
        { topic_name := some topic_ax, short_topic_id := 9, subscribed := 1 } ∧
      ((mqtt_sn_recv_parse scenario_ready
          (buffer_of (suback_packet 0 3 3 ACCEPTED))).g_topic_bind 3).subscribed = 2 ∧
      (mqtt_sn_sub (mqtt_sn_recv_parse scenario_ready (buffer_of (register_packet 9 7 topic_ax)))
          topic_ax 0).1 = .FAIL_CON ∧
      ∀ j, j < MAX_TOPIC_USED → j ≠ 3 →
        (mqtt_sn_recv_parse scenario_ready (buffer_of (register_packet 9 7 topic_ax))).g_topic_bind j =
          scenario_ready.g_topic_bind j := by
  decide

/-- The parser leaves the state alone when the type byte is none of the types
it has a branch with an effect for. -/
theorem parse_unhandled (st : State) (data : Nat → Nat)
    (h : byte data 1 ∉ [MQTT_SN_TYPE_CONNACK, MQTT_SN_TYPE_REGACK, MQTT_SN_TYPE_SUBACK,
      MQTT_SN_TYPE_PINGRESP, MQTT_SN_TYPE_PINGREQ, MQTT_SN_TYPE_PUBLISH, MQTT_SN_TYPE_REGISTER,
      MQTT_SN_TYPE_WILLTOPICREQ, MQTT_SN_TYPE_WILLMSGREQ]) :
    mqtt_sn_recv_parse st data = st := by
  simp only [List.mem_cons, List.mem_singleton, List.not_mem_nil, or_false, not_or] at h
  obtain ⟨h1, h2, h3, h4, h5, h6, h7, h8, h9⟩ := h
  unfold mqtt_sn_recv_parse
  simp only [h1, h2, h3, h4, h5, h6, h7, h8, h9, if_false, ite_self]

/-- C15 (as amended): the receive path never compares the received byte count
with the Length byte. `mqtt_sn_udp_rec_cb` hands the buffer to the parser
without the count, so its result is the same for every byte count; a datagram
is left without effect because of its type byte (a type the parser has no
branch for), whatever its Length byte and byte count are. -/
theorem receive_ignores_byte_count (st : State) (data : Nat → Nat) (n m : Nat)
    (h : byte data 1 ∉ [MQTT_SN_TYPE_CONNACK, MQTT_SN_TYPE_REGACK, MQTT_SN_TYPE_SUBACK,
      MQTT_SN_TYPE_PINGRESP, MQTT_SN_TYPE_PINGREQ, MQTT_SN_TYPE_PUBLISH, MQTT_SN_TYPE_REGISTER,
      MQTT_SN_TYPE_WILLTOPICREQ, MQTT_SN_TYPE_WILLMSGREQ]) :
    mqtt_sn_udp_rec_cb st data n = st ∧
      ∀ (st2 : State) (data2 : Nat → Nat),
        mqtt_sn_udp_rec_cb st2 data2 n = mqtt_sn_udp_rec_cb st2 data2 m ∧
          mqtt_sn_udp_rec_cb st2 data2 n = mqtt_sn_recv_parse st2 data2 :=
  ⟨parse_unhandled st data h, fun _ _ => ⟨rfl, rfl⟩⟩

/-- C15 (as amended), on a DISCONNECT (type 0x18) of Length byte 2 received as
5 bytes in the ready state. -/
theorem receive_ignores_byte_count_witness :
    byte (buffer_of [2, 0x18, 0, 0, 0]) 1 ∉
        [MQTT_SN_TYPE_CONNACK, MQTT_SN_TYPE_REGACK, MQTT_SN_TYPE_SUBACK,
          MQTT_SN_TYPE_PINGRESP, MQTT_SN_TYPE_PINGREQ, MQTT_SN_TYPE_PUBLISH,
          MQTT_SN_TYPE_REGISTER, MQTT_SN_TYPE_WILLTOPICREQ, MQTT_SN_TYPE_WILLMSGREQ] ∧
      mqtt_sn_udp_rec_cb scenario_ready (buffer_of [2, 0x18, 0, 0, 0]) 5 = scenario_ready ∧
      ∀ (st2 : State) (data2 : Nat → Nat),
        mqtt_sn_udp_rec_cb st2 data2 5 = mqtt_sn_udp_rec_cb st2 data2 2 ∧
          mqtt_sn_udp_rec_cb st2 data2 5 = mqtt_sn_recv_parse st2 data2 :=
  ⟨by decide,
    receive_ignores_byte_count scenario_ready (buffer_of [2, 0x18, 0, 0, 0]) 5 2 (by decide)⟩

/-- C15, counterexample: while the client waits for the CONNACK, the datagram
`[9, 0x05, 0x00]` arrives as 3 bytes, so its Length byte 9 differs from the
byte count. It is not rejected: the connack event is posted, and once the
event is handled the status is CONNECTED and the CONNECT task has left the
queue. -/
theorem length_mismatch_counterexample :
    byte (buffer_of [9, 0x05, 0x00]) 0 ≠ [9, 0x05, 0x00].length ∧
      scenario_waiting_connack.mqtt_status = .MQTTSN_WAITING_CONNACK ∧
      scenario_waiting_connack.events = [] ∧
      (mqtt_sn_udp_rec_cb scenario_waiting_connack (buffer_of [9, 0x05, 0x00]) 3).events =
        [.mqtt_event_connack] ∧
      (mqtt_sn_main .mqtt_event_connack scenario_waiting_connack).mqtt_status =
        .MQTTSN_CONNECTED ∧
      (mqtt_sn_main .mqtt_event_connack scenario_waiting_connack).mqtt_queue.length + 1 =
        scenario_waiting_connack.mqtt_queue.length := by
  decide

/-! ## Wildcard subscribe -/

/-- The `run_task` event with a SUB_WILDCARD task at the head: one SUBSCRIBE is
sent, built from the wildcard scratch pointer. -/
theorem main_run_task_wildcard (st : State) (task : mqtt_sn_task_t) (q : List mqtt_sn_task_t)
    (s : CStr) (hq : st.mqtt_queue = task :: q)
    (hty : task.msg_type_q = MQTT_SN_TYPE_SUB_WILDCARD) (hs : st.topic_temp_wildcard = some s)
    (hlen : s.length ≤ 249) :
    mqtt_sn_main .mqtt_event_run_task st =
      { st with sent := st.sent ++
          [[5 + s.length, 0x12, 0x00] ++
            uip_htons (scan (id_unused st.g_topic_bind) MAX_TOPIC_USED 0) ++ s] } := by
  have hh : head_type st = some MQTT_SN_TYPE_SUB_WILDCARD := by
    simp [head_type, hq, hty]
  have hmod : (5 + s.length) % 256 = 5 + s.length := Nat.mod_eq_of_lt (by omega)
  simp only [mqtt_sn_main, mqtt_sn_main_connect, mqtt_sn_main_tasks]
  simp only [reduceCtorEq, false_and, if_false, if_true, mqtt_sn_main_run_task,
    head_touch_cons st task q hq, hh]
  simp [MQTT_SN_TYPE_SUB_WILDCARD, MQTT_SN_TYPE_CONNECT, MQTT_SN_TYPE_PUBLISH,
    MQTT_SN_TYPE_SUBSCRIBE, MQTT_SN_TYPE_REGISTER, mqtt_sn_sub_send_wildcard, hs,
    simple_udp_send, mqtt_sn_get_qos_flag, MQTT_SN_FLAG_QOS_0, MQTT_SN_TOPIC_TYPE_NORMAL, hmod,
    uip_htons]
  omega

/-- C14 (as amended): for every topic `s` containing '#' or '+' (at most 249
bytes) and every state whose queue has room (at most `MAX_QUEUE_MQTT_SN`
tasks), `mqtt_sn_sub` returns success, leaves the registry alone, appends one
SUB_WILDCARD task and stores `s` in the wildcard scratch pointer. When a
SUB_WILDCARD task is at the head, the scratch pointer still holds `s` and
`run_task` is processed, exactly one packet is sent: Length = 5 + len(s), 0x12,
Flags 0x00 (TopicIdType normal), the two MsgId bytes (the index of the lowest
slot with id 0xFF), then the bytes of `s`; nothing else changes. -/
theorem wildcard_subscribe (st : State) (s : CStr) (qos : Nat)
    (hw : 35 ∈ s ∨ 43 ∈ s) (hlen : s.length ≤ 249)
    (hroom : st.mqtt_queue.length ≤ MAX_QUEUE_MQTT_SN) :
    mqtt_sn_sub st s qos =
        (.SUCCESS_CON,
          { st with
            topic_temp_wildcard := some s
            mqtt_queue := st.mqtt_queue ++
              [{ msg_type_q := MQTT_SN_TYPE_SUB_WILDCARD, short_topic := none,
                 id_task := st.g_task_id, qos_level := some qos, retain := none }]
            g_task_id := (st.g_task_id + 1) % 256 }) ∧
      ∀ (st2 : State) (task : mqtt_sn_task_t) (q : List mqtt_sn_task_t),
        st2.mqtt_queue = task :: q → task.msg_type_q = MQTT_SN_TYPE_SUB_WILDCARD →
        st2.topic_temp_wildcard = some s →
        mqtt_sn_main .mqtt_event_run_task st2 =
          { st2 with sent := st2.sent ++
              [[5 + s.length, 0x12, 0x00] ++
                uip_htons (scan (id_unused st2.g_topic_bind) MAX_TOPIC_USED 0) ++ s] } := by
  refine ⟨?_, fun st2 task q hq hty hs => main_run_task_wildcard st2 task q s hq hty hs hlen⟩
  have hc : (s.contains 35 || s.contains 43) = true := by
    rcases hw with h | h
    · simp [h]
    · simp [h]
  have hroom2 : ({ st with topic_temp_wildcard := some s } : State).mqtt_queue.length ≤
      MAX_QUEUE_MQTT_SN := hroom
  simp only [mqtt_sn_sub, hc, if_true, mqtt_sn_sub_wildcard, insert_queue_room _ _ hroom2]

/-- C14 (as amended), scenario 4 of the spec: subscribing to "/a/#" in the
ready state queues the task, and running it sends the SUBSCRIBE with the name
"/a/#" and MsgId 3 (slot 3 is the lowest unused one). -/
theorem wildcard_subscribe_witness :
    ((35 : Nat) ∈ topic_wild ∨ (43 : Nat) ∈ topic_wild) ∧ topic_wild.length ≤ 249 ∧
      scenario_ready.mqtt_queue.length ≤ MAX_QUEUE_MQTT_SN ∧
      mqtt_sn_sub scenario_ready topic_wild 0 =
        (.SUCCESS_CON,
          { scenario_ready with
            topic_temp_wildcard := some topic_wild
            mqtt_queue := scenario_ready.mqtt_queue ++
              [{ msg_type_q := MQTT_SN_TYPE_SUB_WILDCARD, short_topic := none,
                 id_task := scenario_ready.g_task_id, qos_level := some 0, retain := none }]
            g_task_id := (scenario_ready.g_task_id + 1) % 256 }) ∧
      mqtt_sn_main .mqtt_event_run_task (mqtt_sn_sub scenario_ready topic_wild 0).2 =
        { (mqtt_sn_sub scenario_ready topic_wild 0).2 with
          sent := (mqtt_sn_sub scenario_ready topic_wild 0).2.sent ++
            [[5 + topic_wild.length, 0x12, 0x00] ++
              uip_htons (scan (id_unused (mqtt_sn_sub scenario_ready topic_wild 0).2.g_topic_bind)
                MAX_TOPIC_USED 0) ++ topic_wild] } ∧
      [5 + topic_wild.length, 0x12, 0x00] ++
          uip_htons (scan (id_unused (mqtt_sn_sub scenario_ready topic_wild 0).2.g_topic_bind)
            MAX_TOPIC_USED 0) ++ topic_wild =
        [9, 0x12, 0x00, 0, 3, 47, 97, 47, 35] :=
  ⟨by decide, by decide, by decide,
    (wildcard_subscribe scenario_ready topic_wild 0 (by decide) (by decide) (by decide)).1,
    (wildcard_subscribe scenario_ready topic_wild 0 (by decide) (by decide) (by decide)).2
      (mqtt_sn_sub scenario_ready topic_wild 0).2
      { msg_type_q := MQTT_SN_TYPE_SUB_WILDCARD, short_topic := none, id_task := 0,
        qos_level := some 0, retain := none } [] (by decide) (by decide) (by decide),
    by decide⟩

set_option maxRecDepth 100000 in
/-- C14, counterexample: the user subscribes to "/a/#" and then to "/b/#" in
the ready state. Both calls report success and two SUB_WILDCARD tasks are
queued, the one of "/a/#" at the head; when `run_task` is processed for it, the
SUBSCRIBE sent carries "/b/#", not "/a/#", because the second call overwrote
the scratch pointer. And on the full queue of `scenario_full` the call reports
success but appends no task. -/
theorem wildcard_subscribe_counterexample :
    (mqtt_sn_sub scenario_ready topic_wild 0).1 = .SUCCESS_CON ∧
      (mqtt_sn_sub (mqtt_sn_sub scenario_ready topic_wild 0).2 topic_wild_b 0).1 = .SUCCESS_CON ∧
      scenario_two_wildcards.mqtt_queue.map (fun t => t.msg_type_q) =
        [MQTT_SN_TYPE_SUB_WILDCARD, MQTT_SN_TYPE_SUB_WILDCARD] ∧
      (mqtt_sn_main .mqtt_event_run_task scenario_two_wildcards).sent =
        scenario_two_wildcards.sent ++ [[9, 0x12, 0x00, 0, 3] ++ topic_wild_b] ∧
      (mqtt_sn_main .mqtt_event_run_task scenario_two_wildcards).sent ≠
        scenario_two_wildcards.sent ++ [[9, 0x12, 0x00, 0, 3] ++ topic_wild] ∧
      (mqtt_sn_sub scenario_full topic_wild_b 0).1 = .SUCCESS_CON ∧
      (mqtt_sn_sub scenario_full topic_wild_b 0).2.mqtt_queue = scenario_full.mqtt_queue := by
  decide

/-! ## Retransmission on timer expiry -/

theorem retry_iterate (f : State → State) (P : List Nat) (st : State)
    (hstep : ∀ k, k < MQTT_SN_RETRY →
      f { st with sent := st.sent ++ List.replicate k P, g_tries_send := k } =
        { st with sent := st.sent ++ List.replicate (k + 1) P, g_tries_send := k + 1 })
    (h0 : st.g_tries_send = 0) (k : Nat) (hk : k ≤ MQTT_SN_RETRY) :
    Nat.iterate f k st =
      { st with sent := st.sent ++ List.replicate k P, g_tries_send := k } := by
  induction k with
  | zero =>
    cases st
    simp at h0
    simp [h0]
  | succ k ih =>
    rw [Function.iterate_succ_apply', ih (by omega), hstep k (by omega)]

theorem ctimer_rearm (t : ctimer) (h : t.armed = true) :
    ({ armed := true, interval := t.interval } : ctimer) = t := by
  cases t
  simp_all

/-- The datagram `mqtt_sn_con_send` sends when the client id has at most 23
bytes. -/
theorem con_send_short (st : State) (hcid : st.g_mqtt_sn_con.client_id.length ≤ 23) :
    (mqtt_sn_con_send st).2 =
      { st with sent := st.sent ++
          [[6 + st.g_mqtt_sn_con.client_id.length, 0x04,
              if st.g_will then 0x0C else 0x04, 0x01] ++
            uip_htons st.g_mqtt_sn_con.keep_alive ++ st.g_mqtt_sn_con.client_id] } := by
  have hmod : (6 + st.g_mqtt_sn_con.client_id.length) % 256 =
      6 + st.g_mqtt_sn_con.client_id.length := Nat.mod_eq_of_lt (by omega)
  have htake : ∀ (l : List Nat), l.length = 6 →
      List.take (6 + st.g_mqtt_sn_con.client_id.length)
        (l ++ st.g_mqtt_sn_con.client_id ++ [0]) = l ++ st.g_mqtt_sn_con.client_id := by
    intro l hl
    rw [List.take_append_of_le_length (by simp [hl])]
    exact List.take_of_length_le (by simp [hl])
  have h6 := htake ([6 + st.g_mqtt_sn_con.client_id.length, MQTT_SN_TYPE_CONNECT,
    (if st.g_will then (MQTT_SN_FLAG_CLEAN + MQTT_SN_FLAG_WILL) % 256 else MQTT_SN_FLAG_CLEAN),
    MQTT_SN_PROTOCOL_ID] ++ uip_htons st.g_mqtt_sn_con.keep_alive)
    (by simp [uip_htons])
  simp only [mqtt_sn_con_send, simple_udp_send, hmod]
  simp only [List.append_assoc] at h6 ⊢
  rw [h6]
  cases hw : st.g_will <;>
    simp [uip_htons, MQTT_SN_TYPE_CONNECT, MQTT_SN_FLAG_CLEAN, MQTT_SN_FLAG_WILL,
      MQTT_SN_PROTOCOL_ID]

/-- One expiry of the connect timer below the retry limit, in either of the
states that wait for the answer to a CONNECT. -/
theorem expire_connect_step (s : State)
    (hst : s.mqtt_status = .MQTTSN_WAITING_CONNACK ∨
      s.mqtt_status = .MQTTSN_WAITING_WILLTOPICREQ)
    (ht : s.g_tries_send < MQTT_SN_RETRY) (harm : s.mqtt_time_connect.armed = true)
    (hcid : s.g_mqtt_sn_con.client_id.length ≤ 23) :
    expire_connect s =
      { s with
        sent := s.sent ++
          [[6 + s.g_mqtt_sn_con.client_id.length, 0x04,
              if s.g_will then 0x0C else 0x04, 0x01] ++
            uip_htons s.g_mqtt_sn_con.keep_alive ++ s.g_mqtt_sn_con.client_id]
        g_tries_send := s.g_tries_send + 1 } := by
  have hmod : (s.g_tries_send + 1) % 256 = s.g_tries_send + 1 :=
    Nat.mod_eq_of_lt (by simp [MQTT_SN_RETRY] at ht; omega)
  have hge : ¬ s.g_tries_send ≥ MQTT_SN_RETRY := by omega
  have hs := con_send_short
    { s with mqtt_time_connect := { s.mqtt_time_connect with armed := false } } hcid
  have htimer := ctimer_rearm s.mqtt_time_connect harm
  rcases hst with hst | hst
  · simp only [expire_connect, timeout_con, hst, hge, if_true, if_false, hs, ctimer_reset, hmod]
    cases s
    simp_all
  · simp only [expire_connect, timeout_con, hst, hge, if_true, if_false, hs, ctimer_reset, hmod,
      reduceCtorEq]
    cases s
    simp_all

/-- An expiry of a timer of `timeout_con` once `MQTT_SN_RETRY` retransmissions
were made, in any of the four waiting states: nothing is sent, the counter is
cleared and the session-fail event is posted. -/
theorem timeout_con_limit (s : State)
    (hst : s.mqtt_status = .MQTTSN_WAITING_CONNACK ∨
      s.mqtt_status = .MQTTSN_WAITING_WILLTOPICREQ ∨
      s.mqtt_status = .MQTTSN_WAITING_REGACK ∨ s.mqtt_status = .MQTTSN_WAITING_SUBACK)
    (ht : MQTT_SN_RETRY ≤ s.g_tries_send) :
    timeout_con s = process_post { s with g_tries_send := 0 } .mqtt_event_ping_timeout := by
  rcases hst with hst | hst | hst | hst <;>
    simp [timeout_con, hst, ht]

/-- The datagram `mqtt_sn_reg_send` sends when a REGISTER task is at the head
and slot `k`, the first from 1 on with id 0xFF, holds the name `topic`. -/
theorem reg_send_named (s : State) (task : mqtt_sn_task_t) (q : List mqtt_sn_task_t)
    (k : Nat) (topic : CStr) (hq : s.mqtt_queue = task :: q)
    (ht : task.msg_type_q = MQTT_SN_TYPE_REGISTER)
    (hscan : scan (id_unused s.g_topic_bind) (MAX_TOPIC_USED - 1) 1 = k) (hk : k < MAX_TOPIC_USED)
    (hname : (s.g_topic_bind k).topic_name = some topic)
    (hlen : topic.length ≤ MQTT_SN_MAX_TOPIC_LENGTH) :
    (mqtt_sn_reg_send s).2 =
      { s with sent := s.sent ++ [[6 + topic.length, 0x0A, 0, 0] ++ uip_htons k ++ topic] } := by
  have h249 : topic.length ≤ 249 := by
    simpa [MQTT_SN_MAX_TOPIC_LENGTH, MQTT_SN_MAX_PACKET_LENGTH] using hlen
  have hmod : (6 + topic.length) % 256 = 6 + topic.length := Nat.mod_eq_of_lt (by omega)
  have htake : ∀ (l : List Nat), l.length = 6 →
      List.take (6 + topic.length) (l ++ topic ++ [0]) = l ++ topic := by
    intro l hl
    rw [List.take_append_of_le_length (by simp [hl])]
    exact List.take_of_length_le (by simp [hl])
  simp only [mqtt_sn_reg_send, hscan, reg_touch, hk, if_true, hname, Nat.not_lt.mpr hlen,
    gt_iff_lt, if_false, head_touch_cons s task q hq, head_type, hq, List.head?_cons,
    Option.map_some', ht, ne_eq, not_true_eq_false, simple_udp_send, hmod]
  have := htake ([6 + topic.length, MQTT_SN_TYPE_REGISTER] ++ uip_htons 0 ++ uip_htons k)
    (by simp [uip_htons])
  simp only [List.append_assoc] at this ⊢
  rw [this]
  simp [uip_htons, MQTT_SN_TYPE_REGISTER]

/-- One expiry of the register timer below the retry limit. -/
theorem expire_register_step (s : State) (task : mqtt_sn_task_t) (q : List mqtt_sn_task_t)
    (k : Nat) (topic : CStr) (hst : s.mqtt_status = .MQTTSN_WAITING_REGACK)
    (ht : s.g_tries_send < MQTT_SN_RETRY) (harm : s.mqtt_time_register.armed = true)
    (hq : s.mqtt_queue = task :: q) (hty : task.msg_type_q = MQTT_SN_TYPE_REGISTER)
    (hscan : scan (id_unused s.g_topic_bind) (MAX_TOPIC_USED - 1) 1 = k) (hk : k < MAX_TOPIC_USED)
    (hname : (s.g_topic_bind k).topic_name = some topic)
    (hlen : topic.length ≤ MQTT_SN_MAX_TOPIC_LENGTH) :
    expire_register s =
      { s with
        sent := s.sent ++ [[6 + topic.length, 0x0A, 0, 0] ++ uip_htons k ++ topic]
        g_tries_send := s.g_tries_send + 1 } := by
  have hmod : (s.g_tries_send + 1) % 256 = s.g_tries_send + 1 :=
    Nat.mod_eq_of_lt (by simp [MQTT_SN_RETRY] at ht; omega)
  have hge : ¬ s.g_tries_send ≥ MQTT_SN_RETRY := by omega
  have hs := reg_send_named
    { s with mqtt_time_register := { s.mqtt_time_register with armed := false } } task q k topic
    hq hty hscan hk hname hlen
  have htimer := ctimer_rearm s.mqtt_time_register harm
  simp only [expire_register, timeout_con, hst, hge, if_true, if_false, hs, ctimer_reset, hmod,
    reduceCtorEq]
  cases s
  simp_all

/-- The datagram `mqtt_sn_sub_send` sends for a name that a slot holds: the id
of the first slot with that name is sent as MsgId and as TopicId. -/
theorem sub_send_named (s : State) (n : CStr) (qos : Option Nat) (t : Nat)
    (ht : t < MAX_TOPIC_USED) (hname : (s.g_topic_bind t).topic_name = some n) :
    (mqtt_sn_sub_send s (some n) qos).2 =
      { s with sent := s.sent ++
          [[7, 0x12, 0x01] ++
            uip_htons (s.g_topic_bind
              (scan (name_is s.g_topic_bind n) MAX_TOPIC_USED 0)).short_topic_id ++
            uip_htons (s.g_topic_bind
              (scan (name_is s.g_topic_bind n) MAX_TOPIC_USED 0)).short_topic_id] } := by
  have hfun : (fun i => decide ((some n : Option CStr) ≠ none ∧
      (s.g_topic_bind i).topic_name = some n)) = name_is s.g_topic_bind n := by
    funext i
    simp [name_is]
  have hlt : scan (name_is s.g_topic_bind n) MAX_TOPIC_USED 0 < MAX_TOPIC_USED := by
    by_contra hcon
    have := scan_before (name_is s.g_topic_bind n) MAX_TOPIC_USED 0 t (Nat.zero_le t) (by omega)
    simp [name_is, hname] at this
  simp only [mqtt_sn_sub_send, reduceCtorEq, if_false, hfun, hlt, if_true, simple_udp_send]
  simp [uip_htons, MQTT_SN_TYPE_SUBSCRIBE, mqtt_sn_get_qos_flag, MQTT_SN_FLAG_QOS_0,
    MQTT_SN_TOPIC_TYPE_PREDEFINED]

/-- One expiry of the subscribe timer below the retry limit. -/
theorem expire_subscribe_step (s : State) (task : mqtt_sn_task_t) (q : List mqtt_sn_task_t)
    (t : Nat) (n : CStr) (hst : s.mqtt_status = .MQTTSN_WAITING_SUBACK)
    (htr : s.g_tries_send < MQTT_SN_RETRY) (harm : s.mqtt_time_subscribe.armed = true)
    (hq : s.mqtt_queue = task :: q) (hshort : task.short_topic = some t)
    (ht : t < MAX_TOPIC_USED) (hname : (s.g_topic_bind t).topic_name = some n) :
    expire_subscribe s =
      { s with
        sent := s.sent ++
          [[7, 0x12, 0x01] ++
            uip_htons (s.g_topic_bind
              (scan (name_is s.g_topic_bind n) MAX_TOPIC_USED 0)).short_topic_id ++
            uip_htons (s.g_topic_bind
              (scan (name_is s.g_topic_bind n) MAX_TOPIC_USED 0)).short_topic_id]
        g_tries_send := s.g_tries_send + 1 } := by
  have hmod : (s.g_tries_send + 1) % 256 = s.g_tries_send + 1 :=
    Nat.mod_eq_of_lt (by simp [MQTT_SN_RETRY] at htr; omega)
  have hge : ¬ s.g_tries_send ≥ MQTT_SN_RETRY := by omega
  have hs := sub_send_named
    { s with mqtt_time_subscribe := { s.mqtt_time_subscribe with armed := false } } n
    (task.qos_level) t ht hname
  have htimer := ctimer_rearm s.mqtt_time_subscribe harm
  have hhead : head_touch
      { s with mqtt_time_subscribe := { s.mqtt_time_subscribe with armed := false } } =
      { s with mqtt_time_subscribe := { s.mqtt_time_subscribe with armed := false } } :=
    head_touch_cons _ task q hq
  simp only [expire_subscribe, timeout_con, hst, hge, if_true, if_false, hhead, hq,
    List.head?_cons, Option.bind_some, Option.some_bind, hshort, Option.getD_some, reg_touch, ht,
    hname, hs, ctimer_reset, hmod, reduceCtorEq]
  cases s
  simp_all

/-- C18: from the state right after the first CONNECT was sent (status
WAITING_CONNACK or WAITING_WILLTOPICREQ, send-retry counter 0, connect timer
armed, `sent` ending with that CONNECT), each of the first `MQTT_SN_RETRY` = 5
expiries of the connect timer sends the identical CONNECT again, leaves the
timer armed and increments the counter, and the 6th expiry sends nothing and
posts `mqtt_event_ping_timeout`: the CONNECT is sent exactly 6 times. The same
holds for the REGISTER in WAITING_REGACK with the register timer and for the
SUBSCRIBE in WAITING_SUBACK with the subscribe timer. -/
theorem retransmission_bound :
    (∀ (st : State) (pre : List (List Nat)) (P : List Nat),
      (st.mqtt_status = .MQTTSN_WAITING_CONNACK ∨
        st.mqtt_status = .MQTTSN_WAITING_WILLTOPICREQ) →
      st.g_tries_send = 0 → st.mqtt_time_connect.armed = true →
      st.g_mqtt_sn_con.client_id.length ≤ 23 →
      P = [6 + st.g_mqtt_sn_con.client_id.length, 0x04, if st.g_will then 0x0C else 0x04, 0x01] ++
        uip_htons st.g_mqtt_sn_con.keep_alive ++ st.g_mqtt_sn_con.client_id →
      st.sent = pre ++ [P] →
      (∀ k, k ≤ MQTT_SN_RETRY →
        Nat.iterate expire_connect k st =
          { st with sent := pre ++ List.replicate (k + 1) P, g_tries_send := k }) ∧
      Nat.iterate expire_connect (MQTT_SN_RETRY + 1) st =
        { st with
          sent := pre ++ List.replicate (MQTT_SN_RETRY + 1) P
          g_tries_send := 0
          mqtt_time_connect := { st.mqtt_time_connect with armed := false }
          events := st.events ++ [.mqtt_event_ping_timeout] }) ∧
    (∀ (st : State) (pre : List (List Nat)) (P : List Nat) (task : mqtt_sn_task_t)
      (q : List mqtt_sn_task_t) (i : Nat) (topic : CStr),
      st.mqtt_status = .MQTTSN_WAITING_REGACK →
      st.g_tries_send = 0 → st.mqtt_time_register.armed = true →
      st.mqtt_queue = task :: q → task.msg_type_q = MQTT_SN_TYPE_REGISTER →
      scan (id_unused st.g_topic_bind) (MAX_TOPIC_USED - 1) 1 = i → i < MAX_TOPIC_USED →
      (st.g_topic_bind i).topic_name = some topic → topic.length ≤ MQTT_SN_MAX_TOPIC_LENGTH →
      P = [6 + topic.length, 0x0A, 0, 0] ++ uip_htons i ++ topic →
      st.sent = pre ++ [P] →
      (∀ k, k ≤ MQTT_SN_RETRY →
        Nat.iterate expire_register k st =
          { st with sent := pre ++ List.replicate (k + 1) P, g_tries_send := k }) ∧
      Nat.iterate expire_register (MQTT_SN_RETRY + 1) st =
        { st with
          sent := pre ++ List.replicate (MQTT_SN_RETRY + 1) P
          g_tries_send := 0
          mqtt_time_register := { st.mqtt_time_register with armed := false }
          events := st.events ++ [.mqtt_event_ping_timeout] }) ∧
    (∀ (st : State) (pre : List (List Nat)) (P : List Nat) (task : mqtt_sn_task_t)
      (q : List mqtt_sn_task_t) (t : Nat) (n : CStr),
      st.mqtt_status = .MQTTSN_WAITING_SUBACK →
      st.g_tries_send = 0 → st.mqtt_time_subscribe.armed = true →
      st.mqtt_queue = task :: q → task.short_topic = some t → t < MAX_TOPIC_USED →
      (st.g_topic_bind t).topic_name = some n →
      P = [7, 0x12, 0x01] ++
        uip_htons (st.g_topic_bind
          (scan (name_is st.g_topic_bind n) MAX_TOPIC_USED 0)).short_topic_id ++
        uip_htons (st.g_topic_bind
          (scan (name_is st.g_topic_bind n) MAX_TOPIC_USED 0)).short_topic_id →
      st.sent = pre ++ [P] →
      (∀ k, k ≤ MQTT_SN_RETRY →
        Nat.iterate expire_subscribe k st =
          { st with sent := pre ++ List.replicate (k + 1) P, g_tries_send := k }) ∧
      Nat.iterate expire_subscribe (MQTT_SN_RETRY + 1) st =
        { st with
          sent := pre ++ List.replicate (MQTT_SN_RETRY + 1) P
          g_tries_send := 0
          mqtt_time_subscribe := { st.mqtt_time_subscribe with armed := false }
          events := st.events ++ [.mqtt_event_ping_timeout] }) := by
  have hrep : ∀ (pre : List (List Nat)) (P : List Nat) (k : Nat),
      pre ++ [P] ++ List.replicate k P = pre ++ List.replicate (k + 1) P := by
    intro pre P k
    simp [List.replicate_succ]
  have hrep2 : ∀ (l : List (List Nat)) (P : List Nat) (k : Nat),
      l ++ List.replicate k P ++ [P] = l ++ List.replicate (k + 1) P := by
    intro l P k
    simp [List.replicate_succ']
  refine ⟨?_, ?_, ?_⟩
  · intro st pre P hst h0 harm hcid hP hsent
    have hstep : ∀ k, k < MQTT_SN_RETRY →
        expire_connect { st with sent := st.sent ++ List.replicate k P, g_tries_send := k } =
          { st with sent := st.sent ++ List.replicate (k + 1) P, g_tries_send := k + 1 } := by
      intro k hk
      rw [expire_connect_step ({ st with sent := st.sent ++ List.replicate k P, g_tries_send := k })
        hst hk harm hcid, ← hrep2, hP]
    have hit := retry_iterate expire_connect P st hstep h0
    refine ⟨fun k hk => ?_, ?_⟩
    · rw [hit k hk, hsent, hrep]
    · rw [Function.iterate_succ_apply', hit MQTT_SN_RETRY (le_refl _), hsent, hrep]
      simp only [expire_connect]
      rw [timeout_con_limit _ (by rcases hst with h | h <;> simp [h]) (le_refl _)]
      rfl
  · intro st pre P task q i topic hst h0 harm hq hty hscan hi hname hlen hP hsent
    have hstep : ∀ k, k < MQTT_SN_RETRY →
        expire_register { st with sent := st.sent ++ List.replicate k P, g_tries_send := k } =
          { st with sent := st.sent ++ List.replicate (k + 1) P, g_tries_send := k + 1 } := by
      intro k hk
      rw [expire_register_step ({ st with sent := st.sent ++ List.replicate k P, g_tries_send := k })
        task q i topic hst hk harm hq hty hscan hi hname hlen, ← hrep2, hP]
    have hit := retry_iterate expire_register P st hstep h0
    refine ⟨fun k hk => ?_, ?_⟩
    · rw [hit k hk, hsent, hrep]
    · rw [Function.iterate_succ_apply', hit MQTT_SN_RETRY (le_refl _), hsent, hrep]
      simp only [expire_register]
      rw [timeout_con_limit _ (by simp [hst]) (le_refl _)]
      rfl
  · intro st pre P task q t n hst h0 harm hq hshort ht hname hP hsent
    have hstep : ∀ k, k < MQTT_SN_RETRY →
        expire_subscribe { st with sent := st.sent ++ List.replicate k P, g_tries_send := k } =
          { st with sent := st.sent ++ List.replicate (k + 1) P, g_tries_send := k + 1 } := by
      intro k hk
      rw [expire_subscribe_step ({ st with sent := st.sent ++ List.replicate k P, g_tries_send := k })
        task q t n hst hk harm hq hshort ht hname, ← hrep2, hP]
    have hit := retry_iterate expire_subscribe P st hstep h0
    refine ⟨fun k hk => ?_, ?_⟩
    · rw [hit k hk, hsent, hrep]
    · rw [Function.iterate_succ_apply', hit MQTT_SN_RETRY (le_refl _), hsent, hrep]
      simp only [expire_subscribe]
      rw [timeout_con_limit _ (by simp [hst]) (le_refl _)]
      rfl

/-- C18, on the four waiting states of the scenarios: in each, six expiries of
the timer leave the first packet sent six times in all and one
`mqtt_event_ping_timeout` posted. -/
theorem retransmission_bound_witness :
    (scenario_waiting_connack.mqtt_status = .MQTTSN_WAITING_CONNACK ∧
      scenario_waiting_connack.g_tries_send = 0 ∧
      scenario_waiting_connack.sent = [[7, 0x04, 0x04, 0x01, 0, 5, 67]] ∧
      Nat.iterate expire_connect (MQTT_SN_RETRY + 1) scenario_waiting_connack =
        { scenario_waiting_connack with
          sent := [] ++ List.replicate (MQTT_SN_RETRY + 1) [7, 0x04, 0x04, 0x01, 0, 5, 67]
          g_tries_send := 0
          mqtt_time_connect := { scenario_waiting_connack.mqtt_time_connect with armed := false }
          events := scenario_waiting_connack.events ++ [.mqtt_event_ping_timeout] }) ∧
    (scenario_waiting_willtopicreq.mqtt_status = .MQTTSN_WAITING_WILLTOPICREQ ∧
      scenario_waiting_willtopicreq.g_tries_send = 0 ∧
      scenario_waiting_willtopicreq.sent = [[7, 0x04, 0x0C, 0x01, 0, 5, 67]] ∧
      Nat.iterate expire_connect (MQTT_SN_RETRY + 1) scenario_waiting_willtopicreq =
        { scenario_waiting_willtopicreq with
          sent := [] ++ List.replicate (MQTT_SN_RETRY + 1) [7, 0x04, 0x0C, 0x01, 0, 5, 67]
          g_tries_send := 0
          mqtt_time_connect :=
            { scenario_waiting_willtopicreq.mqtt_time_connect with armed := false }
          events := scenario_waiting_willtopicreq.events ++ [.mqtt_event_ping_timeout] }) ∧
    (scenario_waiting_regack.mqtt_status = .MQTTSN_WAITING_REGACK ∧
      scenario_waiting_regack.g_tries_send = 0 ∧
      scenario_waiting_regack.sent =
        scenario_waiting_regack.sent.dropLast ++ [[8, 0x0A, 0, 0, 0, 2, 47, 98]] ∧
      Nat.iterate expire_register (MQTT_SN_RETRY + 1) scenario_waiting_regack =
        { scenario_waiting_regack with
          sent := scenario_waiting_regack.sent.dropLast ++
            List.replicate (MQTT_SN_RETRY + 1) [8, 0x0A, 0, 0, 0, 2, 47, 98]
          g_tries_send := 0
          mqtt_time_register := { scenario_waiting_regack.mqtt_time_register with armed := false }
          events := scenario_waiting_regack.events ++ [.mqtt_event_ping_timeout] }) ∧
    (scenario_subscribing.mqtt_status = .MQTTSN_WAITING_SUBACK ∧
      scenario_subscribing.g_tries_send = 0 ∧
      scenario_subscribing.sent =
        scenario_subscribing.sent.dropLast ++ [[7, 0x12, 0x01, 0, 5, 0, 5]] ∧
      Nat.iterate expire_subscribe (MQTT_SN_RETRY + 1) scenario_subscribing =
        { scenario_subscribing with
          sent := scenario_subscribing.sent.dropLast ++
            List.replicate (MQTT_SN_RETRY + 1) [7, 0x12, 0x01, 0, 5, 0, 5]
          g_tries_send := 0
          mqtt_time_subscribe := { scenario_subscribing.mqtt_time_subscribe with armed := false }
          events := scenario_subscribing.events ++ [.mqtt_event_ping_timeout] }) :=
  ⟨⟨by decide, by decide, by decide,
      (retransmission_bound.1 scenario_waiting_connack [] [7, 0x04, 0x04, 0x01, 0, 5, 67]
        (Or.inl (by decide)) (by decide) (by decide) (by decide) (by decide) (by decide)).2⟩,
    ⟨by decide, by decide, by decide,
      (retransmission_bound.1 scenario_waiting_willtopicreq [] [7, 0x04, 0x0C, 0x01, 0, 5, 67]
        (Or.inr (by decide)) (by decide) (by decide) (by decide) (by decide) (by decide)).2⟩,
    ⟨by decide, by decide, by decide,
      (retransmission_bound.2.1 scenario_waiting_regack scenario_waiting_regack.sent.dropLast
        [8, 0x0A, 0, 0, 0, 2, 47, 98]
        { msg_type_q := MQTT_SN_TYPE_REGISTER, short_topic := none, id_task := 2,
          qos_level := none, retain := none } [] 2 topic_b
        (by decide) (by decide) (by decide) (by decide) (by decide) (by decide) (by decide)
        (by decide) (by decide) (by decide) (by decide)).2⟩,
    ⟨by decide, by decide, by decide,
      (retransmission_bound.2.2 scenario_subscribing scenario_subscribing.sent.dropLast
        [7, 0x12, 0x01, 0, 5, 0, 5]
        { msg_type_q := MQTT_SN_TYPE_SUBSCRIBE, short_topic := some 1, id_task := 0,
          qos_level := some 0, retain := none } [] 1 topic_a
        (by decide) (by decide) (by decide) (by decide) (by decide) (by decide) (by decide)
        (by decide) (by decide)).2⟩⟩

/-! ## Ping loss -/

/-- The datagram `mqtt_sn_ping_send` sends when the client id has at most 23
bytes. -/
theorem ping_send_short (s : State) (hcid : s.g_mqtt_sn_con.client_id.length ≤ 23) :
    mqtt_sn_ping_send s =
      { s with sent := s.sent ++
          [[2 + s.g_mqtt_sn_con.client_id.length, 0x16] ++ s.g_mqtt_sn_con.client_id] } := by
  have hmod : (2 + s.g_mqtt_sn_con.client_id.length) % 256 =
      2 + s.g_mqtt_sn_con.client_id.length := Nat.mod_eq_of_lt (by omega)
  have htake : List.take (2 + s.g_mqtt_sn_con.client_id.length)
      ([2 + s.g_mqtt_sn_con.client_id.length, MQTT_SN_TYPE_PINGREQ] ++
        s.g_mqtt_sn_con.client_id ++ [0]) =
      [2 + s.g_mqtt_sn_con.client_id.length, MQTT_SN_TYPE_PINGREQ] ++
        s.g_mqtt_sn_con.client_id := by
    rw [List.take_append_of_le_length (by simp; omega)]
    exact List.take_of_length_le (by simp; omega)
  simp only [mqtt_sn_ping_send, simple_udp_send, hmod, htake]
  simp [MQTT_SN_TYPE_PINGREQ]

/-- One ping tick while the reply is pending, below the retry limit. -/
theorem expire_ping_step (s : State) (hflag : s.g_ping_flag_resp = false)
    (ht : s.g_tries_ping < MQTT_SN_RETRY_PING) (harm : s.mqtt_time_ping.armed = true)
    (hcid : s.g_mqtt_sn_con.client_id.length ≤ 23) :
    expire_ping s =
      { s with
        sent := s.sent ++
          [[2 + s.g_mqtt_sn_con.client_id.length, 0x16] ++ s.g_mqtt_sn_con.client_id]
        g_tries_ping := s.g_tries_ping + 1 } := by
  have hmod : (s.g_tries_ping + 1) % 256 = s.g_tries_ping + 1 :=
    Nat.mod_eq_of_lt (by simp [MQTT_SN_RETRY_PING] at ht; omega)
  have hge : ¬ s.g_tries_ping ≥ MQTT_SN_RETRY_PING := by omega
  have hs := ping_send_short
    { s with mqtt_time_ping := { s.mqtt_time_ping with armed := false } } hcid
  have htimer := ctimer_rearm s.mqtt_time_ping harm
  simp only [expire_ping, timeout_ping_mqtt, hflag, Bool.false_eq_true, if_false, hge, hs,
    ctimer_reset, hmod]
  cases s
  simp_all

/-- The ping tick once `MQTT_SN_RETRY_PING` PINGREQ were sent without a reply:
nothing is sent, the counter is cleared and the session-fail event is posted. -/
theorem expire_ping_limit (s : State) (hflag : s.g_ping_flag_resp = false)
    (ht : MQTT_SN_RETRY_PING ≤ s.g_tries_ping) (harm : s.mqtt_time_ping.armed = true)
    (hst : s.mqtt_status ≠ .MQTTSN_DISCONNECTED) :
    expire_ping s =
      { s with g_tries_ping := 0, events := s.events ++ [.mqtt_event_ping_timeout] } := by
  have htimer := ctimer_rearm s.mqtt_time_ping harm
  simp only [expire_ping, timeout_ping_mqtt, hflag, Bool.false_eq_true, if_false, ht, ge_iff_le,
    if_true, hst, ne_eq, not_false_eq_true, ctimer_reset, ctimer_stop, process_post]
  cases s
  simp_all

theorem ping_iterate (P : List Nat) (st : State)
    (hstep : ∀ k, k < MQTT_SN_RETRY_PING →
      expire_ping { st with sent := st.sent ++ List.replicate k P, g_tries_ping := k } =
        { st with sent := st.sent ++ List.replicate (k + 1) P, g_tries_ping := k + 1 })
    (h0 : st.g_tries_ping = 0) (k : Nat) (hk : k ≤ MQTT_SN_RETRY_PING) :
    Nat.iterate expire_ping k st =
      { st with sent := st.sent ++ List.replicate k P, g_tries_ping := k } := by
  induction k with
  | zero =>
    cases st
    simp at h0
    simp [h0]
  | succ k ih =>
    rw [Function.iterate_succ_apply', ih (by omega), hstep k (by omega)]

theorem insert_queue_status (st : State) (new : mqtt_sn_task_t) :
    (mqtt_sn_insert_queue st new).2.mqtt_status = st.mqtt_status := by
  unfold mqtt_sn_insert_queue
  simp only
  split <;> rfl

theorem seed_registers_status (will : Bool) (topics : List CStr) :
    ∀ (st : State), (seed_registers will topics st).mqtt_status = st.mqtt_status := by
  induction topics with
  | nil => intro st; rfl
  | cons topic rest ih =>
    intro st
    unfold seed_registers
    simp only
    split
    · rename_i st2 h
      have := insert_queue_status
        (if will = true then
          if 2 ≤ st.g_task_id then
            reg_write st (st.g_task_id - 2) (fun s => { s with topic_name := some topic })
          else { st with out_of_bounds := true }
        else reg_write st st.g_task_id (fun s => { s with topic_name := some topic }))
        { msg_type_q := MQTT_SN_TYPE_REGISTER, short_topic := none, id_task := 0,
          qos_level := none, retain := none }
      rw [h] at this
      rw [this]
      split
      · split <;> simp
      · simp
    · rename_i st2 h
      have := insert_queue_status
        (if will = true then
          if 2 ≤ st.g_task_id then
            reg_write st (st.g_task_id - 2) (fun s => { s with topic_name := some topic })
          else { st with out_of_bounds := true }
        else reg_write st st.g_task_id (fun s => { s with topic_name := some topic }))
        { msg_type_q := MQTT_SN_TYPE_REGISTER, short_topic := none, id_task := 0,
          qos_level := none, retain := none }
      rw [h] at this
      rw [ih st2, this]
      split
      · split <;> simp
      · simp

theorem create_sck_status (st : State) (conn : mqtt_sn_con_t) (topics : List CStr)
    (cb_f : Nat) (udp_ok : Bool) :
    (mqtt_sn_create_sck st conn topics cb_f udp_ok).2.mqtt_status = st.mqtt_status := by
  unfold mqtt_sn_create_sck
  simp only
  split
  · rfl
  · split
    · split <;> rfl
    · rw [process_post_status, seed_registers_status]
      split <;> split <;> simp [insert_queue_status]

theorem delete_all_spec (n : Nat) :
    ∀ (s : State), s.mqtt_queue.length ≤ n →
      ∃ g, delete_all n s = { s with mqtt_queue := [], g_task_id := g } := by
  induction n with
  | zero =>
    intro s h
    refine ⟨s.g_task_id, ?_⟩
    have hq : s.mqtt_queue = [] := List.length_eq_zero.mp (Nat.le_zero.mp h)
    cases s
    simp_all [delete_all]
  | succ n ih =>
    intro s h
    cases hq : s.mqtt_queue with
    | nil =>
      refine ⟨s.g_task_id, ?_⟩
      cases s
      simp_all [delete_all, mqtt_sn_check_empty]
    | cons t rest =>
      have hlen : (mqtt_sn_delete_queue s).mqtt_queue.length ≤ n := by
        rw [delete_queue_cons s t rest hq]
        rw [hq] at h
        simpa using h
      obtain ⟨g, hg⟩ := ih (mqtt_sn_delete_queue s) hlen
      refine ⟨g, ?_⟩
      simp only [delete_all, mqtt_sn_check_empty, hq, List.isEmpty_cons, Bool.false_eq_true,
        if_false, hg]
      unfold mqtt_sn_delete_queue
      rw [hq]
      cases rest <;> rfl

theorem init_vectors_eq (s : State) :
    init_vectors s =
      { s with
        g_topic_bind := fun i =>
          if 1 ≤ i ∧ i < MAX_TOPIC_USED then
            { topic_name := none, short_topic_id := 0xFF, subscribed := 0x00 }
          else s.g_topic_bind i
        mqtt_queue := []
        g_task_id := 0 } := by
  obtain ⟨g, hg⟩ := delete_all_spec s.mqtt_queue.length
    { s with
      g_topic_bind := fun i =>
        if 1 ≤ i ∧ i < MAX_TOPIC_USED then
          { topic_name := none, short_topic_id := 0xFF, subscribed := 0x00 }
        else s.g_topic_bind i } (le_refl _)
  simp only [init_vectors, hg]

/-- The handling of `mqtt_event_ping_timeout` leaves the status DISCONNECTED,
whatever the state. -/
theorem ping_timeout_status (s : State) :
    (mqtt_sn_main .mqtt_event_ping_timeout s).mqtt_status = .MQTTSN_DISCONNECTED := by
  simp only [mqtt_sn_main, mqtt_sn_main_connect, mqtt_sn_main_tasks, reduceCtorEq, false_and,
    if_false, if_true, mqtt_sn_main_ping_timeout, create_sck_status, init_vectors_eq]

/-- C19 (as amended): from a state that is not DISCONNECTED, with a ping reply
pending, the ping retry counter at 0 and the ping timer armed, each of the
first `MQTT_SN_RETRY_PING` = 5 ping ticks without a PINGRESP sends one more
PINGREQ and posts nothing; it is the 6th tick that sends nothing and posts
`mqtt_event_ping_timeout`, and whenever that event is handled the status is
DISCONNECTED. -/
theorem ping_loss_detection (st : State) (P : List Nat)
    (hflag : st.g_ping_flag_resp = false) (h0 : st.g_tries_ping = 0)
    (hst : st.mqtt_status ≠ .MQTTSN_DISCONNECTED) (harm : st.mqtt_time_ping.armed = true)
    (hcid : st.g_mqtt_sn_con.client_id.length ≤ 23)
    (hP : P = [2 + st.g_mqtt_sn_con.client_id.length, 0x16] ++ st.g_mqtt_sn_con.client_id) :
    (∀ k, k ≤ MQTT_SN_RETRY_PING →
        Nat.iterate expire_ping k st =
          { st with sent := st.sent ++ List.replicate k P, g_tries_ping := k }) ∧
      Nat.iterate expire_ping (MQTT_SN_RETRY_PING + 1) st =
        { st with
          sent := st.sent ++ List.replicate MQTT_SN_RETRY_PING P
          g_tries_ping := 0
          events := st.events ++ [.mqtt_event_ping_timeout] } ∧
      ∀ s : State,
        (mqtt_sn_main .mqtt_event_ping_timeout s).mqtt_status = .MQTTSN_DISCONNECTED := by
  have hstep : ∀ k, k < MQTT_SN_RETRY_PING →
      expire_ping { st with sent := st.sent ++ List.replicate k P, g_tries_ping := k } =
        { st with sent := st.sent ++ List.replicate (k + 1) P, g_tries_ping := k + 1 } := by
    intro k hk
    rw [expire_ping_step ({ st with sent := st.sent ++ List.replicate k P, g_tries_ping := k })
      hflag hk harm hcid, hP]
    simp [List.replicate_succ']
  have hit := ping_iterate P st hstep h0
  refine ⟨hit, ?_, ping_timeout_status⟩
  rw [Function.iterate_succ_apply', hit MQTT_SN_RETRY_PING (le_refl _)]
  rw [expire_ping_limit
    ({ st with sent := st.sent ++ List.replicate MQTT_SN_RETRY_PING P,
               g_tries_ping := MQTT_SN_RETRY_PING }) hflag (le_refl _) harm hst]

/-- C19 (as amended), in the ready state of the scenario after the first ping
tick: the next five ticks send five more PINGREQ "C", the sixth posts the
session-fail event. -/
theorem ping_loss_detection_witness :
    scenario_pinging.g_ping_flag_resp = false ∧ scenario_pinging.g_tries_ping = 0 ∧
      scenario_pinging.mqtt_status ≠ .MQTTSN_DISCONNECTED ∧
      (∀ k, k ≤ MQTT_SN_RETRY_PING →
        Nat.iterate expire_ping k scenario_pinging =
          { scenario_pinging with
            sent := scenario_pinging.sent ++ List.replicate k [3, 0x16, 67]
            g_tries_ping := k }) ∧
      Nat.iterate expire_ping (MQTT_SN_RETRY_PING + 1) scenario_pinging =
        { scenario_pinging with
          sent := scenario_pinging.sent ++ List.replicate MQTT_SN_RETRY_PING [3, 0x16, 67]
          g_tries_ping := 0
          events := scenario_pinging.events ++ [.mqtt_event_ping_timeout] } ∧
      ∀ s : State,
        (mqtt_sn_main .mqtt_event_ping_timeout s).mqtt_status = .MQTTSN_DISCONNECTED :=
  ⟨by decide, by decide, by decide,
    ping_loss_detection scenario_pinging [3, 0x16, 67] (by decide) (by decide) (by decide)
      (by decide) (by decide) (by decide)⟩

/-- C19, counterexample: in the ready state of the scenario after the first
ping tick (reply pending, ping retry counter 0), five more ticks without a
PINGRESP post no event: the counter is 5, five PINGREQ were sent, and the status
is still TOPIC_REGISTERED. The event is posted by the sixth tick. -/
theorem ping_loss_counterexample :
    scenario_pinging.g_ping_flag_resp = false ∧ scenario_pinging.g_tries_ping = 0 ∧
      scenario_pinging.mqtt_status = .MQTTSN_TOPIC_REGISTERED ∧
      (Nat.iterate expire_ping MQTT_SN_RETRY_PING scenario_pinging).events = [] ∧
      (Nat.iterate expire_ping MQTT_SN_RETRY_PING scenario_pinging).g_tries_ping = 5 ∧
      (run_events 8 (Nat.iterate expire_ping MQTT_SN_RETRY_PING scenario_pinging)).mqtt_status =
        .MQTTSN_TOPIC_REGISTERED ∧
      (Nat.iterate expire_ping (MQTT_SN_RETRY_PING + 1) scenario_pinging).events =
        [.mqtt_event_ping_timeout] := by
  decide

/-! ## Session reset -/

/-- One turn of the seeding loop when the slot index is in range and the queue
has room; `off` is 2 with a will and 0 without. -/
theorem seed_registers_turn (will : Bool) (off : Nat) (topic : CStr) (rest : List CStr)
    (st : State) (hoff : off = if will then 2 else 0)
    (hroom : st.mqtt_queue.length ≤ MAX_QUEUE_MQTT_SN) (hlow : off ≤ st.g_task_id)
    (hg : st.g_task_id - off < MAX_TOPIC_USED) :
    seed_registers will (topic :: rest) st =
      seed_registers will rest
        { st with
          g_topic_bind := Function.update st.g_topic_bind (st.g_task_id - off)
            { st.g_topic_bind (st.g_task_id - off) with topic_name := some topic }
          mqtt_queue := st.mqtt_queue ++
            [{ msg_type_q := MQTT_SN_TYPE_REGISTER, short_topic := none,
               id_task := st.g_task_id, qos_level := none, retain := none }]
          g_task_id := st.g_task_id + 1 } := by
  have hmod : (st.g_task_id + 1) % 256 = st.g_task_id + 1 := by
    apply Nat.mod_eq_of_lt
    simp only [MAX_TOPIC_USED] at hg
    cases will <;> simp at hoff <;> omega
  cases will
  · simp only [Bool.false_eq_true, if_false] at hoff
    subst hoff
    simp only [Nat.sub_zero] at hg ⊢
    simp only [seed_registers, Bool.false_eq_true, if_false, reg_write, hg, if_true]
    rw [insert_queue_room _ _ (by simpa using hroom)]
    simp [hmod]
  · simp only [if_true] at hoff
    subst hoff
    simp only [seed_registers, if_true, hlow, reg_write, hg]
    rw [insert_queue_room _ _ (by simpa using hroom)]
    simp [hmod]

/-- The seeding loop of `mqtt_sn_create_sck` when all its writes are in range
and the queue has room for every topic: topic `k` is named in slot
`g_task_id - off + k`, one REGISTER task per topic is appended, and nothing else
changes. -/
theorem seed_registers_any (will : Bool) (off : Nat) (hoff : off = if will then 2 else 0)
    (topics : List CStr) :
    ∀ (st : State), st.mqtt_queue.length + topics.length ≤ MAX_QUEUE_MQTT_SN + 1 →
      off ≤ st.g_task_id → st.g_task_id - off + topics.length ≤ MAX_TOPIC_USED →
      ∃ (G : Nat → short_topics_t) (regs : List mqtt_sn_task_t),
        seed_registers will topics st =
          { st with
            g_topic_bind := G
            mqtt_queue := st.mqtt_queue ++ regs
            g_task_id := st.g_task_id + topics.length } ∧
        regs.map (fun x => x.msg_type_q) =
          List.replicate topics.length MQTT_SN_TYPE_REGISTER ∧
        (∀ j, j < st.g_task_id - off → G j = st.g_topic_bind j) ∧
        (∀ j, st.g_task_id - off + topics.length ≤ j → G j = st.g_topic_bind j) ∧
        (∀ k, k < topics.length →
          G (st.g_task_id - off + k) =
            { st.g_topic_bind (st.g_task_id - off + k) with
              topic_name := some (topics.getD k []) }) := by
  induction topics with
  | nil =>
    intro st _ _ _
    refine ⟨st.g_topic_bind, [], ?_, rfl, fun _ _ => rfl, fun _ _ => rfl, ?_⟩
    · cases st
      simp [seed_registers]
    · intro k hk
      simp at hk
  | cons topic rest ih =>
    intro st hroom hlow hg
    simp only [List.length_cons] at hroom hg
    rw [seed_registers_turn will off topic rest st hoff (by omega) hlow (by omega)]
    obtain ⟨G, regs, c1, c2, c3, c4, c5⟩ := ih
      { st with
        g_topic_bind := Function.update st.g_topic_bind (st.g_task_id - off)
          { st.g_topic_bind (st.g_task_id - off) with topic_name := some topic }
        mqtt_queue := st.mqtt_queue ++
          [{ msg_type_q := MQTT_SN_TYPE_REGISTER, short_topic := none,
             id_task := st.g_task_id, qos_level := none, retain := none }]
        g_task_id := st.g_task_id + 1 }
      (by simp; omega) (by simp; omega) (by simp; omega)
    simp only at c3 c4 c5
    have hbase : st.g_task_id + 1 - off = st.g_task_id - off + 1 := by omega
    rw [hbase] at c3 c4 c5
    have htask : ∃ task : mqtt_sn_task_t, task =
        { msg_type_q := MQTT_SN_TYPE_REGISTER, short_topic := none,
          id_task := st.g_task_id, qos_level := none, retain := none } := ⟨_, rfl⟩
    obtain ⟨task, htask⟩ := htask
    refine ⟨G, task :: regs, ?_, ?_, fun j hj => ?_, fun j hj => ?_, fun k hk => ?_⟩
    · subst htask
      rw [c1]
      simp [Nat.add_assoc, Nat.add_comm 1]
    · simp [c2, List.replicate_succ, htask]
    · rw [c3 j (by omega), Function.update_noteq (by omega)]
    · rw [c4 j (by simp only [List.length_cons] at hj; omega), Function.update_noteq]
      simp only [List.length_cons] at hj
      omega
    · cases k with
      | zero =>
        rw [Nat.add_zero, c3 _ (by omega)]
        simp
      | succ k =>
        have := c5 k (by simpa using hk)
        rw [show st.g_task_id - off + (k + 1) = st.g_task_id - off + 1 + k by omega, this]
        rw [Function.update_noteq (by omega)]
        simp

/-- The session `mqtt_sn_create_sck` seeds when it is called again after a
session reset (`g_recon` set, queue empty, task counter 0): the state just
before the REGISTER tasks are queued. -/
theorem create_sck_recon (s : State) (conn : mqtt_sn_con_t) (topics : List CStr) (cb_f : Nat)
    (hrecon : s.g_recon = true) (hq : s.mqtt_queue = []) (hg : s.g_task_id = 0)
    (hcid : conn.client_id.length ≤ 23) :
    (mqtt_sn_create_sck s conn topics cb_f true).2 =
      process_post
        (seed_registers (conn.will_topic.isSome && conn.will_message.isSome) topics
          { s with
            callback_mqtt := cb_f
            topics_len := topics.length % 65536
            topics_reconnect := topics ++ s.topics_reconnect.drop topics.length
            out_of_bounds := s.out_of_bounds || decide (topics.length > MAX_TOPIC_USED)
            g_mqtt_sn_con := conn
            g_will := s.g_will || (conn.will_topic.isSome && conn.will_message.isSome)
            mqtt_queue :=
              if (conn.will_topic.isSome && conn.will_message.isSome) = true then
                [{ msg_type_q := MQTT_SN_TYPE_CONNECT, short_topic := none, id_task := 0,
                   qos_level := none, retain := none },
                 { msg_type_q := MQTT_SN_TYPE_WILLTOPIC, short_topic := none, id_task := 1,
                   qos_level := none, retain := none },
                 { msg_type_q := MQTT_SN_TYPE_WILLMSG, short_topic := none, id_task := 2,
                   qos_level := none, retain := none }]
              else
                [{ msg_type_q := MQTT_SN_TYPE_CONNECT, short_topic := none, id_task := 0,
                   qos_level := none, retain := none }]
            g_task_id :=
              if (conn.will_topic.isSome && conn.will_message.isSome) = true then 3 else 1 })
        .mqtt_event_run_task := by
  cases hw : (conn.will_topic.isSome && conn.will_message.isSome)
  · simp [mqtt_sn_create_sck, Nat.not_lt.mpr hcid, hw, hrecon, mqtt_sn_insert_queue, hq, hg,
      MAX_QUEUE_MQTT_SN]
  · simp [mqtt_sn_create_sck, Nat.not_lt.mpr hcid, hw, hrecon, mqtt_sn_insert_queue, hq, hg,
      MAX_QUEUE_MQTT_SN]

/-- What `mqtt_sn_create_sck` leaves when it is called again after a session
reset and the topics fit (at most 99, or 98 with a will): the queue holds
CONNECT, the two will tasks if a will is configured, and one REGISTER task per
topic; topic `k` is named in slot `k + 1`; `run_task` is posted. -/
theorem create_sck_recon_seeded (s : State) (conn : mqtt_sn_con_t) (topics : List CStr)
    (cb_f : Nat) (hrecon : s.g_recon = true) (hq : s.mqtt_queue = []) (hg : s.g_task_id = 0)
    (hcid : conn.client_id.length ≤ 23)
    (hn : topics.length +
      (if (conn.will_topic.isSome && conn.will_message.isSome) = true then 1 else 0) ≤ 99) :
    ∃ (G : Nat → short_topics_t) (regs : List mqtt_sn_task_t),
      (mqtt_sn_create_sck s conn topics cb_f true).2 =
        { s with
          callback_mqtt := cb_f
          topics_len := topics.length % 65536
          topics_reconnect := topics ++ s.topics_reconnect.drop topics.length
          out_of_bounds := s.out_of_bounds || decide (topics.length > MAX_TOPIC_USED)
          g_mqtt_sn_con := conn
          g_will := s.g_will || (conn.will_topic.isSome && conn.will_message.isSome)
          g_topic_bind := G
          mqtt_queue := regs
          g_task_id :=
            (if (conn.will_topic.isSome && conn.will_message.isSome) = true then 3 else 1) +
              topics.length
          events := s.events ++ [.mqtt_event_run_task] } ∧
      regs.map (fun x => x.msg_type_q) =
        [MQTT_SN_TYPE_CONNECT] ++
          (if (conn.will_topic.isSome && conn.will_message.isSome) = true
            then [MQTT_SN_TYPE_WILLTOPIC, MQTT_SN_TYPE_WILLMSG] else []) ++
          List.replicate topics.length MQTT_SN_TYPE_REGISTER ∧
      G 0 = s.g_topic_bind 0 ∧
      (∀ j, topics.length < j → G j = s.g_topic_bind j) ∧
      (∀ k, k < topics.length →
        G (k + 1) = { s.g_topic_bind (k + 1) with topic_name := some (topics.getD k []) }) := by
  obtain ⟨G, regs, c1, c2, c3, c4, c5⟩ := seed_registers_any
    (conn.will_topic.isSome && conn.will_message.isSome)
    (if (conn.will_topic.isSome && conn.will_message.isSome) = true then 2 else 0) rfl topics
    { s with
      callback_mqtt := cb_f
      topics_len := topics.length % 65536
      topics_reconnect := topics ++ s.topics_reconnect.drop topics.length
      out_of_bounds := s.out_of_bounds || decide (topics.length > MAX_TOPIC_USED)
      g_mqtt_sn_con := conn
      g_will := s.g_will || (conn.will_topic.isSome && conn.will_message.isSome)
      mqtt_queue :=
        if (conn.will_topic.isSome && conn.will_message.isSome) = true then
          [{ msg_type_q := MQTT_SN_TYPE_CONNECT, short_topic := none, id_task := 0,
             qos_level := none, retain := none },
           { msg_type_q := MQTT_SN_TYPE_WILLTOPIC, short_topic := none, id_task := 1,
             qos_level := none, retain := none },
           { msg_type_q := MQTT_SN_TYPE_WILLMSG, short_topic := none, id_task := 2,
             qos_level := none, retain := none }]
        else
          [{ msg_type_q := MQTT_SN_TYPE_CONNECT, short_topic := none, id_task := 0,
             qos_level := none, retain := none }]
      g_task_id :=
        if (conn.will_topic.isSome && conn.will_message.isSome) = true then 3 else 1 }
    (by cases hw : (conn.will_topic.isSome && conn.will_message.isSome) <;>
          simp [hw, MAX_QUEUE_MQTT_SN] at hn ⊢ <;> omega)
    (by cases hw : (conn.will_topic.isSome && conn.will_message.isSome) <;> simp)
    (by cases hw : (conn.will_topic.isSome && conn.will_message.isSome) <;>
          simp [hw, MAX_TOPIC_USED] at hn ⊢ <;> omega)
  have hbase : (if (conn.will_topic.isSome && conn.will_message.isSome) = true then 3 else 1) -
      (if (conn.will_topic.isSome && conn.will_message.isSome) = true then 2 else 0) = 1 := by
    cases hw : (conn.will_topic.isSome && conn.will_message.isSome) <;> simp
  simp only [hbase] at c3 c4 c5
  have hQ : ∃ Q : List mqtt_sn_task_t, Q =
      (if (conn.will_topic.isSome && conn.will_message.isSome) = true then
        [{ msg_type_q := MQTT_SN_TYPE_CONNECT, short_topic := none, id_task := 0,
           qos_level := none, retain := none },
         { msg_type_q := MQTT_SN_TYPE_WILLTOPIC, short_topic := none, id_task := 1,
           qos_level := none, retain := none },
         { msg_type_q := MQTT_SN_TYPE_WILLMSG, short_topic := none, id_task := 2,
           qos_level := none, retain := none }]
      else
        [{ msg_type_q := MQTT_SN_TYPE_CONNECT, short_topic := none, id_task := 0,
           qos_level := none, retain := none }]) ++ regs := ⟨_, rfl⟩
  obtain ⟨Q, hQ⟩ := hQ
  refine ⟨G, Q, ?_, ?_, c3 0 (by omega), fun j hj => c4 j (by omega), fun k hk => ?_⟩
  · rw [create_sck_recon s conn topics cb_f hrecon hq hg hcid, c1, hQ]
    rfl
  · rw [hQ]
    cases hw : (conn.will_topic.isSome && conn.will_message.isSome) <;> simp [c2]
  · rw [Nat.add_comm k 1]
    exact c5 k hk

/-- C20 (as amended): let `T` be the topic list stored for reconnection in a
state whose client id was accepted, with at most 99 topics, or at most 98 when
a will is configured (so that every REGISTER task fits in the queue). Handling
`mqtt_event_ping_timeout` then leaves the status DISCONNECTED and the four
timers stopped; the queue is CONNECT, then WILLTOPIC and WILLMSG if a will is
configured, then one REGISTER per topic of `T`; slot `i + 1` holds `T[i]` with
id 0xFF and sub_state 0 for every `i < n`, every slot above `n` is cleared and
slot 0 is untouched; callback and configuration are preserved, nothing is sent,
one `run_task` event is posted and the UDP endpoint is not registered again. -/
theorem session_reset_replays (st r : State) (T : List CStr)
    (hT : st.topics_reconnect.take st.topics_len = T)
    (hcid : st.g_mqtt_sn_con.client_id.length ≤ 23)
    (hn : T.length +
      (if (st.g_mqtt_sn_con.will_topic.isSome && st.g_mqtt_sn_con.will_message.isSome) = true
        then 1 else 0) ≤ 99)
    (hr : r = mqtt_sn_main .mqtt_event_ping_timeout st) :
    r.mqtt_status = .MQTTSN_DISCONNECTED ∧
      r.mqtt_time_connect.armed = false ∧ r.mqtt_time_register.armed = false ∧
      r.mqtt_time_ping.armed = false ∧ r.mqtt_time_subscribe.armed = false ∧
      r.mqtt_queue.map (fun t => t.msg_type_q) =
        [MQTT_SN_TYPE_CONNECT] ++
          (if (st.g_mqtt_sn_con.will_topic.isSome && st.g_mqtt_sn_con.will_message.isSome) = true
            then [MQTT_SN_TYPE_WILLTOPIC, MQTT_SN_TYPE_WILLMSG] else []) ++
          List.replicate T.length MQTT_SN_TYPE_REGISTER ∧
      (∀ i, i < T.length →
        r.g_topic_bind (i + 1) =
          { topic_name := some (T.getD i []), short_topic_id := 0xFF, subscribed := 0 }) ∧
      (∀ j, T.length < j → j < MAX_TOPIC_USED →
        r.g_topic_bind j = { topic_name := none, short_topic_id := 0xFF, subscribed := 0 }) ∧
      r.g_topic_bind 0 = st.g_topic_bind 0 ∧
      r.callback_mqtt = st.callback_mqtt ∧ r.g_mqtt_sn_con = st.g_mqtt_sn_con ∧
      r.sent = st.sent ∧ r.events = st.events ++ [.mqtt_event_run_task] ∧
      r.udp_registrations = st.udp_registrations := by
  have hs0 : ∃ s0 : State, s0 =
      { st with
        mqtt_time_connect := ctimer_stop st.mqtt_time_connect
        mqtt_time_register := ctimer_stop st.mqtt_time_register
        mqtt_time_ping := ctimer_stop st.mqtt_time_ping
        mqtt_time_subscribe := ctimer_stop st.mqtt_time_subscribe
        mqtt_status := .MQTTSN_DISCONNECTED
        g_recon := true
        g_topic_bind := fun i =>
          if 1 ≤ i ∧ i < MAX_TOPIC_USED then
            { topic_name := none, short_topic_id := 0xFF, subscribed := 0x00 }
          else st.g_topic_bind i
        mqtt_queue := []
        g_task_id := 0 } := ⟨_, rfl⟩
  obtain ⟨s0, hs0⟩ := hs0
  have hmain : r = (mqtt_sn_create_sck s0 st.g_mqtt_sn_con T st.callback_mqtt true).2 := by
    rw [hr, ← hT, hs0]
    simp only [mqtt_sn_main, mqtt_sn_main_connect, mqtt_sn_main_tasks, reduceCtorEq, false_and,
      if_false, if_true, mqtt_sn_main_ping_timeout, init_vectors_eq]
  obtain ⟨G, regs, c1, c2, c3, c4, c5⟩ := create_sck_recon_seeded s0 st.g_mqtt_sn_con T
    st.callback_mqtt (by rw [hs0]) (by rw [hs0]) (by rw [hs0]) hcid hn
  subst hs0
  simp only at c3 c4 c5
  rw [c1] at hmain
  subst hmain
  refine ⟨rfl, rfl, rfl, rfl, rfl, c2, fun i hi => ?_, fun j h1 h2 => ?_, ?_, rfl, rfl, rfl,
    rfl, rfl⟩
  · have h99 : 1 ≤ i + 1 ∧ i + 1 < MAX_TOPIC_USED := by
      refine ⟨by omega, ?_⟩
      have : T.length ≤ 99 := by omega
      simp only [MAX_TOPIC_USED]
      omega
    have := c5 i hi
    simp only [h99, and_self, if_true] at this
    exact this
  · have := c4 j h1
    simp only [show 1 ≤ j from by omega, h2, and_self, if_true] at this
    exact this
  · simpa using c3

/-- C20 (as amended), in the ready state of the scenario after the server
registered "/a/x" in slot 3: the reset leaves CONNECT and the REGISTER tasks of
"/a" and "/b" queued, slots 1 and 2 named and unassigned, and slot 3 cleared. -/
theorem session_reset_replays_witness :
    scenario_learned.topics_reconnect.take scenario_learned.topics_len = [topic_a, topic_b] ∧
      scenario_learned.g_mqtt_sn_con.client_id.length ≤ 23 ∧
      (scenario_learned.g_topic_bind 3).topic_name = some topic_ax ∧
      (mqtt_sn_main .mqtt_event_ping_timeout scenario_learned).mqtt_status =
        .MQTTSN_DISCONNECTED ∧
      (mqtt_sn_main .mqtt_event_ping_timeout scenario_learned).mqtt_queue.map
          (fun t => t.msg_type_q) =
        [MQTT_SN_TYPE_CONNECT, MQTT_SN_TYPE_REGISTER, MQTT_SN_TYPE_REGISTER] ∧
      (mqtt_sn_main .mqtt_event_ping_timeout scenario_learned).g_topic_bind (0 + 1) =
        { topic_name := some topic_a, short_topic_id := 0xFF, subscribed := 0 } ∧
      (mqtt_sn_main .mqtt_event_ping_timeout scenario_learned).g_topic_bind (1 + 1) =
        { topic_name := some topic_b, short_topic_id := 0xFF, subscribed := 0 } ∧
      (mqtt_sn_main .mqtt_event_ping_timeout scenario_learned).g_topic_bind 3 =
        { topic_name := none, short_topic_id := 0xFF, subscribed := 0 } ∧
      (mqtt_sn_main .mqtt_event_ping_timeout scenario_learned).events =
        scenario_learned.events ++ [.mqtt_event_run_task] ∧
      (mqtt_sn_main .mqtt_event_ping_timeout scenario_learned).udp_registrations =
        scenario_learned.udp_registrations :=
  have h := session_reset_replays scenario_learned
    (mqtt_sn_main .mqtt_event_ping_timeout scenario_learned) [topic_a, topic_b]
    (by decide) (by decide) (by decide) rfl
  ⟨by decide, by decide, by decide, h.1, h.2.2.2.2.2.1, h.2.2.2.2.2.2.1 0 (by decide),
    h.2.2.2.2.2.2.1 1 (by decide), h.2.2.2.2.2.2.2.1 3 (by decide) (by decide),
    h.2.2.2.2.2.2.2.2.2.2.2.2.1, h.2.2.2.2.2.2.2.2.2.2.2.2.2⟩

set_option maxRecDepth 100000 in
/-- C20, counterexample: a session is created with a will and 99 topics. The
reset replays what the creation queued, which is not one REGISTER per topic:
after CONNECT, WILLTOPIC and WILLMSG the queue takes 98 REGISTER tasks, the
99th is refused because the queue then holds 101 tasks. -/
theorem session_reset_counterexample :
    topics_99.length = 99 ∧
      scenario_crowded.topics_reconnect.take scenario_crowded.topics_len = topics_99 ∧
      scenario_crowded.g_mqtt_sn_con = scenario_conn_will ∧
      (mqtt_sn_main .mqtt_event_ping_timeout scenario_crowded).mqtt_queue.map
          (fun t => t.msg_type_q) =
        [MQTT_SN_TYPE_CONNECT, MQTT_SN_TYPE_WILLTOPIC, MQTT_SN_TYPE_WILLMSG] ++
          List.replicate 98 MQTT_SN_TYPE_REGISTER ∧
      (mqtt_sn_main .mqtt_event_ping_timeout scenario_crowded).mqtt_queue.map
          (fun t => t.msg_type_q) ≠
        [MQTT_SN_TYPE_CONNECT, MQTT_SN_TYPE_WILLTOPIC, MQTT_SN_TYPE_WILLMSG] ++
          List.replicate 99 MQTT_SN_TYPE_REGISTER := by
  decide

/-- A quantity that does not depend on queue, task counter, registry and the
out-of-bounds flag is not changed by the seeding loop of `mqtt_sn_create_sck`. -/
theorem seed_registers_frame {α : Type} (p : State → α)
    (hp : ∀ (st : State) q g b o,
      p { st with mqtt_queue := q, g_task_id := g, g_topic_bind := b, out_of_bounds := o } = p st)
    (will : Bool) (topics : List CStr) :
    ∀ (st : State), p (seed_registers will topics st) = p st := by
  have hreg : ∀ (st : State) i f, p (reg_write st i f) = p st := by
    intro st i f
    unfold reg_write
    split
    · exact hp st _ _ _ _
    · exact hp st _ _ _ _
  have hins : ∀ (st : State) t, p (mqtt_sn_insert_queue st t).2 = p st := by
    intro st t
    unfold mqtt_sn_insert_queue
    simp only
    split
    · rfl
    · exact hp st _ _ _ _
  induction topics with
  | nil => intro st; rfl
  | cons topic rest ih =>
    intro st
    have hpre : p (if will = true then
          if 2 ≤ st.g_task_id then
            reg_write st (st.g_task_id - 2) (fun s => { s with topic_name := some topic })
          else { st with out_of_bounds := true }
        else reg_write st st.g_task_id (fun s => { s with topic_name := some topic })) = p st := by
      split
      · split
        · exact hreg _ _ _
        · exact hp st _ _ _ _
      · exact hreg _ _ _
    have hi := hins
      (if will = true then
        if 2 ≤ st.g_task_id then
          reg_write st (st.g_task_id - 2) (fun s => { s with topic_name := some topic })
        else { st with out_of_bounds := true }
      else reg_write st st.g_task_id (fun s => { s with topic_name := some topic }))
      { msg_type_q := MQTT_SN_TYPE_REGISTER, short_topic := none, id_task := 0,
        qos_level := none, retain := none }
    unfold seed_registers
    simp only
    split
    · rename_i st2 h
      rw [h] at hi
      simp only at hi
      rw [hi, hpre]
    · rename_i st2 h
      rw [h] at hi
      simp only at hi
      rw [ih st2, hi, hpre]

/-- A quantity that depends on none of the variables `mqtt_sn_create_sck`
assigns is not changed by it. -/
theorem create_sck_frame {α : Type} (p : State → α)
    (hp : ∀ (st : State) q g b o cb n l c u w e,
      p { st with
          mqtt_queue := q, g_task_id := g, g_topic_bind := b, out_of_bounds := o,
          callback_mqtt := cb, topics_len := n, topics_reconnect := l, g_mqtt_sn_con := c,
          udp_registrations := u, g_will := w, events := e } = p st)
    (st : State) (conn : mqtt_sn_con_t) (topics : List CStr) (cb_f : Nat) (udp_ok : Bool) :
    p (mqtt_sn_create_sck st conn topics cb_f udp_ok).2 = p st := by
  have hseed := seed_registers_frame p
    (fun st q g b o => hp st q g b o st.callback_mqtt st.topics_len st.topics_reconnect
      st.g_mqtt_sn_con st.udp_registrations st.g_will st.events)
  have hev : ∀ (s : State) e, p (process_post s e) = p s :=
    fun s e => hp s s.mqtt_queue s.g_task_id s.g_topic_bind s.out_of_bounds s.callback_mqtt
      s.topics_len s.topics_reconnect s.g_mqtt_sn_con s.udp_registrations s.g_will _
  by_cases hcid : conn.client_id.length > 23
  · simp only [mqtt_sn_create_sck, hcid, if_true]
    exact hp st _ _ _ _ _ _ _ _ _ _ _
  · cases hr : (!st.g_recon) <;> cases hu : udp_ok <;>
      cases hw : (conn.will_topic.isSome && conn.will_message.isSome) <;>
      simp only [mqtt_sn_create_sck, hcid, if_false, hr, hw, Bool.not_false, Bool.not_true,
        Bool.and_true, Bool.and_false, Bool.true_and, Bool.false_and, if_true,
        Bool.false_eq_true, hev, hseed, mqtt_sn_insert_queue] <;>
      (repeat' split) <;>
      exact hp st _ _ _ _ _ _ _ _ _ _ _

/-- The handling of `mqtt_event_ping_timeout` does not touch the two retry
counters and the ping flag. -/
theorem ping_timeout_counters (st : State) :
    (mqtt_sn_main .mqtt_event_ping_timeout st).g_tries_send = st.g_tries_send ∧
      (mqtt_sn_main .mqtt_event_ping_timeout st).g_tries_ping = st.g_tries_ping ∧
      (mqtt_sn_main .mqtt_event_ping_timeout st).g_ping_flag_resp = st.g_ping_flag_resp := by
  simp only [mqtt_sn_main, mqtt_sn_main_connect, mqtt_sn_main_tasks, reduceCtorEq, false_and,
    if_false, if_true, mqtt_sn_main_ping_timeout, init_vectors_eq]
  refine ⟨?_, ?_, ?_⟩
  · exact create_sck_frame (fun s => s.g_tries_send) (fun _ _ _ _ _ _ _ _ _ _ _ _ => rfl) _ _ _ _ _
  · exact create_sck_frame (fun s => s.g_tries_ping) (fun _ _ _ _ _ _ _ _ _ _ _ _ => rfl) _ _ _ _ _
  · exact create_sck_frame (fun s => s.g_ping_flag_resp) (fun _ _ _ _ _ _ _ _ _ _ _ _ => rfl)
      _ _ _ _ _

/-- The ping tick at the retry limit, as `timeout_ping_mqtt` itself: the ping
counter is cleared, the flag stays "reply pending", the event is posted. -/
theorem timeout_ping_limit (s : State) (hflag : s.g_ping_flag_resp = false)
    (ht : MQTT_SN_RETRY_PING ≤ s.g_tries_ping) (hst : s.mqtt_status ≠ .MQTTSN_DISCONNECTED) :
    timeout_ping_mqtt s =
      { s with
        g_tries_ping := 0
        mqtt_time_ping := { armed := true, interval := s.mqtt_time_ping.interval }
        events := s.events ++ [.mqtt_event_ping_timeout] } := by
  simp only [timeout_ping_mqtt, hflag, Bool.false_eq_true, if_false, ht, ge_iff_le,
    if_true, hst, ne_eq, not_false_eq_true, ctimer_reset, ctimer_stop, process_post]

/-- C21 (as amended): the handling of `mqtt_event_ping_timeout` (auto-reconnect
on) leaves the send-retry counter, the ping-retry counter and the ping flag as
they were, for every state. What is cleared is cleared by the timer callback
that posted the event: on retransmission exhaustion `timeout_con` has set the
send-retry counter to 0, so after the reset it is 0 while ping counter and flag
keep their values; on ping loss `timeout_ping_mqtt` has set the ping-retry
counter to 0, so after the reset it is 0, the flag still says "reply pending"
and the send-retry counter keeps its value. -/
theorem reset_keeps_counters (st : State) :
    ((mqtt_sn_main .mqtt_event_ping_timeout st).g_tries_send = st.g_tries_send ∧
      (mqtt_sn_main .mqtt_event_ping_timeout st).g_tries_ping = st.g_tries_ping ∧
      (mqtt_sn_main .mqtt_event_ping_timeout st).g_ping_flag_resp = st.g_ping_flag_resp) ∧
    ((st.mqtt_status = .MQTTSN_WAITING_CONNACK ∨
        st.mqtt_status = .MQTTSN_WAITING_WILLTOPICREQ ∨
        st.mqtt_status = .MQTTSN_WAITING_REGACK ∨ st.mqtt_status = .MQTTSN_WAITING_SUBACK) →
      MQTT_SN_RETRY ≤ st.g_tries_send →
      (timeout_con st).events = st.events ++ [.mqtt_event_ping_timeout] ∧
        (mqtt_sn_main .mqtt_event_ping_timeout (timeout_con st)).g_tries_send = 0 ∧
        (mqtt_sn_main .mqtt_event_ping_timeout (timeout_con st)).g_tries_ping =
          st.g_tries_ping ∧
        (mqtt_sn_main .mqtt_event_ping_timeout (timeout_con st)).g_ping_flag_resp =
          st.g_ping_flag_resp) ∧
    (st.g_ping_flag_resp = false → MQTT_SN_RETRY_PING ≤ st.g_tries_ping →
      st.mqtt_status ≠ .MQTTSN_DISCONNECTED →
      (timeout_ping_mqtt st).events = st.events ++ [.mqtt_event_ping_timeout] ∧
        (mqtt_sn_main .mqtt_event_ping_timeout (timeout_ping_mqtt st)).g_tries_ping = 0 ∧
        (mqtt_sn_main .mqtt_event_ping_timeout (timeout_ping_mqtt st)).g_ping_flag_resp =
          false ∧
        (mqtt_sn_main .mqtt_event_ping_timeout (timeout_ping_mqtt st)).g_tries_send =
          st.g_tries_send) := by
  refine ⟨ping_timeout_counters st, fun hst ht => ?_, fun hflag ht hst => ?_⟩
  · obtain ⟨c1, c2, c3⟩ := ping_timeout_counters (timeout_con st)
    rw [c1, c2, c3, timeout_con_limit st hst ht]
    exact ⟨rfl, rfl, rfl, rfl⟩
  · obtain ⟨c1, c2, c3⟩ := ping_timeout_counters (timeout_ping_mqtt st)
    rw [c1, c2, c3, timeout_ping_limit st hflag ht hst]
    exact ⟨rfl, rfl, hflag, rfl⟩

/-- C21 (as amended), on the two paths of the scenarios: after five
retransmissions of the CONNECT the sixth expiry and the reset leave the
send-retry counter 0; after five unanswered PINGREQ the sixth tick and the
reset leave the ping-retry counter 0 and the flag "reply pending". -/
theorem reset_keeps_counters_witness :
    ((Nat.iterate expire_connect 5 scenario_waiting_connack).mqtt_status =
        .MQTTSN_WAITING_CONNACK ∧
      MQTT_SN_RETRY ≤ (Nat.iterate expire_connect 5 scenario_waiting_connack).g_tries_send ∧
      (mqtt_sn_main .mqtt_event_ping_timeout
        (timeout_con (Nat.iterate expire_connect 5 scenario_waiting_connack))).g_tries_send =
        0) ∧
    ((Nat.iterate expire_ping 5 scenario_pinging).g_ping_flag_resp = false ∧
      MQTT_SN_RETRY_PING ≤ (Nat.iterate expire_ping 5 scenario_pinging).g_tries_ping ∧
      (Nat.iterate expire_ping 5 scenario_pinging).mqtt_status ≠ .MQTTSN_DISCONNECTED ∧
      (mqtt_sn_main .mqtt_event_ping_timeout
        (timeout_ping_mqtt (Nat.iterate expire_ping 5 scenario_pinging))).g_tries_ping = 0 ∧
      (mqtt_sn_main .mqtt_event_ping_timeout
        (timeout_ping_mqtt (Nat.iterate expire_ping 5 scenario_pinging))).g_ping_flag_resp =
        false) :=
  ⟨⟨by decide, by decide,
      ((reset_keeps_counters (Nat.iterate expire_connect 5 scenario_waiting_connack)).2.1
        (Or.inl (by decide)) (by decide)).2.1⟩,
    ⟨by decide, by decide, by decide,
      ((reset_keeps_counters (Nat.iterate expire_ping 5 scenario_pinging)).2.2
        (by decide) (by decide) (by decide)).2.1,
      ((reset_keeps_counters (Nat.iterate expire_ping 5 scenario_pinging)).2.2
        (by decide) (by decide) (by decide)).2.2.1⟩⟩

/-- C21, counterexample: after start-up the ping flag says "no reply pending"
(true) and both counters are 0. On the ping-loss path of the scenario (six
unanswered ticks after the first PINGREQ) the reset leaves the flag at "reply
pending" (false). And when the ping loss happens while a SUBSCRIBE was
retransmitted twice, the reset leaves the send-retry counter at 2. -/
theorem reset_counters_counterexample :
    post_init.g_ping_flag_resp = true ∧ post_init.g_tries_send = 0 ∧
      (Nat.iterate expire_ping 6 scenario_pinging).events = [.mqtt_event_ping_timeout] ∧
      (run_events 1 (Nat.iterate expire_ping 6 scenario_pinging)).mqtt_status =
        .MQTTSN_DISCONNECTED ∧
      (run_events 1 (Nat.iterate expire_ping 6 scenario_pinging)).g_ping_flag_resp = false ∧
      (Nat.iterate expire_ping 7 (Nat.iterate expire_subscribe 2 scenario_subscribing)).events =
        [.mqtt_event_ping_timeout] ∧
      (run_events 1 (Nat.iterate expire_ping 7
        (Nat.iterate expire_subscribe 2 scenario_subscribing))).mqtt_status =
        .MQTTSN_DISCONNECTED ∧
      (run_events 1 (Nat.iterate expire_ping 7
        (Nat.iterate expire_subscribe 2 scenario_subscribing))).g_tries_send = 2 := by
  decide

/-- C27: for every state `init_vectors` changes nothing but registry, queue and
task counter: every slot with index 1..MAX_TOPIC_USED-1 has id 0xFF, no name
and sub_state 0, slot 0 is as it was, the queue is empty and the task counter
is 0; running it twice gives the same state as running it once. -/
theorem init_vectors_resets (st : State) :
    init_vectors st =
        { st with
          g_topic_bind := (init_vectors st).g_topic_bind
          mqtt_queue := []
          g_task_id := 0 } ∧
      (∀ j, 1 ≤ j → j < MAX_TOPIC_USED →
        (init_vectors st).g_topic_bind j =
          { topic_name := none, short_topic_id := 0xFF, subscribed := 0 }) ∧
      (init_vectors st).g_topic_bind 0 = st.g_topic_bind 0 ∧
      init_vectors (init_vectors st) = init_vectors st := by
  refine ⟨?_, fun j h1 h2 => ?_, ?_, ?_⟩
  · rw [init_vectors_eq]
  · rw [init_vectors_eq]
    simp [h1, h2]
  · rw [init_vectors_eq]
    simp
  · rw [init_vectors_eq (init_vectors st), init_vectors_eq st]
    simp only [State.mk.injEq, true_and, and_true]
    funext i
    by_cases h : 1 ≤ i ∧ i < MAX_TOPIC_USED
    · simp [h]
    · simp [h]

/-- C27, on the ready state of the scenario after the server registered "/a/x"
in slot 3: slot 3 is cleared again. -/
theorem init_vectors_resets_witness :
    (scenario_learned.g_topic_bind 3).topic_name = some topic_ax ∧
      (init_vectors scenario_learned).g_topic_bind 3 =
        { topic_name := none, short_topic_id := 0xFF, subscribed := 0 } :=
  ⟨by decide, (init_vectors_resets scenario_learned).2.1 3 (by decide) (by decide)⟩

/-- The session `mqtt_sn_create_sck` seeds on a state with an empty queue and
task counter 0 when the client id is accepted and the UDP registration, if it is
made, succeeds: the state just before the REGISTER tasks are queued. -/
theorem create_sck_empty (s : State) (conn : mqtt_sn_con_t) (topics : List CStr) (cb_f : Nat)
    (hq : s.mqtt_queue = []) (hg : s.g_task_id = 0) (hcid : conn.client_id.length ≤ 23) :
    mqtt_sn_create_sck s conn topics cb_f true =
      (.SUCCESS_CON,
        process_post
          (seed_registers (conn.will_topic.isSome && conn.will_message.isSome) topics
            { s with
              callback_mqtt := cb_f
              topics_len := topics.length % 65536
              topics_reconnect := topics ++ s.topics_reconnect.drop topics.length
              out_of_bounds := s.out_of_bounds || decide (topics.length > MAX_TOPIC_USED)
              g_mqtt_sn_con := conn
              udp_registrations :=
                if (!s.g_recon) = true then s.udp_registrations + 1 else s.udp_registrations
              g_will := s.g_will || (conn.will_topic.isSome && conn.will_message.isSome)
              mqtt_queue :=
                if (conn.will_topic.isSome && conn.will_message.isSome) = true then
                  [{ msg_type_q := MQTT_SN_TYPE_CONNECT, short_topic := none, id_task := 0,
                     qos_level := none, retain := none },
                   { msg_type_q := MQTT_SN_TYPE_WILLTOPIC, short_topic := none, id_task := 1,
                     qos_level := none, retain := none },
                   { msg_type_q := MQTT_SN_TYPE_WILLMSG, short_topic := none, id_task := 2,
                     qos_level := none, retain := none }]
                else
                  [{ msg_type_q := MQTT_SN_TYPE_CONNECT, short_topic := none, id_task := 0,
                     qos_level := none, retain := none }]
              g_task_id :=
                if (conn.will_topic.isSome && conn.will_message.isSome) = true then 3 else 1 })
          .mqtt_event_run_task) := by
  cases hw : (conn.will_topic.isSome && conn.will_message.isSome) <;>
    cases hr : (!s.g_recon) <;>
    simp [mqtt_sn_create_sck, Nat.not_lt.mpr hcid, hw, hr, mqtt_sn_insert_queue, hq, hg,
      MAX_QUEUE_MQTT_SN]

/-- What `mqtt_sn_create_sck` leaves on a state with an empty queue and task
counter 0 when the client id is accepted, the UDP registration succeeds and
there are at most 98 topics. -/
theorem create_sck_empty_seeded (s : State) (conn : mqtt_sn_con_t) (topics : List CStr)
    (cb_f : Nat) (hq : s.mqtt_queue = []) (hg : s.g_task_id = 0)
    (hcid : conn.client_id.length ≤ 23) (hn : topics.length ≤ 98) :
    ∃ (G : Nat → short_topics_t) (regs : List mqtt_sn_task_t),
      mqtt_sn_create_sck s conn topics cb_f true =
        (.SUCCESS_CON,
          { s with
            callback_mqtt := cb_f
            topics_len := topics.length % 65536
            topics_reconnect := topics ++ s.topics_reconnect.drop topics.length
            out_of_bounds := s.out_of_bounds || decide (topics.length > MAX_TOPIC_USED)
            g_mqtt_sn_con := conn
            udp_registrations :=
              if (!s.g_recon) = true then s.udp_registrations + 1 else s.udp_registrations
            g_will := s.g_will || (conn.will_topic.isSome && conn.will_message.isSome)
            g_topic_bind := G
            mqtt_queue := regs
            g_task_id :=
              (if (conn.will_topic.isSome && conn.will_message.isSome) = true then 3 else 1) +
                topics.length
            events := s.events ++ [.mqtt_event_run_task] }) ∧
      regs.map (fun x => x.msg_type_q) =
        [MQTT_SN_TYPE_CONNECT] ++
          (if (conn.will_topic.isSome && conn.will_message.isSome) = true
            then [MQTT_SN_TYPE_WILLTOPIC, MQTT_SN_TYPE_WILLMSG] else []) ++
          List.replicate topics.length MQTT_SN_TYPE_REGISTER ∧
      G 0 = s.g_topic_bind 0 ∧
      (∀ j, topics.length < j → G j = s.g_topic_bind j) ∧
      (∀ k, k < topics.length →
        G (k + 1) = { s.g_topic_bind (k + 1) with topic_name := some (topics.getD k []) }) := by
  obtain ⟨G, regs, c1, c2, c3, c4, c5⟩ := seed_registers_any
    (conn.will_topic.isSome && conn.will_message.isSome)
    (if (conn.will_topic.isSome && conn.will_message.isSome) = true then 2 else 0) rfl topics
    { s with
      callback_mqtt := cb_f
      topics_len := topics.length % 65536
      topics_reconnect := topics ++ s.topics_reconnect.drop topics.length
      out_of_bounds := s.out_of_bounds || decide (topics.length > MAX_TOPIC_USED)
      g_mqtt_sn_con := conn
      udp_registrations :=
        if (!s.g_recon) = true then s.udp_registrations + 1 else s.udp_registrations
      g_will := s.g_will || (conn.will_topic.isSome && conn.will_message.isSome)
      mqtt_queue :=
        if (conn.will_topic.isSome && conn.will_message.isSome) = true then
          [{ msg_type_q := MQTT_SN_TYPE_CONNECT, short_topic := none, id_task := 0,
             qos_level := none, retain := none },
           { msg_type_q := MQTT_SN_TYPE_WILLTOPIC, short_topic := none, id_task := 1,
             qos_level := none, retain := none },
           { msg_type_q := MQTT_SN_TYPE_WILLMSG, short_topic := none, id_task := 2,
             qos_level := none, retain := none }]
        else
          [{ msg_type_q := MQTT_SN_TYPE_CONNECT, short_topic := none, id_task := 0,
             qos_level := none, retain := none }]
      g_task_id :=
        if (conn.will_topic.isSome && conn.will_message.isSome) = true then 3 else 1 }
    (by cases hw : (conn.will_topic.isSome && conn.will_message.isSome) <;>
          simp [hw, MAX_QUEUE_MQTT_SN] <;> omega)
    (by cases hw : (conn.will_topic.isSome && conn.will_message.isSome) <;> simp)
    (by cases hw : (conn.will_topic.isSome && conn.will_message.isSome) <;>
          simp [hw, MAX_TOPIC_USED] <;> omega)
  have hbase : (if (conn.will_topic.isSome && conn.will_message.isSome) = true then 3 else 1) -
      (if (conn.will_topic.isSome && conn.will_message.isSome) = true then 2 else 0) = 1 := by
    cases hw : (conn.will_topic.isSome && conn.will_message.isSome) <;> simp
  simp only [hbase] at c3 c4 c5
  have hQ : ∃ Q : List mqtt_sn_task_t, Q =
      (if (conn.will_topic.isSome && conn.will_message.isSome) = true then
        [{ msg_type_q := MQTT_SN_TYPE_CONNECT, short_topic := none, id_task := 0,
           qos_level := none, retain := none },
         { msg_type_q := MQTT_SN_TYPE_WILLTOPIC, short_topic := none, id_task := 1,
           qos_level := none, retain := none },
         { msg_type_q := MQTT_SN_TYPE_WILLMSG, short_topic := none, id_task := 2,
           qos_level := none, retain := none }]
      else
        [{ msg_type_q := MQTT_SN_TYPE_CONNECT, short_topic := none, id_task := 0,
           qos_level := none, retain := none }]) ++ regs := ⟨_, rfl⟩
  obtain ⟨Q, hQ⟩ := hQ
  refine ⟨G, Q, ?_, ?_, c3 0 (by omega), fun j hj => c4 j (by omega), fun k hk => ?_⟩
  · rw [create_sck_empty s conn topics cb_f hq hg hcid, c1, hQ]
    rfl
  · rw [hQ]
    cases hw : (conn.will_topic.isSome && conn.will_message.isSome) <;> simp [c2]
  · rw [Nat.add_comm k 1]
    exact c5 k hk

/-- C22 (as amended): called with an accepted client id and `n ≤ 98` topics on
a state with an empty queue and task counter 0 (such as the post-init state),
and with the UDP registration succeeding, `mqtt_sn_create_sck` returns success;
the queue is then CONNECT, WILLTOPIC and WILLMSG if and only if both will fields
are set, and `n` REGISTER tasks; topic `i` is named in slot `i + 1`, with or
without a will; slot 0 and the slots above `n` are untouched; one `run_task`
event is posted. -/
theorem create_sck_seeds (st : State) (conn : mqtt_sn_con_t) (topics : List CStr) (cb_f : Nat)
    (hq : st.mqtt_queue = []) (hg : st.g_task_id = 0) (hcid : conn.client_id.length ≤ 23)
    (hn : topics.length ≤ 98) :
    (mqtt_sn_create_sck st conn topics cb_f true).1 = .SUCCESS_CON ∧
      (mqtt_sn_create_sck st conn topics cb_f true).2.mqtt_queue.map (fun x => x.msg_type_q) =
        [MQTT_SN_TYPE_CONNECT] ++
          (if (conn.will_topic.isSome && conn.will_message.isSome) = true
            then [MQTT_SN_TYPE_WILLTOPIC, MQTT_SN_TYPE_WILLMSG] else []) ++
          List.replicate topics.length MQTT_SN_TYPE_REGISTER ∧
      (∀ i, i < topics.length →
        (mqtt_sn_create_sck st conn topics cb_f true).2.g_topic_bind (i + 1) =
          { st.g_topic_bind (i + 1) with topic_name := some (topics.getD i []) }) ∧
      (mqtt_sn_create_sck st conn topics cb_f true).2.g_topic_bind 0 = st.g_topic_bind 0 ∧
      (∀ j, topics.length < j →
        (mqtt_sn_create_sck st conn topics cb_f true).2.g_topic_bind j = st.g_topic_bind j) ∧
      (mqtt_sn_create_sck st conn topics cb_f true).2.events =
        st.events ++ [.mqtt_event_run_task] ∧
      (mqtt_sn_create_sck st conn topics cb_f true).2.sent = st.sent := by
  obtain ⟨G, regs, c1, c2, c3, c4, c5⟩ :=
    create_sck_empty_seeded st conn topics cb_f hq hg hcid hn
  rw [c1]
  exact ⟨rfl, c2, c5, c3, c4, rfl, rfl⟩

/-- C22 (as amended), on the post-init state: with a will and the topics "/a"
and "/b" the queue is CONNECT, WILLTOPIC, WILLMSG, REGISTER, REGISTER and the
names are in slots 1 and 2; without a will the queue is CONNECT, REGISTER,
REGISTER and the names are in slots 1 and 2 as well. -/
theorem create_sck_seeds_witness :
    post_init.mqtt_queue = [] ∧ post_init.g_task_id = 0 ∧
      ((mqtt_sn_create_sck post_init scenario_conn_will [topic_a, topic_b] 1 true).1 =
          .SUCCESS_CON ∧
        (mqtt_sn_create_sck post_init scenario_conn_will [topic_a, topic_b] 1
            true).2.mqtt_queue.map (fun x => x.msg_type_q) =
          [MQTT_SN_TYPE_CONNECT, MQTT_SN_TYPE_WILLTOPIC, MQTT_SN_TYPE_WILLMSG,
            MQTT_SN_TYPE_REGISTER, MQTT_SN_TYPE_REGISTER] ∧
        (mqtt_sn_create_sck post_init scenario_conn_will [topic_a, topic_b] 1
            true).2.g_topic_bind (0 + 1) =
          { post_init.g_topic_bind (0 + 1) with topic_name := some topic_a } ∧
        (mqtt_sn_create_sck post_init scenario_conn_will [topic_a, topic_b] 1
            true).2.g_topic_bind (1 + 1) =
          { post_init.g_topic_bind (1 + 1) with topic_name := some topic_b }) ∧
      ((mqtt_sn_create_sck post_init scenario_conn [topic_a, topic_b] 1
            true).2.mqtt_queue.map (fun x => x.msg_type_q) =
          [MQTT_SN_TYPE_CONNECT, MQTT_SN_TYPE_REGISTER, MQTT_SN_TYPE_REGISTER] ∧
        (mqtt_sn_create_sck post_init scenario_conn [topic_a, topic_b] 1
            true).2.g_topic_bind (0 + 1) =
          { post_init.g_topic_bind (0 + 1) with topic_name := some topic_a } ∧
        (mqtt_sn_create_sck post_init scenario_conn [topic_a, topic_b] 1
            true).2.g_topic_bind (1 + 1) =
          { post_init.g_topic_bind (1 + 1) with topic_name := some topic_b }) :=
  have h1 := create_sck_seeds post_init scenario_conn_will [topic_a, topic_b] 1
    (by decide) (by decide) (by decide) (by decide)
  have h2 := create_sck_seeds post_init scenario_conn [topic_a, topic_b] 1
    (by decide) (by decide) (by decide) (by decide)
  ⟨by decide, by decide,
    ⟨h1.1, h1.2.1, h1.2.2.1 0 (by decide), h1.2.2.1 1 (by decide)⟩,
    ⟨h2.2.1, h2.2.2.1 0 (by decide), h2.2.2.1 1 (by decide)⟩⟩

/-- C22, counterexample: on the post-init state, with the client id "C" and
the two topics "/a" and "/b", `mqtt_sn_create_sck` returns failure when
`simple_udp_register` fails: nothing is queued and no event is posted. -/
theorem create_sck_udp_counterexample :
    scenario_conn.client_id.length ≤ 23 ∧
      (mqtt_sn_create_sck post_init scenario_conn [topic_a, topic_b] 1 false).1 = .FAIL_CON ∧
      (mqtt_sn_create_sck post_init scenario_conn [topic_a, topic_b] 1 false).2.mqtt_queue =
        [] ∧
      (mqtt_sn_create_sck post_init scenario_conn [topic_a, topic_b] 1 false).2.events =
        [] := by
  decide

/-- C23 (as amended): with a client id longer than 23 bytes
`mqtt_sn_create_sck` returns failure, and task queue, registry, status, events
and packets sent are as before the call, but the callback, the reconnect topic
list with its length and the connection configuration have already been
overwritten with the arguments. With a client id of at most 23 bytes, and a
successful UDP registration when one is made, it returns success. -/
theorem create_sck_client_id (st : State) (conn : mqtt_sn_con_t) (topics : List CStr)
    (cb_f : Nat) (udp_ok : Bool) :
    (23 < conn.client_id.length →
      mqtt_sn_create_sck st conn topics cb_f udp_ok =
        (.FAIL_CON,
          { st with
            callback_mqtt := cb_f
            topics_len := topics.length % 65536
            topics_reconnect := topics ++ st.topics_reconnect.drop topics.length
            out_of_bounds := st.out_of_bounds || decide (topics.length > MAX_TOPIC_USED)
            g_mqtt_sn_con := conn })) ∧
      (conn.client_id.length ≤ 23 → (st.g_recon = true ∨ udp_ok = true) →
        (mqtt_sn_create_sck st conn topics cb_f udp_ok).1 = .SUCCESS_CON) := by
  refine ⟨fun h => ?_, fun h hu => ?_⟩
  · simp [mqtt_sn_create_sck, h]
  · rcases hu with hu | hu <;>
      simp [mqtt_sn_create_sck, Nat.not_lt.mpr h, hu]

/-- C23 (as amended), in the ready state of the scenario: a call with a client
id of 24 bytes fails and stores its arguments; a call with the id "C" succeeds. -/
theorem create_sck_client_id_witness :
    (23 < ({ scenario_conn with client_id := long_client_id } : mqtt_sn_con_t).client_id.length ∧
      mqtt_sn_create_sck scenario_ready { scenario_conn with client_id := long_client_id }
          [topic_c] 2 true =
        (.FAIL_CON,
          { scenario_ready with
            callback_mqtt := 2
            topics_len := [topic_c].length % 65536
            topics_reconnect := [topic_c] ++ scenario_ready.topics_reconnect.drop [topic_c].length
            out_of_bounds :=
              scenario_ready.out_of_bounds || decide ([topic_c].length > MAX_TOPIC_USED)
            g_mqtt_sn_con := { scenario_conn with client_id := long_client_id } })) ∧
      (scenario_conn.client_id.length ≤ 23 ∧
        (mqtt_sn_create_sck post_init scenario_conn [topic_a, topic_b] 1 true).1 =
          .SUCCESS_CON) :=
  ⟨⟨by decide,
      (create_sck_client_id scenario_ready { scenario_conn with client_id := long_client_id }
        [topic_c] 2 true).1 (by decide)⟩,
    ⟨by decide,
      (create_sck_client_id post_init scenario_conn [topic_a, topic_b] 1 true).2 (by decide)
        (Or.inr rfl)⟩⟩

/-- C23, counterexample: in the ready state of the scenario (callback 1, client
id "C", reconnect topics "/a" and "/b") a call with a client id of 24 bytes,
the topic "/c" and callback 2 returns failure, and afterwards the stored
callback is 2, the stored configuration holds the rejected client id and the
stored reconnect list starts with "/c" and has length 1. -/
theorem create_sck_client_id_counterexample :
    scenario_ready.callback_mqtt = 1 ∧ scenario_ready.g_mqtt_sn_con = scenario_conn ∧
      scenario_ready.topics_reconnect = [topic_a, topic_b] ∧ scenario_ready.topics_len = 2 ∧
      (mqtt_sn_create_sck scenario_ready { scenario_conn with client_id := long_client_id }
        [topic_c] 2 true).1 = .FAIL_CON ∧
      (mqtt_sn_create_sck scenario_ready { scenario_conn with client_id := long_client_id }
        [topic_c] 2 true).2.callback_mqtt = 2 ∧
      (mqtt_sn_create_sck scenario_ready { scenario_conn with client_id := long_client_id }
        [topic_c] 2 true).2.g_mqtt_sn_con.client_id = long_client_id ∧
      (mqtt_sn_create_sck scenario_ready { scenario_conn with client_id := long_client_id }
        [topic_c] 2 true).2.topics_reconnect = [topic_c, topic_b] ∧
      (mqtt_sn_create_sck scenario_ready { scenario_conn with client_id := long_client_id }
        [topic_c] 2 true).2.topics_len = 1 := by
  decide

/-! ## The task queue -/

/-- The queue after a run of pushes that all succeeded: the tasks were appended
in order with the fields the callers supplied. -/
theorem insert_all_queue (ts : List mqtt_sn_task_t) :
    ∀ (st : State), st.mqtt_queue.length ≤ MAX_QUEUE_MQTT_SN + 1 →
      (insert_all ts st).1 = List.replicate ts.length .SUCCESS_CON →
      (insert_all ts st).2.mqtt_queue.map task_fields =
          st.mqtt_queue.map task_fields ++ ts.map task_fields ∧
        st.mqtt_queue.length + ts.length ≤ MAX_QUEUE_MQTT_SN + 1 := by
  induction ts with
  | nil =>
    intro st hlen _
    simp only [insert_all, List.map_nil, List.append_nil, List.length_nil, Nat.add_zero,
      true_and]
    exact hlen
  | cons t ts ih =>
    intro st _ hok
    simp only [insert_all, List.length_cons, List.replicate_succ, List.cons.injEq] at hok
    obtain ⟨h1, h2⟩ := hok
    have hroom : st.mqtt_queue.length ≤ MAX_QUEUE_MQTT_SN := by
      by_contra hcon
      rw [insert_queue_full st t (by omega)] at h1
      cases h1
    rw [insert_queue_room st t hroom] at h2
    obtain ⟨c1, c2⟩ := ih _ (by simp; omega) h2
    simp only [insert_all, insert_queue_room st t hroom]
    constructor
    · rw [c1]
      simp [task_fields]
    · simp only [List.length_append, List.length_singleton] at c2
      simp only [List.length_cons]
      omega

/-- Pushes succeed as long as the queue ends with at most
`MAX_QUEUE_MQTT_SN + 1` tasks. -/
theorem insert_all_ok (ts : List mqtt_sn_task_t) :
    ∀ (st : State), st.mqtt_queue.length + ts.length ≤ MAX_QUEUE_MQTT_SN + 1 →
      (insert_all ts st).1 = List.replicate ts.length .SUCCESS_CON := by
  induction ts with
  | nil => intro st _; rfl
  | cons t ts ih =>
    intro st h
    simp only [List.length_cons] at h
    simp only [insert_all, insert_queue_room st t (by omega), List.length_cons,
      List.replicate_succ, List.cons.injEq, true_and]
    exact ih _ (by simp; omega)

/-- Pops on a queue that holds at least `j` tasks remove its first `j` tasks. -/
theorem delete_iterate (j : Nat) :
    ∀ (st : State), j ≤ st.mqtt_queue.length →
      (Nat.iterate mqtt_sn_delete_queue j st).mqtt_queue = st.mqtt_queue.drop j := by
  induction j with
  | zero => intro st _; rfl
  | succ j ih =>
    intro st hj
    cases hq : st.mqtt_queue with
    | nil => rw [hq] at hj; simp at hj
    | cons t rest =>
      have hd := delete_queue_cons st t rest hq
      rw [Function.iterate_succ_apply, ih (mqtt_sn_delete_queue st) (by
        rw [hd]; rw [hq] at hj; simpa using hj), hd]
      simp

/-- C24: when the calls `mqtt_sn_insert_queue(t_1)`, ..., `(t_k)` made on an
empty queue all succeed and `j ≤ k` calls of `mqtt_sn_delete_queue` follow, the
queue holds `t_(j+1)`, ..., `t_k` in insertion order, head first, with type,
short_topic, qos and retain as inserted; `mqtt_sn_check_empty` is true iff
`j = k`. The `k` calls all succeed exactly when `k ≤ MAX_QUEUE_MQTT_SN + 1`. -/
theorem queue_fifo (st : State) (ts : List mqtt_sn_task_t) (j : Nat)
    (hq : st.mqtt_queue = [])
    (hok : (insert_all ts st).1 = List.replicate ts.length .SUCCESS_CON)
    (hj : j ≤ ts.length) :
    (Nat.iterate mqtt_sn_delete_queue j (insert_all ts st).2).mqtt_queue.map task_fields =
        (ts.drop j).map task_fields ∧
      ((Nat.iterate mqtt_sn_delete_queue j (insert_all ts st).2).mqtt_queue.head?.map task_fields =
        (ts.drop j).head?.map task_fields) ∧
      (mqtt_sn_check_empty (Nat.iterate mqtt_sn_delete_queue j (insert_all ts st).2) = true ↔
        j = ts.length) ∧
      ts.length ≤ MAX_QUEUE_MQTT_SN + 1 ∧
      ∀ ts2 : List mqtt_sn_task_t, ts2.length ≤ MAX_QUEUE_MQTT_SN + 1 →
        (insert_all ts2 st).1 = List.replicate ts2.length .SUCCESS_CON := by
  obtain ⟨c1, c2⟩ := insert_all_queue ts st (by simp [hq]) hok
  rw [hq] at c1 c2
  simp only [List.map_nil, List.nil_append, List.length_nil, Nat.zero_add] at c1 c2
  have hlen : (insert_all ts st).2.mqtt_queue.length = ts.length := by
    have := congrArg List.length c1
    simpa using this
  have hdrop := delete_iterate j (insert_all ts st).2 (by omega)
  have hmap : (Nat.iterate mqtt_sn_delete_queue j (insert_all ts st).2).mqtt_queue.map
      task_fields = (ts.drop j).map task_fields := by
    rw [hdrop, List.map_drop, c1, List.map_drop]
  refine ⟨hmap, ?_, ?_, c2, fun ts2 h2 => insert_all_ok ts2 st (by simp [hq]; omega)⟩
  · have := congrArg List.head? hmap
    simpa [List.head?_map] using this
  · have hl := congrArg List.length hmap
    simp only [List.length_map, List.length_drop] at hl
    simp only [mqtt_sn_check_empty, List.isEmpty_iff_length_eq_zero, hl]
    omega

/-- C24, with three tasks pushed on the empty queue of the post-init state and
one popped: the second and the third remain, the second at the head. -/
theorem queue_fifo_witness :
    post_init.mqtt_queue = [] ∧
      (insert_all [sample_task 0x0C, sample_task 0x12, sample_task 0x0A] post_init).1 =
        List.replicate 3 .SUCCESS_CON ∧
      (Nat.iterate mqtt_sn_delete_queue 1
        (insert_all [sample_task 0x0C, sample_task 0x12, sample_task 0x0A]
          post_init).2).mqtt_queue.map task_fields =
        ([sample_task 0x0C, sample_task 0x12, sample_task 0x0A].drop 1).map task_fields :=
  ⟨by decide, by decide,
    (queue_fifo post_init [sample_task 0x0C, sample_task 0x12, sample_task 0x0A] 1 (by decide)
      (by decide) (by decide)).1⟩

/-- The task counter equals the number of queued tasks, and that number is at
most `MAX_QUEUE_MQTT_SN + 1`: both are kept by every queue call. -/
theorem queue_op_counter (op : queue_op) (st : State)
    (h0 : st.g_task_id = st.mqtt_queue.length)
    (hlen : st.mqtt_queue.length ≤ MAX_QUEUE_MQTT_SN + 1) :
    (apply_queue_op op st).g_task_id = (apply_queue_op op st).mqtt_queue.length ∧
      (apply_queue_op op st).mqtt_queue.length ≤ MAX_QUEUE_MQTT_SN + 1 := by
  cases op with
  | push t =>
    simp only [apply_queue_op]
    by_cases hroom : st.mqtt_queue.length ≤ MAX_QUEUE_MQTT_SN
    · rw [insert_queue_room st t hroom]
      simp only [List.length_append, List.length_singleton, h0]
      simp only [MAX_QUEUE_MQTT_SN] at hroom ⊢
      refine ⟨Nat.mod_eq_of_lt (by omega), by omega⟩
    · rw [insert_queue_full st t (by omega)]
      exact ⟨h0, hlen⟩
  | pop =>
    simp only [apply_queue_op, mqtt_sn_delete_queue]
    cases hq : st.mqtt_queue with
    | nil =>
      rw [hq] at h0
      simpa [hq] using h0
    | cons t rest =>
      cases rest with
      | nil => simp
      | cons t2 rest2 =>
        rw [hq] at h0 hlen
        simp only [List.length_cons] at h0 hlen ⊢
        simp only [MAX_QUEUE_MQTT_SN] at hlen ⊢
        rw [h0]
        refine ⟨?_, by omega⟩
        rw [show rest2.length + 1 + 1 + 255 = rest2.length + 1 + 256 by omega,
          Nat.add_mod_right, Nat.mod_eq_of_lt (by omega)]

theorem queue_ops_counter (ops : List queue_op) :
    ∀ (st : State), st.g_task_id = st.mqtt_queue.length →
      st.mqtt_queue.length ≤ MAX_QUEUE_MQTT_SN + 1 →
      (run_queue_ops ops st).g_task_id = (run_queue_ops ops st).mqtt_queue.length ∧
        (run_queue_ops ops st).mqtt_queue.length ≤ MAX_QUEUE_MQTT_SN + 1 := by
  induction ops with
  | nil => intro st h0 hlen; exact ⟨h0, hlen⟩
  | cons op ops ih =>
    intro st h0 hlen
    obtain ⟨c1, c2⟩ := queue_op_counter op st h0 hlen
    exact ih _ c1 c2

set_option maxRecDepth 100000 in
/-- C25, the code on a queue of 100 tasks: the insert succeeds and the queue
then holds 101 tasks, one more than `MAX_QUEUE_MQTT_SN`; it is the insert on
101 tasks that returns `FAIL_CON` and changes nothing. In general an insert
never makes the queue longer than `MAX_QUEUE_MQTT_SN + 1` tasks, if it was not
already. -/
theorem queue_accepts_one_more :
    scenario_hundred.mqtt_queue.length = MAX_QUEUE_MQTT_SN ∧
      (mqtt_sn_insert_queue scenario_hundred (sample_task 0x0C)).1 = .SUCCESS_CON ∧
      (mqtt_sn_insert_queue scenario_hundred (sample_task 0x0C)).2.mqtt_queue.length =
        MAX_QUEUE_MQTT_SN + 1 ∧
      (mqtt_sn_insert_queue scenario_hundred (sample_task 0x0C)).2.g_task_id =
        scenario_hundred.g_task_id + 1 ∧
      scenario_full.mqtt_queue.length = MAX_QUEUE_MQTT_SN + 1 ∧
      (mqtt_sn_insert_queue scenario_full (sample_task 0x0C)).1 = .FAIL_CON ∧
      (mqtt_sn_insert_queue scenario_full (sample_task 0x0C)).2.mqtt_queue =
        scenario_full.mqtt_queue ∧
      (mqtt_sn_insert_queue scenario_full (sample_task 0x0C)).2.g_task_id =
        scenario_full.g_task_id ∧
      ∀ (st : State) (new : mqtt_sn_task_t),
        (mqtt_sn_insert_queue st new).2.mqtt_queue.length ≤
          max st.mqtt_queue.length (MAX_QUEUE_MQTT_SN + 1) := by
  refine ⟨by decide, by decide, by decide, by decide, by decide, by decide, by decide,
    by decide, fun st new => ?_⟩
  unfold mqtt_sn_insert_queue
  simp only
  split
  · simp
  · simp only [List.length_append, List.length_singleton]
    omega

/-- C26 (as amended): starting from a state whose task counter equals the
number of queued tasks (such as the empty queue with counter 0), after every
sequence of pushes and pops the counter again equals the number of queued
tasks, which is at most `MAX_QUEUE_MQTT_SN + 1`. So the counter is 0 exactly
when the queue is empty, and a push that succeeds assigns as `id_task` the
number of tasks queued before it: ids grow while only pushes are made, but a
push made after a pop repeats the id of the task queued last. -/
theorem task_counter_tracks_queue (st : State) (ops : List queue_op)
    (h0 : st.g_task_id = st.mqtt_queue.length)
    (hlen : st.mqtt_queue.length ≤ MAX_QUEUE_MQTT_SN + 1) :
    (run_queue_ops ops st).g_task_id = (run_queue_ops ops st).mqtt_queue.length ∧
      (run_queue_ops ops st).mqtt_queue.length ≤ MAX_QUEUE_MQTT_SN + 1 ∧
      ((run_queue_ops ops st).mqtt_queue = [] ↔ (run_queue_ops ops st).g_task_id = 0) ∧
      ∀ t : mqtt_sn_task_t, (run_queue_ops ops st).mqtt_queue.length ≤ MAX_QUEUE_MQTT_SN →
        mqtt_sn_insert_queue (run_queue_ops ops st) t =
          (.SUCCESS_CON,
            { run_queue_ops ops st with
              mqtt_queue := (run_queue_ops ops st).mqtt_queue ++
                [{ t with id_task := (run_queue_ops ops st).mqtt_queue.length }]
              g_task_id := (run_queue_ops ops st).mqtt_queue.length + 1 }) := by
  obtain ⟨c1, c2⟩ := queue_ops_counter ops st h0 hlen
  refine ⟨c1, c2, ?_, fun t hroom => ?_⟩
  · rw [c1]
    exact List.length_eq_zero.symm
  · rw [insert_queue_room _ t hroom, c1]
    have : ((run_queue_ops ops st).mqtt_queue.length + 1) % 256 =
        (run_queue_ops ops st).mqtt_queue.length + 1 :=
      Nat.mod_eq_of_lt (by simp only [MAX_QUEUE_MQTT_SN] at hroom; omega)
    rw [this]

/-- C26 (as amended), on the post-init state: after push, push, pop the counter
is 1, the number of queued tasks, and the next push gets the id 1. -/
theorem task_counter_tracks_queue_witness :
    post_init.g_task_id = post_init.mqtt_queue.length ∧
      (run_queue_ops [.push (sample_task 0x0C), .push (sample_task 0x12), .pop]
        post_init).g_task_id =
        (run_queue_ops [.push (sample_task 0x0C), .push (sample_task 0x12), .pop]
          post_init).mqtt_queue.length ∧
      (run_queue_ops [.push (sample_task 0x0C), .push (sample_task 0x12), .pop]
        post_init).mqtt_queue.length = 1 :=
  ⟨by decide,
    (task_counter_tracks_queue post_init
      [.push (sample_task 0x0C), .push (sample_task 0x12), .pop] (by decide) (by decide)).1,
    by decide⟩

/-- C26, counterexample: on the empty queue of the post-init state, push A,
push B, pop, push C. A got id 0, B got id 1, and C, pushed while B was still
queued, got id 1 again: B and C are queued together with the same id. -/
theorem task_id_counterexample :
    post_init.mqtt_queue = [] ∧ post_init.g_task_id = 0 ∧
      (run_queue_ops [.push (sample_task 0x0C), .push (sample_task 0x12)]
        post_init).mqtt_queue.map (fun t => (t.msg_type_q, t.id_task)) =
        [(0x0C, 0), (0x12, 1)] ∧
      (run_queue_ops [.push (sample_task 0x0C), .push (sample_task 0x12), .pop,
        .push (sample_task 0x0A)] post_init).mqtt_queue.map
          (fun t => (t.msg_type_q, t.id_task)) =
        [(0x12, 1), (0x0A, 1)] := by
  decide

/-! ## Disconnect -/

/-- C31: for every state and every 16-bit duration `d`, `mqtt_sn_disconnect`
returns success and hands the transport exactly the four bytes 0x04, 0x18, high
byte of `d`, low byte of `d`; every other part of the state, among them status,
queue, registry, counters and timers, is as before. -/
theorem disconnect_only_sends (st : State) (d : Nat) (hd : d < 65536) :
    mqtt_sn_disconnect st d =
        (.SUCCESS_CON, { st with sent := st.sent ++ [[0x04, 0x18, d / 256, d % 256]] }) ∧
      (mqtt_sn_disconnect st d).2.mqtt_status = st.mqtt_status := by
  have h : d / 256 % 256 = d / 256 := Nat.mod_eq_of_lt (by omega)
  simp [mqtt_sn_disconnect, simple_udp_send, uip_htons, MQTT_SN_TYPE_DISCONNECT, h]

set_option maxRecDepth 100000 in
theorem disconnect_only_sends_witness :
    (300 : Nat) < 65536 ∧
      (mqtt_sn_disconnect scenario_ready 300 =
          (.SUCCESS_CON,
            { scenario_ready with sent := scenario_ready.sent ++ [[0x04, 0x18, 300 / 256, 300 % 256]] }) ∧
        (mqtt_sn_disconnect scenario_ready 300).2.mqtt_status = scenario_ready.mqtt_status) ∧
      scenario_ready.mqtt_status = .MQTTSN_TOPIC_REGISTERED :=
  ⟨by decide, disconnect_only_sends scenario_ready 300 (by decide), by decide⟩

/-! ## Timer expiry outside the retried states -/

/-- C39: in every state whose status is none of the four retried ones
(WAITING_CONNACK, WAITING_REGACK, WAITING_SUBACK, WAITING_WILLTOPICREQ), so in
particular in WAITING_WILLMSGREQ, DISCONNECTED, CONNECTED and TOPIC_REGISTERED,
`timeout_con` returns the state it was called in: no packet, no event, status
and send-retry counter unchanged, no timer re-armed. An expiry of the connect
timer in such a state only takes that timer off the armed ones, and when the
register and subscribe timers were not armed, no retransmission timer is armed
afterwards. -/
theorem timeout_con_inert (st : State)
    (h1 : st.mqtt_status ≠ .MQTTSN_WAITING_CONNACK)
    (h2 : st.mqtt_status ≠ .MQTTSN_WAITING_REGACK)
    (h3 : st.mqtt_status ≠ .MQTTSN_WAITING_SUBACK)
    (h4 : st.mqtt_status ≠ .MQTTSN_WAITING_WILLTOPICREQ) :
    timeout_con st = st ∧
      expire_connect st =
        { st with mqtt_time_connect := { st.mqtt_time_connect with armed := false } } ∧
      (st.mqtt_time_register.armed = false → st.mqtt_time_subscribe.armed = false →
        (expire_connect st).mqtt_time_connect.armed = false ∧
          (expire_connect st).mqtt_time_register.armed = false ∧
          (expire_connect st).mqtt_time_subscribe.armed = false) := by
  have hexp : expire_connect st =
      { st with mqtt_time_connect := { st.mqtt_time_connect with armed := false } } := by
    simp [expire_connect, timeout_con, h1, h2, h3, h4]
  refine ⟨by simp [timeout_con, h1, h2, h3, h4], hexp, ?_⟩
  intro hr hs
  rw [hexp]
  exact ⟨rfl, hr, hs⟩

set_option maxRecDepth 100000 in
theorem timeout_con_inert_witness :
    scenario_waiting_willmsgreq.mqtt_status = .MQTTSN_WAITING_WILLMSGREQ ∧
      scenario_waiting_willmsgreq.mqtt_time_connect.armed = true ∧
      scenario_waiting_willmsgreq.mqtt_time_register.armed = false ∧
      scenario_waiting_willmsgreq.mqtt_time_subscribe.armed = false ∧
      (timeout_con scenario_waiting_willmsgreq = scenario_waiting_willmsgreq ∧
        expire_connect scenario_waiting_willmsgreq =
          { scenario_waiting_willmsgreq with
            mqtt_time_connect :=
              { scenario_waiting_willmsgreq.mqtt_time_connect with armed := false } } ∧
        (scenario_waiting_willmsgreq.mqtt_time_register.armed = false →
          scenario_waiting_willmsgreq.mqtt_time_subscribe.armed = false →
          (expire_connect scenario_waiting_willmsgreq).mqtt_time_connect.armed = false ∧
            (expire_connect scenario_waiting_willmsgreq).mqtt_time_register.armed = false ∧
            (expire_connect scenario_waiting_willmsgreq).mqtt_time_subscribe.armed = false)) :=
  ⟨by decide, by decide, by decide, by decide,
    timeout_con_inert scenario_waiting_willmsgreq (by decide) (by decide) (by decide)
      (by decide)⟩

theorem parse_willtopicreq (st : State) (data : Nat → Nat)
    (h1 : byte data 1 = MQTT_SN_TYPE_WILLTOPICREQ) :
    mqtt_sn_recv_parse st data =
      if st.mqtt_status = .MQTTSN_WAITING_WILLTOPICREQ then
        process_post st .mqtt_event_will_topicreq
      else st := by
  simp [mqtt_sn_recv_parse, h1, MQTT_SN_TYPE_WILLTOPICREQ, MQTT_SN_TYPE_CONNACK,
    MQTT_SN_TYPE_REGACK, MQTT_SN_TYPE_PUBACK, MQTT_SN_TYPE_SUBACK, MQTT_SN_TYPE_PINGRESP,
    MQTT_SN_TYPE_PINGREQ, MQTT_SN_TYPE_PUBLISH, MQTT_SN_TYPE_REGISTER]

theorem parse_willmsgreq (st : State) (data : Nat → Nat)
    (h1 : byte data 1 = MQTT_SN_TYPE_WILLMSGREQ) :
    mqtt_sn_recv_parse st data =
      if st.mqtt_status = .MQTTSN_WAITING_WILLMSGREQ then
        process_post st .mqtt_event_will_messagereq
      else st := by
  simp [mqtt_sn_recv_parse, h1, MQTT_SN_TYPE_WILLTOPICREQ, MQTT_SN_TYPE_CONNACK,
    MQTT_SN_TYPE_REGACK, MQTT_SN_TYPE_PUBACK, MQTT_SN_TYPE_SUBACK, MQTT_SN_TYPE_PINGRESP,
    MQTT_SN_TYPE_PINGREQ, MQTT_SN_TYPE_PUBLISH, MQTT_SN_TYPE_REGISTER,
    MQTT_SN_TYPE_WILLMSGREQ]

theorem main_will_topicreq (st : State) (c t2 : mqtt_sn_task_t) (q : List mqtt_sn_task_t)
    (topic : CStr) (hq : st.mqtt_queue = c :: t2 :: q)
    (ht : st.g_mqtt_sn_con.will_topic = some topic) (hl : topic.length ≤ 249) :
    mqtt_sn_main .mqtt_event_will_topicreq st =
      { st with
        sent := st.sent ++ [[3 + topic.length, 0x07, 0x10] ++ topic]
        mqtt_queue := t2 :: q
        g_task_id := (st.g_task_id + 255) % 256
        mqtt_status := .MQTTSN_WAITING_WILLMSGREQ } := by
  have h1 : (3 + topic.length) % 256 = 3 + topic.length := Nat.mod_eq_of_lt (by omega)
  have h2 : ¬ topic.length > MQTT_SN_MAX_TOPIC_LENGTH := by
    simp [MQTT_SN_MAX_TOPIC_LENGTH, MQTT_SN_MAX_PACKET_LENGTH]
    omega
  have h3 : List.take (3 + topic.length) ((3 + topic.length) :: 7 :: 16 :: (topic ++ [0])) =
      (3 + topic.length) :: 7 :: 16 :: topic := by
    rw [show 3 + topic.length = topic.length + 1 + 1 + 1 by omega]
    simp only [List.take_succ_cons, List.take_left]
  simp only [mqtt_sn_main, mqtt_sn_main_connect, mqtt_sn_main_tasks, reduceCtorEq, false_and,
    if_false, if_true, mqtt_sn_will_topic_send, ht, h2, h1, simple_udp_send,
    mqtt_sn_delete_queue, hq, MQTT_SN_FLAG_RETAIN, MQTT_SN_TYPE_WILLTOPIC]
  simp [h3]

theorem main_will_messagereq (st : State) (c t2 : mqtt_sn_task_t) (q : List mqtt_sn_task_t)
    (msg : CStr) (hq : st.mqtt_queue = c :: t2 :: q)
    (hm : st.g_mqtt_sn_con.will_message = some msg) (hl : msg.length ≤ 249) :
    mqtt_sn_main .mqtt_event_will_messagereq st =
      { st with
        sent := st.sent ++ [[2 + msg.length, 0x09] ++ msg]
        mqtt_queue := t2 :: q
        g_task_id := (st.g_task_id + 255) % 256
        mqtt_status := .MQTTSN_WAITING_CONNACK } := by
  have h1 : (2 + msg.length) % 256 = 2 + msg.length := Nat.mod_eq_of_lt (by omega)
  have h2 : ¬ msg.length > MQTT_SN_MAX_TOPIC_LENGTH := by
    simp [MQTT_SN_MAX_TOPIC_LENGTH, MQTT_SN_MAX_PACKET_LENGTH]
    omega
  have h3 : List.take (2 + msg.length) ((2 + msg.length) :: 9 :: (msg ++ [0])) =
      (2 + msg.length) :: 9 :: msg := by
    rw [show 2 + msg.length = msg.length + 1 + 1 by omega]
    simp only [List.take_succ_cons, List.take_left]
  simp only [mqtt_sn_main, mqtt_sn_main_connect, mqtt_sn_main_tasks, reduceCtorEq, false_and,
    if_false, if_true, mqtt_sn_will_message_send, hm, h2, h1, simple_udp_send,
    mqtt_sn_delete_queue, hq, MQTT_SN_TYPE_WILLMSG]
  simp [h3]

theorem willtopicreq_step (st : State) (c t2 : mqtt_sn_task_t) (q : List mqtt_sn_task_t)
    (topic : CStr) (data : Nat → Nat) (n : Nat)
    (hs : st.mqtt_status = .MQTTSN_WAITING_WILLTOPICREQ) (he : st.events = [])
    (hq : st.mqtt_queue = c :: t2 :: q)
    (ht : st.g_mqtt_sn_con.will_topic = some topic) (hl : topic.length ≤ 249)
    (h1 : byte data 1 = MQTT_SN_TYPE_WILLTOPICREQ) :
    run_events 8 (mqtt_sn_udp_rec_cb st data n) =
      { st with
        sent := st.sent ++ [[3 + topic.length, 0x07, 0x10] ++ topic]
        mqtt_queue := t2 :: q
        g_task_id := (st.g_task_id + 255) % 256
        mqtt_status := .MQTTSN_WAITING_WILLMSGREQ } := by
  unfold mqtt_sn_udp_rec_cb
  rw [parse_willtopicreq st data h1, if_pos hs, run_events_post 7 st _ he,
    main_will_topicreq st c t2 q topic hq ht hl]
  exact run_events_nil 7 _ he

theorem willmsgreq_step (st : State) (c t2 : mqtt_sn_task_t) (q : List mqtt_sn_task_t)
    (msg : CStr) (data : Nat → Nat) (n : Nat)
    (hs : st.mqtt_status = .MQTTSN_WAITING_WILLMSGREQ) (he : st.events = [])
    (hq : st.mqtt_queue = c :: t2 :: q)
    (hm : st.g_mqtt_sn_con.will_message = some msg) (hl : msg.length ≤ 249)
    (h1 : byte data 1 = MQTT_SN_TYPE_WILLMSGREQ) :
    run_events 8 (mqtt_sn_udp_rec_cb st data n) =
      { st with
        sent := st.sent ++ [[2 + msg.length, 0x09] ++ msg]
        mqtt_queue := t2 :: q
        g_task_id := (st.g_task_id + 255) % 256
        mqtt_status := .MQTTSN_WAITING_CONNACK } := by
  unfold mqtt_sn_udp_rec_cb
  rw [parse_willmsgreq st data h1, if_pos hs, run_events_post 7 st _ he,
    main_will_messagereq st c t2 q msg hq hm hl]
  exact run_events_nil 7 _ he

/-! ## The will handshake -/

/-- C32: in a state with status WAITING_WILLTOPICREQ, no event pending, a will
topic and a will message of at most 249 bytes and the three tasks of the connect
phase at the head of the queue, an inbound WILLTOPICREQ makes the client send
Length `3 + len(topic)`, MsgType 0x07, Flags 0x10 and the will topic bytes, pop
the head once and take status WAITING_WILLMSGREQ; an inbound WILLMSGREQ then
makes it send Length `2 + len(msg)`, MsgType 0x09 and the will message bytes, pop
the head once more and take status WAITING_CONNACK. Nothing else changes. In any
other status the parser leaves the state as it is for each of the two
packets. -/
theorem will_handshake (st : State) (c wt wm : mqtt_sn_task_t) (rest : List mqtt_sn_task_t)
    (topic msg : CStr) (data1 data2 : Nat → Nat) (n1 n2 : Nat)
    (hs : st.mqtt_status = .MQTTSN_WAITING_WILLTOPICREQ) (he : st.events = [])
    (hq : st.mqtt_queue = c :: wt :: wm :: rest)
    (ht : st.g_mqtt_sn_con.will_topic = some topic)
    (hm : st.g_mqtt_sn_con.will_message = some msg)
    (htl : topic.length ≤ 249) (hml : msg.length ≤ 249)
    (h1 : byte data1 1 = MQTT_SN_TYPE_WILLTOPICREQ)
    (h2 : byte data2 1 = MQTT_SN_TYPE_WILLMSGREQ) :
    run_events 8 (mqtt_sn_udp_rec_cb st data1 n1) =
        { st with
          sent := st.sent ++ [[3 + topic.length, 0x07, 0x10] ++ topic]
          mqtt_queue := wt :: wm :: rest
          g_task_id := (st.g_task_id + 255) % 256
          mqtt_status := .MQTTSN_WAITING_WILLMSGREQ } ∧
      run_events 8 (mqtt_sn_udp_rec_cb (run_events 8 (mqtt_sn_udp_rec_cb st data1 n1)) data2 n2) =
        { st with
          sent := st.sent ++ [[3 + topic.length, 0x07, 0x10] ++ topic, [2 + msg.length, 0x09] ++ msg]
          mqtt_queue := wm :: rest
          g_task_id := ((st.g_task_id + 255) % 256 + 255) % 256
          mqtt_status := .MQTTSN_WAITING_CONNACK } ∧
      (∀ s : State, s.mqtt_status ≠ .MQTTSN_WAITING_WILLTOPICREQ →
        mqtt_sn_udp_rec_cb s data1 n1 = s) ∧
      (∀ s : State, s.mqtt_status ≠ .MQTTSN_WAITING_WILLMSGREQ →
        mqtt_sn_udp_rec_cb s data2 n2 = s) := by
  have e1 := willtopicreq_step st c wt (wm :: rest) topic data1 n1 hs he hq ht htl h1
  refine ⟨e1, ?_, ?_, ?_⟩
  · rw [e1, willmsgreq_step
      { st with
        sent := st.sent ++ [[3 + topic.length, 0x07, 0x10] ++ topic]
        mqtt_queue := wt :: wm :: rest
        g_task_id := (st.g_task_id + 255) % 256
        mqtt_status := .MQTTSN_WAITING_WILLMSGREQ }
      wt wm rest msg data2 n2 rfl he rfl hm hml h2]
    simp
  · intro s hne
    unfold mqtt_sn_udp_rec_cb
    rw [parse_willtopicreq s data1 h1, if_neg hne]
  · intro s hne
    unfold mqtt_sn_udp_rec_cb
    rw [parse_willmsgreq s data2 h2, if_neg hne]

set_option maxRecDepth 100000 in
theorem will_handshake_witness :
    scenario_waiting_willtopicreq.mqtt_status = .MQTTSN_WAITING_WILLTOPICREQ ∧
      scenario_waiting_willtopicreq.events = [] ∧
      scenario_waiting_willtopicreq.mqtt_queue =
        queued_task MQTT_SN_TYPE_CONNECT 0 :: queued_task MQTT_SN_TYPE_WILLTOPIC 1 ::
          queued_task MQTT_SN_TYPE_WILLMSG 2 ::
          [queued_task MQTT_SN_TYPE_REGISTER 3, queued_task MQTT_SN_TYPE_REGISTER 4] ∧
      scenario_waiting_willtopicreq.g_mqtt_sn_con.will_topic = some [47, 119] ∧
      scenario_waiting_willtopicreq.g_mqtt_sn_con.will_message = some [120] ∧
      [47, 119].length ≤ 249 ∧ [120].length ≤ 249 ∧
      byte (buffer_of willtopicreq_packet) 1 = MQTT_SN_TYPE_WILLTOPICREQ ∧
      byte (buffer_of willmsgreq_packet) 1 = MQTT_SN_TYPE_WILLMSGREQ ∧
      (run_events 8
          (mqtt_sn_udp_rec_cb scenario_waiting_willtopicreq (buffer_of willtopicreq_packet) 2) =
        { scenario_waiting_willtopicreq with
          sent := scenario_waiting_willtopicreq.sent ++
            [[3 + [47, 119].length, 0x07, 0x10] ++ [47, 119]]
          mqtt_queue := queued_task MQTT_SN_TYPE_WILLTOPIC 1 :: queued_task MQTT_SN_TYPE_WILLMSG 2 ::
            [queued_task MQTT_SN_TYPE_REGISTER 3, queued_task MQTT_SN_TYPE_REGISTER 4]
          g_task_id := (scenario_waiting_willtopicreq.g_task_id + 255) % 256
          mqtt_status := .MQTTSN_WAITING_WILLMSGREQ } ∧
      run_events 8 (mqtt_sn_udp_rec_cb
          (run_events 8
            (mqtt_sn_udp_rec_cb scenario_waiting_willtopicreq (buffer_of willtopicreq_packet) 2))
          (buffer_of willmsgreq_packet) 2) =
        { scenario_waiting_willtopicreq with
          sent := scenario_waiting_willtopicreq.sent ++
            [[3 + [47, 119].length, 0x07, 0x10] ++ [47, 119], [2 + [120].length, 0x09] ++ [120]]
          mqtt_queue := queued_task MQTT_SN_TYPE_WILLMSG 2 ::
            [queued_task MQTT_SN_TYPE_REGISTER 3, queued_task MQTT_SN_TYPE_REGISTER 4]
          g_task_id := ((scenario_waiting_willtopicreq.g_task_id + 255) % 256 + 255) % 256
          mqtt_status := .MQTTSN_WAITING_CONNACK } ∧
      (∀ s : State, s.mqtt_status ≠ .MQTTSN_WAITING_WILLTOPICREQ →
        mqtt_sn_udp_rec_cb s (buffer_of willtopicreq_packet) 2 = s) ∧
      (∀ s : State, s.mqtt_status ≠ .MQTTSN_WAITING_WILLMSGREQ →
        mqtt_sn_udp_rec_cb s (buffer_of willmsgreq_packet) 2 = s)) :=
  ⟨by decide, by decide, by decide, by decide, by decide, by decide, by decide, by decide,
    by decide,
    will_handshake scenario_waiting_willtopicreq (queued_task MQTT_SN_TYPE_CONNECT 0)
      (queued_task MQTT_SN_TYPE_WILLTOPIC 1) (queued_task MQTT_SN_TYPE_WILLMSG 2)
      [queued_task MQTT_SN_TYPE_REGISTER 3, queued_task MQTT_SN_TYPE_REGISTER 4]
      [47, 119] [120] (buffer_of willtopicreq_packet) (buffer_of willmsgreq_packet) 2 2
      (by decide) (by decide) (by decide) (by decide) (by decide) (by decide) (by decide)
      (by decide) (by decide)⟩

/-! ## The task the CONNACK removes -/

theorem parse_connack_accepted (st : State) (data : Nat → Nat)
    (h1 : byte data 1 = MQTT_SN_TYPE_CONNACK) (h2 : byte data 2 = ACCEPTED)
    (hst : st.mqtt_status = .MQTTSN_WAITING_CONNACK) :
    mqtt_sn_recv_parse st data = process_post st .mqtt_event_connack := by
  unfold mqtt_sn_recv_parse
  simp [h1, h2, mqtt_sn_check_rc, hst]

theorem main_connack_pop (st : State) (head : mqtt_sn_task_t) (rest : List mqtt_sn_task_t)
    (hq : st.mqtt_queue = head :: rest) :
    mqtt_sn_main .mqtt_event_connack st =
      { st with
        mqtt_status := .MQTTSN_CONNECTED
        mqtt_time_connect := { st.mqtt_time_connect with armed := false }
        mqtt_queue := rest
        g_task_id := if rest = [] then 0 else (st.g_task_id + 255) % 256
        mqtt_time_ping :=
          { armed := true, interval := st.g_mqtt_sn_con.keep_alive * CLOCK_SECOND }
        events := st.events ++ [.mqtt_event_run_task] } := by
  cases rest with
  | nil =>
    simp [mqtt_sn_main, mqtt_sn_main_connect, mqtt_sn_main_tasks, mqtt_sn_delete_queue, hq,
      ctimer_stop, ctimer_set, process_post]
  | cons t q =>
    simp [mqtt_sn_main, mqtt_sn_main_connect, mqtt_sn_main_tasks, mqtt_sn_delete_queue, hq,
      ctimer_stop, ctimer_set, process_post]

/-- C33 (as amended): in every state with status WAITING_CONNACK, no event
pending and a non-empty queue, an accepted CONNACK, once its event is handled,
leaves the status CONNECTED, the connect timer stopped, the head task popped,
whatever its type, the ping timer armed for `keep_alive` seconds and `run_task`
posted; the tasks behind the head stay queued in their order. Without a will the
popped head is the CONNECT task; with a will the CONNECT task was popped when
the WILLTOPICREQ was handled and the WILLTOPIC task when the WILLMSGREQ was
handled, and the CONNACK pops the WILLMSG task. -/
theorem connack_pops_head (st : State) (head : mqtt_sn_task_t) (rest : List mqtt_sn_task_t)
    (data : Nat → Nat) (n : Nat)
    (hs : st.mqtt_status = .MQTTSN_WAITING_CONNACK) (he : st.events = [])
    (hq : st.mqtt_queue = head :: rest)
    (h1 : byte data 1 = MQTT_SN_TYPE_CONNACK) (h2 : byte data 2 = ACCEPTED) :
    run_events 1 (mqtt_sn_udp_rec_cb st data n) =
        { st with
          mqtt_status := .MQTTSN_CONNECTED
          mqtt_time_connect := { st.mqtt_time_connect with armed := false }
          mqtt_queue := rest
          g_task_id := if rest = [] then 0 else (st.g_task_id + 255) % 256
          mqtt_time_ping :=
            { armed := true, interval := st.g_mqtt_sn_con.keep_alive * CLOCK_SECOND }
          events := [.mqtt_event_run_task] } ∧
      (scenario_waiting_connack.mqtt_status = .MQTTSN_WAITING_CONNACK ∧
        scenario_waiting_connack.mqtt_queue.map (fun t => t.msg_type_q) =
          [MQTT_SN_TYPE_CONNECT, MQTT_SN_TYPE_REGISTER, MQTT_SN_TYPE_REGISTER]) ∧
      (scenario_waiting_willtopicreq.mqtt_queue.map (fun t => t.msg_type_q) =
          [MQTT_SN_TYPE_CONNECT, MQTT_SN_TYPE_WILLTOPIC, MQTT_SN_TYPE_WILLMSG,
            MQTT_SN_TYPE_REGISTER, MQTT_SN_TYPE_REGISTER] ∧
        scenario_waiting_willmsgreq.mqtt_queue.map (fun t => t.msg_type_q) =
          [MQTT_SN_TYPE_WILLTOPIC, MQTT_SN_TYPE_WILLMSG, MQTT_SN_TYPE_REGISTER,
            MQTT_SN_TYPE_REGISTER] ∧
        scenario_will_waiting_connack.mqtt_status = .MQTTSN_WAITING_CONNACK ∧
        scenario_will_waiting_connack.mqtt_queue.map (fun t => t.msg_type_q) =
          [MQTT_SN_TYPE_WILLMSG, MQTT_SN_TYPE_REGISTER, MQTT_SN_TYPE_REGISTER]) := by
  refine ⟨?_, by decide, by decide⟩
  unfold mqtt_sn_udp_rec_cb
  rw [parse_connack_accepted st data h1 h2 hs, run_events_post 0 st _ he,
    main_connack_pop st head rest hq]
  simp [run_events, he]

set_option maxRecDepth 100000 in
theorem connack_pops_head_witness :
    scenario_will_waiting_connack.mqtt_status = .MQTTSN_WAITING_CONNACK ∧
      scenario_will_waiting_connack.events = [] ∧
      scenario_will_waiting_connack.mqtt_queue =
        queued_task MQTT_SN_TYPE_WILLMSG 2 ::
          [queued_task MQTT_SN_TYPE_REGISTER 3, queued_task MQTT_SN_TYPE_REGISTER 4] ∧
      byte (buffer_of (connack_packet ACCEPTED)) 1 = MQTT_SN_TYPE_CONNACK ∧
      byte (buffer_of (connack_packet ACCEPTED)) 2 = ACCEPTED ∧
      (run_events 1
          (mqtt_sn_udp_rec_cb scenario_will_waiting_connack
            (buffer_of (connack_packet ACCEPTED)) 3) =
        { scenario_will_waiting_connack with
          mqtt_status := .MQTTSN_CONNECTED
          mqtt_time_connect := { scenario_will_waiting_connack.mqtt_time_connect with armed := false }
          mqtt_queue := [queued_task MQTT_SN_TYPE_REGISTER 3, queued_task MQTT_SN_TYPE_REGISTER 4]
          g_task_id :=
            if [queued_task MQTT_SN_TYPE_REGISTER 3, queued_task MQTT_SN_TYPE_REGISTER 4] = [] then 0
            else (scenario_will_waiting_connack.g_task_id + 255) % 256
          mqtt_time_ping :=
            { armed := true
              interval := scenario_will_waiting_connack.g_mqtt_sn_con.keep_alive * CLOCK_SECOND }
          events := [.mqtt_event_run_task] } ∧
      (scenario_waiting_connack.mqtt_status = .MQTTSN_WAITING_CONNACK ∧
        scenario_waiting_connack.mqtt_queue.map (fun t => t.msg_type_q) =
          [MQTT_SN_TYPE_CONNECT, MQTT_SN_TYPE_REGISTER, MQTT_SN_TYPE_REGISTER]) ∧
      (scenario_waiting_willtopicreq.mqtt_queue.map (fun t => t.msg_type_q) =
          [MQTT_SN_TYPE_CONNECT, MQTT_SN_TYPE_WILLTOPIC, MQTT_SN_TYPE_WILLMSG,
            MQTT_SN_TYPE_REGISTER, MQTT_SN_TYPE_REGISTER] ∧
        scenario_waiting_willmsgreq.mqtt_queue.map (fun t => t.msg_type_q) =
          [MQTT_SN_TYPE_WILLTOPIC, MQTT_SN_TYPE_WILLMSG, MQTT_SN_TYPE_REGISTER,
            MQTT_SN_TYPE_REGISTER] ∧
        scenario_will_waiting_connack.mqtt_status = .MQTTSN_WAITING_CONNACK ∧
        scenario_will_waiting_connack.mqtt_queue.map (fun t => t.msg_type_q) =
          [MQTT_SN_TYPE_WILLMSG, MQTT_SN_TYPE_REGISTER, MQTT_SN_TYPE_REGISTER])) :=
  ⟨by decide, by decide, by decide, by decide, by decide,
    connack_pops_head scenario_will_waiting_connack (queued_task MQTT_SN_TYPE_WILLMSG 2)
      [queued_task MQTT_SN_TYPE_REGISTER 3, queued_task MQTT_SN_TYPE_REGISTER 4]
      (buffer_of (connack_packet ACCEPTED)) 3
      (by decide) (by decide) (by decide) (by decide) (by decide)⟩

set_option maxRecDepth 100000 in
/-- C33, counterexample: with a will configured the client reaches
WAITING_CONNACK with the WILLMSG task at the head, and the accepted CONNACK pops
that task; the CONNECT task had left the queue two steps earlier. -/
theorem connack_pops_head_counterexample :
    scenario_will_waiting_connack.mqtt_status = .MQTTSN_WAITING_CONNACK ∧
      scenario_will_waiting_connack.mqtt_queue.head?.map (fun t => t.msg_type_q) =
        some MQTT_SN_TYPE_WILLMSG ∧
      MQTT_SN_TYPE_WILLMSG ≠ MQTT_SN_TYPE_CONNECT ∧
      MQTT_SN_TYPE_CONNECT ∉
        scenario_will_waiting_connack.mqtt_queue.map (fun t => t.msg_type_q) ∧
      (receive scenario_will_waiting_connack (connack_packet ACCEPTED)).mqtt_queue =
        scenario_will_waiting_connack.mqtt_queue.tail := by
  decide

/-! ## Reads of the head of an empty queue -/

theorem head_touch_nil (st : State) (h : st.mqtt_queue = []) :
    (head_touch st).null_deref = true := by
  unfold head_touch
  rw [h]

set_option maxRecDepth 100000 in
/-- C37 fails: (1) with an empty topic list the CONNACK handler pops the only
task and posts `run_task`, and the `run_task` handler then reads the type of the
head of the empty queue; (2) in the ready state, whose queue is empty, an
accepted REGACK or an accepted SUBACK with a TopicId other than 0 makes the
parser read the head; (3) in general the `run_task`, `register`, `regack`,
`subscribe` and `suback` handlers read the head of an empty queue when their
event is delivered, and `mqtt_sn_delete_queue` reads it when called. -/
theorem head_read_on_empty_queue :
    ((run_actions empty_topics_run.dropLast post_init).mqtt_queue = [] ∧
        (run_actions empty_topics_run.dropLast post_init).events = [.mqtt_event_run_task] ∧
        (run_actions empty_topics_run.dropLast post_init).null_deref = false ∧
        (run_actions empty_topics_run post_init).null_deref = true) ∧
      (scenario_ready.mqtt_queue = [] ∧ scenario_ready.null_deref = false ∧
        (mqtt_sn_udp_rec_cb scenario_ready
          (buffer_of (regack_packet 5 1 ACCEPTED)) 7).null_deref = true ∧
        (mqtt_sn_udp_rec_cb scenario_ready
          (buffer_of (suback_packet 0 1 1 ACCEPTED)) 8).null_deref = true) ∧
      ∀ st : State, st.mqtt_queue = [] →
        (mqtt_sn_main .mqtt_event_run_task st).null_deref = true ∧
          (mqtt_sn_main .mqtt_event_register st).null_deref = true ∧
          (mqtt_sn_main .mqtt_event_regack st).null_deref = true ∧
          (mqtt_sn_main .mqtt_event_subscribe st).null_deref = true ∧
          (mqtt_sn_main .mqtt_event_suback st).null_deref = true ∧
          (mqtt_sn_delete_queue st).null_deref = true := by
  refine ⟨by decide, by decide, ?_⟩
  intro st h
  have hn := head_touch_nil st h
  have ht : head_type (head_touch st) = none := by
    rw [head_type_head_touch]
    simp [head_type, h]
  refine ⟨?_, ?_, ?_, ?_, ?_, ?_⟩
  · simp [mqtt_sn_main, mqtt_sn_main_connect, mqtt_sn_main_tasks, mqtt_sn_main_run_task, ht, hn]
  · simp [mqtt_sn_main, mqtt_sn_main_connect, mqtt_sn_main_tasks, ht, hn]
  · simp [mqtt_sn_main, mqtt_sn_main_connect, mqtt_sn_main_tasks, ht, hn]
  · simp [mqtt_sn_main, mqtt_sn_main_connect, mqtt_sn_main_tasks, ht, hn]
  · simp [mqtt_sn_main, mqtt_sn_main_connect, mqtt_sn_main_tasks, ht, hn]
  · simp [mqtt_sn_delete_queue, h]

/-! ## The length byte of PUBLISH -/

set_option maxRecDepth 100000 in
/-- C40, the code at message lengths 248, 256 and 504, topic "/a" registered
with id 5: `mqtt_sn_pub_send` tests `data_len > sizeof(packet.data)` on the
eight-bit `data_len`, so it refuses a message exactly when its length modulo 256
is above 248. A message of 248 bytes passes: 249 bytes are copied into the
248-byte data field and the Length byte 7 + 249 wraps to 0, so an empty datagram
is handed to the transport. A message of 256 bytes has `data_len` 0 and passes:
an eight-byte PUBLISH with its first byte is sent. A message of 504 bytes has
`data_len` 248 and passes like the one of 248 bytes. -/
theorem pub_send_length_wraps :
    (∀ (st : State) (topic message : CStr) (retain_flag : Bool) (qos : Nat),
        ((mqtt_sn_pub_send st topic message retain_flag qos).1 = .SUCCESS_CON ↔
          message.length % 256 ≤ 248) ∧
        ((mqtt_sn_pub_send st topic message retain_flag qos).1 = .FAIL_CON →
          (mqtt_sn_pub_send st topic message retain_flag qos).2 = st)) ∧
      (mqtt_sn_pub_send scenario_ready topic_a (List.replicate 248 120) false 0).1 =
        .SUCCESS_CON ∧
      (mqtt_sn_pub_send scenario_ready topic_a (List.replicate 248 120) false 0).2.sent =
        scenario_ready.sent ++ [[]] ∧
      (mqtt_sn_pub_send scenario_ready topic_a (List.replicate 248 120) false 0).2.out_of_bounds =
        true ∧
      scenario_ready.out_of_bounds = false ∧
      (mqtt_sn_pub_send scenario_ready topic_a (List.replicate 256 120) false 0).1 =
        .SUCCESS_CON ∧
      (mqtt_sn_pub_send scenario_ready topic_a (List.replicate 256 120) false 0).2.sent =
        scenario_ready.sent ++ [[8, 0x0C, 0, 0, 5, 0, 0, 120]] ∧
      (mqtt_sn_pub_send scenario_ready topic_a (List.replicate 504 120) false 0).1 =
        .SUCCESS_CON ∧
      (mqtt_sn_pub_send scenario_ready topic_a (List.replicate 504 120) false 0).2.sent =
        scenario_ready.sent ++ [[]] := by
  refine ⟨?_, by decide, by decide, by decide, by decide, by decide, by decide, by decide,
    by decide⟩
  intro st topic message retain_flag qos
  by_cases h : message.length % 256 > MQTT_SN_MAX_PACKET_LENGTH - 7
  · have hf : mqtt_sn_pub_send st topic message retain_flag qos = (.FAIL_CON, st) := by
      simp only [mqtt_sn_pub_send, if_pos h]
    rw [hf]
    simp only [MQTT_SN_MAX_PACKET_LENGTH] at h
    exact ⟨⟨fun hc => (by cases hc), fun hle => (by omega)⟩, fun _ => rfl⟩
  · have hf : (mqtt_sn_pub_send st topic message retain_flag qos).1 = .SUCCESS_CON := by
      simp only [mqtt_sn_pub_send, if_neg h]
    rw [hf]
    simp only [MQTT_SN_MAX_PACKET_LENGTH] at h
    exact ⟨⟨fun _ => (by omega), fun _ => rfl⟩, fun hc => (by cases hc)⟩

/-! ## The SUBACK of a wildcard subscription -/

/-- C34 (as amended): an inbound SUBACK with return code ACCEPTED whose TopicId
has the low byte 0 pops the head task and sets the status to TOPIC_REGISTERED
when the head is a SUB_WILDCARD task, whatever the status was; the registry is
not touched and no event is posted. When the head is a task of any other type,
the state is left as it was: nothing is popped and the status is unchanged. -/
theorem wildcard_suback (st : State) (data : Nat → Nat) (datalen : Nat)
    (task : mqtt_sn_task_t) (rest : List mqtt_sn_task_t)
    (h1 : byte data 1 = MQTT_SN_TYPE_SUBACK) (h7 : byte data 7 = ACCEPTED)
    (h4 : byte data 4 = 0) (hq : st.mqtt_queue = task :: rest) :
    (task.msg_type_q = MQTT_SN_TYPE_SUB_WILDCARD →
      mqtt_sn_udp_rec_cb st data datalen =
        { st with
          mqtt_status := .MQTTSN_TOPIC_REGISTERED
          mqtt_queue := rest
          g_task_id := if rest = [] then 0 else (st.g_task_id + 255) % 256 }) ∧
      (task.msg_type_q ≠ MQTT_SN_TYPE_SUB_WILDCARD →
        mqtt_sn_udp_rec_cb st data datalen = st) := by
  have hh : head_touch st = st := head_touch_cons st task rest hq
  have hty : head_type st = some task.msg_type_q := by simp [head_type, hq]
  have hrc : mqtt_sn_check_rc (byte data 7) = .SUCCESS_CON := by
    rw [h7]; simp [mqtt_sn_check_rc]
  have t1 : ¬ byte data 1 = MQTT_SN_TYPE_CONNACK := by rw [h1]; decide
  have t2 : ¬ byte data 1 = MQTT_SN_TYPE_REGACK := by rw [h1]; decide
  have t3 : ¬ byte data 1 = MQTT_SN_TYPE_PUBACK := by rw [h1]; decide
  have hne : ¬ byte data 4 ≠ 0 := by rw [h4]; simp
  constructor
  · intro hw
    simp only [mqtt_sn_udp_rec_cb, mqtt_sn_recv_parse, if_neg t1, if_neg t2, if_neg t3, if_pos h1,
      if_pos hrc, if_neg hne, hh, hty, hw, if_true]
    unfold mqtt_sn_delete_queue
    simp only [hq]
    cases rest with
    | nil => simp
    | cons t2 r => simp
  · intro hw
    have hw2 : ¬ (some task.msg_type_q = some MQTT_SN_TYPE_SUB_WILDCARD) := by
      simpa using hw
    simp only [mqtt_sn_udp_rec_cb, mqtt_sn_recv_parse, if_neg t1, if_neg t2, if_neg t3, if_pos h1,
      if_pos hrc, if_neg hne, hh, hty, if_neg hw2]

set_option maxRecDepth 100000 in
theorem wildcard_suback_witness :
    byte (buffer_of (suback_packet 0 0 1 ACCEPTED)) 1 = MQTT_SN_TYPE_SUBACK ∧
      byte (buffer_of (suback_packet 0 0 1 ACCEPTED)) 7 = ACCEPTED ∧
      byte (buffer_of (suback_packet 0 0 1 ACCEPTED)) 4 = 0 ∧
      scenario_two_wildcards.mqtt_queue =
        [wildcard_task 0 0, wildcard_task 1 0] ∧
      ((MQTT_SN_TYPE_SUB_WILDCARD = MQTT_SN_TYPE_SUB_WILDCARD →
        mqtt_sn_udp_rec_cb scenario_two_wildcards (buffer_of (suback_packet 0 0 1 ACCEPTED)) 8 =
          { scenario_two_wildcards with
            mqtt_status := .MQTTSN_TOPIC_REGISTERED
            mqtt_queue :=
              [wildcard_task 1 0]
            g_task_id :=
              if [wildcard_task 1 0] = [] then 0
              else (scenario_two_wildcards.g_task_id + 255) % 256 }) ∧
        (MQTT_SN_TYPE_SUB_WILDCARD ≠ MQTT_SN_TYPE_SUB_WILDCARD →
          mqtt_sn_udp_rec_cb scenario_two_wildcards (buffer_of (suback_packet 0 0 1 ACCEPTED)) 8 =
            scenario_two_wildcards)) :=
  ⟨by decide, by decide, by decide, by decide,
    wildcard_suback scenario_two_wildcards (buffer_of (suback_packet 0 0 1 ACCEPTED)) 8
      (wildcard_task 0 0) [wildcard_task 1 0]
      (by decide) (by decide) (by decide) (by decide)⟩

set_option maxRecDepth 100000 in
/-- C34, counterexample: while the client waits for the REGACK of "/b" (status
WAITING_REGACK, the REGISTER task at the head of a non-empty queue), an
accepted SUBACK with TopicId 0 pops nothing and leaves the status as it is. -/
theorem wildcard_suback_counterexample :
    scenario_waiting_regack.mqtt_queue.map (fun t => t.msg_type_q) = [MQTT_SN_TYPE_REGISTER] ∧
      scenario_waiting_regack.mqtt_status = .MQTTSN_WAITING_REGACK ∧
      (receive scenario_waiting_regack (suback_packet 0 0 1 ACCEPTED)).mqtt_queue =
        scenario_waiting_regack.mqtt_queue ∧
      (receive scenario_waiting_regack (suback_packet 0 0 1 ACCEPTED)).mqtt_status =
        .MQTTSN_WAITING_REGACK := by
  decide

/-! ## The single retransmission timer -/

/-- The parts of the state that `mqtt_sn_insert_queue` leaves alone. -/
theorem insert_queue_quiet (st : State) (new : mqtt_sn_task_t) :
    (mqtt_sn_insert_queue st new).2.events = st.events ∧
      (mqtt_sn_insert_queue st new).2.sent = st.sent ∧
      (mqtt_sn_insert_queue st new).2.mqtt_status = st.mqtt_status := by
  unfold mqtt_sn_insert_queue
  simp only
  split <;> exact ⟨rfl, rfl, rfl⟩

/-! ### The core of the states the functions of the client leave -/

theorem core_of_head_touch (st : State) : core_of (head_touch st) = core_of st := by
  unfold head_touch
  split <;> rfl

theorem core_of_reg_touch (st : State) (i : Nat) : core_of (reg_touch st i) = core_of st := by
  unfold reg_touch
  split <;> rfl

theorem core_of_reg_write (st : State) (i : Nat) (f : short_topics_t → short_topics_t) :
    core_of (reg_write st i f) = core_of st := by
  unfold reg_write
  split <;> rfl

theorem core_of_delete_queue (st : State) :
    core_of (mqtt_sn_delete_queue st) = { core_of st with types := (core_of st).types.tail } := by
  unfold mqtt_sn_delete_queue
  split <;> simp_all [core_of, will_configured]

theorem core_of_process_post (st : State) (e : process_event_t) :
    core_of (process_post st e) = { core_of st with events := (core_of st).events ++ [e] } :=
  rfl

theorem core_of_con_send (st : State) : core_of (mqtt_sn_con_send st).2 = core_of st := rfl

theorem core_of_ping_send (st : State) : core_of (mqtt_sn_ping_send st) = core_of st := rfl

theorem core_of_regack_send (st : State) (a b : Nat) :
    core_of (mqtt_sn_regack_send st a b).2 = core_of st := rfl

theorem core_of_will_topic_send (st : State) :
    core_of (mqtt_sn_will_topic_send st).2 = core_of st := by
  unfold mqtt_sn_will_topic_send
  split
  · rfl
  · simp only
    split <;> rfl

theorem core_of_will_message_send (st : State) :
    core_of (mqtt_sn_will_message_send st).2 = core_of st := by
  unfold mqtt_sn_will_message_send
  split
  · rfl
  · simp only
    split <;> rfl

theorem core_of_reg_send (st : State) : core_of (mqtt_sn_reg_send st).2 = core_of st := by
  unfold mqtt_sn_reg_send
  simp only
  split
  · exact core_of_reg_touch st _
  · split
    · exact core_of_reg_touch st _
    · split
      · exact (core_of_head_touch _).trans (core_of_reg_touch st _)
      · exact (core_of_head_touch _).trans (core_of_reg_touch st _)

theorem core_of_sub_send (st : State) (topic : Option CStr) (qos : Option Nat) :
    core_of (mqtt_sn_sub_send st topic qos).2 = core_of st := by
  unfold mqtt_sn_sub_send
  simp only
  split <;> rfl

theorem core_of_sub_send_wildcard (st : State) (topic : Option CStr) (qos : Option Nat) :
    core_of (mqtt_sn_sub_send_wildcard st topic qos).2 = core_of st := by
  unfold mqtt_sn_sub_send_wildcard
  simp only
  split <;> rfl

theorem core_of_pub_send (st : State) (topic message : CStr) (r : Bool) (qos : Nat) :
    core_of (mqtt_sn_pub_send st topic message r qos).2 = core_of st := by
  unfold mqtt_sn_pub_send
  simp only
  split
  · rfl
  · split <;> rfl

theorem core_of_head_type (st : State) : head_type st = (core_of st).types.head? := by
  simp [head_type, core_of]

theorem core_of_main_connect (st : State) :
    core_of (mqtt_sn_main .mqtt_event_connect st) =
      core_main .mqtt_event_connect (core_of st) := by
  simp only [mqtt_sn_main, mqtt_sn_main_connect, mqtt_sn_main_tasks, reduceCtorEq, false_and,
    if_false, true_and, core_main]
  by_cases hs : st.mqtt_status = .MQTTSN_DISCONNECTED
  · have hs2 : (core_of st).status = .MQTTSN_DISCONNECTED := hs
    rw [if_pos hs, if_pos hs2]
    cases hw : will_configured st
    · have hw2 : (st.g_mqtt_sn_con.will_topic.isSome &&
          st.g_mqtt_sn_con.will_message.isSome) = false := hw
      simp [core_of, hw, mqtt_sn_con_send, simple_udp_send, hw2, ctimer_set, will_configured]
    · have hw2 : (st.g_mqtt_sn_con.will_topic.isSome &&
          st.g_mqtt_sn_con.will_message.isSome) = true := hw
      simp [core_of, hw, mqtt_sn_con_send, simple_udp_send, hw2, ctimer_set, will_configured]
  · have hs2 : ¬ (core_of st).status = .MQTTSN_DISCONNECTED := hs
    rw [if_neg hs, if_neg hs2]

theorem core_of_main_connack (st : State) :
    core_of (mqtt_sn_main .mqtt_event_connack st) =
      core_main .mqtt_event_connack (core_of st) := by
  simp only [mqtt_sn_main, mqtt_sn_main_connect, mqtt_sn_main_tasks, reduceCtorEq, false_and,
    if_false, if_true, core_main, core_of_process_post]
  have hd := core_of_delete_queue
    { st with
      mqtt_status := .MQTTSN_CONNECTED
      mqtt_time_connect := ctimer_stop st.mqtt_time_connect }
  simp only [core_of, will_configured, ctimer_stop, ctimer_set] at hd ⊢
  simp only [protocol_core.mk.injEq] at hd ⊢
  simp [hd.1, hd.2.1, hd.2.2.1, hd.2.2.2.1, hd.2.2.2.2.1, hd.2.2.2.2.2.1, hd.2.2.2.2.2.2]

theorem core_of_main_will_topicreq (st : State) :
    core_of (mqtt_sn_main .mqtt_event_will_topicreq st) =
      core_main .mqtt_event_will_topicreq (core_of st) := by
  simp only [mqtt_sn_main, mqtt_sn_main_connect, mqtt_sn_main_tasks, reduceCtorEq, false_and,
    if_false, if_true, core_main, core_of_delete_queue, core_of_will_topic_send]
  rfl

theorem core_of_main_will_messagereq (st : State) :
    core_of (mqtt_sn_main .mqtt_event_will_messagereq st) =
      core_main .mqtt_event_will_messagereq (core_of st) := by
  simp only [mqtt_sn_main, mqtt_sn_main_connect, mqtt_sn_main_tasks, reduceCtorEq, false_and,
    if_false, if_true, core_main]
  have h1 := core_of_will_message_send (mqtt_sn_delete_queue st)
  have h2 := core_of_delete_queue st
  rw [h2] at h1
  simp only [core_of, will_configured, protocol_core.mk.injEq] at h1 ⊢
  simp [h1.1, h1.2.1, h1.2.2.1, h1.2.2.2.2.1, h1.2.2.2.2.2.1, h1.2.2.2.2.2.2]

theorem core_of_main_register (st : State) :
    core_of (mqtt_sn_main .mqtt_event_register st) =
      core_main .mqtt_event_register (core_of st) := by
  simp only [mqtt_sn_main, mqtt_sn_main_connect, mqtt_sn_main_tasks, reduceCtorEq, false_and,
    if_false, if_true, core_main, head_type_head_touch]
  rw [core_of_head_type]
  split
  · have h1 := core_of_reg_send (head_touch st)
    rw [core_of_head_touch] at h1
    simp only [core_of, will_configured, protocol_core.mk.injEq, ctimer_set] at h1 ⊢
    simp [h1.1, h1.2.1, h1.2.2.1, h1.2.2.2.2.1, h1.2.2.2.2.2.1, h1.2.2.2.2.2.2]
  · exact core_of_head_touch st

theorem core_of_arm_subscribe (s st : State) (h : core_of s = core_of st)
    (x : mqtt_sn_status_t) (i g : Nat) :
    core_of
        { s with
          mqtt_status := x
          mqtt_time_subscribe := ctimer_set s.mqtt_time_subscribe i
          g_tries_send := g } =
      { core_of st with status := x, subscribe := true } := by
  rw [← h]
  rfl

theorem core_of_main_subscribe (st : State) :
    core_of (mqtt_sn_main .mqtt_event_subscribe st) =
      core_main .mqtt_event_subscribe (core_of st) := by
  have key : ∀ a b c, core_of (mqtt_sn_sub_send (reg_touch (head_touch st) a) b c).2 =
      core_of st := fun a b c => by
    rw [core_of_sub_send, core_of_reg_touch, core_of_head_touch]
  simp only [mqtt_sn_main, mqtt_sn_main_connect, mqtt_sn_main_tasks, reduceCtorEq, false_and,
    if_false, if_true, core_main, head_type_head_touch]
  rw [core_of_head_type]
  split
  · exact core_of_arm_subscribe _ st (key _ _ _) _ _ _
  · exact core_of_head_touch st

theorem core_of_check_empty (st : State) :
    mqtt_sn_check_empty st = decide ((core_of st).types = []) := by
  unfold mqtt_sn_check_empty core_of
  cases st.mqtt_queue <;> simp

theorem core_of_main_regack (st : State) :
    core_of (mqtt_sn_main .mqtt_event_regack st) =
      core_main .mqtt_event_regack (core_of st) := by
  simp only [mqtt_sn_main, mqtt_sn_main_connect, mqtt_sn_main_tasks, reduceCtorEq, false_and,
    if_false, if_true, core_main, head_type_head_touch]
  rw [core_of_head_type]
  split
  · have h1 := core_of_delete_queue (head_touch st)
    rw [core_of_head_touch] at h1
    have hce := core_of_check_empty
      { mqtt_sn_delete_queue (head_touch st) with
        mqtt_time_register :=
          ctimer_stop (mqtt_sn_delete_queue (head_touch st)).mqtt_time_register }
    have hty : (core_of
        { mqtt_sn_delete_queue (head_touch st) with
          mqtt_time_register :=
            ctimer_stop (mqtt_sn_delete_queue (head_touch st)).mqtt_time_register }).types =
        (core_of st).types.tail := by
      have := congrArg protocol_core.types h1
      simpa [core_of] using this
    rw [hty] at hce
    simp only [hce]
    by_cases ht : (core_of st).types.tail = []
    · simp only [ht, decide_True, Bool.not_true, Bool.false_eq_true, if_false, if_true,
        core_of_process_post]
      simp only [core_of, will_configured, protocol_core.mk.injEq, ctimer_stop] at h1 ht ⊢
      simp [h1.1, h1.2.1, h1.2.2.1, h1.2.2.2.1, h1.2.2.2.2.1, h1.2.2.2.2.2.1, h1.2.2.2.2.2.2, ht]
    · simp only [ht, decide_False, Bool.not_false, if_true, if_false, core_of_process_post]
      simp only [core_of, will_configured, protocol_core.mk.injEq, ctimer_stop] at h1 ht ⊢
      simp [h1.1, h1.2.1, h1.2.2.1, h1.2.2.2.1, h1.2.2.2.2.1, h1.2.2.2.2.2.1, h1.2.2.2.2.2.2]
  · exact core_of_head_touch st

theorem core_of_main_suback (st : State) :
    core_of (mqtt_sn_main .mqtt_event_suback st) =
      core_main .mqtt_event_suback (core_of st) := by
  simp only [mqtt_sn_main, mqtt_sn_main_connect, mqtt_sn_main_tasks, reduceCtorEq, false_and,
    if_false, if_true, core_main, head_type_head_touch]
  rw [core_of_head_type]
  split
  · have h1 := core_of_delete_queue (head_touch st)
    rw [core_of_head_touch] at h1
    have hce := core_of_check_empty
      { mqtt_sn_delete_queue (head_touch st) with
        mqtt_time_subscribe :=
          ctimer_stop (mqtt_sn_delete_queue (head_touch st)).mqtt_time_subscribe }
    have hty : (core_of
        { mqtt_sn_delete_queue (head_touch st) with
          mqtt_time_subscribe :=
            ctimer_stop (mqtt_sn_delete_queue (head_touch st)).mqtt_time_subscribe }).types =
        (core_of st).types.tail := by
      have := congrArg protocol_core.types h1
      simpa [core_of] using this
    rw [hty] at hce
    simp only [hce]
    by_cases ht : (core_of st).types.tail = []
    · simp only [ht, decide_True, Bool.not_true, Bool.false_eq_true, if_false, if_true,
        core_of_process_post]
      simp only [core_of, will_configured, protocol_core.mk.injEq, ctimer_stop] at h1 ht ⊢
      simp [h1.1, h1.2.1, h1.2.2.1, h1.2.2.2.1, h1.2.2.2.2.1, h1.2.2.2.2.2.1, h1.2.2.2.2.2.2, ht]
    · simp only [ht, decide_False, Bool.not_false, if_true, if_false, core_of_process_post]
      simp only [core_of, will_configured, protocol_core.mk.injEq, ctimer_stop] at h1 ht ⊢
      simp [h1.1, h1.2.1, h1.2.2.1, h1.2.2.2.1, h1.2.2.2.2.1, h1.2.2.2.2.2.1, h1.2.2.2.2.2.2]
  · exact core_of_head_touch st

theorem core_of_main_connected (st : State) :
    core_of (mqtt_sn_main .mqtt_event_connected st) =
      core_main .mqtt_event_connected (core_of st) := by
  simp only [mqtt_sn_main, mqtt_sn_main_connect, mqtt_sn_main_tasks, reduceCtorEq, false_and,
    if_false, if_true, core_main]

theorem core_of_main_pub_qos_0 (st : State)
    (hp : MQTT_SN_TYPE_PUBLISH ∉ (core_of st).types) :
    core_of (mqtt_sn_main .mqtt_event_pub_qos_0 st) =
      core_main .mqtt_event_pub_qos_0 (core_of st) := by
  have hh : ¬ head_type st = some MQTT_SN_TYPE_PUBLISH := by
    rw [core_of_head_type]
    intro hc
    exact hp (List.mem_of_mem_head? hc)
  simp only [mqtt_sn_main, mqtt_sn_main_connect, mqtt_sn_main_tasks, reduceCtorEq, false_and,
    if_false, if_true, core_main, head_type_head_touch, if_neg hh]
  exact core_of_head_touch st

theorem core_of_main_run_task (st : State) :
    core_of (mqtt_sn_main .mqtt_event_run_task st) =
      core_main .mqtt_event_run_task (core_of st) := by
  simp only [mqtt_sn_main, mqtt_sn_main_connect, mqtt_sn_main_tasks, reduceCtorEq, false_and,
    if_false, if_true, core_main, mqtt_sn_main_run_task, head_type_head_touch]
  rw [core_of_head_type]
  have hh := core_of_head_touch st
  cases hty : (core_of st).types.head? with
  | none =>
    simp only
    simp only [core_of, will_configured, protocol_core.mk.injEq] at hh ⊢
    simp [hh.1, hh.2.1, hh.2.2.1, hh.2.2.2.2.1, hh.2.2.2.2.2.1, hh.2.2.2.2.2.2]
  | some ty =>
    simp only
    (repeat' split) <;>
      first
      | exact hh
      | (rw [core_of_process_post, hh])
      | (rw [core_of_sub_send_wildcard, hh])
      | (simp only [core_of, will_configured, protocol_core.mk.injEq] at hh ⊢
         simp [hh.1, hh.2.1, hh.2.2.1, hh.2.2.2.2.1, hh.2.2.2.2.2.1, hh.2.2.2.2.2.2])

theorem core_of_rearm_connect (s st : State) (x : mqtt_sn_status_t) (n : Nat)
    (h : core_of s = core_of st) (hx : st.mqtt_status = x) :
    core_of { s with
      mqtt_status := x
      mqtt_time_connect := ctimer_reset s.mqtt_time_connect
      g_tries_send := n } = { core_of st with connect := true } := by
  simp only [core_of, will_configured, protocol_core.mk.injEq] at h ⊢
  obtain ⟨_, b, c, d, e, f, g⟩ := h
  simp [ctimer_reset, b, c, e, f, g, hx]

theorem core_of_rearm_register (s st : State) (x : mqtt_sn_status_t) (n : Nat)
    (h : core_of s = core_of st) (hx : st.mqtt_status = x) :
    core_of { s with
      mqtt_status := x
      mqtt_time_register := ctimer_reset s.mqtt_time_register
      g_tries_send := n } = { core_of st with register := true } := by
  simp only [core_of, will_configured, protocol_core.mk.injEq] at h ⊢
  obtain ⟨a, _, c, d, e, f, g⟩ := h
  simp [ctimer_reset, a, c, e, f, g, hx]

theorem core_of_rearm_subscribe (s st : State) (x : mqtt_sn_status_t) (n : Nat)
    (h : core_of s = core_of st) (hx : st.mqtt_status = x) :
    core_of { s with
      mqtt_status := x
      mqtt_time_subscribe := ctimer_reset s.mqtt_time_subscribe
      g_tries_send := n } = { core_of st with subscribe := true } := by
  simp only [core_of, will_configured, protocol_core.mk.injEq] at h ⊢
  obtain ⟨a, b, _, d, e, f, g⟩ := h
  simp [ctimer_reset, a, b, e, f, g, hx]

theorem core_of_timeout_con (st : State) :
    core_timeout (core_of st) (core_of (timeout_con st)) := by
  have key : ∀ a b c, core_of (mqtt_sn_sub_send (reg_touch (head_touch st) a) b c).2 =
      core_of st := fun a b c => by
    rw [core_of_sub_send, core_of_reg_touch, core_of_head_touch]
  unfold timeout_con
  by_cases h1 : st.mqtt_status = .MQTTSN_WAITING_CONNACK
  · rw [if_pos h1]
    split
    · exact Or.inr (Or.inl rfl)
    · refine Or.inr (Or.inr (Or.inl ⟨Or.inl h1, ?_⟩))
      simp only []
      exact core_of_rearm_connect (mqtt_sn_con_send st).2 st _ _ (core_of_con_send st) h1
  rw [if_neg h1]
  by_cases h2 : st.mqtt_status = .MQTTSN_WAITING_REGACK
  · rw [if_pos h2]
    split
    · exact Or.inr (Or.inl rfl)
    · refine Or.inr (Or.inr (Or.inr (Or.inl ⟨h2, ?_⟩)))
      simp only []
      exact core_of_rearm_register (mqtt_sn_reg_send st).2 st _ _ (core_of_reg_send st) h2
  rw [if_neg h2]
  by_cases h3 : st.mqtt_status = .MQTTSN_WAITING_SUBACK
  · rw [if_pos h3]
    split
    · exact Or.inr (Or.inl rfl)
    · refine Or.inr (Or.inr (Or.inr (Or.inr ⟨h3, ?_⟩)))
      simp only []
      exact core_of_rearm_subscribe _ st _ _ (key _ _ _) h3
  rw [if_neg h3]
  by_cases h4 : st.mqtt_status = .MQTTSN_WAITING_WILLTOPICREQ
  · rw [if_pos h4]
    split
    · exact Or.inr (Or.inl rfl)
    · refine Or.inr (Or.inr (Or.inl ⟨Or.inr h4, ?_⟩))
      simp only []
      exact core_of_rearm_connect (mqtt_sn_con_send st).2 st _ _ (core_of_con_send st) h4
  rw [if_neg h4]
  exact Or.inl rfl

theorem core_of_timeout_ping (st : State) :
    core_of (timeout_ping_mqtt st) = core_of st ∨
      core_of (timeout_ping_mqtt st) =
        { core_of st with events := (core_of st).events ++ [.mqtt_event_ping_timeout] } := by
  unfold timeout_ping_mqtt
  simp only
  split
  · exact Or.inl rfl
  · split
    · split
      · exact Or.inr rfl
      · exact Or.inl rfl
    · exact Or.inl rfl

theorem core_parse_post (s st : State) (e : process_event_t) (c : Prop) [Decidable c]
    (h : core_of s = core_of st)
    (hp : c → core_parse (core_of st)
      { core_of st with events := (core_of st).events ++ [e] }) :
    core_parse (core_of st) (core_of (if c then process_post s e else s)) := by
  split
  · rw [core_of_process_post, h]
    exact hp (by assumption)
  · rw [h]
    exact Or.inl rfl

theorem core_of_parse (st : State) (data : Nat → Nat) :
    core_parse (core_of st) (core_of (mqtt_sn_recv_parse st data)) := by
  by_cases t1 : byte data 1 = MQTT_SN_TYPE_CONNACK
  · simp only [mqtt_sn_recv_parse, if_pos t1]
    split
    · exact core_parse_post st st _ _ rfl (fun hs => Or.inr (Or.inl ⟨hs, rfl⟩))
    · exact Or.inl rfl
  by_cases t2 : byte data 1 = MQTT_SN_TYPE_REGACK
  · simp only [mqtt_sn_recv_parse, if_neg t1, if_pos t2]
    by_cases hrc : mqtt_sn_check_rc (byte data 6) = .SUCCESS_CON
    · rw [if_pos hrc]
      have hh : core_of (head_touch (if byte data 5 < MAX_TOPIC_USED then
          reg_write st (byte data 5) (fun s => { s with short_topic_id := byte data 3 })
          else st)) = core_of st := by
        rw [core_of_head_touch]
        split
        · exact core_of_reg_write _ _ _
        · rfl
      refine core_parse_post _ st _ _ hh (fun hc => ?_)
      have hs := hc.2
      have h3 := congrArg protocol_core.status hh
      exact Or.inr (Or.inr (Or.inl ⟨h3 ▸ hs, rfl⟩))
    · rw [if_neg hrc]
      exact Or.inl rfl
  by_cases t3 : byte data 1 = MQTT_SN_TYPE_PUBACK
  · simp only [mqtt_sn_recv_parse, if_neg t1, if_neg t2, if_pos t3]
    exact Or.inl rfl
  by_cases t4 : byte data 1 = MQTT_SN_TYPE_SUBACK
  · simp only [mqtt_sn_recv_parse, if_neg t1, if_neg t2, if_neg t3, if_pos t4]
    by_cases hrc : mqtt_sn_check_rc (byte data 7) = .SUCCESS_CON
    · rw [if_pos hrc]
      by_cases h4 : byte data 4 = 0
      · rw [if_neg (not_not.mpr h4)]
        have hh := core_of_head_touch st
        split
        · rename_i hc
          refine Or.inr (Or.inr (Or.inr (Or.inr (Or.inr (Or.inr ⟨?_, ?_⟩)))))
          · rw [← core_of_head_type, ← head_type_head_touch]
            exact hc
          · have hd := core_of_delete_queue
              { head_touch st with mqtt_status := .MQTTSN_TOPIC_REGISTERED }
            rw [hd]
            simp only [core_of, will_configured, protocol_core.mk.injEq] at hh ⊢
            simp [hh.1, hh.2.1, hh.2.2.1, hh.2.2.2.2.1, hh.2.2.2.2.2.1, hh.2.2.2.2.2.2]
        · exact Or.inl hh
      · rw [if_pos h4]
        have hh := (core_of_head_touch _).trans
          (core_of_reg_write st (byte data 4) (fun s => { s with subscribed := 0x02 }))
        refine core_parse_post _ st _ _ hh (fun hc => ?_)
        have hs := hc.2
        have h3 := congrArg protocol_core.status hh
        exact Or.inr (Or.inr (Or.inr (Or.inl ⟨h3 ▸ hs, rfl⟩)))
    · rw [if_neg hrc]
      exact Or.inl rfl
  by_cases t5 : byte data 1 = MQTT_SN_TYPE_PINGRESP
  · simp only [mqtt_sn_recv_parse, if_neg t1, if_neg t2, if_neg t3, if_neg t4, if_pos t5]
    exact Or.inl rfl
  by_cases t6 : byte data 1 = MQTT_SN_TYPE_PINGREQ
  · simp only [mqtt_sn_recv_parse, if_neg t1, if_neg t2, if_neg t3, if_neg t4, if_neg t5,
      if_pos t6]
    exact Or.inl rfl
  by_cases t7 : byte data 1 = MQTT_SN_TYPE_PUBLISH
  · simp only [mqtt_sn_recv_parse, if_neg t1, if_neg t2, if_neg t3, if_neg t4, if_neg t5,
      if_neg t6, if_pos t7]
    refine Or.inl ?_
    have hh := core_of_reg_touch
      (if (byte data 0 + 256 - 7) % 256 ≥ MQTT_SN_MAX_PACKET_LENGTH then
        { st with out_of_bounds := true } else st) (byte data 4)
    have h0 : core_of (if (byte data 0 + 256 - 7) % 256 ≥ MQTT_SN_MAX_PACKET_LENGTH then
        { st with out_of_bounds := true } else st) = core_of st := by
      split <;> rfl
    exact hh.trans h0
  by_cases t8 : byte data 1 = MQTT_SN_TYPE_REGISTER
  · simp only [mqtt_sn_recv_parse, if_neg t1, if_neg t2, if_neg t3, if_neg t4, if_neg t5,
      if_neg t6, if_neg t7, if_pos t8]
    refine Or.inl ?_
    have h0 : core_of (if (byte data 0 + 256 - 6) % 256 ≥ MQTT_SN_MAX_TOPIC_LENGTH then
        { st with out_of_bounds := true } else st) = core_of st := by
      split <;> rfl
    rw [core_of_regack_send, core_of_reg_write]
    exact h0
  by_cases t9 : byte data 1 = MQTT_SN_TYPE_WILLTOPICREQ
  · simp only [mqtt_sn_recv_parse, if_neg t1, if_neg t2, if_neg t3, if_neg t4, if_neg t5,
      if_neg t6, if_neg t7, if_neg t8, if_pos t9]
    exact core_parse_post st st _ _ rfl
      (fun hs => Or.inr (Or.inr (Or.inr (Or.inr (Or.inl ⟨hs, rfl⟩)))))
  by_cases t10 : byte data 1 = MQTT_SN_TYPE_WILLMSGREQ
  · simp only [mqtt_sn_recv_parse, if_neg t1, if_neg t2, if_neg t3, if_neg t4, if_neg t5,
      if_neg t6, if_neg t7, if_neg t8, if_neg t9, if_pos t10]
    exact core_parse_post st st _ _ rfl
      (fun hs => Or.inr (Or.inr (Or.inr (Or.inr (Or.inr (Or.inl ⟨hs, rfl⟩))))))
  simp only [mqtt_sn_recv_parse, if_neg t1, if_neg t2, if_neg t3, if_neg t4, if_neg t5,
    if_neg t6, if_neg t7, if_neg t8, if_neg t9, if_neg t10]
  exact Or.inl rfl

theorem core_grows_refl (s st : State) (h : core_of s = core_of st) :
    core_grows (core_of st) (core_of s) [] := by
  unfold core_grows
  rw [h, List.append_nil]

theorem core_grows_trans (a b c : protocol_core) (n1 n2 : List Nat)
    (h1 : core_grows a b n1) (h2 : core_grows b c n2) : core_grows a c (n1 ++ n2) := by
  unfold core_grows at *
  rw [h2, h1]
  simp

theorem core_grows_insert (st : State) (t : mqtt_sn_task_t) :
    core_grows (core_of st) (core_of (mqtt_sn_insert_queue st t).2)
      (if (core_of st).types.length > MAX_QUEUE_MQTT_SN then [] else [t.msg_type_q]) := by
  unfold mqtt_sn_insert_queue core_grows
  simp only [core_of, List.length_map]
  split
  · simp
  · simp [will_configured]

theorem core_grows_length (k k2 : protocol_core) (new : List Nat) (h : core_grows k k2 new) :
    k2.types.length = k.types.length + new.length := by
  unfold core_grows at h
  rw [h]
  simp

theorem core_grows_seed (will : Bool) (topics : List CStr) :
    ∀ (st : State), ∃ new, core_grows (core_of st) (core_of (seed_registers will topics st)) new ∧
      ∀ x ∈ new, x = MQTT_SN_TYPE_REGISTER := by
  induction topics with
  | nil => intro st; exact ⟨[], core_grows_refl st st rfl, by simp⟩
  | cons topic rest ih =>
    intro st
    have hpre : core_of (if will = true then
          if 2 ≤ st.g_task_id then
            reg_write st (st.g_task_id - 2) (fun s => { s with topic_name := some topic })
          else { st with out_of_bounds := true }
        else reg_write st st.g_task_id (fun s => { s with topic_name := some topic })) =
        core_of st := by
      split
      · split
        · exact core_of_reg_write _ _ _
        · rfl
      · exact core_of_reg_write _ _ _
    have hi := core_grows_insert (if will = true then
          if 2 ≤ st.g_task_id then
            reg_write st (st.g_task_id - 2) (fun s => { s with topic_name := some topic })
          else { st with out_of_bounds := true }
        else reg_write st st.g_task_id (fun s => { s with topic_name := some topic }))
      { msg_type_q := MQTT_SN_TYPE_REGISTER, short_topic := none, id_task := 0,
        qos_level := none, retain := none }
    rw [hpre] at hi
    unfold seed_registers
    simp only
    split
    · rename_i st2 heq
      rw [heq] at hi
      refine ⟨_, hi, ?_⟩
      intro x hx
      split at hx
      · cases hx
      · simpa using hx
    · rename_i st2 heq
      rw [heq] at hi
      obtain ⟨new, hg, hn⟩ := ih st2
      refine ⟨_, core_grows_trans _ _ _ _ _ hi hg, ?_⟩
      intro x hx
      rw [List.mem_append] at hx
      rcases hx with hx | hx
      · split at hx
        · cases hx
        · simpa using hx
      · exact hn x hx

theorem core_create_fail (st S : State) (w : Bool)
    (hS : core_of S = { core_of st with will := w }) :
    core_create (core_of st) (core_of S) := by
  refine ⟨[], false, w, ?_, by simp, fun _ => rfl, fun _ h => (by cases h)⟩
  rw [hS]
  simp

theorem core_create_of_grows (st S X : State) (w : Bool) (new : List Nat)
    (hS : core_of S = { core_of st with will := w })
    (hg : core_grows (core_of S) (core_of X) new)
    (hp : MQTT_SN_TYPE_PUBLISH ∉ new)
    (hhead : (core_of st).types = [] → new.head? = some MQTT_SN_TYPE_CONNECT ∧
      (w = true →
        new.take 3 = [MQTT_SN_TYPE_CONNECT, MQTT_SN_TYPE_WILLTOPIC, MQTT_SN_TYPE_WILLMSG])) :
    core_create (core_of st) (core_of (process_post X .mqtt_event_run_task)) := by
  refine ⟨new, true, w, ?_, hp, fun h => (by cases h), fun h _ => hhead h⟩
  rw [core_of_process_post]
  unfold core_grows at hg
  rw [hg, hS]
  rfl

theorem core_grows_one (S : State) (tp : List CStr) :
    ∃ new, core_grows (core_of S)
        (core_of (seed_registers false tp (mqtt_sn_insert_queue S
          { msg_type_q := MQTT_SN_TYPE_CONNECT, short_topic := none, id_task := 0,
            qos_level := none, retain := none }).2)) new ∧
      MQTT_SN_TYPE_PUBLISH ∉ new ∧
      ((core_of S).types = [] → new.head? = some MQTT_SN_TYPE_CONNECT) := by
  have h1 := core_grows_insert S
    { msg_type_q := MQTT_SN_TYPE_CONNECT, short_topic := none, id_task := 0,
      qos_level := none, retain := none }
  obtain ⟨regs, hg, hr⟩ := core_grows_seed false tp (mqtt_sn_insert_queue S
    { msg_type_q := MQTT_SN_TYPE_CONNECT, short_topic := none, id_task := 0,
      qos_level := none, retain := none }).2
  refine ⟨_, core_grows_trans _ _ _ _ _ h1 hg, ?_, ?_⟩
  · intro hx
    rw [List.mem_append] at hx
    rcases hx with hx | hx
    · split at hx
      · cases hx
      · simp [MQTT_SN_TYPE_PUBLISH, MQTT_SN_TYPE_CONNECT] at hx
    · have := hr _ hx
      simp [MQTT_SN_TYPE_PUBLISH, MQTT_SN_TYPE_REGISTER] at this
  · intro he
    rw [he]
    simp [MAX_QUEUE_MQTT_SN]

theorem core_grows_three (S : State) (tp : List CStr) :
    ∃ new, core_grows (core_of S)
        (core_of (seed_registers true tp (mqtt_sn_insert_queue (mqtt_sn_insert_queue
          (mqtt_sn_insert_queue S
            { msg_type_q := MQTT_SN_TYPE_CONNECT, short_topic := none, id_task := 0,
              qos_level := none, retain := none }).2
            { msg_type_q := MQTT_SN_TYPE_WILLTOPIC, short_topic := none, id_task := 0,
              qos_level := none, retain := none }).2
            { msg_type_q := MQTT_SN_TYPE_WILLMSG, short_topic := none, id_task := 0,
              qos_level := none, retain := none }).2)) new ∧
      MQTT_SN_TYPE_PUBLISH ∉ new ∧
      ((core_of S).types = [] →
        new.take 3 = [MQTT_SN_TYPE_CONNECT, MQTT_SN_TYPE_WILLTOPIC, MQTT_SN_TYPE_WILLMSG]) := by
  have h1 := core_grows_insert S
    { msg_type_q := MQTT_SN_TYPE_CONNECT, short_topic := none, id_task := 0,
      qos_level := none, retain := none }
  have h2 := core_grows_insert (mqtt_sn_insert_queue S
    { msg_type_q := MQTT_SN_TYPE_CONNECT, short_topic := none, id_task := 0,
      qos_level := none, retain := none }).2
    { msg_type_q := MQTT_SN_TYPE_WILLTOPIC, short_topic := none, id_task := 0,
      qos_level := none, retain := none }
  have h3 := core_grows_insert (mqtt_sn_insert_queue (mqtt_sn_insert_queue S
    { msg_type_q := MQTT_SN_TYPE_CONNECT, short_topic := none, id_task := 0,
      qos_level := none, retain := none }).2
    { msg_type_q := MQTT_SN_TYPE_WILLTOPIC, short_topic := none, id_task := 0,
      qos_level := none, retain := none }).2
    { msg_type_q := MQTT_SN_TYPE_WILLMSG, short_topic := none, id_task := 0,
      qos_level := none, retain := none }
  obtain ⟨regs, hg, hr⟩ := core_grows_seed true tp (mqtt_sn_insert_queue (mqtt_sn_insert_queue
    (mqtt_sn_insert_queue S
      { msg_type_q := MQTT_SN_TYPE_CONNECT, short_topic := none, id_task := 0,
        qos_level := none, retain := none }).2
      { msg_type_q := MQTT_SN_TYPE_WILLTOPIC, short_topic := none, id_task := 0,
        qos_level := none, retain := none }).2
      { msg_type_q := MQTT_SN_TYPE_WILLMSG, short_topic := none, id_task := 0,
        qos_level := none, retain := none }).2
  have l1 := core_grows_length _ _ _ h1
  have l2 := core_grows_length _ _ _ h2
  refine ⟨_, core_grows_trans _ _ _ _ _
    (core_grows_trans _ _ _ _ _ (core_grows_trans _ _ _ _ _ h1 h2) h3) hg, ?_, ?_⟩
  · intro hx
    simp only [List.mem_append] at hx
    rcases hx with ((hx | hx) | hx) | hx
    · split at hx
      · cases hx
      · simp [MQTT_SN_TYPE_PUBLISH, MQTT_SN_TYPE_CONNECT] at hx
    · split at hx
      · cases hx
      · simp [MQTT_SN_TYPE_PUBLISH, MQTT_SN_TYPE_WILLTOPIC] at hx
    · split at hx
      · cases hx
      · simp [MQTT_SN_TYPE_PUBLISH, MQTT_SN_TYPE_WILLMSG] at hx
    · have := hr _ hx
      simp [MQTT_SN_TYPE_PUBLISH, MQTT_SN_TYPE_REGISTER] at this
  · intro he
    rw [he] at l1
    rw [l1] at l2
    rw [l2, l1, he]
    simp [MAX_QUEUE_MQTT_SN]

theorem core_create_one (st S : State) (tp : List CStr)
    (hS : core_of S = { core_of st with will := false }) :
    core_create (core_of st)
      (core_of (process_post (seed_registers false tp (mqtt_sn_insert_queue S
        { msg_type_q := MQTT_SN_TYPE_CONNECT, short_topic := none, id_task := 0,
          qos_level := none, retain := none }).2) .mqtt_event_run_task)) := by
  obtain ⟨new, hg, hp, hh⟩ := core_grows_one S tp
  refine core_create_of_grows st S _ false new hS hg hp (fun he => ⟨hh ?_, fun h => (by cases h)⟩)
  rw [hS]
  exact he

theorem core_create_three (st S : State) (tp : List CStr)
    (hS : core_of S = { core_of st with will := true }) :
    core_create (core_of st)
      (core_of (process_post (seed_registers true tp (mqtt_sn_insert_queue (mqtt_sn_insert_queue
          (mqtt_sn_insert_queue S
            { msg_type_q := MQTT_SN_TYPE_CONNECT, short_topic := none, id_task := 0,
              qos_level := none, retain := none }).2
            { msg_type_q := MQTT_SN_TYPE_WILLTOPIC, short_topic := none, id_task := 0,
              qos_level := none, retain := none }).2
            { msg_type_q := MQTT_SN_TYPE_WILLMSG, short_topic := none, id_task := 0,
              qos_level := none, retain := none }).2) .mqtt_event_run_task)) := by
  obtain ⟨new, hg, hp, hh⟩ := core_grows_three S tp
  have he2 : (core_of st).types = [] → (core_of S).types = [] := fun he => by
    rw [hS]
    exact he
  refine core_create_of_grows st S _ true new hS hg hp (fun he => ⟨?_, fun _ => hh (he2 he)⟩)
  have h3 := hh (he2 he)
  rcases new with _ | ⟨a, rest⟩
  · simp at h3
  · simp only [List.take_succ_cons, List.cons.injEq] at h3
    simp [h3.1]

theorem core_of_create_sck (st : State) (conn : mqtt_sn_con_t) (topics : List CStr)
    (cb_f : Nat) (udp_ok : Bool) :
    core_create (core_of st) (core_of (mqtt_sn_create_sck st conn topics cb_f udp_ok).2) := by
  by_cases hcid : conn.client_id.length > 23
  · simp only [mqtt_sn_create_sck, hcid, if_true]
    exact core_create_fail st _ (conn.will_topic.isSome && conn.will_message.isSome) rfl
  · cases hr : (!st.g_recon) <;> cases hu : udp_ok <;>
      cases hw : (conn.will_topic.isSome && conn.will_message.isSome) <;>
      simp only [mqtt_sn_create_sck, hcid, if_false, hr, hw, Bool.not_false, Bool.not_true,
        Bool.and_true, Bool.and_false, Bool.true_and, Bool.false_and, if_true,
        Bool.false_eq_true]
    · refine core_create_one st _ _ ?_
      simp only [core_of, will_configured, hw]
    · refine core_create_three st _ _ ?_
      simp only [core_of, will_configured, hw]
    · refine core_create_one st _ _ ?_
      simp only [core_of, will_configured, hw]
    · refine core_create_three st _ _ ?_
      simp only [core_of, will_configured, hw]
    · refine core_create_fail st _ false ?_
      simp only [core_of, will_configured, hw]
    · refine core_create_fail st _ true ?_
      simp only [core_of, will_configured, hw]
    · refine core_create_one st _ _ ?_
      simp only [core_of, will_configured, hw]
    · refine core_create_three st _ _ ?_
      simp only [core_of, will_configured, hw]

theorem core_of_verf_hist_sub (st : State) (topic : CStr) :
    core_of (verf_hist_sub st topic).2 = core_of st := by
  unfold verf_hist_sub
  simp only
  split
  · exact core_of_reg_touch _ _
  · split
    · exact core_of_reg_touch _ _
    · split
      · rw [core_of_reg_write]
        exact core_of_reg_touch _ _
      · exact core_of_reg_touch _ _

theorem core_of_sub (st : State) (topic : CStr) (qos : Nat) :
    core_of (mqtt_sn_sub st topic qos).2 = core_of st ∨
      ∃ x, (x = MQTT_SN_TYPE_SUBSCRIBE ∨ x = MQTT_SN_TYPE_SUB_WILDCARD) ∧
        core_of (mqtt_sn_sub st topic qos).2 =
          { core_of st with types := (core_of st).types ++ [x] } := by
  unfold mqtt_sn_sub
  split
  · have h := core_grows_insert { st with topic_temp_wildcard := some topic }
      { msg_type_q := MQTT_SN_TYPE_SUB_WILDCARD, short_topic := none, id_task := 0,
        qos_level := some qos, retain := none }
    unfold core_grows at h
    simp only [mqtt_sn_sub_wildcard]
    split at h
    · exact Or.inl (by rw [h]; simp [core_of, will_configured])
    · exact Or.inr ⟨_, Or.inr rfl, h⟩
  · split
    · exact Or.inl rfl
    · have hv := core_of_verf_hist_sub st topic
      split
      · rename_i s2 heq
        rw [heq] at hv
        have h := core_grows_insert s2
          { msg_type_q := MQTT_SN_TYPE_SUBSCRIBE,
            short_topic := some (scan (name_is s2.g_topic_bind topic) MAX_TOPIC_USED 0 % 256),
            id_task := 0, qos_level := some qos, retain := none }
        unfold core_grows at h
        rw [hv] at h
        split at h
        · exact Or.inl (by rw [h]; simp)
        · exact Or.inr ⟨_, Or.inl rfl, h⟩
      · rename_i s2 heq
        rw [heq] at hv
        exact Or.inl hv

theorem core_of_pub (st : State) (topic message : CStr) (r : Bool) (qos : Nat) :
    core_of (mqtt_sn_pub st topic message r qos).2 = core_of st := by
  unfold mqtt_sn_pub
  split
  · rfl
  · split
    · rfl
    · exact core_of_pub_send _ _ _ _ _

theorem core_of_disconnect (st : State) (d : Nat) :
    core_of (mqtt_sn_disconnect st d).2 = core_of st := rfl

theorem core_of_main_ping_timeout (st : State) :
    core_create
      { core_of st with
        connect := false, register := false, subscribe := false
        status := .MQTTSN_DISCONNECTED, types := [] }
      (core_of (mqtt_sn_main .mqtt_event_ping_timeout st)) := by
  simp only [mqtt_sn_main, mqtt_sn_main_connect, mqtt_sn_main_tasks, reduceCtorEq, false_and,
    if_false, if_true, mqtt_sn_main_ping_timeout, init_vectors_eq]
  exact core_of_create_sck _ _ _ _ _

theorem core_of_main (e : process_event_t) (st : State)
    (hne : e ≠ .mqtt_event_ping_timeout) (hp : MQTT_SN_TYPE_PUBLISH ∉ (core_of st).types) :
    core_of (mqtt_sn_main e st) = core_main e (core_of st) := by
  cases e
  · exact core_of_main_connect st
  · exact core_of_main_connack st
  · exact core_of_main_register st
  · exact core_of_main_regack st
  · exact core_of_main_pub_qos_0 st hp
  · exact core_of_main_subscribe st
  · exact core_of_main_suback st
  · exact core_of_main_run_task st
  · exact absurd rfl hne
  · exact core_of_main_connected st
  · exact core_of_main_will_topicreq st
  · exact core_of_main_will_messagereq st

/-! ### The handlers of `mqtt_sn_main` keep the invariant -/

theorem events_fit_of_clean (k : protocol_core)
    (h : ∀ x ∈ k.events, parser_event x = false) : events_fit k := by
  refine ⟨fun e he => ?_, fun x hx => h x (List.mem_of_mem_tail hx)⟩
  have hm : e ∈ k.events := List.mem_of_mem_head? he
  have := h e hm
  cases e <;> simp [parser_event] at this <;> rfl

theorem events_fit_rest (k : protocol_core) (e : process_event_t)
    (rest : List process_event_t) (h : events_fit k) (he : k.events = e :: rest) :
    awaited k.status e = true ∧ ∀ x ∈ rest, parser_event x = false := by
  obtain ⟨h1, h2⟩ := h
  rw [he] at h1 h2
  exact ⟨h1 e rfl, h2⟩

theorem connect_pending_of_status (k : protocol_core)
    (h : k.status ≠ .MQTTSN_DISCONNECTED) : connect_pending k :=
  ⟨fun hs => absurd hs h, fun hs => absurd hs h⟩

theorem clean_append (rest : List process_event_t) (y : process_event_t)
    (h : ∀ x ∈ rest, parser_event x = false) (hy : parser_event y = false) :
    ∀ x ∈ rest ++ [y], parser_event x = false := by
  intro x hx
  rcases List.mem_append.1 hx with hx | hx
  · exact h x hx
  · simp only [List.mem_singleton] at hx
    rw [hx]
    exact hy

set_option maxHeartbeats 4000000 in
theorem core_inv_main_connect (k : protocol_core) (rest : List process_event_t)
    (h : core_inv k) (he : k.events = .mqtt_event_connect :: rest) :
    core_inv (core_main .mqtt_event_connect { k with events := rest }) := by
  obtain ⟨ht, hd, hev⟩ := h
  obtain ⟨hst, hclean⟩ := events_fit_rest k _ rest hev he
  obtain ⟨c, r, s, status, types, events, will⟩ := k
  simp only at he hst hclean
  subst he
  clear hev
  simp only [core_main, MQTT_SN_TYPE_CONNECT, MQTT_SN_TYPE_WILLTOPIC,
    MQTT_SN_TYPE_WILLMSG, MQTT_SN_TYPE_REGISTER, MQTT_SN_TYPE_PUBLISH, MQTT_SN_TYPE_SUBSCRIBE,
    MQTT_SN_TYPE_SUB_WILDCARD]
  (repeat' split) <;> (refine ⟨?_, ?_, events_fit_of_clean _ ?_⟩ <;>
    [(simp only [timers_fit, connect_pending, awaited, MQTT_SN_TYPE_CONNECT,
        MQTT_SN_TYPE_WILLTOPIC, MQTT_SN_TYPE_WILLMSG, MQTT_SN_TYPE_REGISTER,
        MQTT_SN_TYPE_PUBLISH, MQTT_SN_TYPE_SUBSCRIBE, MQTT_SN_TYPE_SUB_WILDCARD] at ht hd hst ⊢
      rcases types with _ | ⟨a, _ | ⟨b, t⟩⟩ <;> cases status <;> simp_all);
     (simp only [connect_pending, awaited, MQTT_SN_TYPE_CONNECT, MQTT_SN_TYPE_WILLTOPIC,
        MQTT_SN_TYPE_WILLMSG, MQTT_SN_TYPE_REGISTER, MQTT_SN_TYPE_PUBLISH,
        MQTT_SN_TYPE_SUBSCRIBE, MQTT_SN_TYPE_SUB_WILDCARD] at hd hst ⊢
      cases status <;> simp_all);
     (exact hclean)])

set_option maxHeartbeats 4000000 in
theorem core_inv_main_connack (k : protocol_core) (rest : List process_event_t)
    (h : core_inv k) (he : k.events = .mqtt_event_connack :: rest) :
    core_inv (core_main .mqtt_event_connack { k with events := rest }) := by
  obtain ⟨ht, hd, hev⟩ := h
  obtain ⟨hst, hclean⟩ := events_fit_rest k _ rest hev he
  obtain ⟨c, r, s, status, types, events, will⟩ := k
  simp only at he hst hclean
  subst he
  clear hev
  simp only [core_main, MQTT_SN_TYPE_CONNECT, MQTT_SN_TYPE_WILLTOPIC,
    MQTT_SN_TYPE_WILLMSG, MQTT_SN_TYPE_REGISTER, MQTT_SN_TYPE_PUBLISH, MQTT_SN_TYPE_SUBSCRIBE,
    MQTT_SN_TYPE_SUB_WILDCARD]
  refine ⟨?_, ?_, events_fit_of_clean _ ?_⟩ <;>
    [(simp only [timers_fit, connect_pending, awaited, MQTT_SN_TYPE_CONNECT,
        MQTT_SN_TYPE_WILLTOPIC, MQTT_SN_TYPE_WILLMSG, MQTT_SN_TYPE_REGISTER,
        MQTT_SN_TYPE_PUBLISH, MQTT_SN_TYPE_SUBSCRIBE, MQTT_SN_TYPE_SUB_WILDCARD] at ht hd hst ⊢
      rcases types with _ | ⟨a, _ | ⟨b, t⟩⟩ <;> cases status <;> simp_all);
     (simp only [connect_pending, awaited, MQTT_SN_TYPE_CONNECT, MQTT_SN_TYPE_WILLTOPIC,
        MQTT_SN_TYPE_WILLMSG, MQTT_SN_TYPE_REGISTER, MQTT_SN_TYPE_PUBLISH,
        MQTT_SN_TYPE_SUBSCRIBE, MQTT_SN_TYPE_SUB_WILDCARD] at hd hst ⊢
      cases status <;> simp_all);
     (exact clean_append rest _ hclean rfl)]

set_option maxHeartbeats 4000000 in
theorem core_inv_main_register (k : protocol_core) (rest : List process_event_t)
    (h : core_inv k) (he : k.events = .mqtt_event_register :: rest) :
    core_inv (core_main .mqtt_event_register { k with events := rest }) := by
  obtain ⟨ht, hd, hev⟩ := h
  obtain ⟨hst, hclean⟩ := events_fit_rest k _ rest hev he
  obtain ⟨c, r, s, status, types, events, will⟩ := k
  simp only at he hst hclean
  subst he
  clear hev
  simp only [core_main, MQTT_SN_TYPE_CONNECT, MQTT_SN_TYPE_WILLTOPIC,
    MQTT_SN_TYPE_WILLMSG, MQTT_SN_TYPE_REGISTER, MQTT_SN_TYPE_PUBLISH, MQTT_SN_TYPE_SUBSCRIBE,
    MQTT_SN_TYPE_SUB_WILDCARD]
  (repeat' split) <;> (refine ⟨?_, ?_, events_fit_of_clean _ ?_⟩ <;>
    [(simp only [timers_fit, connect_pending, awaited, MQTT_SN_TYPE_CONNECT,
        MQTT_SN_TYPE_WILLTOPIC, MQTT_SN_TYPE_WILLMSG, MQTT_SN_TYPE_REGISTER,
        MQTT_SN_TYPE_PUBLISH, MQTT_SN_TYPE_SUBSCRIBE, MQTT_SN_TYPE_SUB_WILDCARD] at ht hd hst ⊢
      rcases types with _ | ⟨a, _ | ⟨b, t⟩⟩ <;> cases status <;> simp_all);
     (simp only [connect_pending, awaited, MQTT_SN_TYPE_CONNECT, MQTT_SN_TYPE_WILLTOPIC,
        MQTT_SN_TYPE_WILLMSG, MQTT_SN_TYPE_REGISTER, MQTT_SN_TYPE_PUBLISH,
        MQTT_SN_TYPE_SUBSCRIBE, MQTT_SN_TYPE_SUB_WILDCARD] at hd hst ⊢
      cases status <;> simp_all);
     (exact hclean)])

set_option maxHeartbeats 4000000 in
theorem core_inv_main_regack (k : protocol_core) (rest : List process_event_t)
    (h : core_inv k) (he : k.events = .mqtt_event_regack :: rest) :
    core_inv (core_main .mqtt_event_regack { k with events := rest }) := by
  obtain ⟨ht, hd, hev⟩ := h
  obtain ⟨hst, hclean⟩ := events_fit_rest k _ rest hev he
  obtain ⟨c, r, s, status, types, events, will⟩ := k
  simp only at he hst hclean
  subst he
  clear hev
  simp only [core_main, MQTT_SN_TYPE_CONNECT, MQTT_SN_TYPE_WILLTOPIC,
    MQTT_SN_TYPE_WILLMSG, MQTT_SN_TYPE_REGISTER, MQTT_SN_TYPE_PUBLISH, MQTT_SN_TYPE_SUBSCRIBE,
    MQTT_SN_TYPE_SUB_WILDCARD]
  (repeat' split) <;> (refine ⟨?_, ?_, events_fit_of_clean _ ?_⟩ <;>
    [(simp only [timers_fit, connect_pending, awaited, MQTT_SN_TYPE_CONNECT,
        MQTT_SN_TYPE_WILLTOPIC, MQTT_SN_TYPE_WILLMSG, MQTT_SN_TYPE_REGISTER,
        MQTT_SN_TYPE_PUBLISH, MQTT_SN_TYPE_SUBSCRIBE, MQTT_SN_TYPE_SUB_WILDCARD] at ht hd hst ⊢
      rcases types with _ | ⟨a, _ | ⟨b, t⟩⟩ <;> cases status <;> simp_all);
     (simp only [connect_pending, awaited, MQTT_SN_TYPE_CONNECT, MQTT_SN_TYPE_WILLTOPIC,
        MQTT_SN_TYPE_WILLMSG, MQTT_SN_TYPE_REGISTER, MQTT_SN_TYPE_PUBLISH,
        MQTT_SN_TYPE_SUBSCRIBE, MQTT_SN_TYPE_SUB_WILDCARD] at hd hst ⊢
      cases status <;> simp_all);
     (first
      | exact hclean
      | exact clean_append rest _ hclean rfl)])

set_option maxHeartbeats 4000000 in
theorem core_inv_main_pub_qos_0 (k : protocol_core) (rest : List process_event_t)
    (h : core_inv k) (he : k.events = .mqtt_event_pub_qos_0 :: rest) :
    core_inv (core_main .mqtt_event_pub_qos_0 { k with events := rest }) := by
  obtain ⟨ht, hd, hev⟩ := h
  obtain ⟨hst, hclean⟩ := events_fit_rest k _ rest hev he
  obtain ⟨c, r, s, status, types, events, will⟩ := k
  simp only at he hst hclean
  subst he
  clear hev
  simp only [core_main, MQTT_SN_TYPE_CONNECT, MQTT_SN_TYPE_WILLTOPIC,
    MQTT_SN_TYPE_WILLMSG, MQTT_SN_TYPE_REGISTER, MQTT_SN_TYPE_PUBLISH, MQTT_SN_TYPE_SUBSCRIBE,
    MQTT_SN_TYPE_SUB_WILDCARD]
  refine ⟨?_, ?_, events_fit_of_clean _ ?_⟩ <;>
    [(exact ht);
     (simp only [connect_pending, awaited, MQTT_SN_TYPE_CONNECT, MQTT_SN_TYPE_WILLTOPIC,
        MQTT_SN_TYPE_WILLMSG, MQTT_SN_TYPE_REGISTER, MQTT_SN_TYPE_PUBLISH,
        MQTT_SN_TYPE_SUBSCRIBE, MQTT_SN_TYPE_SUB_WILDCARD] at hd hst ⊢
      cases status <;> simp_all);
     (exact hclean)]

set_option maxHeartbeats 4000000 in
theorem core_inv_main_subscribe (k : protocol_core) (rest : List process_event_t)
    (h : core_inv k) (he : k.events = .mqtt_event_subscribe :: rest) :
    core_inv (core_main .mqtt_event_subscribe { k with events := rest }) := by
  obtain ⟨ht, hd, hev⟩ := h
  obtain ⟨hst, hclean⟩ := events_fit_rest k _ rest hev he
  obtain ⟨c, r, s, status, types, events, will⟩ := k
  simp only at he hst hclean
  subst he
  clear hev
  simp only [core_main, MQTT_SN_TYPE_CONNECT, MQTT_SN_TYPE_WILLTOPIC,
    MQTT_SN_TYPE_WILLMSG, MQTT_SN_TYPE_REGISTER, MQTT_SN_TYPE_PUBLISH, MQTT_SN_TYPE_SUBSCRIBE,
    MQTT_SN_TYPE_SUB_WILDCARD]
  (repeat' split) <;> (refine ⟨?_, ?_, events_fit_of_clean _ ?_⟩ <;>
    [(simp only [timers_fit, connect_pending, awaited, MQTT_SN_TYPE_CONNECT,
        MQTT_SN_TYPE_WILLTOPIC, MQTT_SN_TYPE_WILLMSG, MQTT_SN_TYPE_REGISTER,
        MQTT_SN_TYPE_PUBLISH, MQTT_SN_TYPE_SUBSCRIBE, MQTT_SN_TYPE_SUB_WILDCARD] at ht hd hst ⊢
      rcases types with _ | ⟨a, _ | ⟨b, t⟩⟩ <;> cases status <;> simp_all);
     (simp only [connect_pending, awaited, MQTT_SN_TYPE_CONNECT, MQTT_SN_TYPE_WILLTOPIC,
        MQTT_SN_TYPE_WILLMSG, MQTT_SN_TYPE_REGISTER, MQTT_SN_TYPE_PUBLISH,
        MQTT_SN_TYPE_SUBSCRIBE, MQTT_SN_TYPE_SUB_WILDCARD] at hd hst ⊢
      cases status <;> simp_all);
     (exact hclean)])

set_option maxHeartbeats 4000000 in
theorem core_inv_main_suback (k : protocol_core) (rest : List process_event_t)
    (h : core_inv k) (he : k.events = .mqtt_event_suback :: rest) :
    core_inv (core_main .mqtt_event_suback { k with events := rest }) := by
  obtain ⟨ht, hd, hev⟩ := h
  obtain ⟨hst, hclean⟩ := events_fit_rest k _ rest hev he
  obtain ⟨c, r, s, status, types, events, will⟩ := k
  simp only at he hst hclean
  subst he
  clear hev
  simp only [core_main, MQTT_SN_TYPE_CONNECT, MQTT_SN_TYPE_WILLTOPIC,
    MQTT_SN_TYPE_WILLMSG, MQTT_SN_TYPE_REGISTER, MQTT_SN_TYPE_PUBLISH, MQTT_SN_TYPE_SUBSCRIBE,
    MQTT_SN_TYPE_SUB_WILDCARD]
  (repeat' split) <;> (refine ⟨?_, ?_, events_fit_of_clean _ ?_⟩ <;>
    [(simp only [timers_fit, connect_pending, awaited, MQTT_SN_TYPE_CONNECT,
        MQTT_SN_TYPE_WILLTOPIC, MQTT_SN_TYPE_WILLMSG, MQTT_SN_TYPE_REGISTER,
        MQTT_SN_TYPE_PUBLISH, MQTT_SN_TYPE_SUBSCRIBE, MQTT_SN_TYPE_SUB_WILDCARD] at ht hd hst ⊢
      rcases types with _ | ⟨a, _ | ⟨b, t⟩⟩ <;> cases status <;> simp_all);
     (simp only [connect_pending, awaited, MQTT_SN_TYPE_CONNECT, MQTT_SN_TYPE_WILLTOPIC,
        MQTT_SN_TYPE_WILLMSG, MQTT_SN_TYPE_REGISTER, MQTT_SN_TYPE_PUBLISH,
        MQTT_SN_TYPE_SUBSCRIBE, MQTT_SN_TYPE_SUB_WILDCARD] at hd hst ⊢
      cases status <;> simp_all);
     (first
      | exact hclean
      | exact clean_append rest _ hclean rfl)])

set_option maxHeartbeats 4000000 in
theorem core_inv_main_run_task (k : protocol_core) (rest : List process_event_t)
    (h : core_inv k) (he : k.events = .mqtt_event_run_task :: rest) :
    core_inv (core_main .mqtt_event_run_task { k with events := rest }) := by
  obtain ⟨ht, hd, hev⟩ := h
  obtain ⟨hst, hclean⟩ := events_fit_rest k _ rest hev he
  obtain ⟨c, r, s, status, types, events, will⟩ := k
  simp only at he hst hclean
  subst he
  clear hev
  simp only [core_main, MQTT_SN_TYPE_CONNECT, MQTT_SN_TYPE_WILLTOPIC,
    MQTT_SN_TYPE_WILLMSG, MQTT_SN_TYPE_REGISTER, MQTT_SN_TYPE_PUBLISH, MQTT_SN_TYPE_SUBSCRIBE,
    MQTT_SN_TYPE_SUB_WILDCARD]
  (repeat' split) <;> (refine ⟨?_, ?_, events_fit_of_clean _ ?_⟩ <;>
    [(first
      | exact ht
      | simp only [timers_fit, connect_pending, awaited, MQTT_SN_TYPE_CONNECT,
        MQTT_SN_TYPE_WILLTOPIC, MQTT_SN_TYPE_WILLMSG, MQTT_SN_TYPE_REGISTER,
        MQTT_SN_TYPE_PUBLISH, MQTT_SN_TYPE_SUBSCRIBE, MQTT_SN_TYPE_SUB_WILDCARD] at ht hd hst ⊢
        rcases types with _ | ⟨a, _ | ⟨b, t⟩⟩ <;> cases status <;> simp_all);
     (simp only [connect_pending, awaited, MQTT_SN_TYPE_CONNECT, MQTT_SN_TYPE_WILLTOPIC,
        MQTT_SN_TYPE_WILLMSG, MQTT_SN_TYPE_REGISTER, MQTT_SN_TYPE_PUBLISH,
        MQTT_SN_TYPE_SUBSCRIBE, MQTT_SN_TYPE_SUB_WILDCARD] at hd hst ⊢
      cases status <;> simp_all);
     (first
      | exact hclean
      | exact clean_append rest _ hclean rfl)])

set_option maxHeartbeats 4000000 in
theorem core_inv_main_connected (k : protocol_core) (rest : List process_event_t)
    (h : core_inv k) (he : k.events = .mqtt_event_connected :: rest) :
    core_inv (core_main .mqtt_event_connected { k with events := rest }) := by
  obtain ⟨ht, hd, hev⟩ := h
  obtain ⟨hst, hclean⟩ := events_fit_rest k _ rest hev he
  obtain ⟨c, r, s, status, types, events, will⟩ := k
  simp only at he hst hclean
  subst he
  clear hev
  simp only [core_main, MQTT_SN_TYPE_CONNECT, MQTT_SN_TYPE_WILLTOPIC,
    MQTT_SN_TYPE_WILLMSG, MQTT_SN_TYPE_REGISTER, MQTT_SN_TYPE_PUBLISH, MQTT_SN_TYPE_SUBSCRIBE,
    MQTT_SN_TYPE_SUB_WILDCARD]
  refine ⟨?_, ?_, events_fit_of_clean _ ?_⟩ <;>
    [(exact ht);
     (simp only [connect_pending, awaited, MQTT_SN_TYPE_CONNECT, MQTT_SN_TYPE_WILLTOPIC,
        MQTT_SN_TYPE_WILLMSG, MQTT_SN_TYPE_REGISTER, MQTT_SN_TYPE_PUBLISH,
        MQTT_SN_TYPE_SUBSCRIBE, MQTT_SN_TYPE_SUB_WILDCARD] at hd hst ⊢
      cases status <;> simp_all);
     (exact hclean)]

set_option maxHeartbeats 4000000 in
theorem core_inv_main_will_topicreq (k : protocol_core) (rest : List process_event_t)
    (h : core_inv k) (he : k.events = .mqtt_event_will_topicreq :: rest) :
    core_inv (core_main .mqtt_event_will_topicreq { k with events := rest }) := by
  obtain ⟨ht, hd, hev⟩ := h
  obtain ⟨hst, hclean⟩ := events_fit_rest k _ rest hev he
  obtain ⟨c, r, s, status, types, events, will⟩ := k
  simp only at he hst hclean
  subst he
  clear hev
  simp only [core_main, MQTT_SN_TYPE_CONNECT, MQTT_SN_TYPE_WILLTOPIC,
    MQTT_SN_TYPE_WILLMSG, MQTT_SN_TYPE_REGISTER, MQTT_SN_TYPE_PUBLISH, MQTT_SN_TYPE_SUBSCRIBE,
    MQTT_SN_TYPE_SUB_WILDCARD]
  refine ⟨?_, ?_, events_fit_of_clean _ ?_⟩ <;>
    [(simp only [timers_fit, connect_pending, awaited, MQTT_SN_TYPE_CONNECT,
        MQTT_SN_TYPE_WILLTOPIC, MQTT_SN_TYPE_WILLMSG, MQTT_SN_TYPE_REGISTER,
        MQTT_SN_TYPE_PUBLISH, MQTT_SN_TYPE_SUBSCRIBE, MQTT_SN_TYPE_SUB_WILDCARD] at ht hd hst ⊢
      rcases types with _ | ⟨a, _ | ⟨b, t⟩⟩ <;> cases status <;> simp_all);
     (simp only [connect_pending, awaited, MQTT_SN_TYPE_CONNECT, MQTT_SN_TYPE_WILLTOPIC,
        MQTT_SN_TYPE_WILLMSG, MQTT_SN_TYPE_REGISTER, MQTT_SN_TYPE_PUBLISH,
        MQTT_SN_TYPE_SUBSCRIBE, MQTT_SN_TYPE_SUB_WILDCARD] at hd hst ⊢
      cases status <;> simp_all);
     (exact hclean)]

set_option maxHeartbeats 4000000 in
theorem core_inv_main_will_messagereq (k : protocol_core) (rest : List process_event_t)
    (h : core_inv k) (he : k.events = .mqtt_event_will_messagereq :: rest) :
    core_inv (core_main .mqtt_event_will_messagereq { k with events := rest }) := by
  obtain ⟨ht, hd, hev⟩ := h
  obtain ⟨hst, hclean⟩ := events_fit_rest k _ rest hev he
  obtain ⟨c, r, s, status, types, events, will⟩ := k
  simp only at he hst hclean
  subst he
  clear hev
  simp only [core_main, MQTT_SN_TYPE_CONNECT, MQTT_SN_TYPE_WILLTOPIC,
    MQTT_SN_TYPE_WILLMSG, MQTT_SN_TYPE_REGISTER, MQTT_SN_TYPE_PUBLISH, MQTT_SN_TYPE_SUBSCRIBE,
    MQTT_SN_TYPE_SUB_WILDCARD]
  refine ⟨?_, ?_, events_fit_of_clean _ ?_⟩ <;>
    [(simp only [timers_fit, connect_pending, awaited, MQTT_SN_TYPE_CONNECT,
        MQTT_SN_TYPE_WILLTOPIC, MQTT_SN_TYPE_WILLMSG, MQTT_SN_TYPE_REGISTER,
        MQTT_SN_TYPE_PUBLISH, MQTT_SN_TYPE_SUBSCRIBE, MQTT_SN_TYPE_SUB_WILDCARD] at ht hd hst ⊢
      rcases types with _ | ⟨a, _ | ⟨b, t⟩⟩ <;> cases status <;> simp_all);
     (simp only [connect_pending, awaited, MQTT_SN_TYPE_CONNECT, MQTT_SN_TYPE_WILLTOPIC,
        MQTT_SN_TYPE_WILLMSG, MQTT_SN_TYPE_REGISTER, MQTT_SN_TYPE_PUBLISH,
        MQTT_SN_TYPE_SUBSCRIBE, MQTT_SN_TYPE_SUB_WILDCARD] at hd hst ⊢
      cases status <;> simp_all);
     (exact hclean)]

theorem core_inv_main (e : process_event_t) (k : protocol_core)
    (rest : List process_event_t) (h : core_inv k) (he : k.events = e :: rest)
    (hne : e ≠ .mqtt_event_ping_timeout) :
    core_inv (core_main e { k with events := rest }) := by
  cases e
  · exact core_inv_main_connect k rest h he
  · exact core_inv_main_connack k rest h he
  · exact core_inv_main_register k rest h he
  · exact core_inv_main_regack k rest h he
  · exact core_inv_main_pub_qos_0 k rest h he
  · exact core_inv_main_subscribe k rest h he
  · exact core_inv_main_suback k rest h he
  · exact core_inv_main_run_task k rest h he
  · exact absurd rfl hne
  · exact core_inv_main_connected k rest h he
  · exact core_inv_main_will_topicreq k rest h he
  · exact core_inv_main_will_messagereq k rest h he

/-! ### Timers, packets and calls keep the invariant -/

/-- Posting an event the parser does not post, other than
`mqtt_event_connect`, keeps the invariant. -/
theorem core_inv_post (k : protocol_core) (e : process_event_t) (h : core_inv k)
    (hp : parser_event e = false) (hc : e ≠ .mqtt_event_connect) :
    core_inv { k with events := k.events ++ [e] } := by
  obtain ⟨ht, hd, hev⟩ := h
  refine ⟨ht, ?_, ?_⟩
  · obtain ⟨d0, d1⟩ := hd
    refine ⟨fun hs hh => ⟨?_, (d0 hs hh).2⟩, fun hs hm => d1 hs ?_⟩
    · rcases (d0 hs hh).1 with h1 | h1
      · exact Or.inl (List.mem_append_left _ h1)
      · exact Or.inr (List.mem_append_left _ h1)
    · rcases List.mem_append.1 hm with h1 | h1
      · exact h1
      · simp only [List.mem_singleton] at h1
        exact absurd h1.symm hc
  · obtain ⟨e1, e2⟩ := hev
    obtain ⟨c, r, s, status, types, events, will⟩ := k
    simp only at e1 e2 ⊢
    rcases events with _ | ⟨x, rest⟩
    · refine ⟨fun y hy => ?_, fun y hy => ?_⟩
      · simp only [List.nil_append, List.head?_cons, Option.some.injEq] at hy
        subst hy
        cases e <;> simp [parser_event] at hp <;> rfl
      · simp at hy
    · refine ⟨fun y hy => e1 y (by simpa using hy), fun y hy => ?_⟩
      simp only [List.cons_append, List.tail_cons, List.mem_append, List.mem_singleton] at hy
      rcases hy with hy | hy
      · exact e2 y (by simpa using hy)
      · rw [hy]
        exact hp

/-- Stopping a timer keeps the invariant. -/
theorem core_inv_disarm (k : protocol_core) (h : core_inv k) :
    core_inv { k with connect := false } ∧ core_inv { k with register := false } ∧
      core_inv { k with subscribe := false } := by
  obtain ⟨⟨k1, k2, k3, w⟩, hd, hev⟩ := h
  exact ⟨⟨⟨fun hc => by simp at hc, k2, k3, w⟩, hd, hev⟩,
    ⟨⟨k1, fun hc => by simp at hc, k3, w⟩, hd, hev⟩,
    ⟨⟨k1, k2, fun hc => by simp at hc, w⟩, hd, hev⟩⟩

theorem core_inv_timeout_connect (k k2 : protocol_core) (h : core_inv k)
    (ha : k.connect = true) (ht : core_timeout { k with connect := false } k2) :
    core_inv k2 := by
  have hs := h.1.1 ha
  rcases ht with rfl | rfl | ⟨_, rfl⟩ | ⟨hx, rfl⟩ | ⟨hx, rfl⟩
  · exact (core_inv_disarm k h).1
  · exact core_inv_post _ _ (core_inv_disarm k h).1 rfl (by decide)
  · obtain ⟨c, r, s, status, types, events, will⟩ := k
    simp only at ha
    subst ha
    exact h
  · simp only at hx
    rw [hx] at hs
    simp at hs
  · simp only at hx
    rw [hx] at hs
    simp at hs

theorem core_inv_timeout_register (k k2 : protocol_core) (h : core_inv k)
    (ha : k.register = true) (ht : core_timeout { k with register := false } k2) :
    core_inv k2 := by
  have hs := (h.1.2.1 ha).1
  rcases ht with rfl | rfl | ⟨hx, rfl⟩ | ⟨_, rfl⟩ | ⟨hx, rfl⟩
  · exact (core_inv_disarm k h).2.1
  · exact core_inv_post _ _ (core_inv_disarm k h).2.1 rfl (by decide)
  · simp only at hx
    rw [hs] at hx
    simp at hx
  · obtain ⟨c, r, s, status, types, events, will⟩ := k
    simp only at ha
    subst ha
    exact h
  · simp only at hx
    rw [hs] at hx
    simp at hx

theorem core_inv_timeout_subscribe (k k2 : protocol_core) (h : core_inv k)
    (ha : k.subscribe = true) (ht : core_timeout { k with subscribe := false } k2) :
    core_inv k2 := by
  have hs := (h.1.2.2.1 ha).1
  rcases ht with rfl | rfl | ⟨hx, rfl⟩ | ⟨hx, rfl⟩ | ⟨_, rfl⟩
  · exact (core_inv_disarm k h).2.2
  · exact core_inv_post _ _ (core_inv_disarm k h).2.2 rfl (by decide)
  · simp only at hx
    rw [hs] at hx
    simp at hx
  · simp only at hx
    rw [hs] at hx
    simp at hx
  · obtain ⟨c, r, s, status, types, events, will⟩ := k
    simp only at ha
    subst ha
    exact h

set_option maxHeartbeats 4000000 in
/-- What the parser does when no event is pending keeps the invariant. -/
theorem core_inv_parse (k k2 : protocol_core) (h : core_inv k) (he : k.events = [])
    (hp : core_parse k k2) : core_inv k2 := by
  obtain ⟨ht, hd, hev⟩ := h
  obtain ⟨c, r, s, status, types, events, will⟩ := k
  simp only at he
  subst he
  rcases hp with rfl | ⟨hs, rfl⟩ | ⟨hs, rfl⟩ | ⟨hs, rfl⟩ | ⟨hs, rfl⟩ | ⟨hs, rfl⟩ | ⟨hs, rfl⟩
  · exact ⟨ht, hd, hev⟩
  · simp only at hs
    subst hs
    exact ⟨ht, connect_pending_of_status _ (by simp), by simp [events_fit, awaited]⟩
  · simp only at hs
    subst hs
    exact ⟨ht, connect_pending_of_status _ (by simp), by simp [events_fit, awaited]⟩
  · simp only at hs
    subst hs
    exact ⟨ht, connect_pending_of_status _ (by simp), by simp [events_fit, awaited]⟩
  · simp only at hs
    subst hs
    exact ⟨ht, connect_pending_of_status _ (by simp), by simp [events_fit, awaited]⟩
  · simp only at hs
    subst hs
    exact ⟨ht, connect_pending_of_status _ (by simp), by simp [events_fit, awaited]⟩
  · refine ⟨?_, connect_pending_of_status _ (by simp), by simp [events_fit]⟩
    clear hd hev
    simp only [timers_fit, MQTT_SN_TYPE_CONNECT, MQTT_SN_TYPE_WILLTOPIC,
    MQTT_SN_TYPE_WILLMSG, MQTT_SN_TYPE_REGISTER, MQTT_SN_TYPE_PUBLISH, MQTT_SN_TYPE_SUBSCRIBE,
    MQTT_SN_TYPE_SUB_WILDCARD] at ht hs ⊢
    rcases types with _ | ⟨a, _ | ⟨b, t⟩⟩ <;> cases status <;> simp_all

set_option maxHeartbeats 4000000 in
/-- Queueing a SUBSCRIBE or SUB_WILDCARD task keeps the invariant. -/
theorem core_inv_append (k : protocol_core) (x : Nat) (h : core_inv k)
    (hx : x = MQTT_SN_TYPE_SUBSCRIBE ∨ x = MQTT_SN_TYPE_SUB_WILDCARD) :
    core_inv { k with types := k.types ++ [x] } := by
  obtain ⟨ht, hd, hev⟩ := h
  obtain ⟨c, r, s, status, types, events, will⟩ := k
  refine ⟨?_, ?_, hev⟩
  · clear hd hev
    simp only [timers_fit, MQTT_SN_TYPE_CONNECT, MQTT_SN_TYPE_WILLTOPIC,
    MQTT_SN_TYPE_WILLMSG, MQTT_SN_TYPE_REGISTER, MQTT_SN_TYPE_PUBLISH, MQTT_SN_TYPE_SUBSCRIBE,
    MQTT_SN_TYPE_SUB_WILDCARD] at ht hx ⊢
    rcases hx with rfl | rfl <;>
      rcases types with _ | ⟨a, _ | ⟨b, _ | ⟨d, t⟩⟩⟩ <;> cases status <;> simp_all
  · clear ht hev
    simp only [connect_pending, MQTT_SN_TYPE_CONNECT, MQTT_SN_TYPE_WILLTOPIC,
    MQTT_SN_TYPE_WILLMSG, MQTT_SN_TYPE_REGISTER, MQTT_SN_TYPE_PUBLISH, MQTT_SN_TYPE_SUBSCRIBE,
    MQTT_SN_TYPE_SUB_WILDCARD] at hd hx ⊢
    rcases hx with rfl | rfl <;>
      rcases types with _ | ⟨a, _ | ⟨b, _ | ⟨d, t⟩⟩⟩ <;> simp_all

set_option maxHeartbeats 4000000 in
/-- What `mqtt_sn_create_sck` does when no event is pending keeps the
invariant. -/
theorem core_inv_create (k k2 : protocol_core) (h : core_inv k) (he : k.events = [])
    (hc : core_create k k2) : core_inv k2 := by
  obtain ⟨new, posted, w, rfl, hp, h0, hhead⟩ := hc
  obtain ⟨ht, hd, hev⟩ := h
  obtain ⟨c, r, s, status, types, events, will⟩ := k
  simp only at he
  subst he
  refine ⟨?_, ?_, events_fit_of_clean _ ?_⟩
  · clear hd hev hhead h0
    simp only [timers_fit, MQTT_SN_TYPE_CONNECT, MQTT_SN_TYPE_WILLTOPIC,
    MQTT_SN_TYPE_WILLMSG, MQTT_SN_TYPE_REGISTER, MQTT_SN_TYPE_PUBLISH, MQTT_SN_TYPE_SUBSCRIBE,
    MQTT_SN_TYPE_SUB_WILDCARD] at ht hp ⊢
    rcases types with _ | ⟨a, _ | ⟨b, _ | ⟨d, t⟩⟩⟩ <;> cases status <;> simp_all
  · clear ht hev
    simp only [connect_pending, MQTT_SN_TYPE_CONNECT, MQTT_SN_TYPE_WILLTOPIC,
    MQTT_SN_TYPE_WILLMSG, MQTT_SN_TYPE_REGISTER, MQTT_SN_TYPE_PUBLISH, MQTT_SN_TYPE_SUBSCRIBE,
    MQTT_SN_TYPE_SUB_WILDCARD] at hd hhead hp ⊢
    cases posted <;>
      rcases types with _ | ⟨a, _ | ⟨b, _ | ⟨d, t⟩⟩⟩ <;> simp_all
  · cases posted <;> simp [parser_event]

/-- The state the session reset leaves when `mqtt_sn_create_sck` goes through:
no timer armed, status DISCONNECTED, the queue built on the emptied queue, and
`run_task` posted. -/
theorem core_inv_reset (k k2 : protocol_core)
    (hclean : ∀ x ∈ k.events, parser_event x = false)
    (hc : core_create
      { k with
        connect := false, register := false, subscribe := false
        status := .MQTTSN_DISCONNECTED, types := [] } k2)
    (hpost : k2.events = k.events ++ [.mqtt_event_run_task]) :
    core_inv k2 := by
  obtain ⟨new, posted, w, rfl, hp, h0, hhead⟩ := hc
  have hposted : posted = true := by
    cases posted
    · simp at hpost
    · rfl
  subst hposted
  have hh := hhead rfl rfl
  refine ⟨?_, ?_, events_fit_of_clean _ ?_⟩
  · simp only [timers_fit]
    refine ⟨by simp, by simp, by simp, by simp, by simp, by simp, by simpa using hp⟩
  · refine ⟨fun _ _ => ⟨Or.inl (by simp), fun hw => by simpa using hh.2 hw⟩, fun _ _ => ?_⟩
    simpa using hh.1
  · simpa using clean_append k.events .mqtt_event_run_task hclean rfl

/-! ### The invariant along a run -/

/-- A session creation that passes the client-id test, on a client that is
reconnecting or whose UDP registration works, posts `run_task`. -/
theorem create_sck_posts (st : State) (conn : mqtt_sn_con_t) (topics : List CStr)
    (cb_f : Nat) (udp_ok : Bool) (hid : conn.client_id.length ≤ 23)
    (hu : st.g_recon = true ∨ udp_ok = true) :
    (mqtt_sn_create_sck st conn topics cb_f udp_ok).2.events =
      st.events ++ [.mqtt_event_run_task] := by
  have hcid : ¬ conn.client_id.length > 23 := by omega
  have hseed := seed_registers_frame (fun s => s.events) (fun _ _ _ _ _ => rfl)
  have hins : ∀ (s : State) t, (mqtt_sn_insert_queue s t).2.events = s.events :=
    fun s t => (insert_queue_quiet s t).1
  have hreg : (!st.g_recon && !udp_ok) = false := by
    rcases hu with h | h <;> simp [h]
  cases hr : (!st.g_recon) <;>
    cases hw : (conn.will_topic.isSome && conn.will_message.isSome) <;>
    simp only [hr, Bool.true_and, Bool.false_and] at hreg <;>
    simp only [mqtt_sn_create_sck, hcid, if_false, hr, hw, hreg, Bool.not_false, Bool.not_true,
      Bool.and_true, Bool.and_false, Bool.true_and, Bool.false_and, if_true,
      Bool.false_eq_true, process_post, hseed, hins]

/-- The session reset posts `run_task` when the stored client id has at most 23
bytes. -/
theorem main_ping_timeout_posts (st : State) (hid : st.g_mqtt_sn_con.client_id.length ≤ 23) :
    (mqtt_sn_main .mqtt_event_ping_timeout st).events =
      st.events ++ [.mqtt_event_run_task] := by
  simp only [mqtt_sn_main, mqtt_sn_main_connect, mqtt_sn_main_tasks, reduceCtorEq, false_and,
    if_false, if_true, mqtt_sn_main_ping_timeout, init_vectors_eq]
  rw [create_sck_posts _ _ _ _ _ hid (Or.inl rfl)]

theorem core_inv_deliver (st : State) (h : core_inv (core_of st))
    (hid : st.g_mqtt_sn_con.client_id.length ≤ 23) :
    core_inv (core_of (run_events 1 st)) := by
  unfold run_events
  split
  · exact h
  · rename_i ev rest hev
    have he : (core_of st).events = ev :: rest := hev
    unfold run_events
    by_cases hne : ev = .mqtt_event_ping_timeout
    · subst hne
      have hc := core_of_main_ping_timeout { st with events := rest }
      refine core_inv_reset (core_of { st with events := rest }) _ ?_ hc ?_
      · exact (events_fit_rest _ _ rest h.2.2 he).2
      · exact main_ping_timeout_posts { st with events := rest } hid
    · have hp : MQTT_SN_TYPE_PUBLISH ∉ (core_of { st with events := rest }).types :=
        h.1.2.2.2.2.2.2
      rw [core_of_main ev _ hne hp]
      exact core_inv_main ev (core_of st) rest h he hne

theorem core_inv_expire (st : State) (h : core_inv (core_of st)) :
    (st.mqtt_time_connect.armed = true → core_inv (core_of (expire_connect st))) ∧
      (st.mqtt_time_register.armed = true → core_inv (core_of (expire_register st))) ∧
      (st.mqtt_time_subscribe.armed = true → core_inv (core_of (expire_subscribe st))) ∧
      core_inv (core_of (expire_ping st)) := by
  refine ⟨fun ha => ?_, fun ha => ?_, fun ha => ?_, ?_⟩
  · exact core_inv_timeout_connect (core_of st) _ h ha (core_of_timeout_con
      { st with mqtt_time_connect := { st.mqtt_time_connect with armed := false } })
  · exact core_inv_timeout_register (core_of st) _ h ha (core_of_timeout_con
      { st with mqtt_time_register := { st.mqtt_time_register with armed := false } })
  · exact core_inv_timeout_subscribe (core_of st) _ h ha (core_of_timeout_con
      { st with mqtt_time_subscribe := { st.mqtt_time_subscribe with armed := false } })
  · unfold expire_ping
    rcases core_of_timeout_ping
      { st with mqtt_time_ping := { st.mqtt_time_ping with armed := false } } with hk | hk
    · rw [hk]
      exact h
    · rw [hk]
      exact core_inv_post (core_of st) _ h rfl (by decide)

theorem core_inv_apply_action (a : action) (st : State) (h : core_inv (core_of st))
    (hid : st.g_mqtt_sn_con.client_id.length ≤ 23)
    (hen : action_enabled a st = true) : core_inv (core_of (apply_action a st)) := by
  cases a with
  | create_session conn topics cb_f udp_ok =>
    have he : st.events = [] := by simpa [action_enabled] using hen
    exact core_inv_create (core_of st) _ h he (core_of_create_sck st conn topics cb_f udp_ok)
  | subscribe topic qos =>
    rcases core_of_sub st topic qos with hk | ⟨x, hx, hk⟩
    · simp only [apply_action]
      rw [hk]
      exact h
    · simp only [apply_action]
      rw [hk]
      exact core_inv_append (core_of st) x h hx
  | publish topic message r qos =>
    simp only [apply_action]
    rw [core_of_pub]
    exact h
  | disconnect d => exact h
  | wake => exact core_inv_post (core_of st) _ h rfl (by decide)
  | timer_connect =>
    have he : st.mqtt_time_connect.armed = true := by simpa [action_enabled] using hen
    exact (core_inv_expire st h).1 he
  | timer_register =>
    have he : st.mqtt_time_register.armed = true := by simpa [action_enabled] using hen
    exact (core_inv_expire st h).2.1 he
  | timer_subscribe =>
    have he : st.mqtt_time_subscribe.armed = true := by simpa [action_enabled] using hen
    exact (core_inv_expire st h).2.2.1 he
  | timer_ping => exact (core_inv_expire st h).2.2.2
  | packet data datalen =>
    have he : st.events = [] := by simpa [action_enabled] using hen
    exact core_inv_parse (core_of st) _ h he (core_of_parse st data)
  | deliver => exact core_inv_deliver st h hid

theorem core_inv_run_actions (acts : List action) :
    ∀ (st : State), core_inv (core_of st) → st.g_mqtt_sn_con.client_id.length ≤ 23 →
      run_defined acts st = true → core_inv (core_of (run_actions acts st)) := by
  induction acts with
  | nil => intro st h _ _; exact h
  | cons a rest ih =>
    intro st h hid hen
    simp only [run_defined, state_defined, Bool.and_eq_true, decide_eq_true_eq] at hen
    exact ih _ (core_inv_apply_action a st h hid hen.1.1) (by omega) hen.2

theorem core_inv_post_init : core_inv (core_of post_init) := by
  simp [core_inv, timers_fit, connect_pending, events_fit, core_of, post_init, mqtt_sn_init,
    boot, init_vectors_eq, will_configured]

theorem core_inv_single_timer (st : State) (h : core_inv (core_of st)) :
    single_retransmission_timer st ∧
      (st.mqtt_time_connect.armed = true →
        st.mqtt_status = .MQTTSN_WAITING_CONNACK ∨
          st.mqtt_status = .MQTTSN_WAITING_WILLTOPICREQ ∨
          st.mqtt_status = .MQTTSN_WAITING_WILLMSGREQ) ∧
      (st.mqtt_time_register.armed = true → st.mqtt_status = .MQTTSN_WAITING_REGACK) ∧
      (st.mqtt_time_subscribe.armed = true → st.mqtt_status = .MQTTSN_WAITING_SUBACK) := by
  obtain ⟨⟨k1, k2, k3, _⟩, _⟩ := h
  simp only [core_of] at k1 k2 k3
  refine ⟨⟨?_, ?_, ?_⟩, ?_, fun hr => (k2 hr).1, fun hs => (k3 hs).1⟩
  · rintro ⟨hc, hr⟩
    have a := k1 hc
    have b := (k2 hr).1
    rw [b] at a
    simp at a
  · rintro ⟨hc, hs⟩
    have a := k1 hc
    have b := (k3 hs).1
    rw [b] at a
    simp at a
  · rintro ⟨hr, hs⟩
    have a := (k2 hr).1
    have b := (k3 hs).1
    rw [b] at a
    cases a
  · intro hc
    have a := k1 hc
    simpa using a

/-- C38 (as amended): in every state reached from the post-init state by a run
in which a session is created and a packet arrives only when the thread has
handled every posted event, only armed timers expire, and the behaviour of the
C program stays defined (wake-ups, timer expiries, subscribe, publish and
disconnect calls and event deliveries may come at any time), at most one of the
connect, register and subscribe timers is armed, and an armed timer is the one
of the current status. -/
theorem single_timer_in_defined_runs (acts : List action)
    (h : run_defined acts post_init = true) :
    single_retransmission_timer (run_actions acts post_init) ∧
      ((run_actions acts post_init).mqtt_time_connect.armed = true →
        (run_actions acts post_init).mqtt_status = .MQTTSN_WAITING_CONNACK ∨
          (run_actions acts post_init).mqtt_status = .MQTTSN_WAITING_WILLTOPICREQ ∨
          (run_actions acts post_init).mqtt_status = .MQTTSN_WAITING_WILLMSGREQ) ∧
      ((run_actions acts post_init).mqtt_time_register.armed = true →
        (run_actions acts post_init).mqtt_status = .MQTTSN_WAITING_REGACK) ∧
      ((run_actions acts post_init).mqtt_time_subscribe.armed = true →
        (run_actions acts post_init).mqtt_status = .MQTTSN_WAITING_SUBACK) :=
  core_inv_single_timer _
    (core_inv_run_actions acts post_init core_inv_post_init (by decide) h)

set_option maxRecDepth 100000 in
theorem single_timer_in_defined_runs_witness :
    run_defined timer_sample_run post_init = true ∧
      (single_retransmission_timer (run_actions timer_sample_run post_init) ∧
      ((run_actions timer_sample_run post_init).mqtt_time_connect.armed = true →
        (run_actions timer_sample_run post_init).mqtt_status = .MQTTSN_WAITING_CONNACK ∨
          (run_actions timer_sample_run post_init).mqtt_status =
            .MQTTSN_WAITING_WILLTOPICREQ ∨
          (run_actions timer_sample_run post_init).mqtt_status = .MQTTSN_WAITING_WILLMSGREQ) ∧
      ((run_actions timer_sample_run post_init).mqtt_time_register.armed = true →
        (run_actions timer_sample_run post_init).mqtt_status = .MQTTSN_WAITING_REGACK) ∧
      ((run_actions timer_sample_run post_init).mqtt_time_subscribe.armed = true →
        (run_actions timer_sample_run post_init).mqtt_status = .MQTTSN_WAITING_SUBACK)) :=
  ⟨by decide, single_timer_in_defined_runs timer_sample_run (by decide)⟩

set_option maxRecDepth 100000 in
/-- C38 as stated fails, in two runs made of session creations, packet
arrivals, event deliveries and, in the first run, a wake-up. In
`second_session_run` the session is created again while an event is pending;
in `repeated_packet_run` the same packet arrives again while its event is
pending. At the end of each run the connect timer and the register timer are
both armed, and the model has recorded no undefined behaviour. -/
theorem single_timer_counterexample :
    ((run_actions second_session_run post_init).mqtt_time_connect.armed = true ∧
        (run_actions second_session_run post_init).mqtt_time_register.armed = true ∧
        ¬ single_retransmission_timer (run_actions second_session_run post_init) ∧
        state_defined (run_actions second_session_run post_init) = true ∧
        run_defined second_session_run post_init = false) ∧
      ((run_actions repeated_packet_run post_init).mqtt_time_connect.armed = true ∧
        (run_actions repeated_packet_run post_init).mqtt_time_register.armed = true ∧
        ¬ single_retransmission_timer (run_actions repeated_packet_run post_init) ∧
        state_defined (run_actions repeated_packet_run post_init) = true ∧
        run_defined repeated_packet_run post_init = false) := by
  decide

/-! ## Lookups by name that read a null name -/

theorem name_scan_null_lowest (b : Nat → short_topics_t) (topic : CStr) (k : Nat) :
    ∀ (n i : Nat), i ≤ k → k < i + n → (b k).topic_name = some topic →
      (∀ j, i ≤ j → j < k → ∃ name, (b j).topic_name = some name ∧ name ≠ topic) →
      name_scan_null b topic n i = false := by
  intro n
  induction n with
  | zero => intro i h1 h2; omega
  | succ n ih =>
    intro i h1 h2 hname hlow
    unfold name_scan_null
    by_cases hik : i = k
    · subst hik
      simp [hname]
    · obtain ⟨name, hn, hne⟩ := hlow i (Nat.le_refl i) (by omega)
      simp only [hn, if_neg hne]
      exact ih (i + 1) (by omega) (by omega) hname (fun j hj1 hj2 => hlow j (by omega) hj2)

theorem name_lookup_null_entry0 (st : State) (topic : CStr)
    (h0 : (st.g_topic_bind 0).topic_name = none) : name_lookup_null st topic = true := by
  unfold name_lookup_null
  rw [show MAX_TOPIC_USED = 99 + 1 from rfl]
  simp [name_scan_null, h0]

set_option maxRecDepth 100000 in
/-- C3 fails in its second case. When the status is not `MQTTSN_TOPIC_REGISTERED`,
`mqtt_sn_pub` returns `FAIL_CON` before any lookup and leaves the state as it
was. When the status is `MQTTSN_TOPIC_REGISTERED`, `verf_register` looks the
topic up by name from slot 0 on, and in every state whose entry 0 has no name
the first comparison hands `strcmp` a null pointer. In the ready state of
scenario 1 no slot holds "/c", entry 0 has no name, and `mqtt_sn_pub("/c", ..)`
reads through that null pointer instead of returning failure. -/
theorem pub_unregistered_null_read :
    (∀ (st : State) (topic message : CStr) (retain_flag : Bool) (qos : Nat),
        st.mqtt_status ≠ .MQTTSN_TOPIC_REGISTERED →
        mqtt_sn_pub st topic message retain_flag qos = (.FAIL_CON, st)) ∧
      (∀ (st : State) (topic : CStr), (st.g_topic_bind 0).topic_name = none →
        name_lookup_null st topic = true) ∧
      unlock_tasks scenario_ready = true ∧
      (∀ i, i < MAX_TOPIC_USED → (scenario_ready.g_topic_bind i).topic_name ≠ some topic_c) ∧
      (scenario_ready.g_topic_bind 0).topic_name = none ∧
      name_lookup_null scenario_ready topic_c = true := by
  refine ⟨fun st topic message retain_flag qos h => ?_, name_lookup_null_entry0, by decide,
    by decide, by decide, by decide⟩
  simp [mqtt_sn_pub, unlock_tasks, h]

set_option maxRecDepth 100000 in
/-- C7 fails: in the ready state of scenario 1 the queue is empty, "/a" is a
plain topic, slot 1 is the lowest slot holding it and its sub_state is 0, so
the claim promises success; but `mqtt_sn_sub("/a", 0)` first calls
`verf_register`, whose lookup starts at entry 0, and entry 0 has no name: the
first comparison hands `strcmp` a null pointer. This holds for every plain topic
in every state whose entry 0 has no name. -/
theorem sub_plain_null_read :
    scenario_ready.mqtt_queue.length ≤ MAX_QUEUE_MQTT_SN ∧
      (topic_a.contains 35 || topic_a.contains 43) = false ∧
      (scenario_ready.g_topic_bind 1).topic_name = some topic_a ∧
      (scenario_ready.g_topic_bind 1).subscribed = 0 ∧
      (scenario_ready.g_topic_bind 0).topic_name = none ∧
      name_lookup_null scenario_ready topic_a = true ∧
      ∀ (st : State) (topic : CStr), (st.g_topic_bind 0).topic_name = none →
        name_lookup_null st topic = true := by
  exact ⟨by decide, by decide, by decide, by decide, by decide, by decide,
    name_lookup_null_entry0⟩

set_option maxRecDepth 100000 in
/-- C8 fails: in the ready state of scenario 1 no slot holds the plain topic
"/c", and after the broker's REGISTER for "/a/x" slot 3 holds "/a/x" with
sub_state 1 (pending), so the claim promises that `mqtt_sn_sub` returns failure
for both; but the lookup of `verf_register` starts at entry 0, which has no
name, and hands `strcmp` a null pointer. -/
theorem sub_rejected_null_read :
    (topic_c.contains 35 || topic_c.contains 43) = false ∧
      (∀ i, i < MAX_TOPIC_USED → (scenario_ready.g_topic_bind i).topic_name ≠ some topic_c) ∧
      (scenario_ready.g_topic_bind 0).topic_name = none ∧
      name_lookup_null scenario_ready topic_c = true ∧
      (topic_ax.contains 35 || topic_ax.contains 43) = false ∧
      (scenario_learned.g_topic_bind 3).topic_name = some topic_ax ∧
      (scenario_learned.g_topic_bind 3).subscribed = 1 ∧
      (scenario_learned.g_topic_bind 0).topic_name = none ∧
      name_lookup_null scenario_learned topic_ax = true := by
  decide

set_option maxRecDepth 100000 in
/-- C29 fails: while the client waits for the REGACK of "/b" (slot 2, the only
slot holding it), the accepted REGACK with MsgId 2 and TopicId 6 gives slot 2
the id 6 and leaves the names as they were; but looking "/b" up by name
afterwards starts at entry 0, which has no name, and hands `strcmp` a null
pointer, and so does the lookup of the publish that follows in the ready
state. -/
theorem round_trip_lookup_null_read :
    (scenario_waiting_regack.g_topic_bind 2).topic_name = some topic_b ∧
      (mqtt_sn_recv_parse scenario_waiting_regack
          (buffer_of (regack_packet 6 2 ACCEPTED))).g_topic_bind 2 =
        { topic_name := some topic_b, short_topic_id := 6, subscribed := 0 } ∧
      ((mqtt_sn_recv_parse scenario_waiting_regack
          (buffer_of (regack_packet 6 2 ACCEPTED))).g_topic_bind 0).topic_name = none ∧
      name_lookup_null
          (mqtt_sn_recv_parse scenario_waiting_regack (buffer_of (regack_packet 6 2 ACCEPTED)))
          topic_b = true ∧
      unlock_tasks scenario_ready = true ∧
      name_lookup_null scenario_ready topic_b = true := by
  decide

set_option maxRecDepth 100000 in
/-- C35 fails: with the SUBSCRIBE task for slot 1 at the head of the queue, slot
1 the only slot holding "/a" and its id 5, the `subscribe` handler calls
`mqtt_sn_sub_send` with the name of slot 1, and the lookup of that name starts
at entry 0, which has no name: the first comparison hands `strcmp` a null
pointer, before any packet is built. -/
theorem subscribe_send_null_read :
    scenario_subscribe_queued.mqtt_queue = [subscribe_task 1 0 0] ∧
      scenario_subscribe_queued.g_topic_bind 1 =
        { topic_name := some topic_a, short_topic_id := 5, subscribed := 1 } ∧
      (∀ j, j < MAX_TOPIC_USED → j ≠ 1 →
        (scenario_subscribe_queued.g_topic_bind j).topic_name ≠ some topic_a) ∧
      (scenario_subscribe_queued.g_topic_bind 0).topic_name = none ∧
      name_lookup_null scenario_subscribe_queued topic_a = true := by
  decide

/-! ## Publishing when the lookup compares names only -/

/-- C4 (as amended): an accepted publish of a message of `N ≤ 247` bytes to a
topic whose lowest registry slot `k` has id `t`, when every slot below `k` holds
a name (so that the lookup by name hands `strcmp` no null pointer), sends
exactly one packet: Length, 0x0C, Flags, `t` in two bytes (high byte first),
MsgId 0 in two bytes, the `N` bytes of the message and one terminating 0x00
byte; the Length byte is `8 + N`, the number of bytes of the packet. Nothing
else in the state changes. -/
theorem mqtt_sn_pub_layout (st : State) (topic message : CStr) (retain_flag : Bool) (qos k : Nat)
    (hst : st.mqtt_status = .MQTTSN_TOPIC_REGISTERED) (hk : k < MAX_TOPIC_USED)
    (hname : (st.g_topic_bind k).topic_name = some topic)
    (hlow : ∀ j, j < k → ∃ name, (st.g_topic_bind j).topic_name = some name ∧ name ≠ topic)
    (hlen : message.length ≤ 247) :
    name_lookup_null st topic = false ∧
      ∃ flags packet, flags < 256 ∧
        packet = [8 + message.length, 0x0C, flags] ++
          uip_htons (st.g_topic_bind k).short_topic_id ++ uip_htons 0 ++ message ++ [0] ∧
        packet.length = 8 + message.length ∧
        mqtt_sn_pub st topic message retain_flag qos =
          (.SUCCESS_CON, { st with sent := st.sent ++ [packet] }) := by
  have hlow2 : ∀ j, j < k → (st.g_topic_bind j).topic_name ≠ some topic := by
    intro j hj
    obtain ⟨name, hn, hne⟩ := hlow j hj
    rw [hn]
    simpa using hne
  refine ⟨name_scan_null_lowest _ topic k MAX_TOPIC_USED 0 (Nat.zero_le k) (by omega) hname
      (fun j _ hj => hlow j hj),
    ((if retain_flag then 16 else 0) + mqtt_sn_get_qos_flag (to_int8 qos)) % 256, _,
    Nat.mod_lt _ (by norm_num), rfl, ?_, ?_⟩
  · simp [uip_htons]; omega
  · have hreg := verf_register_ok st topic k hk hname
    have hscan := scan_name_lowest st topic k hk hname hlow2
    simp [mqtt_sn_pub, unlock_tasks, hst, hreg,
      mqtt_sn_pub_send_short st topic message retain_flag qos k hlen hscan, hk, uip_htons]

set_option maxRecDepth 100000 in
/-- C4 (as amended), in the ready state whose entry 0 holds "/z": publishing "x"
to "/a" (slot 1, id 5) sends the nine bytes 9, 0x0C, 0, 0, 5, 0, 0, 'x', 0. -/
theorem mqtt_sn_pub_layout_witness :
    scenario_entry0_named.mqtt_status = .MQTTSN_TOPIC_REGISTERED ∧ 1 < MAX_TOPIC_USED ∧
      (scenario_entry0_named.g_topic_bind 1).topic_name = some topic_a ∧
      (∀ j, j < 1 →
        ∃ name, (scenario_entry0_named.g_topic_bind j).topic_name = some name ∧
          name ≠ topic_a) ∧
      [120].length ≤ 247 ∧
      (name_lookup_null scenario_entry0_named topic_a = false ∧
        ∃ flags packet, flags < 256 ∧
          packet = [8 + [120].length, 0x0C, flags] ++
            uip_htons (scenario_entry0_named.g_topic_bind 1).short_topic_id ++ uip_htons 0 ++
            [120] ++ [0] ∧
          packet.length = 8 + [120].length ∧
          mqtt_sn_pub scenario_entry0_named topic_a [120] false 0 =
            (.SUCCESS_CON,
              { scenario_entry0_named with sent := scenario_entry0_named.sent ++ [packet] })) :=
  have h0 : ∀ j, j < 1 →
      ∃ name, (scenario_entry0_named.g_topic_bind j).topic_name = some name ∧
        name ≠ topic_a := fun j hj => by
    have hj0 : j = 0 := by omega
    subst hj0
    exact ⟨topic_z, by decide, by decide⟩
  ⟨by decide, by decide, by decide, h0, by decide,
    mqtt_sn_pub_layout scenario_entry0_named topic_a [120] false 0 1 (by decide) (by decide)
      (by decide) h0 (by decide)⟩

set_option maxRecDepth 100000 in
/-- C4, counterexample: in the ready state whose entry 0 holds "/z" (no read
through a null pointer or outside an array on the way there, and none in the
lookup of "/a"), publishing the one-byte message "x" to "/a" (slot 1, id 5) is
accepted, yet whatever the Flags byte, what is sent is not the eight-byte packet
8, 0x0C, Flags, 0, 5, 0, 0, 'x' with Length 7 + 1: the packet sent has nine
bytes, a 0x00 after the payload, and Length 9. -/
theorem mqtt_sn_pub_layout_counterexample :
    scenario_entry0_named.null_deref = false ∧ scenario_entry0_named.out_of_bounds = false ∧
      scenario_entry0_named.g_topic_bind 0 =
        { topic_name := some topic_z, short_topic_id := 9, subscribed := 1 } ∧
      scenario_entry0_named.g_topic_bind 1 =
        { topic_name := some topic_a, short_topic_id := 5, subscribed := 0 } ∧
      name_lookup_null scenario_entry0_named topic_a = false ∧
      (mqtt_sn_pub scenario_entry0_named topic_a [120] false 0).1 = .SUCCESS_CON ∧
      (mqtt_sn_pub scenario_entry0_named topic_a [120] false 0).2.sent =
        scenario_entry0_named.sent ++ [[9, 0x0C, 0, 0, 5, 0, 0, 120, 0]] ∧
      ∀ flags : Nat, (mqtt_sn_pub scenario_entry0_named topic_a [120] false 0).2.sent ≠
        scenario_entry0_named.sent ++
          [[7 + 1, 0x0C, flags] ++ uip_htons 5 ++ uip_htons 0 ++ [120]] := by
  have h : (mqtt_sn_pub scenario_entry0_named topic_a [120] false 0).2.sent =
      scenario_entry0_named.sent ++ [[9, 0x0C, 0, 0, 5, 0, 0, 120, 0]] := by decide
  refine ⟨by decide, by decide, by decide, by decide, by decide, by decide, h, fun flags hf => ?_⟩
  rw [h] at hf
  have := List.append_cancel_left hf
  simp [uip_htons] at this

/-! ## The REGACK that answers an inbound REGISTER -/

/-- C13 (as amended): for every inbound REGISTER with TopicId `t`, MsgId `m` and
a topic name of at most 248 bytes, received while the registry has a slot with
id 0xFF, the client sends exactly one packet, the seven bytes 0x07, 0x0B, 0x00,
low byte of `t`, 0x00, low byte of `m`, 0x00: a REGACK with return code 0 that
echoes `t` and `m` when both are at most 255. Nothing is read or written
through a null pointer or outside an array. -/
theorem regack_echoes_low_bytes (st : State) (data : Nat → Nat) (t m : Nat)
    (topic_name : List Nat)
    (hdata : ∀ i, i < (register_packet t m topic_name).length →
      data i = (register_packet t m topic_name).getD i 0)
    (hlen : topic_name.length ≤ 248)
    (hfree : scan (id_unused st.g_topic_bind) MAX_TOPIC_USED 0 < MAX_TOPIC_USED) :
    (mqtt_sn_recv_parse st data).sent =
        st.sent ++ [[0x07, 0x0B] ++ uip_htons (t % 256) ++ uip_htons (m % 256) ++ [0x00]] ∧
      (t ≤ 255 → m ≤ 255 →
        (mqtt_sn_recv_parse st data).sent =
          st.sent ++ [[0x07, 0x0B] ++ uip_htons t ++ uip_htons m ++ [0x00]]) ∧
      (mqtt_sn_recv_parse st data).out_of_bounds = st.out_of_bounds ∧
      (mqtt_sn_recv_parse st data).null_deref = st.null_deref := by
  have h0 : byte data 0 = 6 + topic_name.length := by
    have := hdata 0 (by simp [register_packet, uip_htons])
    simp [register_packet] at this
    simp only [byte, this]
    exact Nat.mod_eq_of_lt (by omega)
  have h1 : byte data 1 = MQTT_SN_TYPE_REGISTER := by
    have := hdata 1 (by simp [register_packet, uip_htons])
    simp [register_packet] at this
    simp [byte, this, MQTT_SN_TYPE_REGISTER]
  have h3 : byte data 3 = t % 256 := by
    have := hdata 3 (by simp [register_packet, uip_htons])
    simp [register_packet, uip_htons] at this
    simp [byte, this]
  have h5 : byte data 5 = m % 256 := by
    have := hdata 5 (by simp [register_packet, uip_htons])
    simp [register_packet, uip_htons] at this
    simp [byte, this]
  have hmain : (mqtt_sn_recv_parse st data).sent =
      st.sent ++ [[0x07, 0x0B] ++ uip_htons (t % 256) ++ uip_htons (m % 256) ++ [0x00]] := by
    rw [parse_register_sent st data h1, h3, h5]
    have e1 : t % 256 / 256 % 256 = 0 := by
      simp [Nat.div_eq_of_lt (Nat.mod_lt t (by norm_num : 0 < 256))]
    have e2 : m % 256 / 256 % 256 = 0 := by
      simp [Nat.div_eq_of_lt (Nat.mod_lt m (by norm_num : 0 < 256))]
    simp [uip_htons, e1, e2]
  have hbuf : ¬ (byte data 0 + 256 - 6) % 256 ≥ MQTT_SN_MAX_TOPIC_LENGTH := by
    rw [h0]
    simp only [MQTT_SN_MAX_TOPIC_LENGTH, MQTT_SN_MAX_PACKET_LENGTH]
    omega
  have t1 : ¬ byte data 1 = MQTT_SN_TYPE_CONNACK := by rw [h1]; decide
  have t2 : ¬ byte data 1 = MQTT_SN_TYPE_REGACK := by rw [h1]; decide
  have t3 : ¬ byte data 1 = MQTT_SN_TYPE_PUBACK := by rw [h1]; decide
  have t4 : ¬ byte data 1 = MQTT_SN_TYPE_SUBACK := by rw [h1]; decide
  have t5 : ¬ byte data 1 = MQTT_SN_TYPE_PINGRESP := by rw [h1]; decide
  have t6 : ¬ byte data 1 = MQTT_SN_TYPE_PINGREQ := by rw [h1]; decide
  have t7 : ¬ byte data 1 = MQTT_SN_TYPE_PUBLISH := by rw [h1]; decide
  have hflags : (mqtt_sn_recv_parse st data).out_of_bounds = st.out_of_bounds ∧
      (mqtt_sn_recv_parse st data).null_deref = st.null_deref := by
    refine ⟨?_, ?_⟩ <;>
      simp only [mqtt_sn_recv_parse, if_neg t1, if_neg t2, if_neg t3, if_neg t4, if_neg t5,
        if_neg t6, if_neg t7, if_pos h1, if_neg hbuf, reg_write, if_pos hfree,
        mqtt_sn_regack_send, simple_udp_send]
  refine ⟨hmain, fun ht hm => ?_, hflags.1, hflags.2⟩
  rw [hmain, Nat.mod_eq_of_lt (by omega : t < 256), Nat.mod_eq_of_lt (by omega : m < 256)]

set_option maxRecDepth 100000 in
/-- C13 (as amended), scenario 5 of the spec: REGISTER with TopicId 9, MsgId 7
and name "/a/x" is answered by REGACK with TopicId 9, MsgId 7, return code 0. -/
theorem regack_echoes_low_bytes_witness :
    (∀ i, i < (register_packet 9 7 topic_ax).length →
        buffer_of (register_packet 9 7 topic_ax) i = (register_packet 9 7 topic_ax).getD i 0) ∧
      topic_ax.length ≤ 248 ∧
      scan (id_unused scenario_ready.g_topic_bind) MAX_TOPIC_USED 0 < MAX_TOPIC_USED ∧
      ((mqtt_sn_recv_parse scenario_ready (buffer_of (register_packet 9 7 topic_ax))).sent =
          scenario_ready.sent ++ [[0x07, 0x0B] ++ uip_htons (9 % 256) ++ uip_htons (7 % 256) ++
            [0x00]] ∧
        ((9 : Nat) ≤ 255 → (7 : Nat) ≤ 255 →
          (mqtt_sn_recv_parse scenario_ready (buffer_of (register_packet 9 7 topic_ax))).sent =
            scenario_ready.sent ++ [[0x07, 0x0B] ++ uip_htons 9 ++ uip_htons 7 ++ [0x00]]) ∧
        (mqtt_sn_recv_parse scenario_ready
            (buffer_of (register_packet 9 7 topic_ax))).out_of_bounds =
          scenario_ready.out_of_bounds ∧
        (mqtt_sn_recv_parse scenario_ready
            (buffer_of (register_packet 9 7 topic_ax))).null_deref =
          scenario_ready.null_deref) :=
  ⟨fun _ _ => rfl, by decide, by decide,
    regack_echoes_low_bytes scenario_ready (buffer_of (register_packet 9 7 topic_ax)) 9 7 topic_ax
      (fun _ _ => rfl) (by decide) (by decide)⟩

/-! ## Acknowledgements nobody asked for -/

set_option maxRecDepth 100000 in
/-- C17 fails: while the client waits for the CONNACK (queue CONNECT, REGISTER,
REGISTER; no REGISTER and no SUBSCRIBE is outstanding), an accepted REGACK with
TopicId 9 and MsgId 1 changes the id of slot 1 from 0xFF to 9, and an accepted
SUBACK with TopicId 2 changes the sub_state of slot 2 from 0 to 2; status, queue
and events stay as they were. In general the parser writes the registry for
every accepted REGACK whose MsgId low byte is below `MAX_TOPIC_USED`, before it
looks at the status or the head task. -/
theorem unsolicited_ack_writes_registry :
    (scenario_waiting_connack.mqtt_status = .MQTTSN_WAITING_CONNACK ∧
        scenario_waiting_connack.mqtt_queue.map (fun task => task.msg_type_q) =
          [MQTT_SN_TYPE_CONNECT, MQTT_SN_TYPE_REGISTER, MQTT_SN_TYPE_REGISTER] ∧
        scenario_waiting_connack.events = []) ∧
      ((scenario_waiting_connack.g_topic_bind 1).short_topic_id = 0xFF ∧
        ((mqtt_sn_recv_parse scenario_waiting_connack
            (buffer_of (regack_packet 9 1 ACCEPTED))).g_topic_bind 1).short_topic_id = 9 ∧
        (mqtt_sn_recv_parse scenario_waiting_connack
            (buffer_of (regack_packet 9 1 ACCEPTED))).events = [] ∧
        (mqtt_sn_recv_parse scenario_waiting_connack
            (buffer_of (regack_packet 9 1 ACCEPTED))).mqtt_status = .MQTTSN_WAITING_CONNACK) ∧
      ((scenario_waiting_connack.g_topic_bind 2).subscribed = 0 ∧
        ((mqtt_sn_recv_parse scenario_waiting_connack
            (buffer_of (suback_packet 0 2 2 ACCEPTED))).g_topic_bind 2).subscribed = 2 ∧
        (mqtt_sn_recv_parse scenario_waiting_connack
            (buffer_of (suback_packet 0 2 2 ACCEPTED))).events = [] ∧
        (mqtt_sn_recv_parse scenario_waiting_connack
            (buffer_of (suback_packet 0 2 2 ACCEPTED))).mqtt_status = .MQTTSN_WAITING_CONNACK) ∧
      ∀ (st : State) (data : Nat → Nat), byte data 1 = MQTT_SN_TYPE_REGACK →
        byte data 6 = ACCEPTED → byte data 5 < MAX_TOPIC_USED →
        ((mqtt_sn_recv_parse st data).g_topic_bind (byte data 5)).short_topic_id =
          byte data 3 := by
  refine ⟨by decide, by decide, by decide, fun st data h1 h6 h5 => ?_⟩
  rw [parse_regack_bind st data h1 h6, if_pos h5]
  simp

/-! ## Registry entry 0 -/

set_option maxRecDepth 100000 in
/-- C28 fails: while the client waits for the CONNACK, an accepted REGACK with
MsgId 0 and TopicId 9 changes the id of registry entry 0 from 0 to 9; and after
an accepted REGACK with MsgId 0 and TopicId 0xFF the scan for an unused id stops
at index 0, so that the next inbound REGISTER stores its name and id in entry
0. In general every accepted REGACK whose MsgId has the low byte 0 writes the
low byte of its TopicId into entry 0: the loop that looks for the slot starts at
index 0. -/
theorem entry0_written_by_regack :
    scenario_waiting_connack.g_topic_bind 0 =
        { topic_name := none, short_topic_id := 0, subscribed := 0 } ∧
      (mqtt_sn_recv_parse scenario_waiting_connack
          (buffer_of (regack_packet 9 0 ACCEPTED))).g_topic_bind 0 =
        { topic_name := none, short_topic_id := 9, subscribed := 0 } ∧
      scan (id_unused (mqtt_sn_recv_parse scenario_waiting_connack
          (buffer_of (regack_packet 0xFF 0 ACCEPTED))).g_topic_bind) MAX_TOPIC_USED 0 = 0 ∧
      (mqtt_sn_recv_parse
          (mqtt_sn_recv_parse scenario_waiting_connack
            (buffer_of (regack_packet 0xFF 0 ACCEPTED)))
          (buffer_of (register_packet 9 1 topic_z))).g_topic_bind 0 =
        { topic_name := some topic_z, short_topic_id := 9, subscribed := 1 } ∧
      ∀ (st : State) (data : Nat → Nat), byte data 1 = MQTT_SN_TYPE_REGACK →
        byte data 6 = ACCEPTED → byte data 5 = 0 →
        ((mqtt_sn_recv_parse st data).g_topic_bind 0).short_topic_id = byte data 3 := by
  refine ⟨by decide, by decide, by decide, by decide, fun st data h1 h6 h5 => ?_⟩
  rw [parse_regack_bind st data h1 h6, h5, if_pos (by decide)]
  simp

/-! ## The WILL flag of CONNECT -/

set_option maxRecDepth 100000 in
/-- C30 fails: the session is created with a will and then created again
without one. The current configuration has no will, yet the CONNECT that
`mqtt_sn_con_send` sends has Flags 0x0C, with the WILL bit set: `g_will` was set
by the first call and nothing clears it. For the session created without a will
on the post-init state the flags are 0x04. -/
theorem connect_will_flag_stale :
    scenario_reconfigured.g_mqtt_sn_con = scenario_conn ∧
      scenario_conn.will_topic = none ∧ scenario_conn.will_message = none ∧
      scenario_reconfigured.g_will = true ∧
      (mqtt_sn_con_send scenario_reconfigured).2.sent =
        scenario_reconfigured.sent ++ [[7, 0x04, 0x0C, 0x01, 0, 5, 67]] ∧
      (mqtt_sn_con_send
          (mqtt_sn_create_sck post_init scenario_conn [topic_a, topic_b] 1 true).2).2.sent =
        [[7, 0x04, 0x04, 0x01, 0, 5, 67]] := by
  decide

/-! ## Who runs a queued subscription -/

/-- C36 (as amended): a wildcard subscribe (a topic with '#' or '+', of at most
249 bytes) made with an empty queue and no event pending is accepted, stores the
wildcard pointer and queues one SUB_WILDCARD task, but posts no event, sends
nothing and leaves the status as it is; so the processing of the posted events
does nothing, and the queued task waits until something else posts `run_task`.
Once `run_task` is posted (`init_sub` does it), the delivery of that event sends
the SUBSCRIBE for the wildcard topic. -/
theorem subscribe_posts_no_event (st : State) (topic : CStr) (qos : Nat)
    (hw : (topic.contains 35 || topic.contains 43) = true)
    (he : st.events = []) (hq : st.mqtt_queue = []) (hlen : topic.length ≤ 249) :
    mqtt_sn_sub st topic qos =
        (.SUCCESS_CON,
          { st with
            topic_temp_wildcard := some topic
            mqtt_queue := [wildcard_task st.g_task_id qos]
            g_task_id := (st.g_task_id + 1) % 256 }) ∧
      (mqtt_sn_sub st topic qos).2.events = [] ∧
      (∀ n, run_events n (mqtt_sn_sub st topic qos).2 = (mqtt_sn_sub st topic qos).2) ∧
      run_events 1 (init_sub (mqtt_sn_sub st topic qos).2) =
        { (mqtt_sn_sub st topic qos).2 with
          sent := st.sent ++
            [[5 + topic.length, 0x12, 0x00] ++
              uip_htons (scan (id_unused st.g_topic_bind) MAX_TOPIC_USED 0) ++ topic] } := by
  have hsub : mqtt_sn_sub st topic qos =
      (.SUCCESS_CON,
        { st with
          topic_temp_wildcard := some topic
          mqtt_queue := [wildcard_task st.g_task_id qos]
          g_task_id := (st.g_task_id + 1) % 256 }) := by
    unfold mqtt_sn_sub
    rw [if_pos hw]
    simp [mqtt_sn_sub_wildcard, mqtt_sn_insert_queue, hq, wildcard_task, MAX_QUEUE_MQTT_SN]
  refine ⟨hsub, ?_, ?_, ?_⟩
  · rw [hsub]
    exact he
  · intro n
    rw [hsub]
    exact run_events_nil n _ he
  · have h2 : (mqtt_sn_sub st topic qos).2 =
        { st with
          topic_temp_wildcard := some topic
          mqtt_queue := [wildcard_task st.g_task_id qos]
          g_task_id := (st.g_task_id + 1) % 256 } := by rw [hsub]
    rw [h2]
    unfold init_sub
    rw [run_events_post 0
        { st with
          topic_temp_wildcard := some topic
          mqtt_queue := [wildcard_task st.g_task_id qos]
          g_task_id := (st.g_task_id + 1) % 256 } _ he,
      main_run_task_wildcard
        { st with
          topic_temp_wildcard := some topic
          mqtt_queue := [wildcard_task st.g_task_id qos]
          g_task_id := (st.g_task_id + 1) % 256 }
        (wildcard_task st.g_task_id qos) [] topic rfl rfl rfl hlen]
    rfl

set_option maxRecDepth 100000 in
theorem subscribe_posts_no_event_witness :
    (topic_wild.contains 35 || topic_wild.contains 43) = true ∧
      scenario_ready.events = [] ∧ scenario_ready.mqtt_queue = [] ∧ topic_wild.length ≤ 249 ∧
      (mqtt_sn_sub scenario_ready topic_wild 0 =
          (.SUCCESS_CON,
            { scenario_ready with
              topic_temp_wildcard := some topic_wild
              mqtt_queue := [wildcard_task scenario_ready.g_task_id 0]
              g_task_id := (scenario_ready.g_task_id + 1) % 256 }) ∧
        (mqtt_sn_sub scenario_ready topic_wild 0).2.events = [] ∧
        (∀ n, run_events n (mqtt_sn_sub scenario_ready topic_wild 0).2 =
          (mqtt_sn_sub scenario_ready topic_wild 0).2) ∧
        run_events 1 (init_sub (mqtt_sn_sub scenario_ready topic_wild 0).2) =
          { (mqtt_sn_sub scenario_ready topic_wild 0).2 with
            sent := scenario_ready.sent ++
              [[5 + topic_wild.length, 0x12, 0x00] ++
                uip_htons (scan (id_unused scenario_ready.g_topic_bind) MAX_TOPIC_USED 0) ++
                topic_wild] }) :=
  ⟨by decide, by decide, by decide, by decide,
    subscribe_posts_no_event scenario_ready topic_wild 0 (by decide) (by decide) (by decide)
      (by decide)⟩

set_option maxRecDepth 100000 in
/-- C36, counterexample: in the ready state with an empty queue and no event
pending, `mqtt_sn_sub("/a/#", 0)` is accepted, but no event is posted: after the
posted events were processed nothing more was sent, the task is still queued and
the status is still TOPIC_REGISTERED. -/
theorem subscribe_no_event_counterexample :
    scenario_ready.mqtt_status = .MQTTSN_TOPIC_REGISTERED ∧ scenario_ready.mqtt_queue = [] ∧
      scenario_ready.events = [] ∧
      (mqtt_sn_sub scenario_ready topic_wild 0).1 = .SUCCESS_CON ∧
      (mqtt_sn_sub scenario_ready topic_wild 0).2.events = [] ∧
      (run_events 8 (mqtt_sn_sub scenario_ready topic_wild 0).2).sent = scenario_ready.sent ∧
      (run_events 8 (mqtt_sn_sub scenario_ready topic_wild 0).2).mqtt_queue =
        [wildcard_task 0 0] ∧
      (run_events 8 (mqtt_sn_sub scenario_ready topic_wild 0).2).mqtt_status =
        .MQTTSN_TOPIC_REGISTERED := by
  decide

end MqttSn
